import Mathlib

/-! # Cosmore: collision queries and entity pools of the GAME1 unit

A shallow embedding of `src/game1.c`.

* A `word` is a natural number below `65536`; every word-typed expression of
  the source is reduced modulo `65536` at the place where the C code computes
  it (`wadd`, `wsub`, `wmul`, `wshl`).
* A pointer into an array is the index of the cell it points at.  Pointer
  arithmetic is exact: `mapData.w` is a total function on integer cell
  indices, so that reads in front of the first cell are defined as well.
* Global variables are the fields of `World`; a function that writes globals
  returns the new `World`.
* Names from `glue.h`, which is not part of the sources at hand, are the
  fields of `Glue` (numeric constants) or constructors of an enumeration.
-/

namespace Cosmore

/-! ## Machine words -/

/-- Word addition, `a + b` on 16-bit unsigned operands. -/
def wadd (a b : Nat) : Nat := (a + b) % 65536

/-- Word subtraction, `a - b` on 16-bit unsigned operands. -/
def wsub (a b : Nat) : Nat := (a + (65536 - b % 65536)) % 65536

/-- Word multiplication, `a * b` on 16-bit unsigned operands. -/
def wmul (a b : Nat) : Nat := (a * b) % 65536

/-- Word shift, `a << b` on a 16-bit unsigned operand. -/
def wshl (a b : Nat) : Nat := (a <<< b) % 65536

/-- Modelled from the spec: `WORD_MAX` of `glue.h`, a header that is not among
the sources; the largest value of the 16-bit unsigned `word`. -/
def WORD_MAX : Nat := 65535

/-! ## Enumerations -/

/-- Modelled from the spec: the 4-way direction constants `DIR4_*` of `glue.h`,
a header that is not among the sources.  `DIR4_NONE` also stands for every
other word, none of which selects a `case` of a `switch` over the four
directions. -/
inductive Dir4 where
  | DIR4_NONE
  | DIR4_NORTH
  | DIR4_SOUTH
  | DIR4_WEST
  | DIR4_EAST
  deriving DecidableEq, Repr

/-- Modelled from the spec: the constants `MOVE_*` of `glue.h`, a header that is
not among the sources; a movement test returns one of FREE, BLOCKED, SLOPED. -/
inductive MoveResult where
  | MOVE_FREE
  | MOVE_BLOCKED
  | MOVE_SLOPED
  deriving DecidableEq, Repr

export Dir4 (DIR4_NONE DIR4_NORTH DIR4_SOUTH DIR4_WEST DIR4_EAST)
export MoveResult (MOVE_FREE MOVE_BLOCKED MOVE_SLOPED)

/-! ## Data model -/

/-- An `ActorTickFunction` pointer, by the number of the function it points at. -/
abbrev ActorTickFunction := Nat

/-- The arguments of one `ConstructActor` call. -/
structure ActorSpec where
  sprite : Nat
  x : Nat
  y : Nat
  force_active : Bool
  stay_active : Bool
  weighted : Bool
  acrophile : Bool
  tick_func : ActorTickFunction
  data1 : Nat
  data2 : Nat
  data3 : Nat
  data4 : Nat
  data5 : Nat
  deriving DecidableEq, Repr

/-- What `glue.h`, which is not among the sources, fixes: the numeric constants
that the modelled functions mention, and `actorCases`, the `switch` of
`NewActorAtIndex`, whose case labels are `ACT_*` constants: for an actor type
and the position passed, the arguments of the `ConstructActor` call of its case,
or `none` for the `default` case. -/
structure Glue where
  SCROLLW : Nat
  SCROLLH : Nat
  MAX_ACTORS : Nat
  SPR_EXPLOSION : Nat
  SPR_SPARKLE_LONG : Nat
  SPR_SMOKE_LARGE : Nat
  SPR_SPARKLE_SLIPPERY : Nat
  SPR_RAINDROP : Nat
  SPR_BARREL_SHARDS : Nat
  SPR_BASKET_SHARDS : Nat
  ACT_BASKET_NULL : Nat
  ACT_PARACHUTE_BALL : Nat
  ACT_SPEECH_OUCH : Nat
  DIR8_STATIONARY : Nat
  DIR8_NORTH : Nat
  actorCases : Nat → Nat → Nat → Option ActorSpec
  MAX_LIGHTS : Nat
  ACT_SPEECH_WOW_50K : Nat
  ACT_BOMB_ARMED : Nat
  POUNCE_HINT_UNSEEN : Nat
  POUNCE_HINT_QUEUED : Nat
  POUNCE_HINT_SEEN : Nat
  SPA_PLAYER_START : Nat
  SPA_PLATFORM : Nat
  SPA_FOUNTAIN_SMALL : Nat
  SPA_FOUNTAIN_MEDIUM : Nat
  SPA_FOUNTAIN_LARGE : Nat
  SPA_FOUNTAIN_HUGE : Nat
  SPA_LIGHT_WEST : Nat
  SPA_LIGHT_MIDDLE : Nat
  SPA_LIGHT_EAST : Nat
  PLAYER_BASE_WEST : Nat
  PLAYER_BASE_EAST : Nat
  PLAYER_WALK_1 : Nat
  PLAYER_WALK_4 : Nat
  PLAYER_STAND : Nat
  PLAYER_STAND_BLINK : Nat
  PLAYER_LOOK_NORTH : Nat
  PLAYER_LOOK_SOUTH : Nat
  PLAYER_SHAKE_1 : Nat
  PLAYER_SHAKE_2 : Nat
  PLAYER_SHAKE_3 : Nat
  PLAYER_CROUCH : Nat
  PLAYER_CLING : Nat
  PLAYER_CLING_OPPOSITE : Nat
  PLAYER_CLING_NORTH : Nat
  PLAYER_CLING_SOUTH : Nat
  PLAYER_FALL : Nat
  PLAYER_FALL_LONG : Nat
  PLAYER_FALL_SEVERE : Nat
  PLAYER_JUMP : Nat
  PLAYER_JUMP_LONG : Nat
  DRAWMODE_NORMAL : Nat
  DRAWMODE_HIDDEN : Nat
  ACT_SCORE_EFFECT_12800 : Nat
  ACT_BOMB_IDLE : Nat
  SPR_ARROW_PISTON_W : Nat
  SPR_ARROW_PISTON_E : Nat
  SPR_SPIKES_FLOOR : Nat
  SPR_SPIKES_FLOOR_RECIP : Nat
  SPR_SAW_BLADE : Nat
  SPR_CABBAGE : Nat
  SPR_SPEAR : Nat
  SPR_JUMPING_BULLET : Nat
  SPR_STONE_HEAD_CRUSHER : Nat
  SPR_GHOST : Nat
  SPR_MOON : Nat
  SPR_HEART_PLANT : Nat
  SPR_BABY_GHOST : Nat
  SPR_ROAMER_SLUG : Nat
  SPR_BABY_GHOST_EGG : Nat
  SPR_SHARP_ROBOT_FLOOR : Nat
  SPR_SHARP_ROBOT_CEIL : Nat
  SPR_CLAM_PLANT : Nat
  SPR_PARACHUTE_BALL : Nat
  SPR_SPIKES_E : Nat
  SPR_SPIKES_E_RECIP : Nat
  SPR_SPIKES_W : Nat
  SPR_SPARK : Nat
  SPR_EYE_PLANT : Nat
  SPR_RED_JUMPER : Nat
  SPR_SUCTION_WALKER : Nat
  SPR_SPIT_WALL_PLANT_E : Nat
  SPR_SPIT_WALL_PLANT_W : Nat
  SPR_SPITTING_TURRET : Nat
  SPR_RED_CHOMPER : Nat
  SPR_PINK_WORM : Nat
  SPR_HINT_GLOBE : Nat
  SPR_PUSHER_ROBOT : Nat
  SPR_SENTRY_ROBOT : Nat
  SPR_PINK_WORM_SLIME : Nat
  SPR_DRAGONFLY : Nat
  SPR_BIRD : Nat
  SPR_ROCKET : Nat
  SPR_74 : Nat
  SPR_84 : Nat
  SPR_96 : Nat
  SPR_BOMB_ARMED : Nat
  SPR_POUNCE_DEBRIS : Nat
  SPR_FIREBALL : Nat
  SPR_BARREL : Nat
  DRAWMODE_WHITE : Nat
  DIR8_NORTHEAST : Nat
  DIR8_EAST : Nat
  DIR8_SOUTHEAST : Nat
  DIR8_SOUTHWEST : Nat
  DIR8_WEST : Nat
  DIR8_NORTHWEST : Nat
  DIR2_WEST : Nat
  ACT_FIREBALL_W : Nat
  ACT_BARREL_POWER_UP : Nat
  ACT_POWER_UP_FLOAT : Nat

/-- One `Actor` of the `actors` array.  The struct is declared in `glue.h`; the
fields are those that `ConstructActor` writes. -/
structure Actor where
  sprite : Nat := 0
  frame : Nat := 0
  x : Nat := 0
  y : Nat := 0
  forceactive : Bool := false
  stayactive : Bool := false
  weighted : Bool := false
  acrophile : Bool := false
  dead : Bool := false
  tickfunc : ActorTickFunction := 0
  private1 : Nat := 0
  private2 : Nat := 0
  fallspeed : Nat := 0
  data1 : Nat := 0
  data2 : Nat := 0
  data3 : Nat := 0
  data4 : Nat := 0
  data5 : Nat := 0
  damagecooldown : Nat := 0
  deriving DecidableEq, Repr

/-- One `Shard` of the `shards` array.  The struct is declared in `glue.h`; the
fields are those that `NewShard` writes. -/
structure Shard where
  sprite : Nat := 0
  x : Nat := 0
  y : Nat := 0
  frame : Nat := 0
  age : Nat := 0
  inclination : Nat := 0
  bounced : Bool := false
  deriving DecidableEq, Repr

/-- One row of the `explosions` array, seen through the `Explosion` struct, with
the fields that `NewExplosion` writes. -/
structure Explosion where
  age : Nat := 0
  x : Nat := 0
  y : Nat := 0
  deriving DecidableEq, Repr

/-- One `Spawner` of the `spawners` array, with the fields that `NewSpawner` writes. -/
structure Spawner where
  actor : Nat := 0
  x : Nat := 0
  y : Nat := 0
  age : Nat := 0
  deriving DecidableEq, Repr

/-- One `Decoration` of the `decorations` array, with the fields that
`NewDecoration` writes. -/
structure Decoration where
  alive : Bool := false
  sprite : Nat := 0
  numframes : Nat := 0
  x : Nat := 0
  y : Nat := 0
  dir : Nat := 0
  numtimes : Nat := 0
  deriving DecidableEq, Repr

/-- One `Platform` of the `platforms` array, with the fields that `NewMapActor` writes. -/
structure Platform where
  x : Nat := 0
  y : Nat := 0
  deriving DecidableEq, Repr

/-- One `Fountain` of the `fountains` array, with the fields that `NewMapActor` writes. -/
structure Fountain where
  x : Nat := 0
  y : Nat := 0
  dir : Dir4 := DIR4_NONE
  stepcount : Nat := 0
  height : Nat := 0
  stepmax : Nat := 0
  delayleft : Nat := 0
  deriving DecidableEq, Repr

/-- One `Light` of the `lights` array. -/
structure Light where
  side : Nat := 0
  x : Nat := 0
  y : Nat := 0
  deriving DecidableEq, Repr

/-- The global variables read or written by the modelled functions.  A `bool`
that the source also loads from a file (`usedCheatCode`, `sawBombHint`,
`sawHealthHint`) is kept as the word it holds, true when not zero; the statics
`idlecount`, `movecount` and `bombcooldown` are those of `MovePlayer`;
`saveFiles` is the content, as bytes, of the save file of each slot character. -/
structure World where
  mapData : Int → Nat := fun _ => 0
  tileAttributeData : Nat → Nat := fun _ => 0
  actorInfoData : Nat → Nat := fun _ => 0
  mapWidth : Nat := 0
  mapHeight : Nat := 0
  mapYPower : Nat := 0
  playerX : Nat := 0
  playerY : Nat := 0
  scrollX : Nat := 0
  scrollY : Nat := 0
  playerDeadTime : Nat := 0
  pounceStreak : Nat := 0
  isPlayerSlidingEast : Bool := false
  isPlayerSlidingWest : Bool := false
  canPlayerCling : Nat := 0
  shards : Nat → Shard := fun _ => {}
  numShards : Nat := 0
  inclination : Nat := 0
  explosions : Nat → Explosion := fun _ => {}
  numExplosions : Nat := 0
  spawners : Nat → Spawner := fun _ => {}
  numSpawners : Nat := 0
  decorations : Nat → Decoration := fun _ => {}
  decorationFrame : Nat → Nat := fun _ => 0
  numDecorations : Nat := 0
  actors : Nat → Actor := fun _ => {}
  numActors : Nat := 0
  nextActorIndex : Nat := 0
  numBarrels : Nat := 0
  playerHealth : Nat := 0
  playerHurtCooldown : Nat := 0
  playerClingDir : Dir4 := DIR4_NONE
  activeTransporter : Nat := 0
  scooterMounted : Nat := 0
  isGodMode : Bool := false
  blockActionCmds : Bool := false
  playerIsInvincible : Bool := false
  isPlayerInPipe : Bool := false
  sawHurtBubble : Bool := false
  pounceHintState : Nat := 0
  playerMomentumNorth : Nat := 0
  playerMomentumSaved : Nat := 0
  isPlayerLongJumping : Bool := false
  isPlayerRecoiling : Bool := false
  isPlayerFalling : Bool := false
  playerFallTime : Int := 0
  playerJumpTime : Nat := 0
  playerDizzyLeft : Nat := 0
  queuePlayerDizzy : Bool := false
  isPounceReady : Bool := false
  playerFaceDir : Dir4 := DIR4_NONE
  playerBombDir : Dir4 := DIR4_NONE
  playerBaseFrame : Nat := 0
  playerFrame : Nat := 0
  playerForceFrame : Nat := 0
  playerBombs : Nat := 0
  playerMaxHealth : Nat := 0
  isPlayerPushed : Bool := false
  playerPushDir : Nat := 0
  playerPushMaxTime : Nat := 0
  playerPushTime : Nat := 0
  playerPushSpeed : Nat := 0
  canCancelPlayerPush : Bool := false
  stopPlayerPushAtWall : Bool := false
  cmdWest : Bool := false
  cmdEast : Bool := false
  cmdNorth : Bool := false
  cmdSouth : Bool := false
  cmdJump : Bool := false
  cmdBomb : Bool := false
  cmdJumpLatch : Bool := false
  isPlayerNearTransporter : Bool := false
  isPlayerNearHintGlobe : Bool := false
  sawBombHint : Nat := 0
  sawHealthHint : Nat := 0
  usedCheatCode : Nat := 0
  idlecount : Nat := 0
  movecount : Nat := 0
  bombcooldown : Nat := 0
  randStepCount : Nat := 0
  gameScore : Nat := 0
  gameStars : Nat := 0
  levelNum : Nat := 0
  platforms : Nat → Platform := fun _ => {}
  numPlatforms : Nat := 0
  fountains : Nat → Fountain := fun _ => {}
  numFountains : Nat := 0
  lights : Nat → Light := fun _ => {}
  numLights : Nat := 0
  saveFiles : Nat → Option (List Nat) := fun _ => none
  nextDrawMode : Nat := 0
  numEyePlants : Nat := 0

/-- Array write `a[i] = v`. -/
def arraySet {α : Type} (a : Nat → α) (i : Nat) (v : α) : Nat → α :=
  fun j => if j = i then v else a j

/-! ## Tile map access -/

/-- Macro `MAP_CELL_ADDR(x, y)`: `mapData.w + ((y) << mapYPower) + x`, as a cell index.
The macro does not parenthesise `x`, so an argument such as `x + 2` is added by
pointer arithmetic; `y` is parenthesised and shifted as a word. -/
def MAP_CELL_ADDR (w : World) (x : Int) (y : Nat) : Int :=
  ((wshl y w.mapYPower : Nat) : Int) + x

/-- Function `GetMapTile`: `*(mapData.w + x + (y << mapYPower))`. -/
def GetMapTile (w : World) (x y : Nat) : Nat :=
  w.mapData ((x : Int) + ((wshl y w.mapYPower : Nat) : Int))

/-- Macro `TILE_BLOCK_SOUTH(val)`. -/
def TILE_BLOCK_SOUTH (w : World) (val : Nat) : Nat := w.tileAttributeData (val / 8) &&& 0x01

/-- Macro `TILE_BLOCK_NORTH(val)`. -/
def TILE_BLOCK_NORTH (w : World) (val : Nat) : Nat := w.tileAttributeData (val / 8) &&& 0x02

/-- Macro `TILE_BLOCK_WEST(val)`. -/
def TILE_BLOCK_WEST (w : World) (val : Nat) : Nat := w.tileAttributeData (val / 8) &&& 0x04

/-- Macro `TILE_BLOCK_EAST(val)`. -/
def TILE_BLOCK_EAST (w : World) (val : Nat) : Nat := w.tileAttributeData (val / 8) &&& 0x08

/-- Macro `TILE_SLIPPERY(val)`. -/
def TILE_SLIPPERY (w : World) (val : Nat) : Nat := w.tileAttributeData (val / 8) &&& 0x10

/-- Macro `TILE_IN_FRONT(val)`. -/
def TILE_IN_FRONT (w : World) (val : Nat) : Nat := w.tileAttributeData (val / 8) &&& 0x20

/-- Macro `TILE_SLOPED(val)`. -/
def TILE_SLOPED (w : World) (val : Nat) : Nat := w.tileAttributeData (val / 8) &&& 0x40

/-- Macro `TILE_CAN_CLING(val)`. -/
def TILE_CAN_CLING (w : World) (val : Nat) : Nat := w.tileAttributeData (val / 8) &&& 0x80

/-! ## Sprite dimensions -/

/-- The `offset` local of the collision queries: `*(actorInfoData + sprite) + (frame * 4)`. -/
def infoOffset (w : World) (sprite frame : Nat) : Nat :=
  wadd (w.actorInfoData sprite) (wmul frame 4)

/-- The `height` local: `*(actorInfoData + offset)`. -/
def spriteHeight (w : World) (sprite frame : Nat) : Nat :=
  w.actorInfoData (infoOffset w sprite frame)

/-- The `width` local: `*(actorInfoData + offset + 1)`. -/
def spriteWidth (w : World) (sprite frame : Nat) : Nat :=
  w.actorInfoData (infoOffset w sprite frame + 1)

/-! ## TestSpriteMove -/

/-- North loop of `TestSpriteMove` and `TestPlayerMove`, from iteration `i` with
`n` iterations left: any north-blocking cell of the row ends it. -/
def scanNorth (w : World) (mapcell : Int) : Nat → Nat → MoveResult
  | 0, _ => MOVE_FREE
  | n + 1, i =>
    if TILE_BLOCK_NORTH w (w.mapData (mapcell + (i : Int))) ≠ 0 then MOVE_BLOCKED
    else scanNorth w mapcell n (i + 1)

/-- South loop of `TestSpriteMove`: per cell, first the slope test, then the block test. -/
def scanSouth (w : World) (mapcell : Int) : Nat → Nat → MoveResult
  | 0, _ => MOVE_FREE
  | n + 1, i =>
    if TILE_SLOPED w (w.mapData (mapcell + (i : Int))) ≠ 0 then MOVE_SLOPED
    else if TILE_BLOCK_SOUTH w (w.mapData (mapcell + (i : Int))) ≠ 0 then MOVE_BLOCKED
    else scanSouth w mapcell n (i + 1)

/-- West and east loops of `TestSpriteMove`; `block` is `TILE_BLOCK_WEST` or
`TILE_BLOCK_EAST`.  The pointer `mapcell` moves up one row per iteration. -/
def scanSide (w : World) (block : Nat → Nat) : Nat → Nat → Int → MoveResult
  | 0, _, _ => MOVE_FREE
  | n + 1, i, mapcell =>
    if i = 0 ∧ TILE_SLOPED w (w.mapData mapcell) ≠ 0 ∧
        ¬ (block (w.mapData (mapcell - (w.mapWidth : Int))) ≠ 0) then MOVE_SLOPED
    else if block (w.mapData mapcell) ≠ 0 then MOVE_BLOCKED
    else scanSide w block n (i + 1) (mapcell - (w.mapWidth : Int))

/-- Function `TestSpriteMove(dir, sprite, frame, x, y)`. -/
def TestSpriteMove (w : World) (dir : Dir4) (sprite frame x y : Nat) : MoveResult :=
  let height := spriteHeight w sprite frame
  let width := spriteWidth w sprite frame
  match dir with
  | DIR4_NORTH =>
    scanNorth w (MAP_CELL_ADDR w x (wadd (wsub y height) 1)) width 0
  | DIR4_SOUTH =>
    scanSouth w (MAP_CELL_ADDR w x y) width 0
  | DIR4_WEST =>
    if x = 0 then MOVE_BLOCKED
    else scanSide w (TILE_BLOCK_WEST w) height 0 (MAP_CELL_ADDR w x y)
  | DIR4_EAST =>
    if wadd x width = w.mapWidth then MOVE_BLOCKED
    else scanSide w (TILE_BLOCK_EAST w) height 0 (MAP_CELL_ADDR w ((x : Int) + (width : Int) - 1) y)
  | DIR4_NONE => MOVE_FREE

/-! ## TestPlayerMove -/

/-- South loop of `TestPlayerMove`: as `scanSouth`, and a hit clears `pounceStreak`. -/
def playerScanSouth (w : World) (mapcell : Int) : Nat → Nat → MoveResult × World
  | 0, _ => (MOVE_FREE, w)
  | n + 1, i =>
    if TILE_SLOPED w (w.mapData (mapcell + (i : Int))) ≠ 0 then
      (MOVE_SLOPED, { w with pounceStreak := 0 })
    else if TILE_BLOCK_SOUTH w (w.mapData (mapcell + (i : Int))) ≠ 0 then
      (MOVE_BLOCKED, { w with pounceStreak := 0 })
    else playerScanSouth w mapcell n (i + 1)

/-- West and east loops of `TestPlayerMove`: per cell, first the block test,
then the slope test of the bottom row. -/
def playerScanSide (w : World) (block : Nat → Nat) : Nat → Nat → Int → MoveResult
  | 0, _, _ => MOVE_FREE
  | n + 1, i, mapcell =>
    if block (w.mapData mapcell) ≠ 0 then MOVE_BLOCKED
    else if i = 0 ∧ TILE_SLOPED w (w.mapData mapcell) ≠ 0 ∧
        ¬ (block (w.mapData (mapcell - (w.mapWidth : Int))) ≠ 0) then MOVE_SLOPED
    else playerScanSide w block n (i + 1) (mapcell - (w.mapWidth : Int))

/-- Function `TestPlayerMove(dir, x, y)`: the result and the globals after the
call.  The call writes no map data, so every tile is read from `w`. -/
def TestPlayerMove (g : Glue) (w : World) (dir : Dir4) (x y : Nat) : MoveResult × World :=
  let w0 := { w with isPlayerSlidingEast := false, isPlayerSlidingWest := false }
  match dir with
  | DIR4_NORTH =>
    if wsub w.playerY 3 = 0 ∨ wsub w.playerY 2 = 0 then (MOVE_BLOCKED, w0)
    else (scanNorth w (MAP_CELL_ADDR w x (wsub y 4)) 3 0, w0)
  | DIR4_SOUTH =>
    if wadd w.mapHeight g.SCROLLH = w.playerY then (MOVE_FREE, w0)
    else
      let mapcell := MAP_CELL_ADDR w x y
      let w1 :=
        if ¬ (TILE_BLOCK_SOUTH w (w.mapData mapcell) ≠ 0) ∧
            TILE_SLOPED w (w.mapData mapcell) ≠ 0 ∧
            TILE_SLIPPERY w (w.mapData mapcell) ≠ 0
        then { w0 with isPlayerSlidingEast := true } else w0
      let w2 :=
        if ¬ (TILE_BLOCK_SOUTH w (w.mapData (mapcell + 2)) ≠ 0) ∧
            TILE_SLOPED w (w.mapData (mapcell + 2)) ≠ 0 ∧
            TILE_SLIPPERY w (w.mapData (mapcell + 2)) ≠ 0
        then { w1 with isPlayerSlidingWest := true } else w1
      playerScanSouth w2 mapcell 3 0
  | DIR4_WEST =>
    let mapcell := MAP_CELL_ADDR w x y
    let w1 := { w0 with
      canPlayerCling := TILE_CAN_CLING w (w.mapData (mapcell - ((wmul w.mapWidth 2 : Nat) : Int))) }
    (playerScanSide w (TILE_BLOCK_WEST w) 5 0 mapcell, w1)
  | DIR4_EAST =>
    let mapcell := MAP_CELL_ADDR w ((x : Int) + 2) y
    let w1 := { w0 with
      canPlayerCling := TILE_CAN_CLING w (w.mapData (mapcell - ((wmul w.mapWidth 2 : Nat) : Int))) }
    (playerScanSide w (TILE_BLOCK_EAST w) 5 0 mapcell, w1)
  | DIR4_NONE => (MOVE_FREE, w0)

/-! ## Overlap tests -/

/-- Function `IsSpriteVisible(sprite, frame, x, y)`. -/
def IsSpriteVisible (g : Glue) (w : World) (sprite frame x y : Nat) : Bool :=
  let height := spriteHeight w sprite frame
  let width := spriteWidth w sprite frame
  if ((w.scrollX ≤ x ∧ wadd w.scrollX g.SCROLLW > x) ∨
      (w.scrollX ≥ x ∧ wadd x width > w.scrollX)) ∧
     ((wadd w.scrollY g.SCROLLH > wadd (wsub y height) 1 ∧ wadd w.scrollY g.SCROLLH ≤ y) ∨
      (y ≥ w.scrollY ∧ wadd w.scrollY g.SCROLLH > y))
  then true else false

/-- Function `IsTouchingPlayer(sprite, frame, x, y)`. -/
def IsTouchingPlayer (g : Glue) (w : World) (sprite frame x y : Nat) : Bool :=
  if w.playerDeadTime ≠ 0 then false
  else
    let height := spriteHeight w sprite frame
    let width := spriteWidth w sprite frame
    let edge : Bool := decide (x > w.mapWidth ∧ x ≤ WORD_MAX ∧ sprite = g.SPR_EXPLOSION)
    let width := if edge then wadd x width else width
    let x := if edge then 0 else x
    if ((w.playerX ≤ x ∧ wadd w.playerX 3 > x) ∨ (w.playerX ≥ x ∧ wadd x width > w.playerX)) ∧
       ((wsub y height < w.playerY ∧ w.playerY ≤ y) ∨ (wsub w.playerY 4 ≤ y ∧ y ≤ w.playerY))
    then true else false

/-- Function `IsIntersecting(sprite1, frame1, x1, y1, sprite2, frame2, x2, y2)`. -/
def IsIntersecting (w : World) (sprite1 frame1 x1 y1 sprite2 frame2 x2 y2 : Nat) : Bool :=
  let height1 := spriteHeight w sprite1 frame1
  let width1 := spriteWidth w sprite1 frame1
  let height2 := spriteHeight w sprite2 frame2
  let width2 := spriteWidth w sprite2 frame2
  let edge : Bool := decide (x1 > w.mapWidth ∧ x1 ≤ WORD_MAX)
  let width1 := if edge then wadd x1 width1 else width1
  let x1 := if edge then 0 else x1
  if ((x2 ≤ x1 ∧ wadd x2 width2 > x1) ∨ (x2 ≥ x1 ∧ wadd x1 width1 > x2)) ∧
     ((wsub y1 height1 < y2 ∧ y2 ≤ y1) ∨ (wsub y2 height2 < y1 ∧ y1 ≤ y2))
  then true else false

/-- The tile box of a sprite frame `wd` wide and `ht` tall drawn at (x, y) is
the columns `[x, x + wd)` and the rows `[y - ht + 1, y]`.  Two boxes share a
tile when some column and some row belong to both. -/
def SharesTile (x1 wd1 y1 ht1 x2 wd2 y2 ht2 : Nat) : Prop :=
  ∃ c r : Int,
    ((x1 : Int) ≤ c ∧ c < (x1 : Int) + (wd1 : Int)) ∧
    ((y1 : Int) - (ht1 : Int) + 1 ≤ r ∧ r ≤ (y1 : Int)) ∧
    ((x2 : Int) ≤ c ∧ c < (x2 : Int) + (wd2 : Int)) ∧
    ((y2 : Int) - (ht2 : Int) + 1 ≤ r ∧ r ≤ (y2 : Int))

/-! ## Entity pools: allocation

Sound (`StartSound`) and drawing (`DrawSprite`, `UpdateHealth`) write none of
the globals of `World`; calls to them leave no trace in the model. -/

/-- The `for` loop of `NewShard`, from slot `i` with `n` slots left to look at. -/
def NewShardLoop (sprite frame x y : Nat) (w : World) : Nat → Nat → World
  | 0, _ => w
  | n + 1, i =>
    if (w.shards i).age = 0 then
      let sh : Shard :=
        { (w.shards i) with
          sprite := sprite, x := x, y := y, frame := frame, age := 1,
          inclination := w.inclination, bounced := false }
      { w with shards := arraySet w.shards i sh }
    else NewShardLoop sprite frame x y w n (i + 1)

/-- Function `NewShard(sprite, frame, x, y)`; its static `inclination` is a field of `World`. -/
def NewShard (w : World) (sprite frame x y : Nat) : World :=
  let w1 := { w with inclination := wadd w.inclination 1 }
  let w2 := if w1.inclination = 5 then { w1 with inclination := 0 } else w1
  NewShardLoop sprite frame x y w2 w2.numShards 0

/-- The `for` loop of `NewExplosion`. -/
def NewExplosionLoop (x y : Nat) (w : World) : Nat → Nat → World
  | 0, _ => w
  | n + 1, i =>
    if (w.explosions i).age ≠ 0 then NewExplosionLoop x y w n (i + 1)
    else
      let ex : Explosion := { (w.explosions i) with age := 1, x := x, y := wadd y 2 }
      { w with explosions := arraySet w.explosions i ex }

/-- Function `NewExplosion(x, y)`. -/
def NewExplosion (w : World) (x y : Nat) : World :=
  NewExplosionLoop x y w w.numExplosions 0

/-- The `for` loop of `NewSpawner`. -/
def NewSpawnerLoop (g : Glue) (actor x y : Nat) (w : World) : Nat → Nat → World
  | 0, _ => w
  | n + 1, i =>
    if (w.spawners i).actor = g.ACT_BASKET_NULL then
      let sp : Spawner := { (w.spawners i) with actor := actor, x := x, y := y, age := 0 }
      { w with spawners := arraySet w.spawners i sp }
    else NewSpawnerLoop g actor x y w n (i + 1)

/-- Function `NewSpawner(actor, x, y)`. -/
def NewSpawner (g : Glue) (w : World) (actor x y : Nat) : World :=
  NewSpawnerLoop g actor x y w w.numSpawners 0

/-- The `for` loop of `NewDecoration`. -/
def NewDecorationLoop (sprite numframes x y dir numtimes : Nat) (w : World) :
    Nat → Nat → World
  | 0, _ => w
  | n + 1, i =>
    if ¬ (w.decorations i).alive then
      let dec : Decoration :=
        { (w.decorations i) with
          alive := true, sprite := sprite, numframes := numframes, x := x, y := y,
          dir := dir, numtimes := numtimes }
      { w with
        decorations := arraySet w.decorations i dec,
        decorationFrame := arraySet w.decorationFrame i 0 }
    else NewDecorationLoop sprite numframes x y dir numtimes w n (i + 1)

/-- Function `NewDecoration(sprite, numframes, x, y, dir, numtimes)`. -/
def NewDecoration (w : World) (sprite numframes x y dir numtimes : Nat) : World :=
  NewDecorationLoop sprite numframes x y dir numtimes w w.numDecorations 0

/-! ## Actors -/

/-- Function `ConstructActor`: fills the actor at `nextActorIndex`. -/
def ConstructActor (g : Glue) (w : World) (a : ActorSpec) : World :=
  let w1 :=
    if a.data2 = g.SPR_BARREL_SHARDS ∨ a.data2 = g.SPR_BASKET_SHARDS then
      { w with numBarrels := wadd w.numBarrels 1 }
    else w
  let act : Actor :=
    { (w1.actors w1.nextActorIndex) with
      sprite := a.sprite, frame := 0, x := a.x, y := a.y,
      forceactive := a.force_active, stayactive := a.stay_active,
      weighted := a.weighted, acrophile := a.acrophile, dead := false,
      tickfunc := a.tick_func, private1 := 0, private2 := 0, fallspeed := 0,
      data1 := a.data1, data2 := a.data2, data3 := a.data3, data4 := a.data4,
      data5 := a.data5, damagecooldown := 0 }
  { w1 with actors := arraySet w1.actors w1.nextActorIndex act }

/-- Function `NewActorAtIndex(index, actor_type, x, y)`: whether the type has a
case, and the globals after the call.  A case is taken to be its one
`ConstructActor` call.  The statements that four cases run besides it are left
out: `arePlatformsActive = false` (`ACT_SWITCH_PLATFORMS`), `mysteryWallTime = 0`
(`ACT_MYSTERY_WALL`), `if (numEyePlants < 15) numEyePlants++`
(`ACT_EYE_PLANT_FLOOR`) and `areLightsActive = false; hasLightSwitch = true`
(`ACT_SWITCH_LIGHTS`).  What is proved of `NewActorAtIndex` and its callers
holds for the other types. -/
def NewActorAtIndex (g : Glue) (w : World) (index actor_type x y : Nat) : Bool × World :=
  let w1 := { w with nextActorIndex := index }
  match g.actorCases actor_type x y with
  | some a => (true, ConstructActor g w1 a)
  | none => (false, w1)

/-- The two places of `NewActor` that build an actor in slot `i`: the call of
`NewActorAtIndex`, then `act->forceactive = true` for a parachute ball. -/
def NewActorAt (g : Glue) (w : World) (i actor_type x y : Nat) : World :=
  let w1 := (NewActorAtIndex g w i actor_type x y).2
  if actor_type = g.ACT_PARACHUTE_BALL then
    { w1 with actors := arraySet w1.actors i { (w1.actors i) with forceactive := true } }
  else w1

/-- The `for` loop of `NewActor`: `some` of the globals at its `return`, or
`none` when it ends without finding a dead actor. -/
def NewActorLoop (g : Glue) (actor_type x y : Nat) (w : World) : Nat → Nat → Option World
  | 0, _ => none
  | n + 1, i =>
    if (w.actors i).dead then some (NewActorAt g w i actor_type x y)
    else NewActorLoop g actor_type x y w n (i + 1)

/-- Function `NewActor(actor_type, x, y)`. -/
def NewActor (g : Glue) (w : World) (actor_type x y : Nat) : World :=
  match NewActorLoop g actor_type x y w w.numActors 0 with
  | some w1 => w1
  | none =>
    if w.numActors < wsub g.MAX_ACTORS 2 then
      let w1 := NewActorAt g w w.numActors actor_type x y
      { w1 with numActors := wadd w1.numActors 1 }
    else w

/-- The part of `HurtPlayer` under `if (!sawHurtBubble)`. -/
def HurtPlayerBubble (g : Glue) (w : World) : World :=
  let w1 := NewActor g { w with sawHurtBubble := true } g.ACT_SPEECH_OUCH
    (wsub w.playerX 1) (wsub w.playerY 5)
  if w1.pounceHintState = g.POUNCE_HINT_UNSEEN then
    { w1 with pounceHintState := g.POUNCE_HINT_QUEUED }
  else w1

/-- The end of `HurtPlayer`, from `playerHealth--` on. -/
def HurtPlayerHealth (w : World) : World :=
  let health := wsub w.playerHealth 1
  if health = 0 then { w with playerHealth := health, playerDeadTime := 1, scooterMounted := 0 }
  else { w with playerHealth := health, playerHurtCooldown := 44 }

/-- Function `HurtPlayer`. -/
def HurtPlayer (g : Glue) (w : World) : World :=
  if w.playerDeadTime ≠ 0 ∨ w.isGodMode = true ∨ w.blockActionCmds = true ∨
      w.activeTransporter ≠ 0 ∨ w.playerIsInvincible = true ∨ w.isPlayerInPipe = true ∨
      w.playerHurtCooldown ≠ 0 then w
  else
    let w1 := { w with playerClingDir := DIR4_NONE }
    let w2 := if w1.sawHurtBubble = false then HurtPlayerBubble g w1 else w1
    HurtPlayerHealth w2

/-! ## Entity pools: the per-frame passes -/

/-- A loop `for (i = 0; i < n; i++) body`, from index `i` with `n` rounds left. -/
def forLoop (body : World → Nat → World) : Nat → Nat → World → World
  | 0, _, w => w
  | n + 1, i, w => forLoop body n (i + 1) (body w i)

/-- Statement `word += int` on a 16-bit word. -/
def waddInt (a : Nat) (d : Int) : Nat := (((a : Int) + d) % 65536).toNat

/-- Table `dir8X`; an index past the table reads as 0. -/
def dir8X (dir : Nat) : Int := [0, 0, 1, 1, 1, 0, -1, -1, -1].getD dir 0

/-- Table `dir8Y`; an index past the table reads as 0. -/
def dir8Y (dir : Nat) : Int := [0, -1, -1, 0, 1, 1, 1, 0, -1].getD dir 0

/-- Where control goes after a section of the body of `MoveAndDrawShards`:
back to the label `restart`, on to the next shard (`continue`), or straight on. -/
inductive ShardFlow where
  | toRestart
  | toNext
  | onward
  deriving DecidableEq, Repr

/-- Body of `MoveAndDrawShards`, the sideways move before the label `restart`. -/
def shardSideways (w : World) (sh : Shard) : Shard :=
  if sh.inclination = 0 ∨ sh.inclination = 3 then
    if TestSpriteMove w DIR4_EAST sh.sprite sh.frame (wadd sh.x 1) (wadd sh.y 1) = MOVE_FREE then
      let sh1 := { sh with x := wadd sh.x 1 }
      if sh1.inclination = 3 then { sh1 with x := wadd sh1.x 1 } else sh1
    else sh
  else if sh.inclination = 1 ∨ sh.inclination = 4 then
    if TestSpriteMove w DIR4_WEST sh.sprite sh.frame (wsub sh.x 1) (wadd sh.y 1) = MOVE_FREE then
      let sh1 := { sh with x := wsub sh.x 1 }
      if sh1.inclination = 4 then { sh1 with x := wsub sh1.x 1 } else sh1
    else sh
  else sh

/-- Body of `MoveAndDrawShards`, from the label `restart` to the end of the
`if (sh->age == 5) ... else if (sh->age == 8) ...` statement. -/
def shardRise (w : World) (sh : Shard) : ShardFlow × Shard :=
  let sh1 := if sh.age < 5 then { sh with y := wsub sh.y 2 } else sh
  if sh1.age = 5 then (ShardFlow.onward, { sh1 with y := wsub sh1.y 1 })
  else if sh1.age = 8 then
    if TestSpriteMove w DIR4_SOUTH sh1.sprite sh1.frame sh1.x (wadd sh1.y 1) ≠ MOVE_FREE then
      (ShardFlow.toRestart, { sh1 with age := 3, y := wadd sh1.y 2 })
    else (ShardFlow.onward, { sh1 with y := wadd sh1.y 1 })
  else (ShardFlow.onward, sh1)

/-- Body of `MoveAndDrawShards`, the statement `if (sh->age >= 9) ...`. -/
def shardFall (g : Glue) (w : World) (sh : Shard) : ShardFlow × Shard :=
  if sh.age ≥ 9 then
    if sh.age > 16 ∧ IsSpriteVisible g w sh.sprite sh.frame sh.x sh.y = false then
      (ShardFlow.toNext, { sh with age := 0 })
    else if sh.bounced = false ∧
        TestSpriteMove w DIR4_SOUTH sh.sprite sh.frame sh.x (wadd sh.y 1) ≠ MOVE_FREE then
      (ShardFlow.toRestart, { sh with age := 3, bounced := true })
    else
      let sh1 := { sh with y := wadd sh.y 1 }
      if sh1.bounced = false ∧
          TestSpriteMove w DIR4_SOUTH sh1.sprite sh1.frame sh1.x (wadd sh1.y 1) ≠ MOVE_FREE then
        (ShardFlow.toRestart, { sh1 with age := 3, bounced := true })
      else (ShardFlow.onward, { sh1 with y := wadd sh1.y 1 })
  else (ShardFlow.onward, sh)

/-- Body of `MoveAndDrawShards`, its last two statements. -/
def shardAge (sh : Shard) : Shard :=
  let sh1 := { sh with age := wadd sh.age 1 }
  if sh1.age > 40 then { sh1 with age := 0 } else sh1

/-- Body of `MoveAndDrawShards` from the label `restart` on; each `goto restart`
uses up one unit of `fuel`.  A shard gets to the label with age 3 after a
`goto`, and then no further `goto` is taken: two units are enough. -/
def shardFromRestart (g : Glue) (w : World) : Nat → Shard → Shard
  | 0, sh => sh
  | fuel + 1, sh =>
    match shardRise w sh with
    | (ShardFlow.toRestart, sh1) => shardFromRestart g w fuel sh1
    | (ShardFlow.toNext, sh1) => sh1
    | (ShardFlow.onward, sh1) =>
      match shardFall g w sh1 with
      | (ShardFlow.toRestart, sh2) => shardFromRestart g w fuel sh2
      | (ShardFlow.toNext, sh2) => sh2
      | (ShardFlow.onward, sh2) => shardAge sh2

/-- Body of the loop of `MoveAndDrawShards` for slot `i`. -/
def MoveAndDrawShardsBody (g : Glue) (w : World) (i : Nat) : World :=
  if (w.shards i).age = 0 then w
  else { w with shards := arraySet w.shards i (shardFromRestart g w 2 (shardSideways w (w.shards i))) }

/-- Function `MoveAndDrawShards`. -/
def MoveAndDrawShards (g : Glue) (w : World) : World :=
  forLoop (MoveAndDrawShardsBody g) w.numShards 0 w

/-- Body of `DrawExplosions`, its end from `ex->age++` on. -/
def DrawExplosionsAge (g : Glue) (w : World) (i : Nat) : World :=
  let ex := w.explosions i
  let age := wadd ex.age 1
  if age = 9 then
    NewDecoration { w with explosions := arraySet w.explosions i { ex with age := 0 } }
      g.SPR_SMOKE_LARGE 6 (wadd ex.x 1) (wsub ex.y 1) g.DIR8_NORTH 1
  else { w with explosions := arraySet w.explosions i { ex with age := age } }

/-- Body of the loop of `DrawExplosions` for slot `i`.  The palette write under
`EXPLOSION_PALETTE` touches the display only. -/
def DrawExplosionsBody (g : Glue) (w : World) (i : Nat) : World :=
  if (w.explosions i).age = 0 then w
  else
    let w1 :=
      if (w.explosions i).age = 1 then
        NewDecoration w g.SPR_SPARKLE_LONG 8 (wadd (w.explosions i).x 2)
          (wsub (w.explosions i).y 2) g.DIR8_STATIONARY 1
      else w
    let w2 :=
      if IsTouchingPlayer g w1 g.SPR_EXPLOSION (wsub (w1.explosions i).age 1 % 4)
          (w1.explosions i).x (w1.explosions i).y = true
      then HurtPlayer g w1 else w1
    DrawExplosionsAge g w2 i

/-- Function `DrawExplosions`. -/
def DrawExplosions (g : Glue) (w : World) : World :=
  forLoop (DrawExplosionsBody g) w.numExplosions 0 w

/-- Body of `MoveAndDrawSpawners`, the condition of its first `if`, which
lowers `sp->y` once or twice: whether it holds, and the spawner after it. -/
def spawnerRise (w : World) (sp : Spawner) : Bool × Spawner :=
  let sp1 := { sp with y := wsub sp.y 1 }
  if TestSpriteMove w DIR4_NORTH sp1.actor 0 sp1.x sp1.y ≠ MOVE_FREE then (true, sp1)
  else if sp1.age < 9 then
    let sp2 := { sp1 with y := wsub sp1.y 1 }
    (decide (TestSpriteMove w DIR4_NORTH sp2.actor 0 sp2.x sp2.y ≠ MOVE_FREE), sp2)
  else (false, sp1)

/-- Body of `MoveAndDrawSpawners`: `NewActor(sp->actor, sp->x, y)` followed by
`sp->actor = ACT_BASKET_NULL`. -/
def spawnerHatch (g : Glue) (w : World) (i y : Nat) : World :=
  let w1 := NewActor g w (w.spawners i).actor (w.spawners i).x y
  { w1 with spawners :=
      arraySet w1.spawners i { (w1.spawners i) with actor := g.ACT_BASKET_NULL } }

/-- Body of the loop of `MoveAndDrawSpawners` for slot `i`. -/
def MoveAndDrawSpawnersBody (g : Glue) (w : World) (i : Nat) : World :=
  if (w.spawners i).actor = g.ACT_BASKET_NULL then w
  else
    let r := spawnerRise w { (w.spawners i) with age := wadd (w.spawners i).age 1 }
    let w1 := { w with spawners := arraySet w.spawners i r.2 }
    if r.1 = true then spawnerHatch g w1 i (wadd r.2.y 1)
    else if r.2.age = 11 then spawnerHatch g w1 i r.2.y
    else w1

/-- Function `MoveAndDrawSpawners`. -/
def MoveAndDrawSpawners (g : Glue) (w : World) : World :=
  forLoop (MoveAndDrawSpawnersBody g) w.numSpawners 0 w

/-- Body of `MoveAndDrawDecorations`, the moves of a visible decoration;
`r` is the value of `random(3)`. -/
def decorationMove (g : Glue) (r : Nat) (dec : Decoration) : Decoration :=
  let dec1 :=
    if dec.sprite = g.SPR_RAINDROP then { dec with x := wsub dec.x 1, y := wadd dec.y r }
    else dec
  { dec1 with x := waddInt dec1.x (dir8X dec1.dir), y := waddInt dec1.y (dir8Y dec1.dir) }

/-- Body of `MoveAndDrawDecorations`, the statements under
`if (decorationFrame[i] == dec->numframes)` on the decoration itself. -/
def decorationRepeat (dec : Decoration) : Decoration :=
  if dec.numtimes ≠ 0 then
    let dec1 := { dec with numtimes := wsub dec.numtimes 1 }
    if dec1.numtimes = 0 then { dec1 with alive := false } else dec1
  else dec

/-- Body of the loop of `MoveAndDrawDecorations` for slot `i`; `rnd i` is what
the C library returns for `random(3)` in that round. -/
def MoveAndDrawDecorationsBody (g : Glue) (rnd : Nat → Nat) (w : World) (i : Nat) : World :=
  let dec := w.decorations i
  if dec.alive = false then w
  else if IsSpriteVisible g w dec.sprite dec.numframes dec.x dec.y = true then
    let dec1 := decorationMove g (rnd i % 3) dec
    let frame := wadd (w.decorationFrame i) 1
    if frame = dec1.numframes then
      { w with
        decorations := arraySet w.decorations i (decorationRepeat dec1),
        decorationFrame := arraySet w.decorationFrame i 0 }
    else
      { w with
        decorations := arraySet w.decorations i dec1,
        decorationFrame := arraySet w.decorationFrame i frame }
  else { w with decorations := arraySet w.decorations i { dec with alive := false } }

/-- Function `MoveAndDrawDecorations`. -/
def MoveAndDrawDecorations (g : Glue) (rnd : Nat → Nat) (w : World) : World :=
  forLoop (MoveAndDrawDecorationsBody g rnd) w.numDecorations 0 w

/-! ## Pouncing -/

/-- The value of an `int` as the 16-bit word of the same bits. -/
def wordOfInt (z : Int) : Nat := (z % 65536).toNat

/-- The value of a 16-bit word read as a signed `int`. -/
def intOfWord (v : Nat) : Int :=
  if v % 65536 < 32768 then ((v % 65536 : Nat) : Int) else ((v % 65536 : Nat) : Int) - 65536

/-- Function `ClearPlayerDizzy`. -/
def ClearPlayerDizzy (w : World) : World :=
  { w with queuePlayerDizzy := false, playerDizzyLeft := 0 }

/-- The condition of the first `if` of `PounceHelper` after the early return:
the call arms the player's momentum. -/
def pounceArms (w : World) : Prop :=
  (w.isPlayerRecoiling = false ∨ (w.isPlayerRecoiling = true ∧ w.playerMomentumNorth < 2)) ∧
  (((w.isPlayerFalling = true ∧ w.playerFallTime ≥ 0) ∨ w.playerJumpTime > 6) ∧
    w.isPounceReady = true)

instance (w : World) : Decidable (pounceArms w) := by
  unfold pounceArms
  infer_instance

/-- The arming branch of `PounceHelper`, its statements before `if (recoil == 7)`. -/
def PounceHelperArm (g : Glue) (w : World) (recoil : Int) : World :=
  let w1 := { w with
    playerMomentumNorth := wordOfInt (recoil + 1),
    playerMomentumSaved := wordOfInt (recoil + 1),
    isPlayerRecoiling := true }
  let w2 := ClearPlayerDizzy w1
  { w2 with isPlayerLongJumping := decide (recoil > 18), pounceHintState := g.POUNCE_HINT_SEEN }

/-- The arming branch of `PounceHelper`, its statement `if (recoil == 7) ... else ...`. -/
def PounceHelperStreak (g : Glue) (w : World) (recoil : Int) : World :=
  if recoil = 7 then
    let w1 := { w with pounceStreak := wadd w.pounceStreak 1 }
    if w1.pounceStreak = 10 then
      NewActor g { w1 with pounceStreak := 0 } g.ACT_SPEECH_WOW_50K
        (wsub w1.playerX 1) (wsub w1.playerY 5)
    else w1
  else { w with pounceStreak := 0 }

/-- The second branch of `PounceHelper`: a pounce that goes on. -/
def PounceHelperGoOn (g : Glue) (w : World) : World :=
  let w1 := ClearPlayerDizzy w
  { w1 with
    isPlayerLongJumping := decide (w1.playerMomentumNorth > 18),
    pounceHintState := g.POUNCE_HINT_SEEN }

/-- Function `PounceHelper(recoil)`: the value returned and the globals after the call. -/
def PounceHelper (g : Glue) (w : World) (recoil : Int) : Bool × World :=
  if w.playerDeadTime ≠ 0 ∨ w.playerDizzyLeft ≠ 0 then (false, w)
  else if pounceArms w then (true, PounceHelperStreak g (PounceHelperArm g w recoil) recoil)
  else if wsub w.playerMomentumSaved 2 < w.playerMomentumNorth ∧ w.isPounceReady = true ∧
      w.isPlayerRecoiling = true then (true, PounceHelperGoOn g w)
  else (false, w)

/-! ## Barrels -/

/-- Table `randtable` of `GameRand`. -/
def randtable : List Nat :=
  [31, 12, 17, 233, 99, 8, 64, 12, 199, 49, 5, 6,
   143, 1, 35, 46, 52, 5, 8, 21, 44, 8, 3, 77,
   2, 103, 34, 23, 78, 2, 67, 2, 79, 46, 1, 98]

/-- Function `GameRand`: the number returned and the globals after the call. -/
def GameRand (w : World) : Nat × World :=
  let w1 := { w with randStepCount := wadd w.randStepCount 1 }
  let w2 := if w1.randStepCount > 35 then { w1 with randStepCount := 0 } else w1
  (wadd (wadd (wadd (wadd (wadd (randtable.getD w2.randStepCount 0) w2.scrollX) w2.scrollY)
    w2.randStepCount) w2.playerX) w2.playerY, w2)

/-- The four `NewShard` calls of `DestroyBarrel`. -/
def DestroyBarrelShards (w : World) (index : Nat) : World :=
  let w1 := NewShard w (w.actors index).data2 0 (wsub (w.actors index).x 1) (w.actors index).y
  let w2 := NewShard w1 (w1.actors index).data2 1 (wadd (w1.actors index).x 1)
    (wsub (w1.actors index).y 1)
  let w3 := NewShard w2 (w2.actors index).data2 2 (wadd (w2.actors index).x 3)
    (w2.actors index).y
  NewShard w3 (w3.actors index).data2 3 (wadd (w3.actors index).x 2) (wadd (w3.actors index).y 2)

/-- Function `DestroyBarrel(index)` up to its `NewSpawner` call.  The value of
`GameRand` picks one of two sounds. -/
def DestroyBarrelSpawn (g : Glue) (w : World) (index : Nat) : World :=
  let w1 := { w with actors := arraySet w.actors index { (w.actors index) with dead := true } }
  let w2 := DestroyBarrelShards w1 index
  let w3 := (GameRand w2).2
  NewSpawner g w3 (w3.actors index).data1 (wadd (w3.actors index).x 1) (w3.actors index).y

/-- Function `DestroyBarrel(index)`. -/
def DestroyBarrel (g : Glue) (w : World) (index : Nat) : World :=
  let w4 := DestroyBarrelSpawn g w index
  let w5 :=
    if w4.numBarrels = 1 then
      NewActor g w4 g.ACT_SPEECH_WOW_50K (wsub w4.playerX 1) (wsub w4.playerY 5)
    else w4
  { w5 with numBarrels := wsub w5.numBarrels 1 }

/-! ## Actors placed by the map -/

/-- Case `SPA_PLAYER_START` of `NewMapActor`; `x` and `y` are the words of the
`int` parameters. -/
def NewMapActorPlayerStart (g : Glue) (w : World) (x y : Nat) : World :=
  let scrollX :=
    if x > wsub w.mapWidth 15 then wsub w.mapWidth g.SCROLLW
    else if intOfWord (wsub x 15) ≥ 0 ∧ w.mapYPower > 5 then wsub x 15
    else 0
  let scrollY := if intOfWord (wsub y 10) ≥ 0 then wsub y 10 else 0
  { w with scrollX := scrollX, scrollY := scrollY, playerX := x, playerY := y }

/-- Case `SPA_PLATFORM` of `NewMapActor`. -/
def NewMapActorPlatform (w : World) (x y : Nat) : World :=
  let plat : Platform := { (w.platforms w.numPlatforms) with x := x, y := y }
  { w with
    platforms := arraySet w.platforms w.numPlatforms plat,
    numPlatforms := wadd w.numPlatforms 1 }

/-- The four `SPA_FOUNTAIN_*` cases of `NewMapActor`. -/
def NewMapActorFountain (w : World) (map_actor x y : Nat) : World :=
  let fnt : Fountain :=
    { (w.fountains w.numFountains) with
      x := wsub x 1, y := wsub y 1, dir := DIR4_NORTH, stepcount := 0, height := 0,
      stepmax := wmul map_actor 3, delayleft := 0 }
  { w with
    fountains := arraySet w.fountains w.numFountains fnt,
    numFountains := wadd w.numFountains 1 }

/-- The three `SPA_LIGHT_*` cases of `NewMapActor`. -/
def NewMapActorLight (g : Glue) (w : World) (map_actor x y : Nat) : World :=
  if w.numLights ≠ wsub g.MAX_LIGHTS 1 then
    let lt : Light := { (w.lights w.numLights) with side := wsub map_actor 6, x := x, y := y }
    { w with lights := arraySet w.lights w.numLights lt, numLights := wadd w.numLights 1 }
  else w

/-- The `switch` of `NewMapActor` over the special actor types. -/
def NewMapActorSpecial (g : Glue) (w : World) (map_actor x y : Nat) : World :=
  if map_actor = g.SPA_PLAYER_START then NewMapActorPlayerStart g w x y
  else if map_actor = g.SPA_PLATFORM then NewMapActorPlatform w x y
  else if map_actor = g.SPA_FOUNTAIN_SMALL ∨ map_actor = g.SPA_FOUNTAIN_MEDIUM ∨
      map_actor = g.SPA_FOUNTAIN_LARGE ∨ map_actor = g.SPA_FOUNTAIN_HUGE then
    NewMapActorFountain w map_actor x y
  else if map_actor = g.SPA_LIGHT_WEST ∨ map_actor = g.SPA_LIGHT_MIDDLE ∨
      map_actor = g.SPA_LIGHT_EAST then NewMapActorLight g w map_actor x y
  else w

/-- Function `NewMapActor(index, map_actor, x, y)`; `x` and `y` are the words of
the `int` parameters. -/
def NewMapActor (g : Glue) (w : World) (index map_actor x y : Nat) : World :=
  let w1 := if map_actor < 32 then NewMapActorSpecial g w map_actor x y else w
  if map_actor ≥ 31 then
    let r := NewActorAtIndex g w1 index (wsub map_actor 31) x y
    if r.1 = true then { r.2 with numActors := wadd r.2.numActors 1 } else r.2
  else w1

/-- The loop of `LoadMapData` over the actor words, which the function has read
to the start of `mapData`: `n` rounds are left, `i` is the loop index. -/
def LoadMapActorsLoop (g : Glue) : Nat → Nat → World → World
  | 0, _, w => w
  | n + 1, i, w =>
    let w1 := NewMapActor g w w.numActors (w.mapData (i : Int)) (w.mapData ((i : Int) + 1))
      (w.mapData ((i : Int) + 2))
    if w1.numActors > wsub g.MAX_ACTORS 1 then w1
    else LoadMapActorsLoop g n (i + 3) w1

/-- The part of `LoadMapData` that builds the actors from `actorwords` words: the loop
`for (i = 0; i < actorwords; i += 3)` makes `(actorwords + 2) / 3` rounds. -/
def LoadMapActors (g : Glue) (w : World) (actorwords : Nat) : World :=
  LoadMapActorsLoop g ((actorwords + 2) / 3) 0 w

/-! ## Saved games

A save file is the sequence of its bytes.  The C library calls are those of a
16-bit compiler: `putw` writes the two bytes of an `int`, low byte first;
`getw` reads two bytes as an `int`, and gives `EOF`, which is -1, when fewer
than two are left; `fwrite` and `fread` of `gameScore` move the four bytes of a
`dword`.  The model takes it that `fopen` can create the file in
`SaveGameState`. -/

/-- Library call `putw(v, fp)` on the bytes written so far. -/
def putw (v : Nat) (f : List Nat) : List Nat :=
  f ++ [v % 256, v / 256 % 256]

/-- Library call `fwrite(&v, 4, 1, fp)` for a `dword` on the bytes written so far. -/
def fwriteDword (v : Nat) (f : List Nat) : List Nat :=
  f ++ [v % 256, v / 256 % 256, v / 65536 % 256, v / 16777216 % 256]

/-- Library call `getw(fp)` on the bytes not yet read: the `int` returned and
the bytes left. -/
def getw : List Nat → Int × List Nat
  | lo :: hi :: rest => (intOfWord (lo % 256 + 256 * (hi % 256)), rest)
  | _ => (-1, [])

/-- Library call `fread(&v, 4, 1, fp)` for a `dword` that holds `old`: the value
of `v` after the call and the bytes left.  A short read fills the low bytes. -/
def freadDword (old : Nat) : List Nat → Nat × List Nat
  | b0 :: b1 :: b2 :: b3 :: rest =>
    (b0 % 256 + 256 * (b1 % 256) + 65536 * (b2 % 256) + 16777216 * (b3 % 256), rest)
  | [b0, b1, b2] =>
    (b0 % 256 + 256 * (b1 % 256) + 65536 * (b2 % 256) + 16777216 * (old / 16777216 % 256), [])
  | [b0, b1] => (b0 % 256 + 256 * (b1 % 256) + 65536 * (old / 65536 % 65536), [])
  | [b0] => (b0 % 256 + 256 * (old / 256 % 16777216), [])
  | [] => (old, [])

/-- Conversion of an `int` to a `dword`. -/
def dwordOfInt (z : Int) : Nat := (z % 4294967296).toNat

/-- The expression
`playerHealth + (word)gameStars + levelNum + playerBombs + playerMaxHealth`,
as a `word`. -/
def saveChecksum (w : World) : Nat :=
  wadd (wadd (wadd (wadd w.playerHealth (w.gameStars % 65536)) w.levelNum) w.playerBombs)
    w.playerMaxHealth

/-- The ten reads of `LoadGameState` from the bytes `f`: the globals after them
and the bytes left. -/
def LoadGameStateFields (w : World) (f : List Nat) : World × List Nat :=
  let r1 := getw f
  let r2 := freadDword w.gameScore r1.2
  let r3 := getw r2.2
  let r4 := getw r3.2
  let r5 := getw r4.2
  let r6 := getw r5.2
  let r7 := getw r6.2
  let r8 := getw r7.2
  let r9 := getw r8.2
  let r10 := getw r9.2
  ({ w with
     playerHealth := wordOfInt r1.1, gameScore := r2.1, gameStars := dwordOfInt r3.1,
     levelNum := wordOfInt r4.1, playerBombs := wordOfInt r5.1,
     playerMaxHealth := wordOfInt r6.1, usedCheatCode := wordOfInt r7.1,
     sawBombHint := wordOfInt r8.1, pounceHintState := wordOfInt r9.1,
     sawHealthHint := wordOfInt r10.1 }, r10.2)

/-- How a call of `LoadGameState` ends: it returns a value, or it runs
`ShowAlteredFileError(); ExitClean();`, which ends the program. -/
inductive LoadOutcome where
  | returned (value : Bool) (w : World)
  | exited (w : World)

/-- Function `LoadGameState(slot_char)`. -/
def LoadGameState (w : World) (slot_char : Nat) : LoadOutcome :=
  match w.saveFiles slot_char with
  | none => LoadOutcome.returned false w
  | some f =>
    let r := LoadGameStateFields w f
    if wordOfInt (getw r.2).1 ≠ saveChecksum r.1 then LoadOutcome.exited r.1
    else LoadOutcome.returned true r.1

/-- The globals at the end of a call of `LoadGameState`. -/
def LoadOutcome.globals : LoadOutcome → World
  | LoadOutcome.returned _ w => w
  | LoadOutcome.exited w => w

/-- The bytes that `SaveGameState` writes; `true` is 1. -/
def SaveGameStateBytes (g : Glue) (w : World) : List Nat :=
  putw (saveChecksum w) (putw 1 (putw g.POUNCE_HINT_SEEN (putw 1 (putw w.usedCheatCode
    (putw w.playerMaxHealth (putw w.playerBombs (putw w.levelNum (putw (w.gameStars % 65536)
      (fwriteDword w.gameScore (putw w.playerHealth []))))))))))

/-- Function `SaveGameState(slot_char)`. -/
def SaveGameState (g : Glue) (w : World) (slot_char : Nat) : World :=
  { w with saveFiles := arraySet w.saveFiles slot_char (some (SaveGameStateBytes g w)) }

/-! ## The player's movement

`MovePlayer` is modelled block by block.  Its local `horizmove` is read
uninitialised on one path; the value it holds then is the argument `junk`.  The
value of `random(50)` is the argument `rnd`. -/

/-- Functions that `MovePlayer` calls and that none of the source files at hand
defines: what a call does to the globals. -/
structure Outside where
  ShowBombHint : World → World
  UpdateBombs : World → World

/-- Function `ClearPlayerPush`. -/
def ClearPlayerPush (g : Glue) (w : World) : World :=
  { w with
    isPlayerPushed := false, playerPushDir := g.DIR8_STATIONARY, playerPushMaxTime := 0,
    playerPushTime := 0, playerPushSpeed := 0, playerForceFrame := g.PLAYER_WALK_1,
    isPlayerRecoiling := false, playerMomentumNorth := 0, canCancelPlayerPush := false,
    isPlayerFalling := true, playerFallTime := 0 }

/-- The wall test of `MovePlayerPush`: four `TestPlayerMove` calls joined by
`||`, which stops at the first that holds. -/
def pushWallTest (g : Glue) (w : World) : Bool × World :=
  let r1 := TestPlayerMove g w DIR4_WEST w.playerX w.playerY
  if r1.1 ≠ MOVE_FREE then (true, r1.2)
  else
    let r2 := TestPlayerMove g r1.2 DIR4_EAST r1.2.playerX r1.2.playerY
    if r2.1 ≠ MOVE_FREE then (true, r2.2)
    else
      let r3 := TestPlayerMove g r2.2 DIR4_NORTH r2.2.playerX r2.2.playerY
      if r3.1 ≠ MOVE_FREE then (true, r3.2)
      else
        let r4 := TestPlayerMove g r3.2 DIR4_SOUTH r3.2.playerX r3.2.playerY
        (decide (r4.1 ≠ MOVE_FREE), r4.2)

/-- One round of the loop of `MovePlayerPush`: whether it ends in `wallhit = true;
break;`, and the globals after it. -/
def MovePlayerPushStep (g : Glue) (w : World) : Bool × World :=
  let dx := dir8X w.playerPushDir
  let dy := dir8Y w.playerPushDir
  let w1 :=
    if waddInt w.playerX dx > 0 ∧ wadd (waddInt w.playerX dx) 2 < w.mapWidth then
      { w with playerX := waddInt w.playerX dx }
    else w
  let w2 := { w1 with playerY := waddInt w1.playerY dy }
  let w3 :=
    if waddInt w2.scrollX dx > 0 ∧
        waddInt w2.scrollX dx < wsub w2.mapWidth (wsub g.SCROLLW 1) then
      { w2 with scrollX := waddInt w2.scrollX dx }
    else w2
  let w4 :=
    if waddInt w3.scrollY dy > 2 then { w3 with scrollY := waddInt w3.scrollY dy } else w3
  if w4.stopPlayerPushAtWall = true then pushWallTest g w4 else (false, w4)

/-- The loop of `MovePlayerPush` with `n` rounds left: `wallhit` and the globals
after it. -/
def MovePlayerPushLoop (g : Glue) : Nat → World → Bool × World
  | 0, w => (false, w)
  | n + 1, w =>
    let r := MovePlayerPushStep g w
    if r.1 = true then r else MovePlayerPushLoop g n r.2

/-- The statements of `MovePlayerPush` under `if (wallhit)`. -/
def MovePlayerPushBack (g : Glue) (w : World) : World :=
  ClearPlayerPush g
    { w with
      playerX := waddInt w.playerX (- dir8X w.playerPushDir),
      playerY := waddInt w.playerY (- dir8Y w.playerPushDir),
      scrollX := waddInt w.scrollX (- dir8X w.playerPushDir),
      scrollY := waddInt w.scrollY (- dir8Y w.playerPushDir) }

/-- Function `MovePlayerPush`. -/
def MovePlayerPush (g : Glue) (w : World) : World :=
  if w.isPlayerPushed = false then w
  else if w.cmdJump = true ∧ w.canCancelPlayerPush = true then { w with isPlayerPushed := false }
  else
    let r := MovePlayerPushLoop g w.playerPushSpeed w
    if r.1 = true then MovePlayerPushBack g r.2
    else
      let v : World := { r.2 with playerPushTime := wadd r.2.playerPushTime 1 }
      if v.playerPushTime ≥ v.playerPushMaxTime then ClearPlayerPush g v else v

/-- The value that `MovePlayer` gives to `clingtarget`. -/
def clingTarget (w : World) : Nat :=
  if w.playerClingDir = DIR4_WEST then GetMapTile w (wsub w.playerX 1) (wsub w.playerY 2)
  else GetMapTile w (wadd w.playerX 3) (wsub w.playerY 2)

/-- Block `if (playerClingDir != DIR4_NONE)` of `MovePlayer`: the local
`clingslip` and the globals after it. -/
def MovePlayerCling (g : Glue) (w : World) : Bool × World :=
  if w.playerClingDir ≠ DIR4_NONE then
    if TILE_SLIPPERY w (clingTarget w) ≠ 0 ∧ TILE_CAN_CLING w (clingTarget w) ≠ 0 then
      let r := TestPlayerMove g w DIR4_SOUTH w.playerX (wadd w.playerY 1)
      if r.1 ≠ MOVE_FREE then (false, { r.2 with playerClingDir := DIR4_NONE })
      else
        let w1 := { r.2 with playerY := wadd r.2.playerY 1 }
        if ¬ (TILE_SLIPPERY w1 (clingTarget w1) ≠ 0) ∧
            ¬ (TILE_CAN_CLING w1 (clingTarget w1) ≠ 0) then
          (false, { w1 with playerClingDir := DIR4_NONE })
        else (true, w1)
    else if ¬ (TILE_CAN_CLING w (clingTarget w) ≠ 0) then
      (false, { w with playerClingDir := DIR4_NONE })
    else (false, w)
  else (false, w)

/-- The statements of `MovePlayer` that place a bomb: `NewActor`, `playerBombs--`,
`UpdateBombs()`. -/
def MovePlayerBombDrop (g : Glue) (o : Outside) (w : World) (x : Nat) : World :=
  let w1 := NewActor g w g.ACT_BOMB_ARMED x (wsub w.playerY 2)
  o.UpdateBombs { w1 with playerBombs := wsub w1.playerBombs 1 }

/-- The statements of `MovePlayer` under `if (bombcooldown == 1)`. -/
def MovePlayerBombPlace (g : Glue) (o : Outside) (w : World) : World :=
  if w.playerBaseFrame = g.PLAYER_BASE_WEST then
    if w.playerBombs = 0 ∧ w.sawBombHint = 0 then o.ShowBombHint { w with sawBombHint := 1 }
    else if TILE_BLOCK_WEST w (GetMapTile w (wsub w.playerX 1) (wsub w.playerY 2)) = 0 ∧
        TILE_BLOCK_WEST w (GetMapTile w (wsub w.playerX 2) (wsub w.playerY 2)) = 0 ∧
        w.playerBombs > 0 then
      MovePlayerBombDrop g o w (wsub w.playerX 2)
    else w
  else
    let w1 :=
      if w.playerBombs = 0 ∧ w.sawBombHint = 0 then o.ShowBombHint { w with sawBombHint := 1 }
      else w
    if TILE_BLOCK_EAST w (GetMapTile w (wadd w.playerX 3) (wsub w.playerY 2)) = 0 ∧
        TILE_BLOCK_EAST w (GetMapTile w (wadd w.playerX 4) (wsub w.playerY 2)) = 0 ∧
        w1.playerBombs > 0 then
      MovePlayerBombDrop g o w1 (wadd w1.playerX 3)
    else w1

/-- Block `if (playerClingDir == DIR4_NONE)` of `MovePlayer`, the one about
`bombcooldown`. -/
def MovePlayerBomb (g : Glue) (o : Outside) (w : World) : World :=
  if w.playerClingDir = DIR4_NONE then
    let w1 := if w.cmdBomb = false then { w with bombcooldown := 0 } else w
    let w2 :=
      if w1.cmdBomb = true ∧ w1.bombcooldown = 0 then { w1 with bombcooldown := 2 } else w1
    if w2.bombcooldown ≠ 0 ∧ w2.bombcooldown ≠ 1 then
      let w3 := { w2 with bombcooldown := wsub w2.bombcooldown 1 }
      if w3.bombcooldown = 1 then MovePlayerBombPlace g o w3 else w3
    else { w2 with cmdBomb := false }
  else w

/-- The branch of `MovePlayer` taken while the bomb key is held on the ground:
the player turns but does not move. -/
def MovePlayerCrouch (g : Glue) (w : World) : World :=
  if w.cmdWest = true then
    { w with playerFaceDir := DIR4_WEST, playerBombDir := DIR4_WEST,
             playerBaseFrame := g.PLAYER_BASE_WEST }
  else if w.cmdEast = true then
    { w with playerFaceDir := DIR4_EAST, playerBombDir := DIR4_EAST,
             playerBaseFrame := g.PLAYER_BASE_EAST }
  else if w.playerFaceDir = DIR4_WEST then { w with playerBombDir := DIR4_WEST }
  else if w.playerFaceDir = DIR4_EAST then { w with playerBombDir := DIR4_EAST }
  else w

/-- Block `if (isPlayerSlidingWest)` of `MovePlayer`. -/
def MovePlayerSlideWest (g : Glue) (w : World) : World :=
  let w1 := if w.playerClingDir = DIR4_NONE then { w with playerX := wsub w.playerX 1 } else w
  let r := TestPlayerMove g w1 DIR4_SOUTH w1.playerX (wadd w1.playerY 1)
  let w2 :=
    if r.1 = MOVE_FREE ∧ r.2.playerClingDir = DIR4_NONE then
      { r.2 with playerY := wadd r.2.playerY 1 }
    else r.2
  let w3 :=
    if wsub w2.playerY w2.scrollY > 14 then { w2 with scrollY := wadd w2.scrollY 1 } else w2
  let w4 :=
    if wsub w3.playerX w3.scrollX < 12 ∧ w3.scrollX > 0 then
      { w3 with scrollX := wsub w3.scrollX 1 }
    else w3
  { w4 with playerClingDir := DIR4_NONE }

/-- Block `if (isPlayerSlidingEast)` of `MovePlayer`. -/
def MovePlayerSlideEast (g : Glue) (w : World) : World :=
  let w1 := if w.playerClingDir = DIR4_NONE then { w with playerX := wadd w.playerX 1 } else w
  let r := TestPlayerMove g w1 DIR4_SOUTH w1.playerX (wadd w1.playerY 1)
  let w2 :=
    if r.1 = MOVE_FREE ∧ r.2.playerClingDir = DIR4_NONE then
      { r.2 with playerY := wadd r.2.playerY 1 }
    else r.2
  let w3 :=
    if wsub w2.playerY w2.scrollY > 14 then { w2 with scrollY := wadd w2.scrollY 1 } else w2
  let w4 :=
    if wsub w3.playerX w3.scrollX > 23 ∧ wsub w3.mapWidth g.SCROLLW > w3.scrollX then
      { w3 with scrollX := wadd w3.scrollX 1 }
    else w3
  { w4 with playerClingDir := DIR4_NONE }

/-- Block `if (!isPlayerSlidingEast || !isPlayerSlidingWest)` of `MovePlayer`. -/
def MovePlayerSlide (g : Glue) (w : World) : World :=
  if w.isPlayerSlidingEast = false ∨ w.isPlayerSlidingWest = false then
    let w1 := if w.isPlayerSlidingWest = true then MovePlayerSlideWest g w else w
    if w1.isPlayerSlidingEast = true then MovePlayerSlideEast g w1 else w1
  else w

/-- The statements of `MovePlayer` that start a cling in direction `dir`. -/
def MovePlayerClingStart (w : World) (dir : Dir4) : World :=
  { w with
    playerClingDir := dir, isPlayerRecoiling := false, playerMomentumNorth := 0,
    isPlayerFalling := false, playerJumpTime := 0, playerFallTime := 0,
    cmdJumpLatch := w.cmdJump }

/-- The statement `if (playerX < 1) ... else ...` of the west block of
`MovePlayer`: the value of `horizmove` after it and the globals. -/
def MovePlayerWestStep (g : Glue) (junk : MoveResult) (w : World) : MoveResult × World :=
  if w.playerX < 1 then (junk, { w with playerX := wadd w.playerX 1 })
  else
    let r := TestPlayerMove g w DIR4_WEST w.playerX w.playerY
    if r.1 = MOVE_BLOCKED then
      let w1 := { r.2 with playerX := wadd r.2.playerX 1 }
      let r2 := TestPlayerMove g w1 DIR4_SOUTH w1.playerX (wadd w1.playerY 1)
      if r2.1 = MOVE_FREE ∧ r2.2.canPlayerCling ≠ 0 then
        (r.1, MovePlayerClingStart r2.2 DIR4_WEST)
      else (r.1, r2.2)
    else r

/-- The statements of `MovePlayer` under
`if (cmdWest && playerClingDir == DIR4_NONE && !cmdEast)`. -/
def MovePlayerWestWalk (g : Glue) (junk : MoveResult) (w : World) : World :=
  let rs := TestPlayerMove g w DIR4_SOUTH w.playerX (wadd w.playerY 1)
  let w1 :=
    if rs.2.playerFaceDir = DIR4_WEST then { rs.2 with playerX := wsub rs.2.playerX 1 }
    else { rs.2 with playerFaceDir := DIR4_WEST }
  let rh := MovePlayerWestStep g junk { w1 with playerBaseFrame := g.PLAYER_BASE_WEST }
  if rh.1 = MOVE_SLOPED then { rh.2 with playerY := wsub rh.2.playerY 1 }
  else if rs.1 = MOVE_SLOPED then
    let r3 := TestPlayerMove g rh.2 DIR4_SOUTH rh.2.playerX (wadd rh.2.playerY 1)
    if r3.1 = MOVE_FREE then
      { r3.2 with isPlayerFalling := false, playerJumpTime := 0,
                  playerY := wadd r3.2.playerY 1 }
    else r3.2
  else rh.2

/-- The statement `if (mapWidth - 4 < playerX) ... else ...` of the east block
of `MovePlayer`: the value of `horizmove` after it and the globals. -/
def MovePlayerEastStep (g : Glue) (junk : MoveResult) (w : World) : MoveResult × World :=
  if wsub w.mapWidth 4 < w.playerX then (junk, { w with playerX := wsub w.playerX 1 })
  else
    let r := TestPlayerMove g w DIR4_EAST w.playerX w.playerY
    if r.1 = MOVE_BLOCKED then
      let w1 := { r.2 with playerX := wsub r.2.playerX 1 }
      let r2 := TestPlayerMove g w1 DIR4_SOUTH w1.playerX (wadd w1.playerY 1)
      if r2.1 = MOVE_FREE ∧ r2.2.canPlayerCling ≠ 0 then
        (r.1, MovePlayerClingStart r2.2 DIR4_EAST)
      else (r.1, r2.2)
    else r

/-- The statements of `MovePlayer` under
`if (cmdEast && playerClingDir == DIR4_NONE && !cmdWest)`. -/
def MovePlayerEastWalk (g : Glue) (junk : MoveResult) (w : World) : World :=
  let rs := TestPlayerMove g w DIR4_SOUTH w.playerX (wadd w.playerY 1)
  let w1 :=
    if rs.2.playerFaceDir = DIR4_EAST then { rs.2 with playerX := wadd rs.2.playerX 1 }
    else { rs.2 with playerFaceDir := DIR4_EAST }
  let rh := MovePlayerEastStep g junk { w1 with playerBaseFrame := g.PLAYER_BASE_EAST }
  if rh.1 = MOVE_SLOPED then { rh.2 with playerY := wsub rh.2.playerY 1 }
  else if rs.1 = MOVE_SLOPED then
    let r3 := TestPlayerMove g rh.2 DIR4_SOUTH rh.2.playerX (wadd rh.2.playerY 1)
    if r3.1 = MOVE_FREE then
      { r3.2 with isPlayerFalling := false, playerFallTime := 0,
                  playerY := wadd r3.2.playerY 1 }
    else r3.2
  else rh.2

/-- Table `jumptable` of `MovePlayer`. -/
def jumptable : List Int := [-2, -1, -1, -1, -1, -1, -1, 0, 0, 0]

/-- Statement `if (cmdJump) cmdJumpLatch = true;`. -/
def latchJump (w : World) : World :=
  if w.cmdJump = true then { w with cmdJumpLatch := true } else w

/-- The statements of `MovePlayer` under `if (playerMomentumNorth > 13)`. -/
def MovePlayerRecoilFast (g : Glue) (w : World) : World :=
  let w1 := { w with playerMomentumNorth := wsub w.playerMomentumNorth 1 }
  let r := TestPlayerMove g w1 DIR4_NORTH w1.playerX w1.playerY
  if r.1 = MOVE_FREE then { r.2 with playerY := wsub r.2.playerY 1 }
  else { r.2 with isPlayerLongJumping := false }

/-- Statement `if (playerMomentumNorth < 10) isPlayerLongJumping = false;` of `MovePlayer`. -/
def MovePlayerRecoilShort (w : World) : World :=
  if w.playerMomentumNorth < 10 then { w with isPlayerLongJumping := false } else w

/-- Statement `if (playerMomentumNorth > 1) playerY--;` of `MovePlayer`. -/
def MovePlayerRecoilUp (w : World) : World :=
  if w.playerMomentumNorth > 1 then { w with playerY := wsub w.playerY 1 } else w

/-- Statement `if (playerMomentumNorth > 13) ...` of `MovePlayer`. -/
def MovePlayerRecoilFaster (g : Glue) (w : World) : World :=
  if w.playerMomentumNorth > 13 then MovePlayerRecoilFast g w else w

/-- Statement `if (playerMomentumNorth == 0) ...` of the recoil branch of `MovePlayer`. -/
def MovePlayerRecoilEnd (w : World) : World :=
  if w.playerMomentumNorth = 0 then
    { w with playerJumpTime := 0, isPlayerRecoiling := false, playerFallTime := 0,
             isPlayerLongJumping := false, cmdJumpLatch := true }
  else w

/-- The branch `if (isPlayerRecoiling && playerMomentumNorth > 0)` of the jump
block of `MovePlayer`. -/
def MovePlayerRecoil (g : Glue) (w : World) : World :=
  MovePlayerRecoilEnd (MovePlayerRecoilFaster g (MovePlayerRecoilUp (MovePlayerRecoilShort
    { w with playerMomentumNorth := wsub w.playerMomentumNorth 1 })))

/-- The two statements of the jump block of `MovePlayer` that let go of a wall
or turn the clinging player. -/
def MovePlayerJumpOffWall (g : Glue) (w : World) : World :=
  let w1 :=
    if w.playerClingDir = DIR4_WEST then
      if w.cmdWest = true then { w with playerClingDir := DIR4_NONE }
      else if w.cmdEast = true then { w with playerBaseFrame := g.PLAYER_BASE_EAST }
      else w
    else w
  if w1.playerClingDir = DIR4_EAST then
    if w1.cmdEast = true then { w1 with playerClingDir := DIR4_NONE }
    else if w1.cmdWest = true then { w1 with playerBaseFrame := g.PLAYER_BASE_WEST }
    else w1
  else w1

/-- Statement `if (playerClingDir == DIR4_NONE) playerY += jumptable[playerJumpTime];`
of `MovePlayer`; an index past the table reads as 0. -/
def MovePlayerJumpLift (w : World) : World :=
  if w.playerClingDir = DIR4_NONE then
    { w with playerY := waddInt w.playerY (jumptable.getD w.playerJumpTime 0) }
  else w

/-- Statement `if (playerJumpTime == 0 && TestPlayerMove(DIR4_NORTH, playerX,
playerY + 1) != MOVE_FREE) playerY++;` of `MovePlayer`. -/
def MovePlayerJumpBump (g : Glue) (w : World) : World :=
  if w.playerJumpTime = 0 then
    let r := TestPlayerMove g w DIR4_NORTH w.playerX (wadd w.playerY 1)
    if r.1 ≠ MOVE_FREE then { r.2 with playerY := wadd r.2.playerY 1 } else r.2
  else w

/-- Statement `isPlayerRecoiling = false;` of `MovePlayer`. -/
def MovePlayerJumpCalm (w : World) : World :=
  { w with isPlayerRecoiling := false }

/-- The `else` branch of the jump block of `MovePlayer`, which moves the player
by `jumptable[playerJumpTime]`. -/
def MovePlayerJumpRise (g : Glue) (w : World) : World :=
  MovePlayerJumpCalm (MovePlayerJumpBump g (MovePlayerJumpLift (MovePlayerJumpOffWall g w)))

/-- The statements of `MovePlayer` for a head that hits the ceiling. -/
def MovePlayerHeadHit (g : Glue) (w : World) : World :=
  let w1 := { w with playerMomentumNorth := 0, isPlayerRecoiling := false }
  let r := TestPlayerMove g w1 DIR4_NORTH w1.playerX (wadd w1.playerY 1)
  let w2 := if r.1 ≠ MOVE_FREE then { r.2 with playerY := wadd r.2.playerY 1 } else r.2
  let w3 := latchJump { w2 with playerY := wadd w2.playerY 1, isPlayerFalling := true }
  { w3 with playerFallTime := 0, isPlayerLongJumping := false }

/-- The end of the jump block of `MovePlayer`, from `playerClingDir = DIR4_NONE`
on.  `playerJumpTime` is a byte. -/
def MovePlayerJumpEnd (g : Glue) (w : World) : World :=
  let w1 := { w with playerClingDir := DIR4_NONE }
  let r := TestPlayerMove g w1 DIR4_NORTH w1.playerX w1.playerY
  let w2 := if r.1 ≠ MOVE_FREE then MovePlayerHeadHit g r.2 else r.2
  if w2.isPlayerRecoiling = false then
    let w3 := { w2 with playerJumpTime := (w2.playerJumpTime + 1) % 256 }
    if w2.playerJumpTime > 6 then
      let w4 := latchJump { w3 with isPlayerFalling := true }
      { w4 with playerFallTime := 0 }
    else w3
  else w2

/-- The jump block of `MovePlayer`. -/
def MovePlayerJump (g : Glue) (w : World) : World :=
  if w.playerMomentumNorth ≠ 0 ∨
      (w.cmdJump = true ∧ w.isPlayerFalling = false ∧ w.cmdJumpLatch = false) ∨
      (w.playerClingDir ≠ DIR4_NONE ∧ w.cmdJump = true ∧ w.cmdJumpLatch = false) then
    if w.isPlayerRecoiling = true ∧ w.playerMomentumNorth > 0 then
      MovePlayerJumpEnd g (MovePlayerRecoil g w)
    else MovePlayerJumpEnd g (MovePlayerJumpRise g w)
  else w

/-- The statements of `MovePlayer` for a landing. -/
def MovePlayerLand (w : World) : World :=
  { w with
    isPlayerFalling := false, playerY := wsub w.playerY 1, playerJumpTime := 0,
    cmdJumpLatch := w.cmdJump, playerFallTime := 0 }

/-- The statements of `MovePlayer` under `if (playerFallTime > 3)`. -/
def MovePlayerFallFast (g : Glue) (w : World) : World :=
  let w1 := { w with playerY := wadd w.playerY 1, scrollY := wadd w.scrollY 1 }
  let r := TestPlayerMove g w1 DIR4_SOUTH w1.playerX w1.playerY
  if r.1 ≠ MOVE_FREE then
    let w2 := MovePlayerLand r.2
    { w2 with scrollY := wsub w2.scrollY 1 }
  else r.2

/-- Statement `if (playerFallTime > 3) ...` of the fall block of `MovePlayer`. -/
def MovePlayerFallFaster (g : Glue) (w : World) : World :=
  if w.playerFallTime > 3 then MovePlayerFallFast g w else w

/-- Statement `if (playerFallTime < 25) playerFallTime++;` of `MovePlayer`. -/
def MovePlayerFallTick (w : World) : World :=
  if w.playerFallTime < 25 then { w with playerFallTime := w.playerFallTime + 1 } else w

/-- The first statements of `MovePlayer` under
`if (isPlayerFalling && !isPlayerRecoiling)`: one row down and the landing test. -/
def MovePlayerFallDown (g : Glue) (w : World) : World :=
  let r := TestPlayerMove g { w with playerY := wadd w.playerY 1 } DIR4_SOUTH w.playerX
    (wadd w.playerY 1)
  if r.1 ≠ MOVE_FREE then MovePlayerLand r.2 else r.2

/-- Statement `if (isPlayerFalling && !isPlayerRecoiling) ...` of the fall block
of `MovePlayer`. -/
def MovePlayerFallStep (g : Glue) (w : World) : World :=
  if w.isPlayerFalling = true ∧ w.isPlayerRecoiling = false then
    MovePlayerFallTick (MovePlayerFallFaster g (MovePlayerFallDown g w))
  else w

/-- Statement `if (isPlayerFalling && cmdJump) cmdJumpLatch = true;` of `MovePlayer`. -/
def MovePlayerFallLatch (w : World) : World :=
  if w.isPlayerFalling = true ∧ w.cmdJump = true then { w with cmdJumpLatch := true } else w

/-- Statement `if ((!cmdJump || cmdJumpLatch) && !isPlayerFalling) ...` of `MovePlayer`. -/
def MovePlayerFallBegin (w : World) : World :=
  if (w.cmdJump = false ∨ w.cmdJumpLatch = true) ∧ w.isPlayerFalling = false then
    { w with isPlayerFalling := true, playerFallTime := 0 }
  else w

/-- Statement `if (isPlayerFalling && playerFallTime == 1 && !isPlayerRecoiling) playerY--;`
of `MovePlayer`. -/
def MovePlayerFallHold (w : World) : World :=
  if w.isPlayerFalling = true ∧ w.playerFallTime = 1 ∧ w.isPlayerRecoiling = false then
    { w with playerY := wsub w.playerY 1 }
  else w

/-- The fall block of `MovePlayer`: `if (playerClingDir == DIR4_NONE)` after
the jump block. -/
def MovePlayerFall (g : Glue) (w : World) : World :=
  if w.playerClingDir = DIR4_NONE then
    MovePlayerFallHold (MovePlayerFallStep g (MovePlayerFallBegin (MovePlayerFallLatch w)))
  else w

/-- Block `if (cmdWest && playerClingDir == DIR4_NONE && !cmdEast)` of `MovePlayer`. -/
def MovePlayerWest (g : Glue) (junk : MoveResult) (w : World) : World :=
  if w.cmdWest = true ∧ w.playerClingDir = DIR4_NONE ∧ w.cmdEast = false then
    MovePlayerWestWalk g junk w
  else w

/-- Block `if (cmdEast && playerClingDir == DIR4_NONE && !cmdWest)` of `MovePlayer`. -/
def MovePlayerEast (g : Glue) (junk : MoveResult) (w : World) : World :=
  if w.cmdEast = true ∧ w.playerClingDir = DIR4_NONE ∧ w.cmdWest = false then
    MovePlayerEastWalk g junk w
  else w

/-- Statement `if (playerClingDir != DIR4_NONE && cmdJumpLatch && !cmdJump)
cmdJumpLatch = false;` of `MovePlayer`. -/
def MovePlayerUnlatch (w : World) : World :=
  if w.playerClingDir ≠ DIR4_NONE ∧ w.cmdJumpLatch = true ∧ w.cmdJump = false then
    { w with cmdJumpLatch := false }
  else w

/-- The first statements of the `else` branch of the crouch test of `MovePlayer`:
`playerBombDir = DIR4_NONE` and the south test made for its side effects. -/
def MovePlayerGroundTest (g : Glue) (w : World) : World :=
  (TestPlayerMove g { w with playerBombDir := DIR4_NONE } DIR4_SOUTH w.playerX
    (wadd w.playerY 1)).2

/-- The `else` branch of the crouch test of `MovePlayer`: slide, walk, jump, fall. -/
def MovePlayerMove (g : Glue) (junk : MoveResult) (w : World) : World :=
  MovePlayerFall g (MovePlayerJump g (MovePlayerUnlatch (MovePlayerEast g junk
    (MovePlayerWest g junk (MovePlayerSlide g (MovePlayerGroundTest g w))))))

/-- The statements of `MovePlayer` under `if (cmdNorth && ...)` in the look branch. -/
def MovePlayerLookNorth (g : Glue) (clingslip : Bool) (w : World) : World :=
  let w1 :=
    if w.scrollY > 0 ∧ wsub w.playerY w.scrollY < wsub g.SCROLLH 1 then
      { w with scrollY := wsub w.scrollY 1 }
    else w
  let w2 := if clingslip = true then { w1 with scrollY := wadd w1.scrollY 1 } else w1
  if w2.playerClingDir ≠ DIR4_NONE then { w2 with playerFrame := g.PLAYER_CLING_NORTH }
  else { w2 with playerFrame := g.PLAYER_LOOK_NORTH }

/-- The statements of `MovePlayer` under `else if (cmdSouth)` in the look branch. -/
def MovePlayerLookSouth (g : Glue) (clingslip : Bool) (w : World) : World :=
  let w1 :=
    if wadd w.scrollY 3 < w.playerY then
      let w2 := { w with scrollY := wadd w.scrollY 1 }
      if (clingslip = true ∨ w2.isPlayerSlidingEast = true ∨ w2.isPlayerSlidingWest = true) ∧
          wadd w2.scrollY 3 < w2.playerY then
        { w2 with scrollY := wadd w2.scrollY 1 }
      else w2
    else w
  if w1.playerClingDir ≠ DIR4_NONE then { w1 with playerFrame := g.PLAYER_CLING_SOUTH }
  else { w1 with playerFrame := g.PLAYER_LOOK_SOUTH }

/-- The look branch of the frame choice of `MovePlayer`, up to its `return`. -/
def MovePlayerLook (g : Glue) (clingslip : Bool) (w : World) : World :=
  let w0 := { w with idlecount := 0 }
  if w0.cmdNorth = true ∧ w0.isPlayerNearTransporter = false ∧
      w0.isPlayerNearHintGlobe = false then
    MovePlayerLookNorth g clingslip w0
  else if w0.cmdSouth = true then MovePlayerLookSouth g clingslip w0
  else w0

/-- The fall branch of the frame choice of `MovePlayer`. -/
def MovePlayerFallFrame (g : Glue) (w : World) : World :=
  let w0 := { w with idlecount := 0 }
  if w0.isPlayerRecoiling = false ∧ w0.isPlayerFalling = false ∧ w0.playerJumpTime > 6 then
    { w0 with playerFrame := g.PLAYER_FALL }
  else if w0.playerFallTime ≥ 10 ∧ w0.playerFallTime < 25 then
    { w0 with playerFrame := g.PLAYER_FALL_LONG }
  else if w0.playerFallTime = 25 then
    { w0 with playerFrame := g.PLAYER_FALL_SEVERE, queuePlayerDizzy := true }
  else if w0.isPlayerFalling = false then { w0 with playerFrame := g.PLAYER_JUMP }
  else { w0 with playerFrame := g.PLAYER_FALL }

/-- The jump branch of the frame choice of `MovePlayer`. -/
def MovePlayerJumpFrame (g : Glue) (w : World) : World :=
  let w1 := { w with idlecount := 0, playerFrame := g.PLAYER_JUMP }
  let w2 :=
    if w1.isPlayerRecoiling = true ∧ w1.isPlayerLongJumping = true then
      { w1 with playerFrame := g.PLAYER_JUMP_LONG }
    else w1
  if w2.playerMomentumNorth < 3 ∧ w2.isPlayerRecoiling = true then
    { w2 with playerFrame := g.PLAYER_FALL }
  else w2

/-- The statements of `MovePlayer` under
`if (!cmdWest && !cmdEast && !isPlayerFalling)` in the idle branch. -/
def MovePlayerIdleCount (g : Glue) (w : World) : World :=
  let w1 := { w with idlecount := wadd w.idlecount 1 }
  if w1.idlecount > 100 ∧ w1.idlecount < 110 then { w1 with playerFrame := g.PLAYER_LOOK_NORTH }
  else if w1.idlecount > 139 ∧ w1.idlecount < 150 then
    { w1 with playerFrame := g.PLAYER_LOOK_SOUTH }
  else if w1.idlecount = 180 then { w1 with playerFrame := g.PLAYER_SHAKE_1 }
  else if w1.idlecount = 181 then { w1 with playerFrame := g.PLAYER_SHAKE_2 }
  else if w1.idlecount = 182 then { w1 with playerFrame := g.PLAYER_SHAKE_3 }
  else if w1.idlecount = 183 then { w1 with playerFrame := g.PLAYER_SHAKE_2 }
  else if w1.idlecount = 184 then { w1 with playerFrame := g.PLAYER_SHAKE_1 }
  else if w1.idlecount = 185 then { w1 with idlecount := 0 }
  else w1

/-- Statement `if (!cmdWest && !cmdEast && !isPlayerFalling) ...` of the idle
branch of `MovePlayer`. -/
def MovePlayerIdleTick (g : Glue) (w : World) : World :=
  if w.cmdWest = false ∧ w.cmdEast = false ∧ w.isPlayerFalling = false then
    MovePlayerIdleCount g w
  else w

/-- The last statement of the idle branch of `MovePlayer`, the random blink;
`rnd` is the value of `random(50)`, kept in a byte. -/
def MovePlayerIdleBlink (g : Glue) (rnd : Nat) (w : World) : World :=
  if w.playerFrame ≠ g.PLAYER_LOOK_NORTH ∧ w.playerFrame ≠ g.PLAYER_LOOK_SOUTH ∧
      (rnd % 256 = 0 ∨ rnd % 256 = 31) then
    { w with playerFrame := g.PLAYER_STAND_BLINK }
  else w

/-- The idle branch of the frame choice of `MovePlayer`. -/
def MovePlayerIdle (g : Glue) (rnd : Nat) (w : World) : World :=
  MovePlayerIdleBlink g rnd (MovePlayerIdleTick g { w with playerFrame := g.PLAYER_STAND })

/-- The walk branch of the frame choice of `MovePlayer`. -/
def MovePlayerWalkFrame (g : Glue) (w : World) : World :=
  let w1 := { w with idlecount := 0 }
  let w2 :=
    if w1.movecount % 2 ≠ 0 then { w1 with playerFrame := wadd w1.playerFrame 1 } else w1
  if w2.playerFrame > g.PLAYER_WALK_4 then { w2 with playerFrame := g.PLAYER_WALK_1 } else w2

/-- The cling branches of the frame choice of `MovePlayer`; `away` is the
command that points away from the wall. -/
def MovePlayerClingFrame (g : Glue) (away : Bool) (w : World) : World :=
  if away = true then { w with idlecount := 0, playerFrame := g.PLAYER_CLING_OPPOSITE }
  else { w with idlecount := 0, playerFrame := g.PLAYER_CLING }

/-- The frame choice of `MovePlayer`: whether it ends in the `return` of the
look branch, and the globals after it. -/
def MovePlayerFrame (g : Glue) (rnd : Nat) (clingslip : Bool) (w : World) : Bool × World :=
  if w.playerBombDir ≠ DIR4_NONE then
    (false, { w with idlecount := 0, playerFrame := g.PLAYER_CROUCH })
  else if (w.cmdNorth = true ∨ w.cmdSouth = true) ∧ w.cmdWest = false ∧ w.cmdEast = false ∧
      w.isPlayerFalling = false ∧ w.cmdJump = false then
    (true, MovePlayerLook g clingslip w)
  else if w.playerClingDir = DIR4_WEST then (false, MovePlayerClingFrame g w.cmdEast w)
  else if w.playerClingDir = DIR4_EAST then (false, MovePlayerClingFrame g w.cmdWest w)
  else if (w.isPlayerFalling = true ∧ w.isPlayerRecoiling = false) ∨
      (w.playerJumpTime > 6 ∧ w.isPlayerFalling = false) then
    (false, MovePlayerFallFrame g w)
  else if (w.cmdJump = true ∧ w.cmdJumpLatch = false) ∨ w.isPlayerRecoiling = true then
    (false, MovePlayerJumpFrame g w)
  else if w.cmdWest = w.cmdEast then (false, MovePlayerIdle g rnd w)
  else if w.isPlayerFalling = false then (false, MovePlayerWalkFrame g w)
  else (false, w)

/-- Statement `if (playerY - scrollY > 14) scrollY++;` of `MovePlayer`. -/
def MovePlayerScrollDown (w : World) : World :=
  if wsub w.playerY w.scrollY > 14 then { w with scrollY := wadd w.scrollY 1 } else w

/-- Statement `if (playerMomentumNorth > 10 && playerY - scrollY < 7 && scrollY > 0)
scrollY--;` of `MovePlayer`. -/
def MovePlayerScrollUpFast (w : World) : World :=
  if w.playerMomentumNorth > 10 ∧ wsub w.playerY w.scrollY < 7 ∧ w.scrollY > 0 then
    { w with scrollY := wsub w.scrollY 1 }
  else w

/-- Statement `if (playerY - scrollY < 7 && scrollY > 0) scrollY--;` of `MovePlayer`. -/
def MovePlayerScrollUp (w : World) : World :=
  if wsub w.playerY w.scrollY < 7 ∧ w.scrollY > 0 then { w with scrollY := wsub w.scrollY 1 }
  else w

/-- Statement `if (clingslip && playerY - scrollY > 14) ... else ...` at the end
of `MovePlayer`. -/
def MovePlayerScrollSlip (clingslip : Bool) (w : World) : World :=
  if clingslip = true ∧ wsub w.playerY w.scrollY > 14 then
    { w with scrollY := wadd w.scrollY 1 }
  else MovePlayerScrollUp (MovePlayerScrollUpFast w)

/-- The vertical scroll statements at the end of `MovePlayer`. -/
def MovePlayerScrollY (clingslip : Bool) (w : World) : World :=
  MovePlayerScrollSlip clingslip (MovePlayerScrollDown w)

/-- The horizontal scroll statement at the end of `MovePlayer`. -/
def MovePlayerScrollX (g : Glue) (w : World) : World :=
  if wsub w.playerX w.scrollX > 23 ∧ wsub w.mapWidth g.SCROLLW > w.scrollX ∧
      w.mapYPower > 5 then
    { w with scrollX := wadd w.scrollX 1 }
  else if wsub w.playerX w.scrollX < 12 ∧ w.scrollX > 0 then
    { w with scrollX := wsub w.scrollX 1 }
  else w

/-- The scroll statements at the end of `MovePlayer`. -/
def MovePlayerScroll (g : Glue) (clingslip : Bool) (w : World) : World :=
  MovePlayerScrollX g (MovePlayerScrollY clingslip w)

/-- Function `MovePlayer`, after its first `return` and `MovePlayerPush()`, for
a player who is not pushed. -/
def MovePlayerActs (g : Glue) (o : Outside) (junk : MoveResult) (rnd : Nat) (w : World) :
    World :=
  let rc := MovePlayerCling g w
  let w2 := MovePlayerBomb g o rc.2
  let w3 :=
    if w2.playerJumpTime = 0 ∧ w2.cmdBomb = true ∧ w2.isPlayerFalling = false ∧
        w2.playerClingDir = DIR4_NONE ∧ (w2.cmdJump = false ∨ w2.cmdJumpLatch = true) then
      MovePlayerCrouch g w2
    else MovePlayerMove g junk w2
  let rf := MovePlayerFrame g rnd rc.1 w3
  if rf.1 = true then rf.2 else MovePlayerScroll g rc.1 rf.2

/-- Function `MovePlayer`. -/
def MovePlayer (g : Glue) (o : Outside) (junk : MoveResult) (rnd : Nat) (w : World) : World :=
  let w0 := { w with canPlayerCling := 0 }
  if w0.playerDeadTime ≠ 0 ∨ w0.activeTransporter ≠ 0 ∨ w0.scooterMounted ≠ 0 ∨
      w0.playerDizzyLeft ≠ 0 ∨ w0.blockActionCmds = true then w0
  else
    let w1 := MovePlayerPush g { w0 with movecount := wadd w0.movecount 1 }
    if w1.isPlayerPushed = true then { w1 with playerClingDir := DIR4_NONE }
    else MovePlayerActs g o junk rnd w1

/-! ## The player's dizziness -/

/-- Table `shakeframes` of `ProcessPlayerDizzy`. -/
def shakeframes (g : Glue) : List Nat :=
  [g.PLAYER_SHAKE_1, g.PLAYER_SHAKE_2, g.PLAYER_SHAKE_3, g.PLAYER_SHAKE_2,
   g.PLAYER_SHAKE_1, g.PLAYER_SHAKE_2, g.PLAYER_SHAKE_3, g.PLAYER_SHAKE_2,
   g.PLAYER_SHAKE_1]

/-- Statement `if (playerClingDir != DIR4_NONE) ...` of `ProcessPlayerDizzy`. -/
def ProcessPlayerDizzyCling (w : World) : World :=
  if w.playerClingDir ≠ DIR4_NONE then { w with queuePlayerDizzy := false, playerDizzyLeft := 0 }
  else w

/-- Statement `if (queuePlayerDizzy && TestPlayerMove(...) != MOVE_FREE) ...` of
`ProcessPlayerDizzy`; the south test is made only for a queued dizziness. -/
def ProcessPlayerDizzyStart (g : Glue) (w : World) : World :=
  if w.queuePlayerDizzy = true then
    let r := TestPlayerMove g w DIR4_SOUTH w.playerX (wadd w.playerY 1)
    if r.1 ≠ MOVE_FREE then { r.2 with queuePlayerDizzy := false, playerDizzyLeft := 8 }
    else r.2
  else w

/-- Statement `if (playerDizzyLeft != 0) ...` of `ProcessPlayerDizzy`; an index
past the table reads as 0. -/
def ProcessPlayerDizzyShake (g : Glue) (w : World) : World :=
  if w.playerDizzyLeft ≠ 0 then
    let w1 :=
      { w with
        playerFrame := (shakeframes g).getD w.playerDizzyLeft 0,
        playerDizzyLeft := wsub w.playerDizzyLeft 1, isPlayerFalling := false }
    if w1.playerDizzyLeft > 8 then ClearPlayerDizzy w1 else w1
  else w

/-- Function `ProcessPlayerDizzy`. -/
def ProcessPlayerDizzy (g : Glue) (w : World) : World :=
  ProcessPlayerDizzyShake g (ProcessPlayerDizzyStart g (ProcessPlayerDizzyCling w))

/-! ## Loading the map, writing a tile -/

/-- The statements `mapWidth = getw(fp); switch (mapWidth) ...` of `LoadMapData`
for a file whose second word is `width`; the `switch` has no `default` case. -/
def LoadMapDataWidth (w : World) (width : Nat) : World :=
  let w1 := { w with mapWidth := width }
  if width = 1 <<< 5 then { w1 with mapYPower := 5 }
  else if width = 1 <<< 6 then { w1 with mapYPower := 6 }
  else if width = 1 <<< 7 then { w1 with mapYPower := 7 }
  else if width = 1 <<< 8 then { w1 with mapYPower := 8 }
  else if width = 1 <<< 9 then { w1 with mapYPower := 9 }
  else if width = 1 <<< 10 then { w1 with mapYPower := 10 }
  else if width = 1 <<< 11 then { w1 with mapYPower := 11 }
  else w1

/-- Function `SetMapTile(value, x, y)`: `*(mapData.w + x + (y << mapYPower)) = value`. -/
def SetMapTile (w : World) (value x y : Nat) : World :=
  { w with
    mapData := fun c =>
      if c = (x : Int) + ((wshl y w.mapYPower : Nat) : Int) then value else w.mapData c }

/-! ## Explosions and actors

Functions that the modelled code calls and that are not translated here are
taken as they come: `AddScoreForSprite`, which none of the source files at hand
defines; the tick function behind an `ActorTickFunction` pointer; `TouchPlayer`;
`DrawSprite`, which writes the display.  Each is given by what a call does to
the globals, and a statement made for every such choice holds whatever the
callee does. -/

/-- What a call of each function that `CanBeExploded` and `ProcessActor` call
and that is not translated here does to the globals; `TouchPlayer` also
returns a value. -/
structure ActorCalls where
  AddScoreForSprite : Nat → World → World
  tickfunc : ActorTickFunction → Nat → World → World
  TouchPlayer : Nat → Nat → Nat → Nat → Nat → World → Bool × World
  DrawSprite : Nat → Nat → Nat → Nat → Nat → World → World

/-- The case labels of the `switch` of `CanBeExploded`, in the order of the source. -/
def explodableSprites (g : Glue) : List Nat :=
  [g.SPR_ARROW_PISTON_W, g.SPR_ARROW_PISTON_E, g.SPR_SPIKES_FLOOR, g.SPR_SPIKES_FLOOR_RECIP,
   g.SPR_SAW_BLADE, g.SPR_CABBAGE, g.SPR_SPEAR, g.SPR_JUMPING_BULLET,
   g.SPR_STONE_HEAD_CRUSHER, g.SPR_GHOST, g.SPR_MOON, g.SPR_HEART_PLANT, g.SPR_BABY_GHOST,
   g.SPR_ROAMER_SLUG, g.SPR_BABY_GHOST_EGG, g.SPR_SHARP_ROBOT_FLOOR, g.SPR_SHARP_ROBOT_CEIL,
   g.SPR_CLAM_PLANT, g.SPR_PARACHUTE_BALL, g.SPR_SPIKES_E, g.SPR_SPIKES_E_RECIP,
   g.SPR_SPIKES_W, g.SPR_SPARK, g.SPR_EYE_PLANT, g.SPR_RED_JUMPER, g.SPR_SUCTION_WALKER,
   g.SPR_SPIT_WALL_PLANT_E, g.SPR_SPIT_WALL_PLANT_W, g.SPR_SPITTING_TURRET,
   g.SPR_RED_CHOMPER, g.SPR_PINK_WORM, g.SPR_HINT_GLOBE, g.SPR_PUSHER_ROBOT,
   g.SPR_SENTRY_ROBOT, g.SPR_PINK_WORM_SLIME, g.SPR_DRAGONFLY, g.SPR_BIRD, g.SPR_ROCKET,
   g.SPR_74, g.SPR_84, g.SPR_96]

/-- Statement `if (sprite == SPR_HINT_GLOBE) NewActor(ACT_SCORE_EFFECT_12800, x, y);`
of `CanBeExploded`. -/
def CanBeExplodedGlobe (g : Glue) (w : World) (sprite x y : Nat) : World :=
  if sprite = g.SPR_HINT_GLOBE then NewActor g w g.ACT_SCORE_EFFECT_12800 x y else w

/-- The statements of `CanBeExploded` under `if (sprite == SPR_EYE_PLANT)`. -/
def CanBeExplodedEyePlant (g : Glue) (w : World) (x y : Nat) : World :=
  let w1 :=
    if w.numEyePlants = 1 then
      NewActor g w g.ACT_SPEECH_WOW_50K (wsub w.playerX 1) (wsub w.playerY 5)
    else w
  let w2 := NewSpawner g (NewDecoration w1 g.SPR_SPARKLE_LONG 8 x y g.DIR8_STATIONARY 1)
    g.ACT_BOMB_IDLE x y
  { w2 with numEyePlants := wsub w2.numEyePlants 1 }

/-- The statements of `CanBeExploded` after `AddScoreForSprite(sprite)`. -/
def CanBeExplodedRest (g : Glue) (w : World) (sprite x y : Nat) : World :=
  if sprite = g.SPR_EYE_PLANT then CanBeExplodedEyePlant g w x y else w

/-- Function `CanBeExploded(sprite, frame, x, y)`: the value returned and the
globals after the call. -/
def CanBeExploded (g : Glue) (o : ActorCalls) (w : World) (sprite frame x y : Nat) :
    Bool × World :=
  if sprite ∈ explodableSprites g then
    if (sprite = g.SPR_SPIKES_FLOOR_RECIP ∨ sprite = g.SPR_SPIKES_E_RECIP) ∧ frame = 2 then
      (false, CanBeExplodedGlobe g w sprite x y)
    else
      (true, CanBeExplodedRest g
        (o.AddScoreForSprite sprite (NewShard (CanBeExplodedGlobe g w sprite x y) sprite frame x y))
        sprite x y)
  else (false, w)

/-- The loop of `IsNearExplosion` from slot `i` with `n` slots left. -/
def IsNearExplosionLoop (g : Glue) (w : World) (sprite frame x y : Nat) : Nat → Nat → Bool
  | 0, _ => false
  | n + 1, i =>
    if (w.explosions i).age = 0 then IsNearExplosionLoop g w sprite frame x y n (i + 1)
    else if IsIntersecting w g.SPR_EXPLOSION 0 (w.explosions i).x (w.explosions i).y
        sprite frame x y = true then true
    else IsNearExplosionLoop g w sprite frame x y n (i + 1)

/-- Function `IsNearExplosion(sprite, frame, x, y)`. -/
def IsNearExplosion (g : Glue) (w : World) (sprite frame x y : Nat) : Bool :=
  IsNearExplosionLoop g w sprite frame x y w.numExplosions 0

/-- Modelled from the spec: the values of the constants `MOVE_*` of `glue.h`, a
header that is not among the sources, as the words that `!result` and
`(word)TestSpriteMove(...) > 0` read in `AdjustActorMove`: `MOVE_FREE` is 0, the
value for which `!result` is 1, "the move was valid as-is". -/
def moveWord : MoveResult → Nat
  | MOVE_FREE => 0
  | MOVE_BLOCKED => 1
  | MOVE_SLOPED => 2

/-- The `width` local of `AdjustActorMove`: `*(actorInfoData + offset + 1)` with
`offset = *(actorInfoData + act->sprite)`. -/
def adjustWidth (w : World) (act : Actor) : Nat :=
  w.actorInfoData (w.actorInfoData act.sprite + 1)

/-- The west branch of `AdjustActorMove` after its two `return` statements, on
the actor `act`. -/
def AdjustActorMoveWestSettle (w : World) (act : Actor) : Actor :=
  if moveWord (TestSpriteMove w DIR4_SOUTH act.sprite act.frame act.x (wadd act.y 1)) > 0 then
    { act with private1 := 1 }
  else if TILE_SLOPED w (GetMapTile w (wadd act.x (adjustWidth w act)) (wadd act.y 1)) ≠ 0 ∧
      TILE_SLOPED w
        (GetMapTile w (wsub (wadd act.x (adjustWidth w act)) 1) (wadd act.y 2)) ≠ 0 then
    if ¬ (TILE_BLOCK_SOUTH w
        (GetMapTile w (wsub (wadd act.x (adjustWidth w act)) 1) (wadd act.y 1)) ≠ 0) then
      if ¬ (TILE_SLOPED w
          (GetMapTile w (wsub (wadd act.x (adjustWidth w act)) 1) (wadd act.y 1)) ≠ 0) then
        { act with private1 := 1, y := wadd act.y 1 }
      else { act with private1 := 1 }
    else act
  else if act.private1 = 0 then { act with x := wadd act.x 1 }
  else if act.acrophile = false ∧
      TestSpriteMove w DIR4_WEST act.sprite act.frame act.x (wadd act.y 1) = MOVE_FREE ∧
      ¬ (TILE_SLOPED w
        (GetMapTile w (wsub (wadd act.x (adjustWidth w act)) 1) (wadd act.y 1)) ≠ 0) then
    { act with x := wadd act.x 1, private1 := 0 }
  else act

/-- The west branch of `AdjustActorMove` on the actor `act`. -/
def AdjustActorMoveWest (w : World) (act : Actor) : Actor :=
  let result := TestSpriteMove w DIR4_WEST act.sprite act.frame act.x act.y
  let act1 := { act with private1 := if moveWord result = 0 then 1 else 0 }
  if act1.private1 = 0 ∧ result ≠ MOVE_SLOPED then { act1 with x := wadd act1.x 1 }
  else if result = MOVE_SLOPED then { act1 with private1 := 1, y := wsub act1.y 1 }
  else AdjustActorMoveWestSettle w act1

/-- The east branch of `AdjustActorMove` after its two `return` statements, on
the actor `act`. -/
def AdjustActorMoveEastSettle (w : World) (act : Actor) : Actor :=
  if moveWord (TestSpriteMove w DIR4_SOUTH act.sprite act.frame act.x (wadd act.y 1)) > 0 then
    { act with private2 := 1 }
  else if TILE_SLOPED w (GetMapTile w (wsub act.x 1) (wadd act.y 1)) ≠ 0 ∧
      TILE_SLOPED w (GetMapTile w act.x (wadd act.y 2)) ≠ 0 then
    if ¬ (TILE_BLOCK_SOUTH w (GetMapTile w act.x (wadd act.y 1)) ≠ 0) then
      if ¬ (TILE_SLOPED w (GetMapTile w act.x (wadd act.y 1)) ≠ 0) then
        { act with private2 := 1, y := wadd act.y 1 }
      else { act with private2 := 1 }
    else act
  else if act.private2 = 0 then { act with x := wsub act.x 1 }
  else if act.acrophile = false ∧
      TestSpriteMove w DIR4_EAST act.sprite act.frame act.x (wadd act.y 1) = MOVE_FREE ∧
      ¬ (TILE_SLOPED w (GetMapTile w act.x (wadd act.y 1)) ≠ 0) then
    { act with x := wsub act.x 1, private2 := 0 }
  else act

/-- The `else` branch of `AdjustActorMove`, taken for every `dir` other than
`DIR4_WEST`, on the actor `act`. -/
def AdjustActorMoveEast (w : World) (act : Actor) : Actor :=
  let result := TestSpriteMove w DIR4_EAST act.sprite act.frame act.x act.y
  let act1 := { act with private2 := if moveWord result = 0 then 1 else 0 }
  if act1.private2 = 0 ∧ result ≠ MOVE_SLOPED then { act1 with x := wsub act1.x 1 }
  else if result = MOVE_SLOPED then { act1 with private2 := 1, y := wsub act1.y 1 }
  else AdjustActorMoveEastSettle w act1

/-- Function `AdjustActorMove(index, dir)`.  All its writes go through the
pointer `act = actors + index`; the tests read the map and the sprite table. -/
def AdjustActorMove (w : World) (index : Nat) (dir : Dir4) : World :=
  { w with
    actors := arraySet w.actors index
      (if dir = DIR4_WEST then AdjustActorMoveWest w (w.actors index)
       else AdjustActorMoveEast w (w.actors index)) }

/-- The statements of `ProcessActor` under the second south test of its
gravity block, `TestSpriteMove(DIR4_SOUTH, ..., act->y + 1) == MOVE_FREE`. -/
def ProcessActorDrop (w : World) (act : Actor) : Actor :=
  let a1 := if act.fallspeed < 5 then { act with fallspeed := wadd act.fallspeed 1 } else act
  let a2 := if a1.fallspeed > 1 ∧ a1.fallspeed < 6 then { a1 with y := wadd a1.y 1 } else a1
  if a2.fallspeed = 5 then
    if TestSpriteMove w DIR4_SOUTH a2.sprite 0 a2.x (wadd a2.y 1) ≠ MOVE_FREE then
      { a2 with fallspeed := 0 }
    else { a2 with y := wadd a2.y 1 }
  else a2

/-- The first statement of the gravity block of `ProcessActor`, which lifts an
actor out of the ground, on the actor `act`. -/
def ProcessActorUnstick (w : World) (act : Actor) : Actor :=
  if TestSpriteMove w DIR4_SOUTH act.sprite 0 act.x act.y ≠ MOVE_FREE then
    { act with y := wsub act.y 1, fallspeed := 0 }
  else act

/-- The second statement of the gravity block of `ProcessActor` on the actor `act`. -/
def ProcessActorSink (w : World) (act : Actor) : Actor :=
  if TestSpriteMove w DIR4_SOUTH act.sprite 0 act.x (wadd act.y 1) = MOVE_FREE then
    ProcessActorDrop w act
  else { act with fallspeed := 0 }

/-- Statement `if (act->weighted) ...` of `ProcessActor`, the gravity block, on
the actor `act`. -/
def ProcessActorFall (w : World) (act : Actor) : Actor :=
  if act.weighted = true then ProcessActorSink w (ProcessActorUnstick w act) else act

/-- How a call of `ProcessActor` leaves its first statements: through one of
the `return` statements in front of the gravity block, or on to that block;
each with the globals at that point. -/
inductive ActorPass where
  | returned (w : World)
  | goes_on (w : World)

/-- The statements of `ProcessActor` from `nextDrawMode = DRAWMODE_NORMAL` to
the gravity block. -/
def ProcessActorWake (g : Glue) (w : World) (index : Nat) : ActorPass :=
  let w1 := { w with nextDrawMode := g.DRAWMODE_NORMAL }
  let w2 :=
    if (w1.actors index).damagecooldown ≠ 0 then
      { w1 with
        actors := arraySet w1.actors index
          { (w1.actors index) with
            damagecooldown := wsub (w1.actors index).damagecooldown 1 } }
    else w1
  if IsSpriteVisible g w2 (w2.actors index).sprite (w2.actors index).frame (w2.actors index).x
      (w2.actors index).y = true then
    if (w2.actors index).stayactive = true then
      ActorPass.goes_on
        { w2 with
          actors := arraySet w2.actors index { (w2.actors index) with forceactive := true } }
    else ActorPass.goes_on w2
  else if (w2.actors index).forceactive = false then ActorPass.returned w2
  else ActorPass.goes_on { w2 with nextDrawMode := g.DRAWMODE_HIDDEN }

/-- The statements of `ProcessActor` in front of the gravity block. -/
def ProcessActorHead (g : Glue) (w : World) (index : Nat) : ActorPass :=
  if (w.actors index).dead = true then ActorPass.returned w
  else if (w.actors index).y > wadd (wadd w.mapHeight g.SCROLLH) 3 then
    ActorPass.returned
      { w with actors := arraySet w.actors index { (w.actors index) with dead := true } }
  else ProcessActorWake g w index

/-- The last statement of `ProcessActor`, for the actor `index` after its tick:
the explosion test, else the touch test and the drawing. -/
def ProcessActorTouch (g : Glue) (o : ActorCalls) (w : World) (index : Nat) : World :=
  let act := w.actors index
  let blast : Bool × World :=
    if IsNearExplosion g w act.sprite act.frame act.x act.y = true then
      CanBeExploded g o w act.sprite act.frame act.x act.y
    else (false, w)
  if blast.1 = true then
    { blast.2 with
      actors := arraySet blast.2.actors index { (blast.2.actors index) with dead := true } }
  else
    let a1 := blast.2.actors index
    let rt := o.TouchPlayer index a1.sprite a1.frame a1.x a1.y blast.2
    if rt.1 = false ∧ rt.2.nextDrawMode ≠ g.DRAWMODE_HIDDEN then
      o.DrawSprite (rt.2.actors index).sprite (rt.2.actors index).frame (rt.2.actors index).x
        (rt.2.actors index).y rt.2.nextDrawMode rt.2
    else rt.2

/-- The statements of `ProcessActor` from the gravity block on. -/
def ProcessActorBody (g : Glue) (o : ActorCalls) (w : World) (index : Nat) : World :=
  let w1 := { w with actors := arraySet w.actors index (ProcessActorFall w (w.actors index)) }
  let w2 :=
    if IsSpriteVisible g w1 (w1.actors index).sprite (w1.actors index).frame
        (w1.actors index).x (w1.actors index).y = true then
      { w1 with nextDrawMode := g.DRAWMODE_NORMAL }
    else w1
  ProcessActorTouch g o (o.tickfunc (w2.actors index).tickfunc index w2) index

/-- Function `ProcessActor(index)`. -/
def ProcessActor (g : Glue) (o : ActorCalls) (w : World) (index : Nat) : World :=
  match ProcessActorHead g w index with
  | ActorPass.returned v => v
  | ActorPass.goes_on v => ProcessActorBody g o v index

/-- Branch `else if (playerDeadTime == 0)` of `DrawPlayerHelper`, which is
reached while `playerFallDeadTime` is 0.  Its `DrawPlayer` calls write no
global; its statement `if (playerHurtCooldown != 0) playerHurtCooldown--;` does. -/
def DrawPlayerHelperAlive (w : World) : World :=
  if w.playerHurtCooldown ≠ 0 then
    { w with playerHurtCooldown := wsub w.playerHurtCooldown 1 }
  else w

/-- Body of `MoveAndDrawShards` from the label `restart` on, with the number of
`goto restart` statements it runs through: `none` when the `fuel`, one unit per
arrival at the label, runs out, else that number and the shard at the end of
the round. -/
def shardJumps (g : Glue) (w : World) : Nat → Shard → Option (Nat × Shard)
  | 0, _ => none
  | fuel + 1, sh =>
    match shardRise w sh with
    | (ShardFlow.toRestart, sh1) => (shardJumps g w fuel sh1).map (fun r => (r.1 + 1, r.2))
    | (ShardFlow.toNext, sh1) => some (0, sh1)
    | (ShardFlow.onward, sh1) =>
      match shardFall g w sh1 with
      | (ShardFlow.toRestart, sh2) => (shardJumps g w fuel sh2).map (fun r => (r.1 + 1, r.2))
      | (ShardFlow.toNext, sh2) => some (0, sh2)
      | (ShardFlow.onward, sh2) => some (0, shardAge sh2)

/-! ## The armed bomb, and three cases of `NewActorAtIndex` -/

/-- The pointer to the tick function `ActBarrel`, by a number of its own. -/
def TICK_ActBarrel : ActorTickFunction := 101

/-- The pointer to the tick function `ActFireball`, by a number of its own. -/
def TICK_ActFireball : ActorTickFunction := 102

/-- The pointer to the tick function `ActBombArmed`, by a number of its own. -/
def TICK_ActBombArmed : ActorTickFunction := 103

/-- The arguments of the `ConstructActor` call of `case ACT_BOMB_ARMED:` of
`NewActorAtIndex`: `(SPR_BOMB_ARMED, x, y, T, F, T, T, ActBombArmed, 0, 0, 0, 0, 0)`. -/
def caseBombArmed (g : Glue) (x y : Nat) : ActorSpec :=
  { sprite := g.SPR_BOMB_ARMED, x := x, y := y, force_active := true, stay_active := false,
    weighted := true, acrophile := true, tick_func := TICK_ActBombArmed,
    data1 := 0, data2 := 0, data3 := 0, data4 := 0, data5 := 0 }

/-- The arguments of the `ConstructActor` call of `case ACT_FIREBALL_W:` of
`NewActorAtIndex`: `(SPR_FIREBALL, x, y, T, F, F, F, ActFireball, 0, x, y, 0, DIR2_WEST)`. -/
def caseFireballW (g : Glue) (x y : Nat) : ActorSpec :=
  { sprite := g.SPR_FIREBALL, x := x, y := y, force_active := true, stay_active := false,
    weighted := false, acrophile := false, tick_func := TICK_ActFireball,
    data1 := 0, data2 := x, data3 := y, data4 := 0, data5 := g.DIR2_WEST }

/-- The arguments of the `ConstructActor` call of `case ACT_BARREL_POWER_UP:` of
`NewActorAtIndex`: `(SPR_BARREL, x, y, T, F, T, F, ActBarrel, ACT_POWER_UP_FLOAT,
SPR_BARREL_SHARDS, 0, 0, 0)`. -/
def caseBarrelPowerUp (g : Glue) (x y : Nat) : ActorSpec :=
  { sprite := g.SPR_BARREL, x := x, y := y, force_active := true, stay_active := false,
    weighted := true, acrophile := false, tick_func := TICK_ActBarrel,
    data1 := g.ACT_POWER_UP_FLOAT, data2 := g.SPR_BARREL_SHARDS, data3 := 0, data4 := 0,
    data5 := 0 }

/-- Function `NewPounceDecoration(x, y)`. -/
def NewPounceDecoration (g : Glue) (w : World) (x y : Nat) : World :=
  NewDecoration
    (NewDecoration
      (NewDecoration
        (NewDecoration
          (NewDecoration
            (NewDecoration w g.SPR_POUNCE_DEBRIS 6 (wadd x 1) y g.DIR8_SOUTHWEST 2)
            g.SPR_POUNCE_DEBRIS 6 (wadd x 3) y g.DIR8_SOUTHEAST 2)
          g.SPR_POUNCE_DEBRIS 6 (wadd x 4) (wsub y 2) g.DIR8_EAST 2)
        g.SPR_POUNCE_DEBRIS 6 (wadd x 3) (wsub y 4) g.DIR8_NORTHEAST 2)
      g.SPR_POUNCE_DEBRIS 6 (wadd x 1) (wsub y 4) g.DIR8_NORTHWEST 2)
    g.SPR_POUNCE_DEBRIS 6 x (wsub y 2) g.DIR8_WEST 2

/-- The statements of `ActBombArmed` under `if (act->data2 == 10)`.  The
`DrawSprite` call writes no global. -/
def ActBombArmedBlast (g : Glue) (w : World) (index : Nat) : World :=
  let w1 := { w with actors := arraySet w.actors index { (w.actors index) with dead := true } }
  let w2 := NewPounceDecoration g w1 (wsub (w1.actors index).x 2) (wadd (w1.actors index).y 2)
  let w3 := { w2 with nextDrawMode := g.DRAWMODE_HIDDEN }
  NewExplosion w3 (wsub (w3.actors index).x 2) (w3.actors index).y

/-- The statements of `ActBombArmed` under `if (act->frame == 3)`, up to the
test of `act->data2`. -/
def ActBombArmedFuse (g : Glue) (w : World) (index : Nat) : World :=
  let w1 :=
    { w with
      actors := arraySet w.actors index
        { (w.actors index) with
          data2 := wadd (w.actors index).data2 1, data1 := wadd (w.actors index).data1 1 } }
  if (w1.actors index).data1 % 2 ≠ 0 ∧ (w1.actors index).frame = 3 then
    { w1 with nextDrawMode := g.DRAWMODE_WHITE }
  else w1

/-- Statement `if (act->data2 == 10) ...` of `ActBombArmed`. -/
def ActBombArmedEnd (g : Glue) (w : World) (index : Nat) : World :=
  if (w.actors index).data2 = 10 then ActBombArmedBlast g w index else w

/-- The `else` branch of `if (act->frame == 3)` in `ActBombArmed`. -/
def ActBombArmedCount (w : World) (index : Nat) : World :=
  let w1 :=
    { w with
      actors := arraySet w.actors index
        { (w.actors index) with data1 := wadd (w.actors index).data1 1 } }
  if (w1.actors index).data1 = 5 then
    { w1 with
      actors := arraySet w1.actors index
        { (w1.actors index) with data1 := 0, frame := wadd (w1.actors index).frame 1 } }
  else w1

/-- The last statement of `ActBombArmed`, which lifts the bomb out of the ground. -/
def ActBombArmedSettle (g : Glue) (w : World) (index : Nat) : World :=
  if TestSpriteMove w DIR4_SOUTH g.SPR_BOMB_ARMED 0 (w.actors index).x (w.actors index).y
      ≠ MOVE_FREE then
    { w with
      actors := arraySet w.actors index
        { (w.actors index) with y := wsub (w.actors index).y 1 } }
  else w

/-- Function `ActBombArmed(index)`. -/
def ActBombArmed (g : Glue) (w : World) (index : Nat) : World :=
  ActBombArmedSettle g
    (if (w.actors index).frame = 3 then ActBombArmedEnd g (ActBombArmedFuse g w index) index
     else ActBombArmedCount w index)
    index

/-! ## Descriptions used in the statements -/

/-- The actor that `ConstructActor` leaves in a slot when called with the
arguments `a`; `force` is whether `NewActor` sets `forceactive` afterwards. -/
def builtActor (a : ActorSpec) (force : Bool) : Actor :=
  { sprite := a.sprite, frame := 0, x := a.x, y := a.y,
    forceactive := a.force_active || force, stayactive := a.stay_active,
    weighted := a.weighted, acrophile := a.acrophile, dead := false,
    tickfunc := a.tick_func, private1 := 0, private2 := 0, fallspeed := 0,
    data1 := a.data1, data2 := a.data2, data3 := a.data3, data4 := a.data4,
    data5 := a.data5, damagecooldown := 0 }

/-- The `ConstructActor` arguments that `NewMapActor` ends up with for the map
actor type `a` at the position (x, y), if any: those of the case of regular type
`a - 31`, for `a ≥ 31`. -/
def mapActorSpec (g : Glue) (a x y : Nat) : Option ActorSpec :=
  if a ≥ 31 then g.actorCases (wsub a 31) x y else none

/-- The actors of a map file in file order: the `ConstructActor` arguments for
the triples at the words `i`, `i + 3`, ... of `mapData`, `n` triples in all,
leaving out the triples that build no actor. -/
def placedSpecs (g : Glue) (mapData : Int → Nat) : Nat → Nat → List ActorSpec
  | 0, _ => []
  | n + 1, i =>
    match mapActorSpec g (mapData (i : Int)) (mapData ((i : Int) + 1)) (mapData ((i : Int) + 2)) with
    | some s => s :: placedSpecs g mapData n (i + 3)
    | none => placedSpecs g mapData n (i + 3)

/-- The static counter `inclination` of `NewShard` after one call that found it at `v`. -/
def nextInclination (v : Nat) : Nat :=
  if wadd v 1 = 5 then 0 else wadd v 1

/-- The shard that `NewShard(sprite, frame, x, y)` writes when its counter has
reached `incl`. -/
def newShard (sprite frame x y incl : Nat) : Shard :=
  { sprite := sprite, x := x, y := y, frame := frame, age := 1, inclination := incl,
    bounced := false }

/-- The 16-bit word that the bytes `i` and `i + 1` of a file hold, low byte first. -/
def fileWord (f : List Nat) (i : Nat) : Nat :=
  f.getD i 0 % 256 + 256 * (f.getD (i + 1) 0 % 256)

/-- The three tiles of row `y` from column `x` on block south and are not
sloped: a flat floor under a player who stands at (x, y - 1). -/
def flatFloor (w : World) (x y : Nat) : Prop :=
  ∀ i : Nat, i < 3 →
    TILE_BLOCK_SOUTH w (w.mapData (MAP_CELL_ADDR w x y + (i : Int))) ≠ 0 ∧
    TILE_SLOPED w (w.mapData (MAP_CELL_ADDR w x y + (i : Int))) = 0

instance (w : World) (x y : Nat) : Decidable (flatFloor w x y) := by
  unfold flatFloor
  infer_instance

/-- None of the five cells of column `x`, from row `y` upwards, blocks west,
and the lowest of them is not sloped. -/
def freeColumnWest (w : World) (x y : Nat) : Prop :=
  (∀ k : Nat, k < 5 →
    TILE_BLOCK_WEST w (w.mapData (MAP_CELL_ADDR w x y - (k : Int) * (w.mapWidth : Int))) = 0) ∧
  TILE_SLOPED w (w.mapData (MAP_CELL_ADDR w x y)) = 0

instance (w : World) (x y : Nat) : Decidable (freeColumnWest w x y) := by
  unfold freeColumnWest
  infer_instance

/-- The player is free to act: alive, in no transporter, on no scooter, not
dizzy, not blocked, not pushed, not clinging. -/
def playerFree (w : World) : Prop :=
  w.playerDeadTime = 0 ∧ w.activeTransporter = 0 ∧ w.scooterMounted = 0 ∧
  w.playerDizzyLeft = 0 ∧ w.blockActionCmds = false ∧ w.isPlayerPushed = false ∧
  w.playerClingDir = DIR4_NONE

instance (w : World) : Decidable (playerFree w) := by
  unfold playerFree
  infer_instance

/-- Grounded idle: the player is free to act, no command is held, the player
has no upward momentum and does not recoil, stands on a flat floor, and the row
below is not the row `mapHeight + SCROLLH` at which the south test is cut short. -/
def IdleGround (g : Glue) (w : World) : Prop :=
  playerFree w ∧
  w.cmdWest = false ∧ w.cmdEast = false ∧ w.cmdNorth = false ∧ w.cmdSouth = false ∧
  w.cmdJump = false ∧ w.cmdBomb = false ∧
  w.playerMomentumNorth = 0 ∧ w.isPlayerRecoiling = false ∧
  wadd w.mapHeight g.SCROLLH ≠ wadd w.playerY 1 ∧
  flatFloor w w.playerX (wadd w.playerY 1)

instance (g : Glue) (w : World) : Decidable (IdleGround g w) := by
  unfold IdleGround
  infer_instance

/-- The frame that the idle branch of `MovePlayer` chooses before the random
blink, when `idlecount` has reached `c`. -/
def idlePose (g : Glue) (c : Nat) : Nat :=
  if c > 100 ∧ c < 110 then g.PLAYER_LOOK_NORTH
  else if c > 139 ∧ c < 150 then g.PLAYER_LOOK_SOUTH
  else if c = 180 then g.PLAYER_SHAKE_1
  else if c = 181 then g.PLAYER_SHAKE_2
  else if c = 182 then g.PLAYER_SHAKE_3
  else if c = 183 then g.PLAYER_SHAKE_2
  else if c = 184 then g.PLAYER_SHAKE_1
  else g.PLAYER_STAND

/-- The frame that the idle branch of `MovePlayer` chooses when `idlecount` has
reached `c` and `random(50)` gave `rnd`. -/
def idleFrame (g : Glue) (c rnd : Nat) : Nat :=
  if idlePose g c ≠ g.PLAYER_LOOK_NORTH ∧ idlePose g c ≠ g.PLAYER_LOOK_SOUTH ∧
      (rnd % 256 = 0 ∨ rnd % 256 = 31) then
    g.PLAYER_STAND_BLINK
  else idlePose g c

/-- The seven frame numbers that the idle branch of `MovePlayer` can choose
are different numbers. -/
def idleFramesDistinct (g : Glue) : Prop :=
  [g.PLAYER_STAND, g.PLAYER_STAND_BLINK, g.PLAYER_LOOK_NORTH, g.PLAYER_LOOK_SOUTH,
    g.PLAYER_SHAKE_1, g.PLAYER_SHAKE_2, g.PLAYER_SHAKE_3].Nodup

instance (g : Glue) : Decidable (idleFramesDistinct g) := by
  unfold idleFramesDistinct
  infer_instance

/-- The random blink of the idle branch of `MovePlayer` happens: `rnd == 0 || rnd == 31`
for the byte `rnd`. -/
def idleBlink (rnd : Nat) : Prop :=
  rnd % 256 = 0 ∨ rnd % 256 = 31

instance (rnd : Nat) : Decidable (idleBlink rnd) := by
  unfold idleBlink
  infer_instance

/-- Whether a call of `ProcessActor` left through a `return` statement in front
of the gravity block. -/
def ActorPass.isReturned : ActorPass → Bool
  | ActorPass.returned _ => true
  | ActorPass.goes_on _ => false

/-- The globals after the first statements of `ProcessActor`, for an actor that
is alive and not below the map: `nextDrawMode` is set and the actor's
`damagecooldown`, when not 0, is one less. -/
def cooledDown (g : Glue) (w : World) (index : Nat) : World :=
  if (w.actors index).damagecooldown ≠ 0 then
    { w with
      nextDrawMode := g.DRAWMODE_NORMAL,
      actors := arraySet w.actors index
        { (w.actors index) with damagecooldown := wsub (w.actors index).damagecooldown 1 } }
  else { w with nextDrawMode := g.DRAWMODE_NORMAL }

/-- The rows by which an actor in free fall from `fallspeed` 0 drops on frame
`n + 1` of the fall: 0 on the first frame, 1 on the next three, 2 from then on. -/
def fallRows (n : Nat) : Nat := if n = 0 then 0 else if n < 4 then 1 else 2

/-- The slope continuation that `AdjustActorMove` looks for under an actor
moved west: sloped tiles east of the actor one row down and under its east end
two rows down. -/
def slopeGoesOnWest (w : World) (act : Actor) : Prop :=
  TILE_SLOPED w (GetMapTile w (wadd act.x (adjustWidth w act)) (wadd act.y 1)) ≠ 0 ∧
  TILE_SLOPED w (GetMapTile w (wsub (wadd act.x (adjustWidth w act)) 1) (wadd act.y 2)) ≠ 0

/-- The slope continuation that `AdjustActorMove` looks for under an actor
moved east: sloped tiles west of the actor one row down and under its west end
two rows down. -/
def slopeGoesOnEast (w : World) (act : Actor) : Prop :=
  TILE_SLOPED w (GetMapTile w (wsub act.x 1) (wadd act.y 1)) ≠ 0 ∧
  TILE_SLOPED w (GetMapTile w act.x (wadd act.y 2)) ≠ 0

instance (w : World) (act : Actor) : Decidable (slopeGoesOnWest w act) := by
  unfold slopeGoesOnWest
  infer_instance

instance (w : World) (act : Actor) : Decidable (slopeGoesOnEast w act) := by
  unfold slopeGoesOnEast
  infer_instance

/-- The three tiles of row `y` from column `x` are not sloped and do not block
south: no ground under a player who is at (x, y - 1). -/
def airUnder (w : World) (x y : Nat) : Prop :=
  ∀ i : Nat, i < 3 →
    TILE_SLOPED w (w.mapData (MAP_CELL_ADDR w x y + (i : Int))) = 0 ∧
    TILE_BLOCK_SOUTH w (w.mapData (MAP_CELL_ADDR w x y + (i : Int))) = 0

instance (w : World) (x y : Nat) : Decidable (airUnder w x y) := by
  unfold airUnder
  infer_instance

/-- The south test that the fall of `MovePlayer` makes for the player moved to
row `y` finds no ground. -/
def airBelow (g : Glue) (w : World) (y : Nat) : Prop :=
  (TestPlayerMove g { w with playerY := y } DIR4_SOUTH w.playerX y).1 = MOVE_FREE

instance (g : Glue) (w : World) (y : Nat) : Decidable (airBelow g w y) := by
  unfold airBelow
  infer_instance

/-- The early `return` of `HurtPlayer` is taken: the player is dead, in god
mode, action-blocked, in a transporter, invincible, in a pipe, or the hurt
cooldown has not run down. -/
def hurtSpared (w : World) : Prop :=
  w.playerDeadTime ≠ 0 ∨ w.isGodMode = true ∨ w.blockActionCmds = true ∨
  w.activeTransporter ≠ 0 ∨ w.playerIsInvincible = true ∨ w.isPlayerInPipe = true ∨
  w.playerHurtCooldown ≠ 0

instance (w : World) : Decidable (hurtSpared w) := by
  unfold hurtSpared
  infer_instance

/-- The shard of a slot after one round of the loop of `MoveAndDrawShards`:
`continue` for age 0, else the sideways move and the statements from the label
`restart` on. -/
def shardStep (g : Glue) (w : World) (sh : Shard) : Shard :=
  if sh.age = 0 then sh else shardFromRestart g w 2 (shardSideways w sh)

/-- The round of the loop of `MoveAndDrawShards` on the shard `sh` takes one of
the two `goto restart` under `if (sh->age >= 9)`, those of the bounce. -/
def shardBounces (g : Glue) (w : World) (sh : Shard) : Bool :=
  decide (sh.age ≠ 0 ∧ (shardRise w (shardSideways w sh)).1 = ShardFlow.onward ∧
    (shardFall g w (shardRise w (shardSideways w sh)).2).1 = ShardFlow.toRestart)

/-- The spawner of a slot after one round of the loop of `MoveAndDrawSpawners`:
`continue` for a free slot, else `sp->age++`, the rise, and
`sp->actor = ACT_BASKET_NULL` when a northward test fails or the age is 11. -/
def spawnerStep (g : Glue) (w : World) (sp : Spawner) : Spawner :=
  if sp.actor = g.ACT_BASKET_NULL then sp
  else if (spawnerRise w { sp with age := wadd sp.age 1 }).1 = true ∨
      (spawnerRise w { sp with age := wadd sp.age 1 }).2.age = 11 then
    { (spawnerRise w { sp with age := wadd sp.age 1 }).2 with actor := g.ACT_BASKET_NULL }
  else (spawnerRise w { sp with age := wadd sp.age 1 }).2

/-- The rows that a spawner has risen after `k` rounds with free northward
tests: two per round up to the eighth, one per round after it. -/
def spawnerRows (k : Nat) : Nat := if k ≤ 8 then 2 * k else 8 + k

/-- The northward tests of round `k + 1` on a spawner of `actor`, made at
(x, y), are free in the globals `w`: the test one row up, and in the first
eight rounds the test two rows up. -/
def spawnerFree (w : World) (actor x y k : Nat) : Prop :=
  TestSpriteMove w DIR4_NORTH actor 0 x (y - spawnerRows k - 1) = MOVE_FREE ∧
  (k < 8 → TestSpriteMove w DIR4_NORTH actor 0 x (y - spawnerRows k - 2) = MOVE_FREE)

instance (w : World) (actor x y k : Nat) : Decidable (spawnerFree w actor x y k) := by
  unfold spawnerFree
  infer_instance

/-- The decoration and the `decorationFrame` entry of a slot after one round
of the loop of `MoveAndDrawDecorations`; `r` is the value of `random(3)`. -/
def decorationStep (g : Glue) (w : World) (r : Nat) (dec : Decoration) (frame : Nat) :
    Decoration × Nat :=
  if dec.alive = false then (dec, frame)
  else if IsSpriteVisible g w dec.sprite dec.numframes dec.x dec.y = true then
    if wadd frame 1 = (decorationMove g r dec).numframes then
      (decorationRepeat (decorationMove g r dec), 0)
    else (decorationMove g r dec, wadd frame 1)
  else ({ dec with alive := false }, frame)

/-- The frame that the round of `MoveAndDrawDecorations` on slot `i` passes to
`DrawSprite`, `decorationFrame[i]`, when it draws: the decoration is alive and
the visibility test holds. -/
def decorationDrawn (g : Glue) (w : World) (i : Nat) : Option Nat :=
  if (w.decorations i).alive = true ∧
      IsSpriteVisible g w (w.decorations i).sprite (w.decorations i).numframes
        (w.decorations i).x (w.decorations i).y = true then
    some (w.decorationFrame i)
  else none

/-- The frame of an armed bomb at its tick `k + 1`: five ticks each on the
frames 0, 1 and 2, then frame 3. -/
def bombFrame (k : Nat) : Nat := if k < 5 then 0 else if k < 10 then 1 else if k < 15 then 2 else 3

/-- The counter `data1` of an armed bomb at its tick `k + 1`. -/
def bombData1 (k : Nat) : Nat := if k < 15 then k % 5 else k - 15

/-- The counter `data2` of an armed bomb at its tick `k + 1`. -/
def bombData2 (k : Nat) : Nat := if k < 15 then 0 else k - 15

/-- The function `f` leaves `scrollX` and `mapWidth` as they are. -/
def keepsWindow (f : World → World) : Prop :=
  ∀ u, (f u).scrollX = u.scrollX ∧ (f u).mapWidth = u.mapWidth

/-- The scroll window lies within the map: `scrollX <= mapWidth - SCROLLW`. -/
def scrollXInMap (g : Glue) (w : World) : Prop :=
  w.scrollX ≤ w.mapWidth - g.SCROLLW

instance (g : Glue) (w : World) : Decidable (scrollXInMap g w) := by
  unfold scrollXInMap
  infer_instance

/-- The map widths that `LoadMapData` has a case for in its `switch`. -/
def mapWidths : List Nat :=
  [1 <<< 5, 1 <<< 6, 1 <<< 7, 1 <<< 8, 1 <<< 9, 1 <<< 10, 1 <<< 11]

/-- An explosion after one round of the loop of `DrawExplosions`: `continue`
for age 0, else `ex->age++` and the reset to 0 at 9. -/
def agedExplosion (ex : Explosion) : Explosion :=
  if ex.age = 0 then ex
  else { ex with age := if wadd ex.age 1 = 9 then 0 else wadd ex.age 1 }

/-! ## Concrete worlds used to evaluate the functions -/

/-- One choice of the `glue.h` constants: a scroll window of 38 by 18 tiles,
sprite and actor numbers apart from each other, and a `switch` of
`NewActorAtIndex` with the `default` case only. -/
def demoGlue : Glue :=
  { SCROLLW := 38, SCROLLH := 18, MAX_ACTORS := 410,
    SPR_EXPLOSION := 2, SPR_SPARKLE_LONG := 3, SPR_SMOKE_LARGE := 4,
    SPR_SPARKLE_SLIPPERY := 5, SPR_RAINDROP := 6, SPR_BARREL_SHARDS := 7,
    SPR_BASKET_SHARDS := 8,
    ACT_BASKET_NULL := 0, ACT_PARACHUTE_BALL := 9, ACT_SPEECH_OUCH := 10,
    DIR8_STATIONARY := 0, DIR8_NORTH := 1,
    actorCases := fun _ _ _ => none,
    MAX_LIGHTS := 200, ACT_SPEECH_WOW_50K := 11, ACT_BOMB_ARMED := 12,
    POUNCE_HINT_UNSEEN := 0, POUNCE_HINT_QUEUED := 1, POUNCE_HINT_SEEN := 2,
    SPA_PLAYER_START := 0, SPA_PLATFORM := 1, SPA_FOUNTAIN_SMALL := 2,
    SPA_FOUNTAIN_MEDIUM := 3, SPA_FOUNTAIN_LARGE := 4, SPA_FOUNTAIN_HUGE := 5,
    SPA_LIGHT_WEST := 6, SPA_LIGHT_MIDDLE := 7, SPA_LIGHT_EAST := 8,
    PLAYER_BASE_WEST := 0, PLAYER_BASE_EAST := 23,
    PLAYER_WALK_1 := 1, PLAYER_WALK_4 := 4, PLAYER_STAND := 0, PLAYER_STAND_BLINK := 20,
    PLAYER_LOOK_NORTH := 5, PLAYER_LOOK_SOUTH := 6,
    PLAYER_SHAKE_1 := 17, PLAYER_SHAKE_2 := 18, PLAYER_SHAKE_3 := 19,
    PLAYER_CROUCH := 14, PLAYER_CLING := 11, PLAYER_CLING_OPPOSITE := 12,
    PLAYER_CLING_NORTH := 15, PLAYER_CLING_SOUTH := 16,
    PLAYER_FALL := 8, PLAYER_FALL_LONG := 9, PLAYER_FALL_SEVERE := 10,
    PLAYER_JUMP := 7, PLAYER_JUMP_LONG := 13,
    DRAWMODE_NORMAL := 0, DRAWMODE_HIDDEN := 1,
    ACT_SCORE_EFFECT_12800 := 13, ACT_BOMB_IDLE := 14,
    SPR_ARROW_PISTON_W := 100, SPR_ARROW_PISTON_E := 101, SPR_SPIKES_FLOOR := 102,
    SPR_SPIKES_FLOOR_RECIP := 103, SPR_SAW_BLADE := 104, SPR_CABBAGE := 105, SPR_SPEAR := 106,
    SPR_JUMPING_BULLET := 107, SPR_STONE_HEAD_CRUSHER := 108, SPR_GHOST := 109, SPR_MOON := 110,
    SPR_HEART_PLANT := 111, SPR_BABY_GHOST := 112, SPR_ROAMER_SLUG := 113,
    SPR_BABY_GHOST_EGG := 114, SPR_SHARP_ROBOT_FLOOR := 115, SPR_SHARP_ROBOT_CEIL := 116,
    SPR_CLAM_PLANT := 117, SPR_PARACHUTE_BALL := 118, SPR_SPIKES_E := 119,
    SPR_SPIKES_E_RECIP := 120, SPR_SPIKES_W := 121, SPR_SPARK := 122, SPR_EYE_PLANT := 123,
    SPR_RED_JUMPER := 124, SPR_SUCTION_WALKER := 125, SPR_SPIT_WALL_PLANT_E := 126,
    SPR_SPIT_WALL_PLANT_W := 127, SPR_SPITTING_TURRET := 128, SPR_RED_CHOMPER := 129,
    SPR_PINK_WORM := 130, SPR_HINT_GLOBE := 131, SPR_PUSHER_ROBOT := 132,
    SPR_SENTRY_ROBOT := 133, SPR_PINK_WORM_SLIME := 134, SPR_DRAGONFLY := 135, SPR_BIRD := 136,
    SPR_ROCKET := 137, SPR_74 := 138, SPR_84 := 139, SPR_96 := 140,
    SPR_BOMB_ARMED := 141, SPR_POUNCE_DEBRIS := 142, SPR_FIREBALL := 143, SPR_BARREL := 144,
    DRAWMODE_WHITE := 2,
    DIR8_NORTHEAST := 2, DIR8_EAST := 3, DIR8_SOUTHEAST := 4, DIR8_SOUTHWEST := 6,
    DIR8_WEST := 7, DIR8_NORTHWEST := 8, DIR2_WEST := 0,
    ACT_FIREBALL_W := 15, ACT_BARREL_POWER_UP := 16, ACT_POWER_UP_FLOAT := 17 }

/-- A sprite table with one sprite, number 0, whose frame 0 is `wd` wide and `ht` tall. -/
def oneSprite (wd ht : Nat) : Nat → Nat :=
  fun i => if i = 0 then 2 else if i = 2 then ht else if i = 3 then wd else 0

/-- A 32 columns wide map of empty tiles; sprite 0 is two wide and one tall. -/
def emptyWorld : World :=
  { mapWidth := 32, mapHeight := 64, mapYPower := 5, actorInfoData := oneSprite 2 1 }

/-- A 32 columns wide map, empty but for cell (5, 10), whose tile is at once
sloped and west-blocking (attribute byte 0x44); sprite 0 is three wide and
five tall; the player stands at (5, 10). -/
def slopeWallWorld : World :=
  { mapWidth := 32, mapHeight := 64, mapYPower := 5, actorInfoData := oneSprite 3 5,
    mapData := fun c => if c = 325 then 8 else 0,
    tileAttributeData := fun a => if a = 1 then 0x44 else 0,
    playerX := 5, playerY := 10 }

/-- A 32 columns wide map, empty but for cell (4, 8), a wall tile blocking west
and east (attribute byte 0x0c), cell (6, 6), a tile one can cling to
(attribute byte 0x80), and cell (5, 11), a sloped slippery tile (attribute byte
0x50); sprite 0 is three wide and five tall; the player stands at (5, 10). -/
def wallWorld : World :=
  { mapWidth := 32, mapHeight := 64, mapYPower := 5, actorInfoData := oneSprite 3 5,
    mapData := fun c => if c = 260 then 16 else if c = 198 then 24 else if c = 357 then 32 else 0,
    tileAttributeData := fun a =>
      if a = 2 then 0x0c else if a = 3 then 0x80 else if a = 4 then 0x50 else 0,
    playerX := 5, playerY := 10 }

/-- A sprite table with sprites 0 and 1; frame 0 of sprite 0 is `wd0` wide and
`ht0` tall, frame 0 of sprite 1 is `wd1` wide and `ht1` tall. -/
def twoSprites (wd0 ht0 wd1 ht1 : Nat) : Nat → Nat :=
  fun i => if i = 0 then 4 else if i = 1 then 8 else if i = 4 then ht0 else if i = 5 then wd0
    else if i = 8 then ht1 else if i = 9 then wd1 else 0

/-- A 64 columns wide map; the player stands at (10, 10), the scroll window
starts at (0, 0); sprite 0 is one tile, sprite 1 is one wide and two tall. -/
def boxWorld : World :=
  { mapWidth := 64, mapHeight := 64, mapYPower := 6, actorInfoData := twoSprites 1 1 1 2,
    playerX := 10, playerY := 10 }

/-- Three slots in each of the four pools.  Slots 0 and 1 are live and slot 1
is in its last frame: a shard of age 40, an explosion of age 8, a spawner of
age 10, a decoration of one frame shown once.  Slot 2 is free.  The map is
empty, the scroll window starts at (0, 0), the player stands at (10, 10). -/
def poolWorld : World :=
  { mapWidth := 64, mapHeight := 64, mapYPower := 6, actorInfoData := twoSprites 1 1 1 2,
    playerX := 10, playerY := 10, playerHealth := 3,
    numShards := 3,
    shards := fun i => if i = 0 then { sprite := 0, x := 20, y := 12, age := 5 }
      else if i = 1 then { sprite := 0, x := 22, y := 12, age := 40 } else {},
    numExplosions := 3,
    explosions := fun i => if i = 0 then { age := 3, x := 30, y := 8 }
      else if i = 1 then { age := 8, x := 31, y := 9 } else {},
    numSpawners := 3,
    spawners := fun i => if i = 0 then { actor := 1, x := 3, y := 15, age := 2 }
      else if i = 1 then { actor := 1, x := 5, y := 15, age := 10 } else {},
    numDecorations := 3,
    decorations := fun i =>
      if i = 0 then { alive := true, sprite := 0, numframes := 8, x := 7, y := 7 }
      else if i = 1 then { alive := true, sprite := 0, numframes := 1, x := 8, y := 7, numtimes := 1 }
      else {} }

/-- The world `poolWorld` with pools of two slots each: no slot is free. -/
def fullWorld : World :=
  { poolWorld with numShards := 2, numExplosions := 2, numSpawners := 2, numDecorations := 2 }

/-- The arguments of a `ConstructActor` call for a prize. -/
def prizeSpec (x y : Nat) : ActorSpec :=
  { sprite := 41, x := x, y := y, force_active := false, stay_active := true,
    weighted := true, acrophile := false, tick_func := 1,
    data1 := 0, data2 := 0, data3 := 0, data4 := 0, data5 := 4 }

/-- The arguments of a `ConstructActor` call for a speech bubble. -/
def bubbleSpec (x y : Nat) : ActorSpec :=
  { sprite := 40, x := x, y := y, force_active := true, stay_active := false,
    weighted := false, acrophile := false, tick_func := 3,
    data1 := 0, data2 := 0, data3 := 0, data4 := 0, data5 := 0 }

/-- The constants of `demoGlue` with a `switch` of `NewActorAtIndex` that knows
two actor types: type 1, a prize, and type 11, the speech bubble
`ACT_SPEECH_WOW_50K`. -/
def tableGlue : Glue :=
  { demoGlue with
    actorCases := fun t x y =>
      if t = 1 then some (prizeSpec x y)
      else if t = 11 then some (bubbleSpec x y)
      else none }

/-- Three actors, the one in slot 1 dead; the start of `mapData` holds the
actor words of a map file: the triples (33, 5, 6), (32, 7, 8) and (42, 9, 10),
that is the regular types 2, 1 and 11. -/
def actorWorld : World :=
  { mapWidth := 64, mapHeight := 64, mapYPower := 6,
    numActors := 3,
    actors := fun i => if i = 1 then { sprite := 9, dead := true } else { sprite := 9 },
    mapData := fun c => ([33, 5, 6, 32, 7, 8, 42, 9, 10] : List Nat).getD c.toNat 0 }

/-- The world `actorWorld` without its dead actor. -/
def liveActorWorld : World :=
  { actorWorld with actors := fun _ => { sprite := 9 } }

/-- The world `liveActorWorld` with 408 actors, two less than `MAX_ACTORS` of `demoGlue`. -/
def crowdedWorld : World :=
  { liveActorWorld with numActors := 408 }

/-- The player in the air, falling, ready to pounce, at (10, 10), after
`streak` pounces in a row. -/
def pounceWorld (streak : Nat) : World :=
  { mapWidth := 64, mapHeight := 64, mapYPower := 6, playerX := 10, playerY := 10,
    isPlayerFalling := true, isPounceReady := true, pounceStreak := streak }

/-- A barrel in actor slot 0 at (20, 20) that holds actor type 1 and breaks
into the shards of sprite 7; one more barrel stands elsewhere.  The shard pool
has six slots and the spawner pool two, all free. -/
def barrelWorld : World :=
  { mapWidth := 64, mapHeight := 64, mapYPower := 6, playerX := 10, playerY := 10,
    numActors := 2,
    actors := fun i =>
      if i = 0 then { sprite := 30, x := 20, y := 20, data1 := 1, data2 := 7 }
      else { sprite := 9 },
    numBarrels := 2, numShards := 6, numSpawners := 2 }

/-- The world `barrelWorld` when its barrel is the last one of the level. -/
def lastBarrelWorld : World :=
  { barrelWorld with numBarrels := 1 }

/-- The world `boxWorld` with two free explosion slots and four free
decoration slots. -/
def blastWorld : World :=
  { boxWorld with numExplosions := 2, numDecorations := 4 }

/-- A game with 40000 stars. -/
def starsWorld : World :=
  { playerHealth := 3, gameScore := 123456, gameStars := 40000, levelNum := 2,
    playerBombs := 1, playerMaxHealth := 5 }

/-- A game with 12 stars. -/
def gameWorld : World :=
  { playerHealth := 3, gameScore := 123456, gameStars := 12, levelNum := 2,
    playerBombs := 1, playerMaxHealth := 5 }

/-- The bytes of a save file with health 3, score 123456, 12 stars, level 2,
one bomb and a health limit of 5, whose last word is `sum`. -/
def saveBytes (sum : Nat) : List Nat :=
  [3, 0, 64, 226, 1, 0, 12, 0, 2, 0, 1, 0, 5, 0, 0, 0, 1, 0, 2, 0, 1, 0, sum, 0]

/-- A world whose save file for slot character '1' is `saveBytes sum`. -/
def savedWorld (sum : Nat) : World :=
  { saveFiles := fun c => if c = 49 then some (saveBytes sum) else none }

/-- Calls of `ShowBombHint` and `UpdateBombs` that leave the globals as they are. -/
def quietOutside : Outside :=
  { ShowBombHint := fun w => w, UpdateBombs := fun w => w }

/-- A 64 columns wide map whose row 11 is a floor of tiles that block south
(attribute byte 0x01) and that is empty elsewhere; the player stands on it at
(10, 10), facing west, and has been idle for `idle` ticks. -/
def floorWorld (idle : Nat) : World :=
  { mapWidth := 64, mapHeight := 64, mapYPower := 6,
    mapData := fun c => if 704 ≤ c ∧ c < 768 then 8 else 0,
    tileAttributeData := fun a => if a = 1 then 1 else 0,
    playerX := 10, playerY := 10, playerHealth := 3, playerFaceDir := DIR4_WEST,
    idlecount := idle }

/-- The player of `floorWorld`, holding the west command and facing `face`. -/
def walkWorld (face : Dir4) : World :=
  { floorWorld 0 with cmdWest := true, playerFaceDir := face }

/-- Callees that leave a trace: a tick function adds 1 to `randStepCount`,
`TouchPlayer` returns false and adds 1 to `idlecount`, `DrawSprite` adds 1 to
`movecount`, `AddScoreForSprite` adds 100 to `gameScore`. -/
def traceCalls : ActorCalls :=
  { AddScoreForSprite := fun _ w => { w with gameScore := w.gameScore + 100 },
    tickfunc := fun _ _ w => { w with randStepCount := w.randStepCount + 1 },
    TouchPlayer := fun _ _ _ _ _ w => (false, { w with idlecount := w.idlecount + 1 }),
    DrawSprite := fun _ _ _ _ _ w => { w with movecount := w.movecount + 1 } }

/-- A 64 columns wide map with the scroll window at (0, 0) and one actor, of
the one-tile sprite 0, in slot 0 at (`x`, `y`), with the flags `stay` and
`force`. -/
def oneActorWorld (x y : Nat) (stay force : Bool) : World :=
  { mapWidth := 64, mapHeight := 64, mapYPower := 6, actorInfoData := twoSprites 1 1 1 2,
    playerX := 10, playerY := 10, numActors := 1,
    actors := fun i =>
      if i = 0 then { sprite := 0, x := x, y := y, stayactive := stay, forceactive := force,
                      tickfunc := 1 }
      else { dead := true } }

/-- An actor of sprite 0 at (5, 10) that is subject to gravity. -/
def weightedActor : Actor := { sprite := 0, x := 5, y := 10, weighted := true }

/-- The empty 32 columns wide map with an actor of sprite 0, two wide and one
tall, at (5, 10) in every slot; `acro` is its acrophile flag. -/
def ledgeWorld (acro : Bool) : World :=
  { emptyWorld with actors := fun _ => { sprite := 0, x := 5, y := 10, acrophile := acro } }

/-- The player in the air over an empty 64 columns wide map at (10, 20), in a
jump with the jump command held, `time` ticks into the jump. -/
def jumpWorld (time : Nat) : World :=
  { mapWidth := 64, mapHeight := 64, mapYPower := 6, playerX := 10, playerY := 20,
    playerHealth := 3, playerFaceDir := DIR4_WEST, cmdJump := true, playerJumpTime := time }

/-- The player in the air over an empty 64 columns wide map at (10, 20),
falling for `time` ticks. -/
def fallWorld (time : Int) : World :=
  { mapWidth := 64, mapHeight := 64, mapYPower := 6, playerX := 10, playerY := 20,
    playerHealth := 3, playerFaceDir := DIR4_WEST, isPlayerFalling := true,
    playerFallTime := time }

/-- The player of `floorWorld`, standing on the floor, with a dizziness queued. -/
def dizzyWorld : World :=
  { floorWorld 0 with queuePlayerDizzy := true }

/-- The world `dizzyWorld` after `k` calls of `ProcessPlayerDizzy`. -/
def dizzyWorlds (k : Nat) : World :=
  (ProcessPlayerDizzy demoGlue)^[k] dizzyWorld

/-- A world with the counter of `GameRand` past the table, at 40. -/
def randWorld : World :=
  { scrollX := 3, scrollY := 4, playerX := 10, playerY := 12, randStepCount := 40 }

/-- The world `randWorld` after `k` calls of `GameRand`. -/
def randWorlds (k : Nat) : World :=
  (fun w => (GameRand w).2)^[k] randWorld

/-- The player at (10, 10) with `health` on the counter, who has seen the hurt bubble. -/
def hurtWorld (health : Nat) : World :=
  { mapWidth := 64, mapHeight := 64, mapYPower := 6, playerX := 10, playerY := 10,
    playerHealth := health, sawHurtBubble := true, playerClingDir := DIR4_WEST }

/-- The world `hurtWorld 3` after one `HurtPlayer` call and `k` frames of
`DrawPlayerHelper`. -/
def hurtWorlds (k : Nat) : World :=
  DrawPlayerHelperAlive^[k] (HurtPlayer demoGlue (hurtWorld 3))

/-- A 64 columns wide map whose row 20 is a platform of south-blocking tiles;
sprite 0 is one tile wide and tall; the shard pool has one slot, free. -/
def platformWorld : World :=
  { mapWidth := 64, mapHeight := 64, mapYPower := 6,
    mapData := fun c => if 1280 ≤ c ∧ c < 1344 then 8 else 0,
    tileAttributeData := fun a => if a = 1 then 1 else 0,
    actorInfoData := oneSprite 1 1,
    numShards := 1, inclination := 1 }

/-- The world `platformWorld` with a shard made by `NewShard(0, 0, 10, 28)`,
eight rows under the platform, after `k` calls of `MoveAndDrawShards`. -/
def platformWorlds (k : Nat) : World :=
  (MoveAndDrawShards demoGlue)^[k] (NewShard platformWorld 0 0 10 28)

/-- An empty 64 columns wide map with a spawner pool of two free slots; sprite
1 is one tile wide and two tall. -/
def spawnWorld : World :=
  { mapWidth := 64, mapHeight := 64, mapYPower := 6, actorInfoData := twoSprites 1 1 1 2,
    numSpawners := 2 }

/-- The world `spawnWorld` with a spawner made by `NewSpawner(1, 5, 40)`, after
`k` calls of `MoveAndDrawSpawners`. -/
def spawnWorlds (k : Nat) : World :=
  (MoveAndDrawSpawners demoGlue)^[k] (NewSpawner demoGlue spawnWorld 1 5 40)

/-- An empty world with the scroll window at (0, 0) and a decoration pool of
two free slots. -/
def decoWorld : World :=
  { mapWidth := 64, mapHeight := 64, mapYPower := 6, actorInfoData := oneSprite 1 1,
    numDecorations := 2 }

/-- The world `decoWorld` with a decoration made by
`NewDecoration(0, 3, 5, 5, DIR8_STATIONARY, 2)`, after `k` calls of
`MoveAndDrawDecorations`. -/
def decoWorlds (k : Nat) : World :=
  (MoveAndDrawDecorations demoGlue (fun _ => 0))^[k] (NewDecoration decoWorld 0 3 5 5 0 2)

/-- The constants of `demoGlue` with a `switch` of `NewActorAtIndex` that knows
three actor types, each with the arguments of its `case` in the source:
`ACT_BOMB_ARMED`, `ACT_FIREBALL_W` and `ACT_BARREL_POWER_UP`. -/
def switchGlue : Glue :=
  { demoGlue with
    actorCases := fun t x y =>
      if t = demoGlue.ACT_BOMB_ARMED then some (caseBombArmed demoGlue x y)
      else if t = demoGlue.ACT_FIREBALL_W then some (caseFireballW demoGlue x y)
      else if t = demoGlue.ACT_BARREL_POWER_UP then some (caseBarrelPowerUp demoGlue x y)
      else none }

/-- An empty 64 columns wide map with one actor slot, two explosion slots and
six decoration slots; the sprite `SPR_BOMB_ARMED` of `demoGlue` is one tile. -/
def bombWorld : World :=
  { mapWidth := 64, mapHeight := 64, mapYPower := 6,
    actorInfoData := fun i => if i = 141 then 200 else if i = 200 then 1
      else if i = 201 then 1 else 0,
    numActors := 1, numExplosions := 2, numDecorations := 6 }

/-- The world `bombWorld` with a bomb made by
`NewActorAtIndex(0, ACT_BOMB_ARMED, 10, 20)`, after `k` ticks of `ActBombArmed`. -/
def bombWorlds (k : Nat) : World :=
  (fun v => ActBombArmed switchGlue v 0)^[k]
    (NewActorAtIndex switchGlue bombWorld 0 switchGlue.ACT_BOMB_ARMED 10 20).2

/-- A map `width` columns wide with rows of 64 cells, empty but for cell
(19, 10), a wall tile blocking west and east (attribute byte 0x0c); the scroll
window starts at column 1; the player stands at (20, 10) and is pushed to the
west (`DIR8_WEST` of `demoGlue`) at speed 1, the push stopping at walls. -/
def pushedWorld (width : Nat) : World :=
  { mapWidth := width, mapHeight := 64, mapYPower := 6,
    mapData := fun c => if c = 659 then 16 else 0,
    tileAttributeData := fun a => if a = 2 then 0x0c else 0,
    playerX := 20, playerY := 10, scrollX := 1,
    isPlayerPushed := true, playerPushDir := 7, playerPushSpeed := 1, playerPushMaxTime := 10,
    stopPlayerPushAtWall := true }

/-- The map of `emptyWorld` with solid ground (attribute byte 0x0f, blocking
all four directions) in the whole of row 12, and an actor of sprite 0, two wide
and one tall, not acrophile, at (5, 10) in every slot: one row under the
actor's floor row 11, which is air, there is ground to stand on. -/
def stepDownWorld : World :=
  { emptyWorld with
    mapData := fun c => if 384 ≤ c ∧ c < 416 then 8 else 0,
    tileAttributeData := fun a => if a = 1 then 0x0f else 0,
    actors := fun _ => { sprite := 0, x := 5, y := 10, acrophile := false } }

/-- The map of `emptyWorld` with a tile that blocks west only (attribute byte
0x04) at cell (5, 11), and an actor of sprite 0, two wide and one tall, not
acrophile, at (5, 10) in every slot. -/
def wallBelowWorld : World :=
  { emptyWorld with
    mapData := fun c => if c = 357 then 8 else 0,
    tileAttributeData := fun a => if a = 1 then 0x04 else 0,
    actors := fun _ => { sprite := 0, x := 5, y := 10, acrophile := false } }

/-! # Theorems -/

/-! ## Helper lemmas on the scan loops -/

theorem scanNorth_hit (w : World) (mapcell : Int) (n i : Nat)
    (h : ∃ k, i ≤ k ∧ k < i + n ∧ TILE_BLOCK_NORTH w (w.mapData (mapcell + (k : Int))) ≠ 0) :
    scanNorth w mapcell n i ≠ MOVE_FREE := by
  induction n generalizing i with
  | zero => obtain ⟨k, h1, h2, _⟩ := h; omega
  | succ n ih =>
    unfold scanNorth
    split
    · simp
    · rename_i hi
      apply ih
      obtain ⟨k, h1, h2, h3⟩ := h
      refine ⟨k, ?_, by omega, h3⟩
      rcases Nat.eq_or_lt_of_le h1 with rfl | hlt
      · exact absurd h3 hi
      · omega

theorem scanSouth_hit (w : World) (mapcell : Int) (n i : Nat)
    (h : ∃ k, i ≤ k ∧ k < i + n ∧ TILE_BLOCK_SOUTH w (w.mapData (mapcell + (k : Int))) ≠ 0) :
    scanSouth w mapcell n i ≠ MOVE_FREE := by
  induction n generalizing i with
  | zero => obtain ⟨k, h1, h2, _⟩ := h; omega
  | succ n ih =>
    unfold scanSouth
    split
    · simp
    · split
      · simp
      · rename_i _ hi
        apply ih
        obtain ⟨k, h1, h2, h3⟩ := h
        refine ⟨k, ?_, by omega, h3⟩
        rcases Nat.eq_or_lt_of_le h1 with rfl | hlt
        · exact absurd h3 hi
        · omega

theorem scanSide_hit (w : World) (block : Nat → Nat) (n i : Nat) (mapcell : Int)
    (h : ∃ k, k < n ∧ block (w.mapData (mapcell - (k : Int) * (w.mapWidth : Int))) ≠ 0) :
    scanSide w block n i mapcell ≠ MOVE_FREE := by
  induction n generalizing i mapcell with
  | zero => obtain ⟨k, h1, _⟩ := h; omega
  | succ n ih =>
    unfold scanSide
    split
    · simp
    · split
      · simp
      · rename_i _ hi
        apply ih
        obtain ⟨k, h1, h3⟩ := h
        cases k with
        | zero => simp at h3; exact absurd h3 hi
        | succ k =>
          refine ⟨k, by omega, ?_⟩
          have e : mapcell - (w.mapWidth : Int) - (k : Int) * (w.mapWidth : Int)
              = mapcell - ((k + 1 : Nat) : Int) * (w.mapWidth : Int) := by
            push_cast; ring
          rw [e]; exact h3

/-! ## C1 -/

/-- C1: whenever one of the cells that `TestSpriteMove` scans for `dir` (for
north the `width` cells from `MAP_CELL_ADDR(x, y - height + 1)` on, for south the
`width` cells from `MAP_CELL_ADDR(x, y)` on, for west the `height` cells from
`MAP_CELL_ADDR(x, y)` upwards in steps of `mapWidth`, for east the same from
`MAP_CELL_ADDR(x + width - 1, y)`) holds a tile with the block bit of that
direction, the result is not `MOVE_FREE`. -/
theorem TestSpriteMove_blocked_cell_not_free (w : World) (dir : Dir4)
    (sprite frame x y : Nat)
    (h : match dir with
      | DIR4_NORTH => ∃ i, i < spriteWidth w sprite frame ∧
          TILE_BLOCK_NORTH w (w.mapData
            (MAP_CELL_ADDR w x (wadd (wsub y (spriteHeight w sprite frame)) 1) + (i : Int))) ≠ 0
      | DIR4_SOUTH => ∃ i, i < spriteWidth w sprite frame ∧
          TILE_BLOCK_SOUTH w (w.mapData (MAP_CELL_ADDR w x y + (i : Int))) ≠ 0
      | DIR4_WEST => ∃ i, i < spriteHeight w sprite frame ∧
          TILE_BLOCK_WEST w (w.mapData
            (MAP_CELL_ADDR w x y - (i : Int) * (w.mapWidth : Int))) ≠ 0
      | DIR4_EAST => ∃ i, i < spriteHeight w sprite frame ∧
          TILE_BLOCK_EAST w (w.mapData
            (MAP_CELL_ADDR w ((x : Int) + (spriteWidth w sprite frame : Int) - 1) y
              - (i : Int) * (w.mapWidth : Int))) ≠ 0
      | DIR4_NONE => False) :
    TestSpriteMove w dir sprite frame x y ≠ MOVE_FREE := by
  cases dir with
  | DIR4_NONE => exact h.elim
  | DIR4_NORTH =>
    obtain ⟨i, hi, hb⟩ := h
    exact scanNorth_hit w _ _ 0 ⟨i, Nat.zero_le i, by omega, hb⟩
  | DIR4_SOUTH =>
    obtain ⟨i, hi, hb⟩ := h
    exact scanSouth_hit w _ _ 0 ⟨i, Nat.zero_le i, by omega, hb⟩
  | DIR4_WEST =>
    obtain ⟨i, hi, hb⟩ := h
    show (if x = 0 then MOVE_BLOCKED else _) ≠ MOVE_FREE
    split
    · simp
    · exact scanSide_hit w _ _ 0 _ ⟨i, hi, hb⟩
  | DIR4_EAST =>
    obtain ⟨i, hi, hb⟩ := h
    show (if wadd x (spriteWidth w sprite frame) = w.mapWidth then MOVE_BLOCKED else _)
      ≠ MOVE_FREE
    split
    · simp
    · exact scanSide_hit w _ _ 0 _ ⟨i, hi, hb⟩

/-- Witness of C1: the west test at (5, 10) scans the west-blocking cell (5, 10). -/
theorem TestSpriteMove_blocked_cell_not_free_witness :
    (∃ i, i < spriteHeight slopeWallWorld 0 0 ∧
      TILE_BLOCK_WEST slopeWallWorld (slopeWallWorld.mapData
        (MAP_CELL_ADDR slopeWallWorld 5 10 - (i : Int) * (slopeWallWorld.mapWidth : Int))) ≠ 0) ∧
    TestSpriteMove slopeWallWorld DIR4_WEST 0 0 5 10 ≠ MOVE_FREE :=
  ⟨⟨0, by decide, by decide⟩,
   TestSpriteMove_blocked_cell_not_free slopeWallWorld DIR4_WEST 0 0 5 10
     ⟨0, by decide, by decide⟩⟩

/-! ## C2 -/

/-- C2, counterexample: on the empty 32 columns wide map a sprite two wide at
x = 31 reaches past the east boundary (31 + 2 ≥ 32), and the east test answers
`MOVE_FREE`, not `MOVE_BLOCKED`. -/
theorem TestSpriteMove_east_past_edge_free :
    emptyWorld.mapWidth ≤ 31 + spriteWidth emptyWorld 0 0 ∧
    TestSpriteMove emptyWorld DIR4_EAST 0 0 31 10 = MOVE_FREE := by
  decide

/-- C2, amended: whatever the tiles, the west test with `x = 0` answers
`MOVE_BLOCKED`, and so does the east test when the 16-bit sum `x + width`
equals `mapWidth`. -/
theorem TestSpriteMove_edge_blocked (w : World) (sprite frame x y : Nat) :
    TestSpriteMove w DIR4_WEST sprite frame 0 y = MOVE_BLOCKED ∧
    (wadd x (spriteWidth w sprite frame) = w.mapWidth →
      TestSpriteMove w DIR4_EAST sprite frame x y = MOVE_BLOCKED) := by
  refine ⟨by simp [TestSpriteMove], fun h => ?_⟩
  simp [TestSpriteMove, h]

/-- Witness of C2, amended: the sprite two wide at x = 30 on the 32 columns wide map. -/
theorem TestSpriteMove_edge_blocked_witness :
    wadd 30 (spriteWidth emptyWorld 0 0) = emptyWorld.mapWidth ∧
    TestSpriteMove emptyWorld DIR4_EAST 0 0 30 10 = MOVE_BLOCKED :=
  ⟨by decide, (TestSpriteMove_edge_blocked emptyWorld 0 0 30 10).2 (by decide)⟩

/-! ## C3 -/

theorem playerScanSouth_fst (w : World) (mapcell : Int) (n i : Nat) :
    (playerScanSouth w mapcell n i).1 = scanSouth w mapcell n i := by
  induction n generalizing i with
  | zero => rfl
  | succ n ih =>
    unfold playerScanSouth scanSouth
    split
    · rfl
    · split
      · rfl
      · exact ih (i + 1)

theorem playerScanSide_succ_pos (w : World) (block : Nat → Nat) (n i : Nat) (mapcell : Int) :
    playerScanSide w block n (i + 1) mapcell = scanSide w block n (i + 1) mapcell := by
  induction n generalizing i mapcell with
  | zero => rfl
  | succ n ih =>
    unfold playerScanSide scanSide
    by_cases hb : block (w.mapData mapcell) ≠ 0
    · simp [hb]
    · simp [hb, ih]

theorem playerScanSide_eq (w : World) (block : Nat → Nat) (n : Nat) (mapcell : Int)
    (h : ¬ (TILE_SLOPED w (w.mapData mapcell) ≠ 0 ∧ block (w.mapData mapcell) ≠ 0 ∧
      ¬ (block (w.mapData (mapcell - (w.mapWidth : Int))) ≠ 0))) :
    playerScanSide w block n 0 mapcell = scanSide w block n 0 mapcell := by
  cases n with
  | zero => rfl
  | succ n =>
    unfold playerScanSide scanSide
    rw [playerScanSide_succ_pos]
    by_cases hb : block (w.mapData mapcell) ≠ 0
    · by_cases hs : TILE_SLOPED w (w.mapData mapcell) ≠ 0
      · by_cases ha : block (w.mapData (mapcell - (w.mapWidth : Int))) ≠ 0
        · simp [hb, ha]
        · exact absurd ⟨hs, hb, ha⟩ h
      · simp [hb, hs]
    · simp [hb]

/-- C3, counterexample: with the player box 3 wide and 5 tall at (5, 10), away
from the map edges and the vertical limits, the bottom cell of the west column
is sloped and west-blocking and the cell above it is free: `TestSpriteMove`
answers `MOVE_SLOPED`, `TestPlayerMove` answers `MOVE_BLOCKED`. -/
theorem TestPlayerMove_differs_on_sloped_wall :
    spriteWidth slopeWallWorld 0 0 = 3 ∧ spriteHeight slopeWallWorld 0 0 = 5 ∧
    TestSpriteMove slopeWallWorld DIR4_WEST 0 0 5 10 = MOVE_SLOPED ∧
    (TestPlayerMove demoGlue slopeWallWorld DIR4_WEST 5 10).1 = MOVE_BLOCKED := by
  decide

/-- C3, amended: for a sprite frame 3 wide and 5 tall, away from the west and
east map edges and with `playerY` none of 2, 3 and `mapHeight + SCROLLH`,
`TestPlayerMove` answers as `TestSpriteMove` does for north and south, and for
west and east unless the bottom cell of the scanned column is at once sloped and
blocking in that direction while the cell above it is not blocking. -/
theorem TestPlayerMove_eq_TestSpriteMove (g : Glue) (w : World) (dir : Dir4)
    (sprite frame x y : Nat)
    (hw : spriteWidth w sprite frame = 3) (hh : spriteHeight w sprite frame = 5)
    (hx : x ≠ 0) (hxe : wadd x 3 ≠ w.mapWidth)
    (hpw : w.playerY < 65536) (hp2 : w.playerY ≠ 2) (hp3 : w.playerY ≠ 3)
    (hps : w.playerY ≠ wadd w.mapHeight g.SCROLLH)
    (hwest : dir = DIR4_WEST →
      ¬ (TILE_SLOPED w (w.mapData (MAP_CELL_ADDR w x y)) ≠ 0 ∧
        TILE_BLOCK_WEST w (w.mapData (MAP_CELL_ADDR w x y)) ≠ 0 ∧
        ¬ (TILE_BLOCK_WEST w (w.mapData (MAP_CELL_ADDR w x y - (w.mapWidth : Int))) ≠ 0)))
    (heast : dir = DIR4_EAST →
      ¬ (TILE_SLOPED w (w.mapData (MAP_CELL_ADDR w ((x : Int) + 2) y)) ≠ 0 ∧
        TILE_BLOCK_EAST w (w.mapData (MAP_CELL_ADDR w ((x : Int) + 2) y)) ≠ 0 ∧
        ¬ (TILE_BLOCK_EAST w
          (w.mapData (MAP_CELL_ADDR w ((x : Int) + 2) y - (w.mapWidth : Int))) ≠ 0))) :
    (TestPlayerMove g w dir x y).1 = TestSpriteMove w dir sprite frame x y := by
  cases dir with
  | DIR4_NONE => rfl
  | DIR4_NORTH =>
    have e3 : ¬ (wsub w.playerY 3 = 0) := by unfold wsub; omega
    have e2 : ¬ (wsub w.playerY 2 = 0) := by unfold wsub; omega
    have ey : wadd (wsub y 5) 1 = wsub y 4 := by unfold wadd wsub; omega
    simp only [TestPlayerMove, TestSpriteMove, hw, hh, e3, e2, ey, or_self, if_false]
  | DIR4_SOUTH =>
    have es : ¬ (wadd w.mapHeight g.SCROLLH = w.playerY) := fun e => hps e.symm
    simp only [TestPlayerMove, TestSpriteMove, hw, es, if_false]
    rw [playerScanSouth_fst]
    split <;> split <;> rfl
  | DIR4_WEST =>
    simp only [TestPlayerMove, TestSpriteMove, hh, hx, if_false]
    exact playerScanSide_eq w _ 5 _ (hwest rfl)
  | DIR4_EAST =>
    have e : (x : Int) + ((3 : Nat) : Int) - 1 = (x : Int) + 2 := by push_cast; ring
    simp only [TestPlayerMove, TestSpriteMove, hh, hw, hxe, if_false, e]
    exact playerScanSide_eq w _ 5 _ (heast rfl)

/-- Witness of C3, amended: the west test at (4, 10) below the wall cell (4, 8). -/
theorem TestPlayerMove_eq_TestSpriteMove_witness :
    (TestPlayerMove demoGlue wallWorld DIR4_WEST 4 10).1 = TestSpriteMove wallWorld DIR4_WEST 0 0 4 10 ∧
    TestSpriteMove wallWorld DIR4_WEST 0 0 4 10 = MOVE_BLOCKED :=
  ⟨TestPlayerMove_eq_TestSpriteMove demoGlue wallWorld DIR4_WEST 0 0 4 10
    (by decide) (by decide) (by decide) (by decide) (by decide) (by decide) (by decide)
    (by decide) (by decide) (by decide), by decide⟩

/-! ## C4 -/

theorem playerScanSouth_flags (w : World) (mapcell : Int) (n i : Nat) :
    (playerScanSouth w mapcell n i).2.isPlayerSlidingEast = w.isPlayerSlidingEast ∧
    (playerScanSouth w mapcell n i).2.isPlayerSlidingWest = w.isPlayerSlidingWest := by
  induction n generalizing i with
  | zero => exact ⟨rfl, rfl⟩
  | succ n ih =>
    unfold playerScanSouth
    split
    · exact ⟨rfl, rfl⟩
    · split
      · exact ⟨rfl, rfl⟩
      · exact ih (i + 1)

/-- On a map whose width is `2 ^ mapYPower`, the cell two rows above (x, y) is
the cell of (x, y - 2), as long as row `y` lies inside the 64K cells. -/
theorem cell_two_rows_up (w : World) (x : Int) (y : Nat)
    (hw : w.mapWidth = 2 ^ w.mapYPower) (hy : 2 ≤ y) (hrow : y * w.mapWidth < 65536) :
    MAP_CELL_ADDR w x y - ((wmul w.mapWidth 2 : Nat) : Int) = MAP_CELL_ADDR w x (wsub y 2) := by
  obtain ⟨z, rfl⟩ : ∃ z, y = z + 2 := ⟨y - 2, by omega⟩
  have hpos : 0 < w.mapWidth := by rw [hw]; exact Nat.pos_pow_of_pos _ (by decide)
  have hz : z < 65536 := by nlinarith
  have e1 : wsub (z + 2) 2 = z := by unfold wsub; omega
  have e2 : (z + 2) * w.mapWidth = z * w.mapWidth + w.mapWidth * 2 := by ring
  unfold MAP_CELL_ADDR
  rw [e1]
  unfold wshl wmul
  rw [Nat.shiftLeft_eq, Nat.shiftLeft_eq, ← hw, e2]
  rw [e2] at hrow
  rw [Nat.mod_eq_of_lt hrow, Nat.mod_eq_of_lt (by omega : w.mapWidth * 2 < 65536),
    Nat.mod_eq_of_lt (by omega : z * w.mapWidth < 65536)]
  push_cast
  ring

/-- C4: the flags set by `TestPlayerMove`.  After a test in a direction other
than south both sliding flags are false.  After a south test that is not
short-cut (`mapHeight + SCROLLH` differs from `playerY`), `isPlayerSlidingEast`
is true iff the tile at (x, y) is sloped, slippery and not south-blocking, and
`isPlayerSlidingWest` is true iff the tile at (x + 2, y) is.  After a west
(east) test on a map of width `2 ^ mapYPower`, with rows y - 2 and y inside the
map memory, `canPlayerCling` is non-zero iff the tile at (x, y - 2)
(at (x + 2, y - 2)) has the can-cling bit. -/
theorem TestPlayerMove_flags (g : Glue) (w : World) (x y : Nat) :
    (∀ dir, dir ≠ DIR4_SOUTH →
      (TestPlayerMove g w dir x y).2.isPlayerSlidingEast = false ∧
      (TestPlayerMove g w dir x y).2.isPlayerSlidingWest = false) ∧
    (wadd w.mapHeight g.SCROLLH ≠ w.playerY →
      ((TestPlayerMove g w DIR4_SOUTH x y).2.isPlayerSlidingEast = true ↔
        (TILE_SLOPED w (w.mapData (MAP_CELL_ADDR w x y)) ≠ 0 ∧
         TILE_SLIPPERY w (w.mapData (MAP_CELL_ADDR w x y)) ≠ 0 ∧
         ¬ (TILE_BLOCK_SOUTH w (w.mapData (MAP_CELL_ADDR w x y)) ≠ 0))) ∧
      ((TestPlayerMove g w DIR4_SOUTH x y).2.isPlayerSlidingWest = true ↔
        (TILE_SLOPED w (w.mapData (MAP_CELL_ADDR w ((x : Int) + 2) y)) ≠ 0 ∧
         TILE_SLIPPERY w (w.mapData (MAP_CELL_ADDR w ((x : Int) + 2) y)) ≠ 0 ∧
         ¬ (TILE_BLOCK_SOUTH w (w.mapData (MAP_CELL_ADDR w ((x : Int) + 2) y)) ≠ 0)))) ∧
    (w.mapWidth = 2 ^ w.mapYPower → 2 ≤ y → y * w.mapWidth < 65536 →
      ((TestPlayerMove g w DIR4_WEST x y).2.canPlayerCling ≠ 0 ↔
        TILE_CAN_CLING w (w.mapData (MAP_CELL_ADDR w x (wsub y 2))) ≠ 0) ∧
      ((TestPlayerMove g w DIR4_EAST x y).2.canPlayerCling ≠ 0 ↔
        TILE_CAN_CLING w (w.mapData (MAP_CELL_ADDR w ((x : Int) + 2) (wsub y 2))) ≠ 0)) := by
  refine ⟨?_, ?_, ?_⟩
  · intro dir hdir
    cases dir with
    | DIR4_SOUTH => exact absurd rfl hdir
    | DIR4_NONE => exact ⟨rfl, rfl⟩
    | DIR4_NORTH =>
      simp only [TestPlayerMove]
      split <;> exact ⟨rfl, rfl⟩
    | DIR4_WEST => exact ⟨rfl, rfl⟩
    | DIR4_EAST => exact ⟨rfl, rfl⟩
  · intro hs
    have e : MAP_CELL_ADDR w ((x : Int) + 2) y = MAP_CELL_ADDR w x y + 2 := by
      unfold MAP_CELL_ADDR; ring
    rw [e]
    simp only [TestPlayerMove, hs, if_false]
    rw [(playerScanSouth_flags _ _ 3 0).1, (playerScanSouth_flags _ _ 3 0).2]
    constructor
    · split_ifs with hA hB hB
      all_goals simp only [true_iff, false_iff, Bool.false_eq_true]
      all_goals tauto
    · split_ifs with hA hB hB
      all_goals simp only [true_iff, false_iff, Bool.false_eq_true]
      all_goals tauto
  · intro hw hy hrow
    have eW := cell_two_rows_up w x y hw hy hrow
    have eE := cell_two_rows_up w ((x : Int) + 2) y hw hy hrow
    simp only [TestPlayerMove]
    constructor
    · show TILE_CAN_CLING w (w.mapData (MAP_CELL_ADDR w x y - ((wmul w.mapWidth 2 : Nat) : Int))) ≠ 0
        ↔ _
      rw [eW]
    · show TILE_CAN_CLING w (w.mapData
        (MAP_CELL_ADDR w ((x : Int) + 2) y - ((wmul w.mapWidth 2 : Nat) : Int))) ≠ 0 ↔ _
      rw [eE]

/-- Witness of C4: in `wallWorld`, a west test at (4, 8), a south test at
(5, 11) on the sloped slippery tile, and the east test at (4, 8) below the
cling tile (6, 6). -/
theorem TestPlayerMove_flags_witness :
    ((TestPlayerMove demoGlue wallWorld DIR4_WEST 4 8).2.isPlayerSlidingEast = false ∧
     (TestPlayerMove demoGlue wallWorld DIR4_WEST 4 8).2.isPlayerSlidingWest = false) ∧
    (TestPlayerMove demoGlue wallWorld DIR4_SOUTH 5 11).2.isPlayerSlidingEast = true ∧
    ¬ ((TestPlayerMove demoGlue wallWorld DIR4_SOUTH 5 11).2.isPlayerSlidingWest = true) ∧
    (TestPlayerMove demoGlue wallWorld DIR4_EAST 4 8).2.canPlayerCling ≠ 0 ∧
    ¬ ((TestPlayerMove demoGlue wallWorld DIR4_WEST 4 8).2.canPlayerCling ≠ 0) :=
  ⟨(TestPlayerMove_flags demoGlue wallWorld 4 8).1 DIR4_WEST (by decide),
   ((TestPlayerMove_flags demoGlue wallWorld 5 11).2.1 (by decide)).1.mpr (by decide),
   fun h => absurd (((TestPlayerMove_flags demoGlue wallWorld 5 11).2.1 (by decide)).2.mp h)
     (by decide),
   ((TestPlayerMove_flags demoGlue wallWorld 4 8).2.2 (by decide) (by decide) (by decide)).2.mpr
     (by decide),
   fun h => absurd
     (((TestPlayerMove_flags demoGlue wallWorld 4 8).2.2 (by decide) (by decide) (by decide)).1.mp h)
     (by decide)⟩

/-! ## C5 -/

/-- C5: for a sprite frame at least one tile wide and tall, a non-empty scroll
window and no 16-bit wrap-around (`x + width`, `scrollX + SCROLLW` and
`scrollY + SCROLLH` fit a word, the top row `y - height + 1` is not negative),
`IsSpriteVisible` is true iff some tile lies both in the box of columns
`[x, x + width)` and rows `[y - height + 1, y]` and in the window of columns
`[scrollX, scrollX + SCROLLW)` and rows `[scrollY, scrollY + SCROLLH)`. -/
theorem IsSpriteVisible_iff_box_meets_window (g : Glue) (w : World) (sprite frame x y : Nat)
    (hwd : 1 ≤ spriteWidth w sprite frame) (hht : 1 ≤ spriteHeight w sprite frame)
    (hW : 1 ≤ g.SCROLLW) (hH : 1 ≤ g.SCROLLH)
    (hx : x + spriteWidth w sprite frame < 65536) (hy : y < 65536)
    (htop : spriteHeight w sprite frame ≤ y + 1)
    (hsx : w.scrollX + g.SCROLLW < 65536) (hsy : w.scrollY + g.SCROLLH < 65536) :
    IsSpriteVisible g w sprite frame x y = true ↔
      ∃ c r : Int,
        ((x : Int) ≤ c ∧ c < (x : Int) + (spriteWidth w sprite frame : Int)) ∧
        ((y : Int) - (spriteHeight w sprite frame : Int) + 1 ≤ r ∧ r ≤ (y : Int)) ∧
        ((w.scrollX : Int) ≤ c ∧ c < (w.scrollX : Int) + (g.SCROLLW : Int)) ∧
        ((w.scrollY : Int) ≤ r ∧ r < (w.scrollY : Int) + (g.SCROLLH : Int)) := by
  unfold IsSpriteVisible
  simp only [wadd, wsub]
  split
  · rename_i hP
    refine ⟨fun _ => ⟨((max x w.scrollX : Nat) : Int),
      ((min y (w.scrollY + g.SCROLLH - 1) : Nat) : Int), ?_⟩, fun _ => rfl⟩
    omega
  · rename_i hP
    refine ⟨fun h => absurd h (by decide), fun hq => absurd ?_ hP⟩
    obtain ⟨c, r, h1, h2, h3, h4⟩ := hq
    omega

/-- Witness of C5: the one-tile sprite at the bottom right corner (37, 17) of the window. -/
theorem IsSpriteVisible_iff_box_meets_window_witness :
    IsSpriteVisible demoGlue boxWorld 0 0 37 17 = true ↔
      ∃ c r : Int,
        ((37 : Int) ≤ c ∧ c < (37 : Int) + (spriteWidth boxWorld 0 0 : Int)) ∧
        ((17 : Int) - (spriteHeight boxWorld 0 0 : Int) + 1 ≤ r ∧ r ≤ (17 : Int)) ∧
        ((boxWorld.scrollX : Int) ≤ c ∧ c < (boxWorld.scrollX : Int) + (38 : Int)) ∧
        ((boxWorld.scrollY : Int) ≤ r ∧ r < (boxWorld.scrollY : Int) + (18 : Int)) :=
  IsSpriteVisible_iff_box_meets_window demoGlue boxWorld 0 0 37 17
    (by decide) (by decide) (by decide) (by decide) (by decide) (by decide) (by decide)
    (by decide) (by decide)

/-! ## C6 -/

/-- C6, counterexample: the player is alive at (10, 10), so its box of width 3
and height 4 is columns 10..12 and rows 7..10; the one-tile sprite at (10, 6)
shares no tile with it, yet `IsTouchingPlayer` is true. -/
theorem IsTouchingPlayer_row_above_height_4 :
    boxWorld.playerDeadTime = 0 ∧ 10 ≤ boxWorld.mapWidth ∧
    IsTouchingPlayer demoGlue boxWorld 0 0 10 6 = true ∧
    ¬ SharesTile 10 (spriteWidth boxWorld 0 0) 6 (spriteHeight boxWorld 0 0)
        boxWorld.playerX 3 boxWorld.playerY 4 := by
  refine ⟨by decide, by decide, by decide, ?_⟩
  show ¬ SharesTile 10 1 6 1 10 3 10 4
  rintro ⟨c, r, h1, h2, h3, h4⟩
  omega

/-- C6, amended: while the player is alive and `x ≤ mapWidth`, for a sprite
frame at least one tile wide and tall and no 16-bit wrap-around
(`x + width` and `playerX + 3` fit a word, `height ≤ y`, `4 ≤ playerY`),
`IsTouchingPlayer` is true iff the sprite box shares a tile with the player box
of width 3 and height 5, columns `[playerX, playerX + 3)` and rows
`[playerY - 4, playerY]`. -/
theorem IsTouchingPlayer_iff_box_meets_player (g : Glue) (w : World) (sprite frame x y : Nat)
    (halive : w.playerDeadTime = 0) (hedge : x ≤ w.mapWidth)
    (hwd : 1 ≤ spriteWidth w sprite frame) (hht : 1 ≤ spriteHeight w sprite frame)
    (hx : x + spriteWidth w sprite frame < 65536) (hy : y < 65536)
    (htop : spriteHeight w sprite frame ≤ y)
    (hpx : w.playerX + 3 < 65536) (hpy : w.playerY < 65536) (hptop : 4 ≤ w.playerY) :
    IsTouchingPlayer g w sprite frame x y = true ↔
      SharesTile x (spriteWidth w sprite frame) y (spriteHeight w sprite frame)
        w.playerX 3 w.playerY 5 := by
  have hne : ¬ (x > w.mapWidth ∧ x ≤ WORD_MAX ∧ sprite = g.SPR_EXPLOSION) := by omega
  unfold IsTouchingPlayer SharesTile
  simp only [halive, hne, ne_eq, not_true_eq_false, if_false, decide_False, wadd, wsub,
    Bool.false_eq_true]
  split
  · rename_i hP
    refine ⟨fun _ => ⟨((max x w.playerX : Nat) : Int),
      ((min y w.playerY : Nat) : Int), ?_⟩, fun _ => rfl⟩
    omega
  · rename_i hP
    refine ⟨fun h => absurd h (by decide), fun hq => absurd ?_ hP⟩
    obtain ⟨c, r, h1, h2, h3, h4⟩ := hq
    omega

/-- Witness of C6, amended: the one-tile sprite at (10, 6), level with the top
row of the player box of height 5. -/
theorem IsTouchingPlayer_iff_box_meets_player_witness :
    IsTouchingPlayer demoGlue boxWorld 0 0 10 6 = true ↔
      SharesTile 10 (spriteWidth boxWorld 0 0) 6 (spriteHeight boxWorld 0 0)
        boxWorld.playerX 3 boxWorld.playerY 5 :=
  IsTouchingPlayer_iff_box_meets_player demoGlue boxWorld 0 0 10 6
    (by decide) (by decide) (by decide) (by decide) (by decide) (by decide) (by decide)
    (by decide) (by decide) (by decide)

/-! ## C7 -/

/-- C7: `IsTouchingPlayer` is false for every sprite, frame and position when
`playerDeadTime` is not zero. -/
theorem IsTouchingPlayer_false_when_dead (g : Glue) (w : World) (sprite frame x y : Nat)
    (hdead : w.playerDeadTime ≠ 0) :
    IsTouchingPlayer g w sprite frame x y = false := by
  unfold IsTouchingPlayer
  rw [if_pos hdead]

/-- Witness of C7: the dying player at (10, 10) and a sprite on the same tile. -/
theorem IsTouchingPlayer_false_when_dead_witness :
    IsTouchingPlayer demoGlue { boxWorld with playerDeadTime := 1 } 0 0 10 10 = false ∧
    IsTouchingPlayer demoGlue boxWorld 0 0 10 10 = true :=
  ⟨IsTouchingPlayer_false_when_dead demoGlue { boxWorld with playerDeadTime := 1 } 0 0 10 10
    (by decide), by decide⟩

/-! ## C8 -/

/-- C8, counterexample: sprite 1, one wide and two tall, at (5, 1) covers rows
0 and 1 of column 5; sprite 0, one tile, at (5, 0) lies inside that box; yet
`IsIntersecting` is false, since `y1 - height1` and `y2 - height2` wrap around
to 65535. -/
theorem IsIntersecting_false_at_top_row :
    5 ≤ boxWorld.mapWidth ∧
    IsIntersecting boxWorld 1 0 5 1 0 0 5 0 = false ∧
    SharesTile 5 (spriteWidth boxWorld 1 0) 1 (spriteHeight boxWorld 1 0)
      5 (spriteWidth boxWorld 0 0) 0 (spriteHeight boxWorld 0 0) := by
  refine ⟨by decide, by decide, ?_⟩
  show SharesTile 5 1 1 2 5 1 0 1
  exact ⟨5, 0, by omega⟩

theorem IsIntersecting_iff_aux (w : World) (sprite1 frame1 x1 y1 sprite2 frame2 x2 y2 : Nat)
    (hedge : x1 ≤ w.mapWidth)
    (hwd1 : 1 ≤ spriteWidth w sprite1 frame1) (hht1 : 1 ≤ spriteHeight w sprite1 frame1)
    (hwd2 : 1 ≤ spriteWidth w sprite2 frame2) (hht2 : 1 ≤ spriteHeight w sprite2 frame2)
    (hx1 : x1 + spriteWidth w sprite1 frame1 < 65536) (hy1 : y1 < 65536)
    (htop1 : spriteHeight w sprite1 frame1 ≤ y1)
    (hx2 : x2 + spriteWidth w sprite2 frame2 < 65536) (hy2 : y2 < 65536)
    (htop2 : spriteHeight w sprite2 frame2 ≤ y2) :
    IsIntersecting w sprite1 frame1 x1 y1 sprite2 frame2 x2 y2 = true ↔
      SharesTile x1 (spriteWidth w sprite1 frame1) y1 (spriteHeight w sprite1 frame1)
        x2 (spriteWidth w sprite2 frame2) y2 (spriteHeight w sprite2 frame2) := by
  have hne : ¬ (x1 > w.mapWidth ∧ x1 ≤ WORD_MAX) := by omega
  unfold IsIntersecting SharesTile
  simp only [hne, if_false, decide_False, wadd, wsub, Bool.false_eq_true]
  split
  · rename_i hP
    refine ⟨fun _ => ⟨((max x1 x2 : Nat) : Int), ((min y1 y2 : Nat) : Int), ?_⟩, fun _ => rfl⟩
    omega
  · rename_i hP
    refine ⟨fun h => absurd h (by decide), fun hq => absurd ?_ hP⟩
    obtain ⟨c, r, h1, h2, h3, h4⟩ := hq
    omega

theorem SharesTile_comm (x1 wd1 y1 ht1 x2 wd2 y2 ht2 : Nat) :
    SharesTile x1 wd1 y1 ht1 x2 wd2 y2 ht2 ↔ SharesTile x2 wd2 y2 ht2 x1 wd1 y1 ht1 := by
  constructor <;> rintro ⟨c, r, h1, h2, h3, h4⟩ <;> exact ⟨c, r, h3, h4, h1, h2⟩

/-- C8, amended: for two sprite frames at least one tile wide and tall, with
`x1 ≤ mapWidth` and no 16-bit wrap-around (`xi + widthi` fits a word and
`heighti ≤ yi`), `IsIntersecting` is true iff the two boxes share a tile; and
when `x2 ≤ mapWidth` as well, swapping the two entities leaves the result
unchanged. -/
theorem IsIntersecting_iff_boxes_meet (w : World)
    (sprite1 frame1 x1 y1 sprite2 frame2 x2 y2 : Nat)
    (hedge : x1 ≤ w.mapWidth)
    (hwd1 : 1 ≤ spriteWidth w sprite1 frame1) (hht1 : 1 ≤ spriteHeight w sprite1 frame1)
    (hwd2 : 1 ≤ spriteWidth w sprite2 frame2) (hht2 : 1 ≤ spriteHeight w sprite2 frame2)
    (hx1 : x1 + spriteWidth w sprite1 frame1 < 65536) (hy1 : y1 < 65536)
    (htop1 : spriteHeight w sprite1 frame1 ≤ y1)
    (hx2 : x2 + spriteWidth w sprite2 frame2 < 65536) (hy2 : y2 < 65536)
    (htop2 : spriteHeight w sprite2 frame2 ≤ y2) :
    (IsIntersecting w sprite1 frame1 x1 y1 sprite2 frame2 x2 y2 = true ↔
      SharesTile x1 (spriteWidth w sprite1 frame1) y1 (spriteHeight w sprite1 frame1)
        x2 (spriteWidth w sprite2 frame2) y2 (spriteHeight w sprite2 frame2)) ∧
    (x2 ≤ w.mapWidth →
      IsIntersecting w sprite2 frame2 x2 y2 sprite1 frame1 x1 y1 =
        IsIntersecting w sprite1 frame1 x1 y1 sprite2 frame2 x2 y2) := by
  have h12 := IsIntersecting_iff_aux w sprite1 frame1 x1 y1 sprite2 frame2 x2 y2
    hedge hwd1 hht1 hwd2 hht2 hx1 hy1 htop1 hx2 hy2 htop2
  refine ⟨h12, fun hedge2 => ?_⟩
  have h21 := IsIntersecting_iff_aux w sprite2 frame2 x2 y2 sprite1 frame1 x1 y1
    hedge2 hwd2 hht2 hwd1 hht1 hx2 hy2 htop2 hx1 hy1 htop1
  rw [Bool.eq_iff_iff, h21, h12]
  exact SharesTile_comm _ _ _ _ _ _ _ _

/-- Witness of C8, amended: sprite 1 at (5, 2), rows 1 and 2, and sprite 0 at (5, 1). -/
theorem IsIntersecting_iff_boxes_meet_witness :
    (IsIntersecting boxWorld 1 0 5 2 0 0 5 1 = true ↔
      SharesTile 5 (spriteWidth boxWorld 1 0) 2 (spriteHeight boxWorld 1 0)
        5 (spriteWidth boxWorld 0 0) 1 (spriteHeight boxWorld 0 0)) ∧
    (5 ≤ boxWorld.mapWidth →
      IsIntersecting boxWorld 0 0 5 1 1 0 5 2 = IsIntersecting boxWorld 1 0 5 2 0 0 5 1) :=
  IsIntersecting_iff_boxes_meet boxWorld 1 0 5 2 0 0 5 1
    (by decide) (by decide) (by decide) (by decide) (by decide) (by decide) (by decide)
    (by decide) (by decide) (by decide) (by decide)

/-! ## Entity pools: the allocation loops -/

theorem arraySet_of_ne {α : Type} (a : Nat → α) (i j : Nat) (v : α) (h : j ≠ i) :
    arraySet a i v j = a j := by
  unfold arraySet
  rw [if_neg h]

theorem arraySet_self {α : Type} (a : Nat → α) (i : Nat) (v : α) :
    arraySet a i v i = v := by
  unfold arraySet
  rw [if_pos rfl]

/-- With no free slot in the range it looks at, the loop of `NewShard` writes nothing. -/
theorem NewShardLoop_full (sprite frame x y : Nat) (w : World) (n i : Nat)
    (h : ∀ j, i ≤ j → j < i + n → (w.shards j).age ≠ 0) :
    NewShardLoop sprite frame x y w n i = w := by
  induction n generalizing i with
  | zero => rfl
  | succ n ih =>
    unfold NewShardLoop
    rw [if_neg (h i (Nat.le_refl i) (by omega))]
    exact ih (i + 1) (fun j h1 h2 => h j (by omega) (by omega))

/-- The loop of `NewShard` writes the first free slot of the range it looks at. -/
theorem NewShardLoop_found (sprite frame x y : Nat) (w : World) (n i k : Nat)
    (hik : i ≤ k) (hkn : k < i + n) (hfree : (w.shards k).age = 0)
    (hlow : ∀ j, i ≤ j → j < k → (w.shards j).age ≠ 0) :
    NewShardLoop sprite frame x y w n i =
      { w with
        shards := arraySet w.shards k { sprite := sprite, x := x, y := y, frame := frame,
                                        age := 1, inclination := w.inclination,
                                        bounced := false } } := by
  induction n generalizing i with
  | zero => omega
  | succ n ih =>
    unfold NewShardLoop
    rcases Nat.eq_or_lt_of_le hik with rfl | hlt
    · rw [if_pos hfree]
    · rw [if_neg (hlow i (Nat.le_refl i) hlt)]
      exact ih (i + 1) hlt (by omega) (fun j h1 h2 => hlow j (by omega) h2)

/-- The loop of `NewShard` leaves every live slot as it is. -/
theorem NewShardLoop_live (sprite frame x y : Nat) (w : World) (n i j : Nat)
    (hj : (w.shards j).age ≠ 0) :
    (NewShardLoop sprite frame x y w n i).shards j = w.shards j := by
  induction n generalizing i with
  | zero => rfl
  | succ n ih =>
    unfold NewShardLoop
    split
    · rename_i hi
      exact arraySet_of_ne _ _ _ _ (fun e => hj (e ▸ hi))
    · exact ih (i + 1)

theorem NewExplosionLoop_full (x y : Nat) (w : World) (n i : Nat)
    (h : ∀ j, i ≤ j → j < i + n → (w.explosions j).age ≠ 0) :
    NewExplosionLoop x y w n i = w := by
  induction n generalizing i with
  | zero => rfl
  | succ n ih =>
    unfold NewExplosionLoop
    rw [if_pos (h i (Nat.le_refl i) (by omega))]
    exact ih (i + 1) (fun j h1 h2 => h j (by omega) (by omega))

theorem NewExplosionLoop_found (x y : Nat) (w : World) (n i k : Nat)
    (hik : i ≤ k) (hkn : k < i + n) (hfree : (w.explosions k).age = 0)
    (hlow : ∀ j, i ≤ j → j < k → (w.explosions j).age ≠ 0) :
    NewExplosionLoop x y w n i =
      { w with explosions := arraySet w.explosions k { age := 1, x := x, y := wadd y 2 } } := by
  induction n generalizing i with
  | zero => omega
  | succ n ih =>
    unfold NewExplosionLoop
    rcases Nat.eq_or_lt_of_le hik with rfl | hlt
    · rw [if_neg (fun h => h hfree)]
    · rw [if_pos (hlow i (Nat.le_refl i) hlt)]
      exact ih (i + 1) hlt (by omega) (fun j h1 h2 => hlow j (by omega) h2)

theorem NewExplosionLoop_live (x y : Nat) (w : World) (n i j : Nat)
    (hj : (w.explosions j).age ≠ 0) :
    (NewExplosionLoop x y w n i).explosions j = w.explosions j := by
  induction n generalizing i with
  | zero => rfl
  | succ n ih =>
    unfold NewExplosionLoop
    split
    · exact ih (i + 1)
    · rename_i hi
      exact arraySet_of_ne _ _ _ _ (fun e => hi (e ▸ hj))

theorem NewSpawnerLoop_full (g : Glue) (actor x y : Nat) (w : World) (n i : Nat)
    (h : ∀ j, i ≤ j → j < i + n → (w.spawners j).actor ≠ g.ACT_BASKET_NULL) :
    NewSpawnerLoop g actor x y w n i = w := by
  induction n generalizing i with
  | zero => rfl
  | succ n ih =>
    unfold NewSpawnerLoop
    rw [if_neg (h i (Nat.le_refl i) (by omega))]
    exact ih (i + 1) (fun j h1 h2 => h j (by omega) (by omega))

theorem NewSpawnerLoop_found (g : Glue) (actor x y : Nat) (w : World) (n i k : Nat)
    (hik : i ≤ k) (hkn : k < i + n) (hfree : (w.spawners k).actor = g.ACT_BASKET_NULL)
    (hlow : ∀ j, i ≤ j → j < k → (w.spawners j).actor ≠ g.ACT_BASKET_NULL) :
    NewSpawnerLoop g actor x y w n i =
      { w with
        spawners := arraySet w.spawners k { actor := actor, x := x, y := y, age := 0 } } := by
  induction n generalizing i with
  | zero => omega
  | succ n ih =>
    unfold NewSpawnerLoop
    rcases Nat.eq_or_lt_of_le hik with rfl | hlt
    · rw [if_pos hfree]
    · rw [if_neg (hlow i (Nat.le_refl i) hlt)]
      exact ih (i + 1) hlt (by omega) (fun j h1 h2 => hlow j (by omega) h2)

theorem NewSpawnerLoop_live (g : Glue) (actor x y : Nat) (w : World) (n i j : Nat)
    (hj : (w.spawners j).actor ≠ g.ACT_BASKET_NULL) :
    (NewSpawnerLoop g actor x y w n i).spawners j = w.spawners j := by
  induction n generalizing i with
  | zero => rfl
  | succ n ih =>
    unfold NewSpawnerLoop
    split
    · rename_i hi
      exact arraySet_of_ne _ _ _ _ (fun e => hj (e ▸ hi))
    · exact ih (i + 1)

theorem NewDecorationLoop_full (sprite numframes x y dir numtimes : Nat) (w : World)
    (n i : Nat) (h : ∀ j, i ≤ j → j < i + n → (w.decorations j).alive = true) :
    NewDecorationLoop sprite numframes x y dir numtimes w n i = w := by
  induction n generalizing i with
  | zero => rfl
  | succ n ih =>
    unfold NewDecorationLoop
    rw [if_neg (fun hn => hn (h i (Nat.le_refl i) (by omega)))]
    exact ih (i + 1) (fun j h1 h2 => h j (by omega) (by omega))

theorem NewDecorationLoop_found (sprite numframes x y dir numtimes : Nat) (w : World)
    (n i k : Nat) (hik : i ≤ k) (hkn : k < i + n) (hfree : (w.decorations k).alive = false)
    (hlow : ∀ j, i ≤ j → j < k → (w.decorations j).alive = true) :
    NewDecorationLoop sprite numframes x y dir numtimes w n i =
      { w with
        decorations := arraySet w.decorations k { alive := true, sprite := sprite,
                                                  numframes := numframes, x := x, y := y,
                                                  dir := dir, numtimes := numtimes },
        decorationFrame := arraySet w.decorationFrame k 0 } := by
  induction n generalizing i with
  | zero => omega
  | succ n ih =>
    unfold NewDecorationLoop
    rcases Nat.eq_or_lt_of_le hik with rfl | hlt
    · rw [if_pos (by rw [hfree]; decide)]
    · rw [if_neg (fun hn => hn (hlow i (Nat.le_refl i) hlt))]
      exact ih (i + 1) hlt (by omega) (fun j h1 h2 => hlow j (by omega) h2)

theorem NewDecorationLoop_live (sprite numframes x y dir numtimes : Nat) (w : World)
    (n i j : Nat) (hj : (w.decorations j).alive = true) :
    (NewDecorationLoop sprite numframes x y dir numtimes w n i).decorations j = w.decorations j ∧
    (NewDecorationLoop sprite numframes x y dir numtimes w n i).decorationFrame j =
      w.decorationFrame j := by
  induction n generalizing i with
  | zero => exact ⟨rfl, rfl⟩
  | succ n ih =>
    unfold NewDecorationLoop
    split
    · rename_i hi
      have hne : j ≠ i := fun e => hi (e ▸ hj)
      exact ⟨arraySet_of_ne _ _ _ _ hne, arraySet_of_ne _ _ _ _ hne⟩
    · exact ih (i + 1)

/-- The globals that the loop of `NewShard` starts from: those of the caller,
but for the static `inclination`. -/
theorem NewShard_eq (w : World) (sprite frame x y : Nat) :
    NewShard w sprite frame x y =
      NewShardLoop sprite frame x y
        { w with inclination := if wadd w.inclination 1 = 5 then 0 else wadd w.inclination 1 }
        w.numShards 0 := by
  unfold NewShard
  by_cases h : wadd w.inclination 1 = 5
  · simp only [h, if_true]
  · simp only [h, if_false]

/-! ## The `goto restart` of `MoveAndDrawShards` -/

theorem shardRise_restart_age (w : World) (sh : Shard) :
    (shardRise w sh).1 = ShardFlow.toRestart → (shardRise w sh).2.age = 3 := by
  unfold shardRise
  by_cases h : sh.age < 5
  · simp only [h, if_true]
    split_ifs
    · intro h'; exact absurd h' (by decide)
    · intro _; rfl
    · intro h'; exact absurd h' (by decide)
    · intro h'; exact absurd h' (by decide)
  · simp only [h, if_false]
    split_ifs
    · intro h'; exact absurd h' (by decide)
    · intro _; rfl
    · intro h'; exact absurd h' (by decide)
    · intro h'; exact absurd h' (by decide)

theorem shardFall_restart_age (g : Glue) (w : World) (sh : Shard) :
    (shardFall g w sh).1 = ShardFlow.toRestart → (shardFall g w sh).2.age = 3 := by
  unfold shardFall
  dsimp only
  split_ifs
  · intro h'; exact absurd h' (by decide)
  · intro _; rfl
  · intro _; rfl
  · intro h'; exact absurd h' (by decide)
  · intro h'; exact absurd h' (by decide)

/-- A shard that gets to the label `restart` with age 3 takes no `goto`. -/
theorem shardFromRestart_age_3 (g : Glue) (w : World) (n : Nat) (sh : Shard) (h : sh.age = 3) :
    shardFromRestart g w (n + 1) sh = shardAge { sh with y := wsub sh.y 2 } := by
  have e1 : shardRise w sh = (ShardFlow.onward, { sh with y := wsub sh.y 2 }) := by
    unfold shardRise
    simp [h]
  have e2 : shardFall g w { sh with y := wsub sh.y 2 }
      = (ShardFlow.onward, { sh with y := wsub sh.y 2 }) := by
    unfold shardFall
    simp [h]
  unfold shardFromRestart
  simp only [e1, e2]

/-- Two units of fuel are enough for `shardFromRestart`: more fuel gives the same shard. -/
theorem shardFromRestart_fuel (g : Glue) (w : World) (n : Nat) (sh : Shard) :
    shardFromRestart g w (n + 2) sh = shardFromRestart g w 2 sh := by
  have hr := shardRise_restart_age w sh
  conv_lhs => rw [shardFromRestart]
  conv_rhs => rw [shardFromRestart]
  rcases hrise : shardRise w sh with ⟨flow, sh1⟩
  rw [hrise] at hr
  cases flow with
  | toNext => rfl
  | toRestart =>
    simp only
    rw [shardFromRestart_age_3 g w n sh1 (hr rfl), shardFromRestart_age_3 g w 0 sh1 (hr rfl)]
  | onward =>
    simp only
    have hf := shardFall_restart_age g w sh1
    rcases hfall : shardFall g w sh1 with ⟨flow2, sh2⟩
    rw [hfall] at hf
    cases flow2 with
    | toNext => rfl
    | onward => rfl
    | toRestart =>
      simp only
      rw [shardFromRestart_age_3 g w n sh2 (hf rfl), shardFromRestart_age_3 g w 0 sh2 (hf rfl)]

/-! ## C9 -/

/-- C9: allocating into a pool without a free slot.  `NewShard` leaves every
shard as it is (it only advances its static `inclination`); `NewExplosion`,
`NewSpawner` and `NewDecoration` leave all globals as they are.  The four
functions return `void`: no error is reported. -/
theorem allocate_in_full_pool_is_noop (g : Glue) (w : World)
    (sprite frame x y actor numframes dir numtimes : Nat) :
    ((∀ i, i < w.numShards → (w.shards i).age ≠ 0) →
      (NewShard w sprite frame x y).shards = w.shards) ∧
    ((∀ i, i < w.numExplosions → (w.explosions i).age ≠ 0) →
      NewExplosion w x y = w) ∧
    ((∀ i, i < w.numSpawners → (w.spawners i).actor ≠ g.ACT_BASKET_NULL) →
      NewSpawner g w actor x y = w) ∧
    ((∀ i, i < w.numDecorations → (w.decorations i).alive = true) →
      NewDecoration w sprite numframes x y dir numtimes = w) := by
  refine ⟨fun h => ?_, fun h => ?_, fun h => ?_, fun h => ?_⟩
  · rw [NewShard_eq, NewShardLoop_full]
    exact fun j _ h2 => h j (by omega)
  · exact NewExplosionLoop_full x y w _ 0 (fun j _ h2 => h j (by omega))
  · exact NewSpawnerLoop_full g actor x y w _ 0 (fun j _ h2 => h j (by omega))
  · exact NewDecorationLoop_full sprite numframes x y dir numtimes w _ 0
      (fun j _ h2 => h j (by omega))

/-- Witness of C9: in `fullWorld` both slots of each pool are live. -/
theorem allocate_in_full_pool_is_noop_witness :
    (NewShard fullWorld 7 1 4 4).shards = fullWorld.shards ∧
    NewExplosion fullWorld 4 4 = fullWorld ∧
    NewSpawner demoGlue fullWorld 9 4 4 = fullWorld ∧
    NewDecoration fullWorld 7 3 4 4 1 2 = fullWorld :=
  ⟨(allocate_in_full_pool_is_noop demoGlue fullWorld 7 1 4 4 9 3 1 2).1 (by decide),
   (allocate_in_full_pool_is_noop demoGlue fullWorld 7 1 4 4 9 3 1 2).2.1 (by decide),
   (allocate_in_full_pool_is_noop demoGlue fullWorld 7 1 4 4 9 3 1 2).2.2.1 (by decide),
   (allocate_in_full_pool_is_noop demoGlue fullWorld 7 1 4 4 9 3 1 2).2.2.2 (by decide)⟩

/-! ## C10 -/

theorem NewShard_takes_lowest (w : World) (k sprite frame x y : Nat)
    (hk : k < w.numShards) (hfree : (w.shards k).age = 0)
    (hlow : ∀ j, j < k → (w.shards j).age ≠ 0) :
    (NewShard w sprite frame x y).shards =
      arraySet w.shards k
        { sprite := sprite, x := x, y := y, frame := frame, age := 1,
          inclination := if wadd w.inclination 1 = 5 then 0 else wadd w.inclination 1,
          bounced := false } := by
  have h := NewShardLoop_found sprite frame x y
    { w with inclination := if wadd w.inclination 1 = 5 then 0 else wadd w.inclination 1 }
    w.numShards 0 k (Nat.zero_le k) (by omega) hfree (fun j _ h2 => hlow j h2)
  rw [NewShard_eq, h]

theorem NewExplosion_takes_lowest (w : World) (k x y : Nat)
    (hk : k < w.numExplosions) (hfree : (w.explosions k).age = 0)
    (hlow : ∀ j, j < k → (w.explosions j).age ≠ 0) :
    (NewExplosion w x y).explosions =
      arraySet w.explosions k { age := 1, x := x, y := wadd y 2 } := by
  unfold NewExplosion
  rw [NewExplosionLoop_found x y w _ 0 k (Nat.zero_le k) (by omega) hfree
    (fun j _ h2 => hlow j h2)]

theorem NewSpawner_takes_lowest (g : Glue) (w : World) (k actor x y : Nat)
    (hk : k < w.numSpawners) (hfree : (w.spawners k).actor = g.ACT_BASKET_NULL)
    (hlow : ∀ j, j < k → (w.spawners j).actor ≠ g.ACT_BASKET_NULL) :
    (NewSpawner g w actor x y).spawners =
      arraySet w.spawners k { actor := actor, x := x, y := y, age := 0 } := by
  unfold NewSpawner
  rw [NewSpawnerLoop_found g actor x y w _ 0 k (Nat.zero_le k) (by omega) hfree
    (fun j _ h2 => hlow j h2)]

theorem NewDecoration_takes_lowest (w : World) (k sprite numframes x y dir numtimes : Nat)
    (hk : k < w.numDecorations) (hfree : (w.decorations k).alive = false)
    (hlow : ∀ j, j < k → (w.decorations j).alive = true) :
    (NewDecoration w sprite numframes x y dir numtimes).decorations =
      arraySet w.decorations k
        { alive := true, sprite := sprite, numframes := numframes, x := x, y := y,
          dir := dir, numtimes := numtimes } ∧
    (NewDecoration w sprite numframes x y dir numtimes).decorationFrame =
      arraySet w.decorationFrame k 0 := by
  unfold NewDecoration
  rw [NewDecorationLoop_found sprite numframes x y dir numtimes w _ 0 k (Nat.zero_le k)
    (by omega) hfree (fun j _ h2 => hlow j h2)]
  exact ⟨rfl, rfl⟩

/-- C10: allocation in the shard, explosion, spawner and decoration pools.
For each pool: (1) `New...` leaves every live slot as it is; (2) when `k` is
the lowest-indexed free slot, `New...` writes the new entry into slot `k` and
leaves every other slot as it is; (3) when the per-frame pass of the pool has
just freed the live slot `e` and no lower-indexed slot is free after the pass,
the next `New...` writes the new entry into slot `e`. -/
theorem allocate_takes_lowest_free_slot (g : Glue) (rnd : Nat → Nat) (w : World) (k e : Nat)
    (sprite frame x y actor numframes dir numtimes : Nat) :
    ((∀ j, (w.shards j).age ≠ 0 → (NewShard w sprite frame x y).shards j = w.shards j) ∧
     (k < w.numShards → (w.shards k).age = 0 → (∀ j, j < k → (w.shards j).age ≠ 0) →
       (NewShard w sprite frame x y).shards =
         arraySet w.shards k
           { sprite := sprite, x := x, y := y, frame := frame, age := 1,
             inclination := if wadd w.inclination 1 = 5 then 0 else wadd w.inclination 1,
             bounced := false }) ∧
     (e < (MoveAndDrawShards g w).numShards → (w.shards e).age ≠ 0 →
       ((MoveAndDrawShards g w).shards e).age = 0 →
       (∀ j, j < e → ((MoveAndDrawShards g w).shards j).age ≠ 0) →
       (NewShard (MoveAndDrawShards g w) sprite frame x y).shards =
         arraySet (MoveAndDrawShards g w).shards e
           { sprite := sprite, x := x, y := y, frame := frame, age := 1,
             inclination :=
               if wadd (MoveAndDrawShards g w).inclination 1 = 5 then 0
               else wadd (MoveAndDrawShards g w).inclination 1,
             bounced := false })) ∧
    ((∀ j, (w.explosions j).age ≠ 0 → (NewExplosion w x y).explosions j = w.explosions j) ∧
     (k < w.numExplosions → (w.explosions k).age = 0 →
       (∀ j, j < k → (w.explosions j).age ≠ 0) →
       (NewExplosion w x y).explosions =
         arraySet w.explosions k { age := 1, x := x, y := wadd y 2 }) ∧
     (e < (DrawExplosions g w).numExplosions → (w.explosions e).age ≠ 0 →
       ((DrawExplosions g w).explosions e).age = 0 →
       (∀ j, j < e → ((DrawExplosions g w).explosions j).age ≠ 0) →
       (NewExplosion (DrawExplosions g w) x y).explosions =
         arraySet (DrawExplosions g w).explosions e { age := 1, x := x, y := wadd y 2 })) ∧
    ((∀ j, (w.spawners j).actor ≠ g.ACT_BASKET_NULL →
       (NewSpawner g w actor x y).spawners j = w.spawners j) ∧
     (k < w.numSpawners → (w.spawners k).actor = g.ACT_BASKET_NULL →
       (∀ j, j < k → (w.spawners j).actor ≠ g.ACT_BASKET_NULL) →
       (NewSpawner g w actor x y).spawners =
         arraySet w.spawners k { actor := actor, x := x, y := y, age := 0 }) ∧
     (e < (MoveAndDrawSpawners g w).numSpawners → (w.spawners e).actor ≠ g.ACT_BASKET_NULL →
       ((MoveAndDrawSpawners g w).spawners e).actor = g.ACT_BASKET_NULL →
       (∀ j, j < e → ((MoveAndDrawSpawners g w).spawners j).actor ≠ g.ACT_BASKET_NULL) →
       (NewSpawner g (MoveAndDrawSpawners g w) actor x y).spawners =
         arraySet (MoveAndDrawSpawners g w).spawners e
           { actor := actor, x := x, y := y, age := 0 })) ∧
    ((∀ j, (w.decorations j).alive = true →
       (NewDecoration w sprite numframes x y dir numtimes).decorations j = w.decorations j ∧
       (NewDecoration w sprite numframes x y dir numtimes).decorationFrame j =
         w.decorationFrame j) ∧
     (k < w.numDecorations → (w.decorations k).alive = false →
       (∀ j, j < k → (w.decorations j).alive = true) →
       (NewDecoration w sprite numframes x y dir numtimes).decorations =
         arraySet w.decorations k
           { alive := true, sprite := sprite, numframes := numframes, x := x, y := y,
             dir := dir, numtimes := numtimes } ∧
       (NewDecoration w sprite numframes x y dir numtimes).decorationFrame =
         arraySet w.decorationFrame k 0) ∧
     (e < (MoveAndDrawDecorations g rnd w).numDecorations → (w.decorations e).alive = true →
       ((MoveAndDrawDecorations g rnd w).decorations e).alive = false →
       (∀ j, j < e → ((MoveAndDrawDecorations g rnd w).decorations j).alive = true) →
       (NewDecoration (MoveAndDrawDecorations g rnd w) sprite numframes x y dir
           numtimes).decorations =
         arraySet (MoveAndDrawDecorations g rnd w).decorations e
           { alive := true, sprite := sprite, numframes := numframes, x := x, y := y,
             dir := dir, numtimes := numtimes } ∧
       (NewDecoration (MoveAndDrawDecorations g rnd w) sprite numframes x y dir
           numtimes).decorationFrame =
         arraySet (MoveAndDrawDecorations g rnd w).decorationFrame e 0)) := by
  refine ⟨⟨fun j hj => ?_, fun h1 h2 h3 => NewShard_takes_lowest w k sprite frame x y h1 h2 h3,
      fun h1 _ h2 h3 => NewShard_takes_lowest _ e sprite frame x y h1 h2 h3⟩,
    ⟨fun j hj => NewExplosionLoop_live x y w _ 0 j hj,
      fun h1 h2 h3 => NewExplosion_takes_lowest w k x y h1 h2 h3,
      fun h1 _ h2 h3 => NewExplosion_takes_lowest _ e x y h1 h2 h3⟩,
    ⟨fun j hj => NewSpawnerLoop_live g actor x y w _ 0 j hj,
      fun h1 h2 h3 => NewSpawner_takes_lowest g w k actor x y h1 h2 h3,
      fun h1 _ h2 h3 => NewSpawner_takes_lowest g _ e actor x y h1 h2 h3⟩,
    ⟨fun j hj => NewDecorationLoop_live sprite numframes x y dir numtimes w _ 0 j hj,
      fun h1 h2 h3 => NewDecoration_takes_lowest w k sprite numframes x y dir numtimes h1 h2 h3,
      fun h1 _ h2 h3 =>
        NewDecoration_takes_lowest _ e sprite numframes x y dir numtimes h1 h2 h3⟩⟩
  rw [NewShard_eq]
  exact NewShardLoop_live sprite frame x y _ _ 0 j hj

/-- Witness of C10: in `poolWorld` slot 0 of each pool is live, slot 2 is the
lowest free slot, and the per-frame pass frees slot 1, which the next
allocation takes. -/
theorem allocate_takes_lowest_free_slot_witness :
    ((NewShard poolWorld 7 1 4 4).shards 0 = poolWorld.shards 0 ∧
     (NewShard poolWorld 7 1 4 4).shards 2 =
       { sprite := 7, x := 4, y := 4, frame := 1, age := 1, inclination := 1 } ∧
     (NewShard (MoveAndDrawShards demoGlue poolWorld) 7 1 4 4).shards 1 =
       { sprite := 7, x := 4, y := 4, frame := 1, age := 1, inclination := 1 }) ∧
    ((NewExplosion poolWorld 4 4).explosions 0 = poolWorld.explosions 0 ∧
     (NewExplosion poolWorld 4 4).explosions 2 = { age := 1, x := 4, y := 6 } ∧
     (NewExplosion (DrawExplosions demoGlue poolWorld) 4 4).explosions 1 =
       { age := 1, x := 4, y := 6 }) ∧
    ((NewSpawner demoGlue poolWorld 9 4 4).spawners 0 = poolWorld.spawners 0 ∧
     (NewSpawner demoGlue poolWorld 9 4 4).spawners 2 = { actor := 9, x := 4, y := 4 } ∧
     (NewSpawner demoGlue (MoveAndDrawSpawners demoGlue poolWorld) 9 4 4).spawners 1 =
       { actor := 9, x := 4, y := 4 }) ∧
    ((NewDecoration poolWorld 7 3 4 4 1 2).decorations 0 = poolWorld.decorations 0 ∧
     (NewDecoration poolWorld 7 3 4 4 1 2).decorations 2 =
       { alive := true, sprite := 7, numframes := 3, x := 4, y := 4, dir := 1, numtimes := 2 } ∧
     (NewDecoration (MoveAndDrawDecorations demoGlue (fun _ => 0) poolWorld) 7 3 4 4 1 2).decorations 1 =
       { alive := true, sprite := 7, numframes := 3, x := 4, y := 4, dir := 1, numtimes := 2 }) := by
  have h := allocate_takes_lowest_free_slot demoGlue (fun _ => 0) poolWorld 2 1 7 1 4 4 9 3 1 2
  refine ⟨⟨h.1.1 0 (by decide), ?_, ?_⟩, ⟨h.2.1.1 0 (by decide), ?_, ?_⟩,
    ⟨h.2.2.1.1 0 (by decide), ?_, ?_⟩, ⟨(h.2.2.2.1 0 (by decide)).1, ?_, ?_⟩⟩
  · rw [h.1.2.1 (by decide) (by decide) (by decide)]; rfl
  · rw [h.1.2.2 (by decide) (by decide) (by decide) (by decide)]; rfl
  · rw [h.2.1.2.1 (by decide) (by decide) (by decide)]; rfl
  · rw [h.2.1.2.2 (by decide) (by decide) (by decide) (by decide)]; rfl
  · rw [h.2.2.1.2.1 (by decide) (by decide) (by decide)]; rfl
  · rw [h.2.2.1.2.2 (by decide) (by decide) (by decide) (by decide)]; rfl
  · rw [(h.2.2.2.2.1 (by decide) (by decide) (by decide)).1]; rfl
  · rw [(h.2.2.2.2.2 (by decide) (by decide) (by decide) (by decide)).1]; rfl

/-! ## Actors: what the constructors write -/

theorem arraySet_arraySet {α : Type} (a : Nat → α) (i : Nat) (u v : α) :
    arraySet (arraySet a i u) i v = arraySet a i v := by
  funext j
  unfold arraySet
  split <;> rfl

/-- The function `ConstructActor` writes the actor array and `numBarrels` only. -/
theorem ConstructActor_frame (g : Glue) (w : World) (s : ActorSpec) :
    ∃ a b, ConstructActor g w s = { w with actors := a, numBarrels := b } := by
  unfold ConstructActor
  split
  · exact ⟨_, _, rfl⟩
  · exact ⟨_, _, rfl⟩

theorem ConstructActor_actors (g : Glue) (w : World) (s : ActorSpec) :
    (ConstructActor g w s).actors = arraySet w.actors w.nextActorIndex (builtActor s false) ∧
    (ConstructActor g w s).numActors = w.numActors := by
  unfold ConstructActor builtActor
  split <;> simp

theorem NewActorAtIndex_frame (g : Glue) (w : World) (index t x y : Nat) :
    ∃ a i b, (NewActorAtIndex g w index t x y).2 =
      { w with actors := a, nextActorIndex := i, numBarrels := b } := by
  unfold NewActorAtIndex
  split
  · rename_i s _
    obtain ⟨a, b, h⟩ := ConstructActor_frame g { w with nextActorIndex := index } s
    exact ⟨a, index, b, by simp only [h]⟩
  · exact ⟨_, _, _, rfl⟩

theorem NewActorAt_frame (g : Glue) (w : World) (i t x y : Nat) :
    ∃ a n b, NewActorAt g w i t x y =
      { w with actors := a, nextActorIndex := n, numBarrels := b } := by
  unfold NewActorAt
  obtain ⟨a, n, b, h⟩ := NewActorAtIndex_frame g w i t x y
  rw [h]
  split
  · exact ⟨_, _, _, rfl⟩
  · exact ⟨_, _, _, rfl⟩

theorem NewActorAt_actors (g : Glue) (w : World) (i t x y : Nat) (s : ActorSpec)
    (hs : g.actorCases t x y = some s) :
    (NewActorAt g w i t x y).actors =
      arraySet w.actors i (builtActor s (decide (t = g.ACT_PARACHUTE_BALL))) ∧
    (NewActorAt g w i t x y).numActors = w.numActors := by
  have h := ConstructActor_actors g { w with nextActorIndex := i } s
  unfold NewActorAt NewActorAtIndex
  simp only [hs]
  split
  · rename_i hp
    refine ⟨?_, h.2⟩
    simp only [h.1, arraySet_arraySet, arraySet_self, hp, decide_True]
    simp [builtActor]
  · rename_i hp
    refine ⟨?_, h.2⟩
    rw [h.1]
    simp [hp, builtActor]

theorem NewActorLoop_none (g : Glue) (t x y : Nat) (w : World) (n i : Nat)
    (h : ∀ j, i ≤ j → j < i + n → (w.actors j).dead = false) :
    NewActorLoop g t x y w n i = none := by
  induction n generalizing i with
  | zero => rfl
  | succ n ih =>
    unfold NewActorLoop
    rw [if_neg (by rw [h i (Nat.le_refl i) (by omega)]; decide)]
    exact ih (i + 1) (fun j h1 h2 => h j (by omega) (by omega))

theorem NewActorLoop_found (g : Glue) (t x y : Nat) (w : World) (n i k : Nat)
    (hik : i ≤ k) (hkn : k < i + n) (hdead : (w.actors k).dead = true)
    (hlow : ∀ j, i ≤ j → j < k → (w.actors j).dead = false) :
    NewActorLoop g t x y w n i = some (NewActorAt g w k t x y) := by
  induction n generalizing i with
  | zero => omega
  | succ n ih =>
    unfold NewActorLoop
    rcases Nat.eq_or_lt_of_le hik with rfl | hlt
    · rw [if_pos hdead]
    · rw [if_neg (by rw [hlow i (Nat.le_refl i) hlt]; decide)]
      exact ih (i + 1) hlt (by omega) (fun j h1 h2 => hlow j (by omega) h2)

/-- The function `NewActor` writes the actor array, `numActors`, `nextActorIndex`
and `numBarrels` only. -/
theorem NewActor_frame (g : Glue) (w : World) (t x y : Nat) :
    ∃ a n i b, NewActor g w t x y =
      { w with actors := a, numActors := n, nextActorIndex := i, numBarrels := b } := by
  have hloop : ∀ n i w1, NewActorLoop g t x y w n i = some w1 →
      ∃ a k b, w1 = { w with actors := a, nextActorIndex := k, numBarrels := b } := by
    intro n
    induction n with
    | zero => intro i w1 h; simp [NewActorLoop] at h
    | succ n ih =>
      intro i w1 h
      unfold NewActorLoop at h
      split at h
      · obtain ⟨a, k, b, e⟩ := NewActorAt_frame g w i t x y
        exact ⟨a, k, b, by rw [← Option.some.inj h, e]⟩
      · exact ih (i + 1) w1 h
  unfold NewActor
  split
  · rename_i w1 h
    obtain ⟨a, k, b, e⟩ := hloop _ _ _ h
    exact ⟨a, w.numActors, k, b, by rw [e]⟩
  · split
    · obtain ⟨a, k, b, e⟩ := NewActorAt_frame g w w.numActors t x y
      exact ⟨a, wadd w.numActors 1, k, b, by rw [e]⟩
    · exact ⟨_, _, _, _, rfl⟩

/-! ## C11 -/

/-- C11: `NewActor(type, x, y)` with a type that `NewActorAtIndex` knows, `s`
being the `ConstructActor` arguments of its case.  (1) When `k` is the
lowest-indexed slot below `numActors` whose dead flag is set, the actor is built
in slot `k`, no other slot changes and `numActors` stays.  (2) When no slot below
`numActors` is dead and `numActors < MAX_ACTORS - 2`, the actor is built in slot
`numActors` and `numActors` grows by one.  (3) When no slot is dead and
`numActors < MAX_ACTORS - 2` fails, the actor array and `numActors` stay. -/
theorem NewActor_first_dead_else_tail (g : Glue) (w : World) (t x y k : Nat) (s : ActorSpec)
    (hs : g.actorCases t x y = some s) :
    (k < w.numActors → (w.actors k).dead = true →
      (∀ j, j < k → (w.actors j).dead = false) →
      (NewActor g w t x y).actors =
        arraySet w.actors k (builtActor s (decide (t = g.ACT_PARACHUTE_BALL))) ∧
      (NewActor g w t x y).numActors = w.numActors) ∧
    ((∀ j, j < w.numActors → (w.actors j).dead = false) →
      w.numActors < wsub g.MAX_ACTORS 2 →
      (NewActor g w t x y).actors =
        arraySet w.actors w.numActors (builtActor s (decide (t = g.ACT_PARACHUTE_BALL))) ∧
      (NewActor g w t x y).numActors = w.numActors + 1) ∧
    ((∀ j, j < w.numActors → (w.actors j).dead = false) →
      ¬ (w.numActors < wsub g.MAX_ACTORS 2) →
      (NewActor g w t x y).actors = w.actors ∧
      (NewActor g w t x y).numActors = w.numActors) := by
  refine ⟨fun hk hdead hlow => ?_, fun hnone hroom => ?_, fun hnone hroom => ?_⟩
  · unfold NewActor
    rw [NewActorLoop_found g t x y w _ 0 k (Nat.zero_le k) (by omega) hdead
      (fun j _ h2 => hlow j h2)]
    exact NewActorAt_actors g w k t x y s hs
  · unfold NewActor
    rw [NewActorLoop_none g t x y w _ 0 (fun j _ h2 => hnone j (by omega))]
    rw [if_pos hroom]
    have h := NewActorAt_actors g w w.numActors t x y s hs
    refine ⟨h.1, ?_⟩
    show wadd (NewActorAt g w w.numActors t x y).numActors 1 = w.numActors + 1
    rw [h.2]
    have : wsub g.MAX_ACTORS 2 < 65536 := by unfold wsub; omega
    unfold wadd
    omega
  · unfold NewActor
    rw [NewActorLoop_none g t x y w _ 0 (fun j _ h2 => hnone j (by omega))]
    rw [if_neg hroom]
    exact ⟨rfl, rfl⟩

/-! ## C12 -/

theorem NewMapActorSpecial_keeps (g : Glue) (w : World) (a x y : Nat) :
    (NewMapActorSpecial g w a x y).actors = w.actors ∧
    (NewMapActorSpecial g w a x y).numActors = w.numActors ∧
    (NewMapActorSpecial g w a x y).mapData = w.mapData := by
  unfold NewMapActorSpecial NewMapActorPlayerStart NewMapActorPlatform NewMapActorFountain
    NewMapActorLight
  split_ifs <;> exact ⟨rfl, rfl, rfl⟩

/-- What `NewMapActor` does to the actor array, to `numActors` and to the map. -/
theorem NewMapActor_actors (g : Glue) (w : World) (index a x y : Nat) :
    (NewMapActor g w index a x y).mapData = w.mapData ∧
    (∀ s, mapActorSpec g a x y = some s →
      (NewMapActor g w index a x y).actors = arraySet w.actors index (builtActor s false) ∧
      (NewMapActor g w index a x y).numActors = wadd w.numActors 1) ∧
    (mapActorSpec g a x y = none →
      (NewMapActor g w index a x y).actors = w.actors ∧
      (NewMapActor g w index a x y).numActors = w.numActors) := by
  have hk : ∀ v : World, v.actors = w.actors → v.numActors = w.numActors →
      v.mapData = w.mapData →
      (let r := NewActorAtIndex g v index (wsub a 31) x y
       (if r.1 = true then { r.2 with numActors := wadd r.2.numActors 1 } else r.2)).mapData
        = w.mapData ∧
      (∀ s, g.actorCases (wsub a 31) x y = some s →
        (let r := NewActorAtIndex g v index (wsub a 31) x y
         (if r.1 = true then { r.2 with numActors := wadd r.2.numActors 1 } else r.2)).actors
          = arraySet w.actors index (builtActor s false) ∧
        (let r := NewActorAtIndex g v index (wsub a 31) x y
         (if r.1 = true then { r.2 with numActors := wadd r.2.numActors 1 } else r.2)).numActors
          = wadd w.numActors 1) ∧
      (g.actorCases (wsub a 31) x y = none →
        (let r := NewActorAtIndex g v index (wsub a 31) x y
         (if r.1 = true then { r.2 with numActors := wadd r.2.numActors 1 } else r.2)).actors
          = w.actors ∧
        (let r := NewActorAtIndex g v index (wsub a 31) x y
         (if r.1 = true then { r.2 with numActors := wadd r.2.numActors 1 } else r.2)).numActors
          = w.numActors) := by
    intro v ha hn hm
    unfold NewActorAtIndex
    cases hc : g.actorCases (wsub a 31) x y with
    | none => simp [ha, hn, hm]
    | some s =>
      have h1 := ConstructActor_actors g { v with nextActorIndex := index } s
      obtain ⟨aa, bb, h2⟩ := ConstructActor_frame g { v with nextActorIndex := index } s
      simp only [if_true, Option.some.injEq, forall_eq', false_implies, and_true,
        reduceCtorEq]
      refine ⟨?_, ?_, ?_⟩
      · rw [h2]; exact hm
      · show (ConstructActor g { v with nextActorIndex := index } s).actors = _
        rw [h1.1]; simp [ha]
      · show wadd (ConstructActor g { v with nextActorIndex := index } s).numActors 1 = _
        rw [h1.2]; simp [hn]
  have hs := NewMapActorSpecial_keeps g w a x y
  unfold NewMapActor mapActorSpec
  by_cases h31 : a ≥ 31
  · simp only [h31, if_true]
    by_cases h32 : a < 32
    · simp only [h32, if_true]
      exact hk _ hs.1 hs.2.1 hs.2.2
    · simp only [h32, if_false]
      exact hk w rfl rfl rfl
  · have h32 : a < 32 := by omega
    simp only [h31, h32, if_true, if_false]
    exact ⟨hs.2.2, fun s h => by simp at h, fun _ => ⟨hs.1, hs.2.1⟩⟩

/-- The loop of `LoadMapData`: as long as `numActors` does not pass
`MAX_ACTORS - 1`, the actors of the map file sit in consecutive slots from the
first `numActors` on, in file order, and the slots below it are not written. -/
theorem LoadMapActorsLoop_consecutive (g : Glue) (n i : Nat) (w : World)
    (hcap : w.numActors + (placedSpecs g w.mapData n i).length ≤ wsub g.MAX_ACTORS 1) :
    (LoadMapActorsLoop g n i w).mapData = w.mapData ∧
    (LoadMapActorsLoop g n i w).numActors =
      w.numActors + (placedSpecs g w.mapData n i).length ∧
    (∀ r s, (placedSpecs g w.mapData n i)[r]? = some s →
      (LoadMapActorsLoop g n i w).actors (w.numActors + r) = builtActor s false) ∧
    (∀ j, j < w.numActors → (LoadMapActorsLoop g n i w).actors j = w.actors j) := by
  have hmax : wsub g.MAX_ACTORS 1 < 65536 := by unfold wsub; omega
  induction n generalizing i w with
  | zero => exact ⟨rfl, rfl, fun r s h => by simp [placedSpecs] at h, fun j _ => rfl⟩
  | succ n ih =>
    obtain ⟨hm, hsome, hnone⟩ := NewMapActor_actors g w w.numActors (w.mapData (i : Int))
      (w.mapData ((i : Int) + 1)) (w.mapData ((i : Int) + 2))
    unfold LoadMapActorsLoop
    unfold placedSpecs at hcap ⊢
    cases hc : mapActorSpec g (w.mapData (i : Int)) (w.mapData ((i : Int) + 1))
        (w.mapData ((i : Int) + 2)) with
    | none =>
      rw [hc] at hcap
      obtain ⟨ha, hn⟩ := hnone hc
      simp only
      have hno : ¬ ((NewMapActor g w w.numActors (w.mapData (i : Int))
          (w.mapData ((i : Int) + 1)) (w.mapData ((i : Int) + 2))).numActors
            > wsub g.MAX_ACTORS 1) := by rw [hn]; omega
      rw [if_neg hno]
      have h := ih (i + 3) (NewMapActor g w w.numActors (w.mapData (i : Int))
        (w.mapData ((i : Int) + 1)) (w.mapData ((i : Int) + 2))) (by rw [hm, hn]; exact hcap)
      rw [hm, hn, ha] at h
      exact ⟨h.1, h.2.1, h.2.2.1, h.2.2.2⟩
    | some s =>
      rw [hc] at hcap
      simp only [List.length_cons] at hcap ⊢
      obtain ⟨ha, hn⟩ := hsome s hc
      have hn1 : wadd w.numActors 1 = w.numActors + 1 := by unfold wadd; omega
      rw [hn1] at hn
      have hno : ¬ ((NewMapActor g w w.numActors (w.mapData (i : Int))
          (w.mapData ((i : Int) + 1)) (w.mapData ((i : Int) + 2))).numActors
            > wsub g.MAX_ACTORS 1) := by rw [hn]; omega
      rw [if_neg hno]
      have h := ih (i + 3) (NewMapActor g w w.numActors (w.mapData (i : Int))
        (w.mapData ((i : Int) + 1)) (w.mapData ((i : Int) + 2))) (by rw [hm, hn]; omega)
      rw [hm, hn, ha] at h
      refine ⟨h.1, by rw [h.2.1]; omega, fun r s1 hr => ?_, fun j hj => ?_⟩
      · cases r with
        | zero =>
          simp only [List.getElem?_cons_zero, Option.some.injEq] at hr
          have e := h.2.2.2 w.numActors (by omega)
          rw [arraySet_self] at e
          subst hr
          simpa using e
        | succ r =>
          simp only [List.getElem?_cons_succ] at hr
          have := h.2.2.1 r s1 hr
          rw [← this]
          congr 1
          omega
      · rw [h.2.2.2 j (by omega)]
        exact arraySet_of_ne _ _ _ _ (by omega)

/-- C12: `NewMapActor(index, map_actor, x, y)` with `map_actor ≥ 32`.  When
`NewActorAtIndex` knows the regular type `map_actor - 31`, the actor is built in
slot `index` and `numActors` grows by one; when it does not, the actor array and
`numActors` stay; so `numActors` grows exactly for a known type.  In the loop of
`LoadMapData`, which passes `numActors` as the index, the actors of the map
file therefore sit in consecutive slots, in file order. -/
theorem NewMapActor_regular (g : Glue) (w : World) (index map_actor x y n i : Nat)
    (h32 : map_actor ≥ 32) :
    (∀ s, g.actorCases (wsub map_actor 31) x y = some s →
      (NewMapActor g w index map_actor x y).actors =
        arraySet w.actors index (builtActor s false) ∧
      (NewMapActor g w index map_actor x y).numActors = wadd w.numActors 1) ∧
    (g.actorCases (wsub map_actor 31) x y = none →
      (NewMapActor g w index map_actor x y).actors = w.actors ∧
      (NewMapActor g w index map_actor x y).numActors = w.numActors) ∧
    ((NewMapActor g w index map_actor x y).numActors = wadd w.numActors 1 ↔
      (g.actorCases (wsub map_actor 31) x y).isSome = true) ∧
    (w.numActors + (placedSpecs g w.mapData n i).length ≤ wsub g.MAX_ACTORS 1 →
      (LoadMapActorsLoop g n i w).numActors =
        w.numActors + (placedSpecs g w.mapData n i).length ∧
      (∀ r s, (placedSpecs g w.mapData n i)[r]? = some s →
        (LoadMapActorsLoop g n i w).actors (w.numActors + r) = builtActor s false) ∧
      (∀ j, j < w.numActors → (LoadMapActorsLoop g n i w).actors j = w.actors j)) := by
  obtain ⟨_, hsome, hnone⟩ := NewMapActor_actors g w index map_actor x y
  have hspec : mapActorSpec g map_actor x y = g.actorCases (wsub map_actor 31) x y := by
    unfold mapActorSpec
    rw [if_pos (by omega)]
  rw [hspec] at hsome hnone
  refine ⟨hsome, hnone, ?_, fun hcap => (LoadMapActorsLoop_consecutive g n i w hcap).2⟩
  cases hc : g.actorCases (wsub map_actor 31) x y with
  | none =>
    rw [(hnone hc).2]
    have : wadd w.numActors 1 ≠ w.numActors := by unfold wadd; omega
    simp [this.symm]
  | some s =>
    rw [(hsome s hc).2]
    simp

/-- Witness of C11: in `actorWorld` slot 1 is the lowest dead slot; in
`liveActorWorld` no slot is dead and there is room; in `crowdedWorld` there is
no room. -/
theorem NewActor_first_dead_else_tail_witness :
    ((NewActor tableGlue actorWorld 11 5 6).actors 1 =
        { sprite := 40, x := 5, y := 6, forceactive := true, tickfunc := 3 } ∧
      (NewActor tableGlue actorWorld 11 5 6).numActors = 3) ∧
    ((NewActor tableGlue liveActorWorld 11 5 6).actors 3 =
        { sprite := 40, x := 5, y := 6, forceactive := true, tickfunc := 3 } ∧
      (NewActor tableGlue liveActorWorld 11 5 6).numActors = 4) ∧
    ((NewActor tableGlue crowdedWorld 11 5 6).actors = crowdedWorld.actors ∧
      (NewActor tableGlue crowdedWorld 11 5 6).numActors = 408) := by
  refine ⟨?_, ?_, ?_⟩
  · have h := (NewActor_first_dead_else_tail tableGlue actorWorld 11 5 6 1 _ rfl).1
      (by decide) (by decide) (by decide)
    exact ⟨by rw [h.1]; rfl, h.2⟩
  · have h := (NewActor_first_dead_else_tail tableGlue liveActorWorld 11 5 6 0 _ rfl).2.1
      (by decide) (by decide)
    exact ⟨by rw [h.1]; rfl, h.2⟩
  · exact (NewActor_first_dead_else_tail tableGlue crowdedWorld 11 5 6 0 _ rfl).2.2
      (fun j _ => rfl) (by decide)

/-- Witness of C12: in `actorWorld`, map actor 32 (regular type 1) goes to the
slot asked for, map actor 33 (regular type 2, not known) builds nothing, and the
loop over the three triples of the map file puts types 1 and 11 in slots 3 and 4. -/
theorem NewMapActor_regular_witness :
    ((NewMapActor tableGlue actorWorld 3 32 7 8).actors 3 =
        { sprite := 41, x := 7, y := 8, stayactive := true, weighted := true, tickfunc := 1,
          data5 := 4 } ∧
      (NewMapActor tableGlue actorWorld 3 32 7 8).numActors = 4) ∧
    ((NewMapActor tableGlue actorWorld 3 33 5 6).actors = actorWorld.actors ∧
      (NewMapActor tableGlue actorWorld 3 33 5 6).numActors = 3) ∧
    ((LoadMapActorsLoop tableGlue 3 0 actorWorld).numActors = 5 ∧
      (LoadMapActorsLoop tableGlue 3 0 actorWorld).actors 3 =
        { sprite := 41, x := 7, y := 8, stayactive := true, weighted := true, tickfunc := 1,
          data5 := 4 } ∧
      (LoadMapActorsLoop tableGlue 3 0 actorWorld).actors 4 =
        { sprite := 40, x := 9, y := 10, forceactive := true, tickfunc := 3 }) := by
  have h1 := NewMapActor_regular tableGlue actorWorld 3 32 7 8 3 0 (by decide)
  have h2 := NewMapActor_regular tableGlue actorWorld 3 33 5 6 3 0 (by decide)
  have h3 := h1.2.2.2 (by decide)
  refine ⟨?_, h2.2.1 (by decide), ?_⟩
  · have h := h1.1 _ rfl
    exact ⟨by rw [h.1]; rfl, h.2⟩
  · refine ⟨h3.1, ?_, ?_⟩
    · exact h3.2.1 0 (prizeSpec 7 8) (by decide)
    · exact h3.2.1 1 (bubbleSpec 9 10) (by decide)

/-! ## C13 -/

/-- The statement `if (recoil == 7) ...` of `PounceHelper` writes `pounceStreak`
and what `NewActor` writes. -/
theorem PounceHelperStreak_frame (g : Glue) (v : World) (recoil : Int) :
    ∃ p a n i b, PounceHelperStreak g v recoil =
      { v with pounceStreak := p, actors := a, numActors := n, nextActorIndex := i,
               numBarrels := b } := by
  unfold PounceHelperStreak
  by_cases h7 : recoil = 7
  · rw [if_pos h7]
    by_cases h10 : wadd v.pounceStreak 1 = 10
    · obtain ⟨a, n, i, b, h⟩ := NewActor_frame g
        { v with pounceStreak := 0 } g.ACT_SPEECH_WOW_50K (wsub v.playerX 1) (wsub v.playerY 5)
      refine ⟨0, a, n, i, b, ?_⟩
      show (if wadd v.pounceStreak 1 = 10 then
        NewActor g { v with pounceStreak := 0 } g.ACT_SPEECH_WOW_50K
          (wsub v.playerX 1) (wsub v.playerY 5)
        else { v with pounceStreak := wadd v.pounceStreak 1 }) = _
      rw [if_pos h10, h]
    · refine ⟨wadd v.pounceStreak 1, v.actors, v.numActors, v.nextActorIndex, v.numBarrels, ?_⟩
      show (if wadd v.pounceStreak 1 = 10 then
        NewActor g { v with pounceStreak := 0 } g.ACT_SPEECH_WOW_50K
          (wsub v.playerX 1) (wsub v.playerY 5)
        else { v with pounceStreak := wadd v.pounceStreak 1 }) = _
      rw [if_neg h10]
  · rw [if_neg h7]
    exact ⟨0, v.actors, v.numActors, v.nextActorIndex, v.numBarrels, rfl⟩

theorem PounceHelper_arming (g : Glue) (w : World) (recoil : Int)
    (halive : w.playerDeadTime = 0) (hdizzy : w.playerDizzyLeft = 0) (harm : pounceArms w) :
    PounceHelper g w recoil =
      (true, PounceHelperStreak g (PounceHelperArm g w recoil) recoil) := by
  unfold PounceHelper
  rw [if_neg (by simp [halive, hdizzy]), if_pos harm]

/-- C13, counterexample: two players in the air, falling with `playerFallTime = 0`
and ready to pounce.  The first is in the death sequence: `PounceHelper(7)`
returns false and leaves `playerMomentumNorth = 0` and `isPlayerRecoiling`
false.  The second is recoiling with `playerMomentumNorth = 5`: the call returns
true and leaves `playerMomentumNorth = 5`. -/
theorem PounceHelper_airborne_not_armed :
    ((PounceHelper demoGlue { pounceWorld 0 with playerDeadTime := 1 } 7).2.playerMomentumNorth = 0 ∧
      (PounceHelper demoGlue { pounceWorld 0 with playerDeadTime := 1 } 7).2.isPlayerRecoiling
        = false) ∧
    (PounceHelper demoGlue
        { pounceWorld 0 with
          isPlayerRecoiling := true, playerMomentumNorth := 5, playerMomentumSaved := 5 }
        7).2.playerMomentumNorth = 5 := by
  decide

/-- C13, amended: for every state in which the player is alive and not dizzy,
is not recoiling with `playerMomentumNorth` of 2 or more, is falling with
`playerFallTime ≥ 0` and is ready to pounce, `PounceHelper(7)` returns true with
`playerMomentumNorth = 8` and `isPlayerRecoiling = true`. -/
theorem PounceHelper_7_arms (g : Glue) (w : World)
    (halive : w.playerDeadTime = 0) (hdizzy : w.playerDizzyLeft = 0)
    (hrecoil : w.isPlayerRecoiling = false ∨ w.playerMomentumNorth < 2)
    (hfall : w.isPlayerFalling = true) (htime : w.playerFallTime ≥ 0)
    (hready : w.isPounceReady = true) :
    (PounceHelper g w 7).1 = true ∧
    (PounceHelper g w 7).2.playerMomentumNorth = 8 ∧
    (PounceHelper g w 7).2.isPlayerRecoiling = true := by
  have harm : pounceArms w := by
    unfold pounceArms
    refine ⟨?_, Or.inl ⟨hfall, htime⟩, hready⟩
    rcases hrecoil with h | h
    · exact Or.inl h
    · cases hr : w.isPlayerRecoiling
      · exact Or.inl rfl
      · exact Or.inr ⟨rfl, h⟩
  rw [PounceHelper_arming g w 7 halive hdizzy harm]
  obtain ⟨p, a, n, i, b, h⟩ := PounceHelperStreak_frame g (PounceHelperArm g w 7) 7
  rw [h]
  exact ⟨rfl, rfl, rfl⟩

/-- Witness of C13, amended: the falling player of `pounceWorld`. -/
theorem PounceHelper_7_arms_witness :
    (PounceHelper demoGlue (pounceWorld 0) 7).1 = true ∧
    (PounceHelper demoGlue (pounceWorld 0) 7).2.playerMomentumNorth = 8 ∧
    (PounceHelper demoGlue (pounceWorld 0) 7).2.isPlayerRecoiling = true :=
  PounceHelper_7_arms demoGlue (pounceWorld 0) (by decide) (by decide) (by decide) (by decide)
    (by decide) (by decide)

/-! ## C14 -/

theorem PounceHelperStreak_7_below (g : Glue) (v : World)
    (h : wadd v.pounceStreak 1 ≠ 10) :
    PounceHelperStreak g v 7 = { v with pounceStreak := wadd v.pounceStreak 1 } := by
  unfold PounceHelperStreak
  rw [if_pos rfl]
  show (if wadd v.pounceStreak 1 = 10 then
    NewActor g { v with pounceStreak := 0 } g.ACT_SPEECH_WOW_50K
      (wsub v.playerX 1) (wsub v.playerY 5)
    else { v with pounceStreak := wadd v.pounceStreak 1 }) = _
  rw [if_neg h]

theorem PounceHelperStreak_7_tenth (g : Glue) (v : World)
    (h : wadd v.pounceStreak 1 = 10) :
    PounceHelperStreak g v 7 =
      NewActor g { v with pounceStreak := 0 } g.ACT_SPEECH_WOW_50K
        (wsub v.playerX 1) (wsub v.playerY 5) := by
  unfold PounceHelperStreak
  rw [if_pos rfl]
  show (if wadd v.pounceStreak 1 = 10 then
    NewActor g { v with pounceStreak := 0 } g.ACT_SPEECH_WOW_50K
      (wsub v.playerX 1) (wsub v.playerY 5)
    else { v with pounceStreak := wadd v.pounceStreak 1 }) = _
  rw [if_pos h]

theorem PounceHelperStreak_other (g : Glue) (v : World) (recoil : Int) (h : recoil ≠ 7) :
    PounceHelperStreak g v recoil = { v with pounceStreak := 0 } := by
  unfold PounceHelperStreak
  rw [if_neg h]

theorem NewActor_pounceStreak (g : Glue) (v : World) (t x y : Nat) :
    (NewActor g v t x y).pounceStreak = v.pounceStreak := by
  obtain ⟨a, n, i, b, h⟩ := NewActor_frame g v t x y
  rw [h]

/-- C14: take ten calls `PounceHelper(7)`, the `i`-th on the state `s i`, each
on a player who is alive, not dizzy and for whom the arming branch is taken, the
first with `pounceStreak = 0`, and with nothing between two calls that writes
`pounceStreak`.  Calls one to nine arm the pounce and count, and call
`NewActor` not at all; the tenth arms the pounce, sets `pounceStreak` to 0 and
calls `NewActor(ACT_SPEECH_WOW_50K, playerX - 1, playerY - 5)` once; the streak
is 0 after it.  An arming call with a recoil other than 7 sets `pounceStreak`
to 0 and calls `NewActor` not at all. -/
theorem PounceHelper_streak_bonus (g : Glue) (s : Nat → World)
    (harm : ∀ i, i < 10 →
      (s i).playerDeadTime = 0 ∧ (s i).playerDizzyLeft = 0 ∧ pounceArms (s i))
    (hzero : (s 0).pounceStreak = 0)
    (hkeep : ∀ i, i < 9 → (s (i + 1)).pounceStreak = (PounceHelper g (s i) 7).2.pounceStreak) :
    (∀ i, i < 9 → PounceHelper g (s i) 7 =
      (true, { PounceHelperArm g (s i) 7 with pounceStreak := i + 1 })) ∧
    PounceHelper g (s 9) 7 =
      (true, NewActor g { PounceHelperArm g (s 9) 7 with pounceStreak := 0 }
        g.ACT_SPEECH_WOW_50K (wsub (s 9).playerX 1) (wsub (s 9).playerY 5)) ∧
    (PounceHelper g (s 9) 7).2.pounceStreak = 0 ∧
    (∀ w recoil, w.playerDeadTime = 0 → w.playerDizzyLeft = 0 → pounceArms w → recoil ≠ 7 →
      PounceHelper g w recoil = (true, { PounceHelperArm g w recoil with pounceStreak := 0 })) := by
  have hcall : ∀ i, i < 9 → (s i).pounceStreak = i →
      PounceHelper g (s i) 7 =
        (true, { PounceHelperArm g (s i) 7 with pounceStreak := i + 1 }) := by
    intro i hi hst
    obtain ⟨h1, h2, h3⟩ := harm i (by omega)
    rw [PounceHelper_arming g (s i) 7 h1 h2 h3]
    have e : wadd (PounceHelperArm g (s i) 7).pounceStreak 1 = i + 1 := by
      show wadd (s i).pounceStreak 1 = i + 1
      rw [hst]; unfold wadd; omega
    rw [PounceHelperStreak_7_below g _ (by rw [e]; omega), e]
  have hstreak : ∀ i, i ≤ 9 → (s i).pounceStreak = i := by
    intro i
    induction i with
    | zero => intro _; exact hzero
    | succ k ih =>
      intro hk
      rw [hkeep k (by omega), hcall k (by omega) (ih (by omega))]
  obtain ⟨h1, h2, h3⟩ := harm 9 (by omega)
  have e9 : wadd (PounceHelperArm g (s 9) 7).pounceStreak 1 = 10 := by
    show wadd (s 9).pounceStreak 1 = 10
    rw [hstreak 9 (by omega)]; rfl
  have hten : PounceHelper g (s 9) 7 =
      (true, NewActor g { PounceHelperArm g (s 9) 7 with pounceStreak := 0 }
        g.ACT_SPEECH_WOW_50K (wsub (s 9).playerX 1) (wsub (s 9).playerY 5)) := by
    rw [PounceHelper_arming g (s 9) 7 h1 h2 h3, PounceHelperStreak_7_tenth g _ e9]
    rfl
  refine ⟨fun i hi => hcall i hi (hstreak i (by omega)), hten, ?_, ?_⟩
  · rw [hten]
    exact NewActor_pounceStreak g _ _ _ _
  · intro w recoil hd hz ha hr
    rw [PounceHelper_arming g w recoil hd hz ha, PounceHelperStreak_other g _ recoil hr]

/-- Witness of C14: the falling player of `pounceWorld`, ten times, with the
streak of `pounceWorld i` before call `i`; the tenth call builds the bubble in
slot 0. -/
theorem PounceHelper_streak_bonus_witness :
    (PounceHelper tableGlue (pounceWorld 3) 7).2.pounceStreak = 4 ∧
    (PounceHelper tableGlue (pounceWorld 3) 7).2.numActors = 0 ∧
    (PounceHelper tableGlue (pounceWorld 9) 7).2.pounceStreak = 0 ∧
    (PounceHelper tableGlue (pounceWorld 9) 7).2.numActors = 1 ∧
    (PounceHelper tableGlue (pounceWorld 9) 7).2.actors 0 =
      { sprite := 40, x := 9, y := 5, forceactive := true, tickfunc := 3 } ∧
    (PounceHelper tableGlue (pounceWorld 4) 20).2.pounceStreak = 0 := by
  have h := PounceHelper_streak_bonus tableGlue pounceWorld
    (fun i _ => ⟨rfl, rfl, by
      unfold pounceArms
      exact ⟨Or.inl rfl, Or.inl ⟨rfl, le_refl (0 : Int)⟩, rfl⟩⟩)
    rfl (by decide)
  refine ⟨?_, ?_, h.2.2.1, ?_, ?_, ?_⟩
  · rw [h.1 3 (by decide)]
  · rw [h.1 3 (by decide)]; rfl
  · rw [h.2.1]; rfl
  · rw [h.2.1]; rfl
  · rw [h.2.2.2 (pounceWorld 4) 20 rfl rfl (by decide) (by decide)]

/-! ## C17 -/

theorem NewShardLoop_frame (sprite frame x y : Nat) (w : World) (n i : Nat) :
    NewShardLoop sprite frame x y w n i =
      { w with shards := (NewShardLoop sprite frame x y w n i).shards } := by
  induction n generalizing i with
  | zero => rfl
  | succ n ih =>
    unfold NewShardLoop
    by_cases h : (w.shards i).age = 0
    · simp only [h, if_true]
    · simp only [h, if_false]
      exact ih (i + 1)

/-- The function `NewShard` writes the shard pool and `inclination` only. -/
theorem NewShard_frame (w : World) (sprite frame x y : Nat) :
    NewShard w sprite frame x y =
      { w with
        shards := (NewShard w sprite frame x y).shards,
        inclination := (NewShard w sprite frame x y).inclination } := by
  have h := NewShardLoop_frame sprite frame x y
    { w with inclination := if wadd w.inclination 1 = 5 then 0 else wadd w.inclination 1 }
    w.numShards 0
  rw [NewShard_eq]
  rw [h]

theorem NewShardLoop_actors_comm (sprite frame x y : Nat) (w : World) (a : Nat → Actor)
    (n i : Nat) :
    NewShardLoop sprite frame x y { w with actors := a } n i =
      { NewShardLoop sprite frame x y w n i with actors := a } := by
  induction n generalizing i with
  | zero => rfl
  | succ n ih =>
    unfold NewShardLoop
    by_cases h : (w.shards i).age = 0
    · simp only [h, if_true]
    · simp only [h, if_false]
      exact ih (i + 1)

/-- The function `NewShard` reads nothing of the actor array. -/
theorem NewShard_actors_comm (w : World) (a : Nat → Actor) (sprite frame x y : Nat) :
    NewShard { w with actors := a } sprite frame x y =
      { NewShard w sprite frame x y with actors := a } := by
  rw [NewShard_eq, NewShard_eq]
  exact NewShardLoop_actors_comm sprite frame x y
    { w with inclination := if wadd w.inclination 1 = 5 then 0 else wadd w.inclination 1 }
    a w.numShards 0

theorem NewShard_actors (w : World) (sprite frame x y : Nat) :
    (NewShard w sprite frame x y).actors = w.actors := by
  rw [NewShard_frame]

theorem GameRand_frame (v : World) :
    (GameRand v).2 = { v with randStepCount := (GameRand v).2.randStepCount } := by
  unfold GameRand
  by_cases h : wadd v.randStepCount 1 > 35
  · simp only [h, if_true]
  · simp only [h, if_false]

theorem NewSpawnerLoop_frame (g : Glue) (actor x y : Nat) (w : World) (n i : Nat) :
    NewSpawnerLoop g actor x y w n i =
      { w with spawners := (NewSpawnerLoop g actor x y w n i).spawners } := by
  induction n generalizing i with
  | zero => rfl
  | succ n ih =>
    unfold NewSpawnerLoop
    by_cases h : (w.spawners i).actor = g.ACT_BASKET_NULL
    · simp only [h, if_true]
    · simp only [h, if_false]
      exact ih (i + 1)

theorem NewSpawnerLoop_congr (g : Glue) (actor x y : Nat) (v w : World) (n i : Nat)
    (hv : v.spawners = w.spawners) :
    (NewSpawnerLoop g actor x y v n i).spawners =
      (NewSpawnerLoop g actor x y w n i).spawners := by
  induction n generalizing i with
  | zero => exact hv
  | succ n ih =>
    unfold NewSpawnerLoop
    rw [hv]
    by_cases h : (w.spawners i).actor = g.ACT_BASKET_NULL
    · simp only [h, if_true]
    · simp only [h, if_false]
      exact ih (i + 1)

/-- The function `NewSpawner` writes the spawner pool only, and what it writes
depends on the spawner pool only. -/
theorem NewSpawner_frame (g : Glue) (v w : World) (actor x y : Nat)
    (hv : v.spawners = w.spawners) (hn : v.numSpawners = w.numSpawners) :
    NewSpawner g v actor x y =
      { v with spawners := (NewSpawner g w actor x y).spawners } := by
  unfold NewSpawner
  rw [NewSpawnerLoop_frame, NewSpawnerLoop_congr g actor x y v w _ _ hv, hn]

theorem NewShard_frame_trans (u v w : World)
    (h1 : v = { u with shards := v.shards, inclination := v.inclination })
    (h2 : u = { w with shards := u.shards, inclination := u.inclination }) :
    v = { w with shards := v.shards, inclination := v.inclination } := by
  rw [h2] at h1
  exact h1

/-- The four `NewShard` calls of `DestroyBarrel`, with the barrel read once. -/
theorem DestroyBarrelShards_eq (w : World) (index : Nat) :
    DestroyBarrelShards w index =
      NewShard (NewShard (NewShard (NewShard w
        (w.actors index).data2 0 (wsub (w.actors index).x 1) (w.actors index).y)
        (w.actors index).data2 1 (wadd (w.actors index).x 1) (wsub (w.actors index).y 1))
        (w.actors index).data2 2 (wadd (w.actors index).x 3) (w.actors index).y)
        (w.actors index).data2 3 (wadd (w.actors index).x 2) (wadd (w.actors index).y 2) := by
  unfold DestroyBarrelShards
  simp only [NewShard_actors]

/-- The four `NewShard` calls of `DestroyBarrel`, made after `act->dead = true`,
in terms of the barrel as it was. -/
theorem DestroyBarrelShards_dead (w : World) (index : Nat) :
    DestroyBarrelShards
        { w with actors := arraySet w.actors index { (w.actors index) with dead := true } }
        index =
      { DestroyBarrelShards w index
        with actors := arraySet w.actors index { (w.actors index) with dead := true } } := by
  rw [DestroyBarrelShards_eq w index]
  unfold DestroyBarrelShards
  simp only [NewShard_actors_comm, arraySet_self]

theorem DestroyBarrelShards_frame (w : World) (index : Nat) :
    ∃ sh inc, DestroyBarrelShards w index = { w with shards := sh, inclination := inc } := by
  rw [DestroyBarrelShards_eq]
  exact ⟨_, _, NewShard_frame_trans _ _ _ (NewShard_frame _ _ _ _ _)
    (NewShard_frame_trans _ _ _ (NewShard_frame _ _ _ _ _)
      (NewShard_frame_trans _ _ _ (NewShard_frame _ _ _ _ _) (NewShard_frame _ _ _ _ _)))⟩

/-- The globals when `DestroyBarrel` has made its `NewSpawner` call. -/
theorem DestroyBarrelSpawn_eq (g : Glue) (w : World) (index : Nat) :
    ∃ r, DestroyBarrelSpawn g w index =
      { w with
        actors := arraySet w.actors index { (w.actors index) with dead := true },
        shards := (DestroyBarrelShards w index).shards,
        inclination := (DestroyBarrelShards w index).inclination,
        randStepCount := r,
        spawners := (NewSpawner g w (w.actors index).data1 (wadd (w.actors index).x 1)
          (w.actors index).y).spawners } := by
  unfold DestroyBarrelSpawn
  simp only []
  rw [DestroyBarrelShards_dead]
  obtain ⟨sh, inc, hX⟩ := DestroyBarrelShards_frame w index
  rw [hX]
  obtain ⟨r, hr⟩ : ∃ r,
      (GameRand { w with
        shards := sh, inclination := inc,
        actors := arraySet w.actors index { (w.actors index) with dead := true } }).2 =
      { w with
        shards := sh, inclination := inc,
        actors := arraySet w.actors index { (w.actors index) with dead := true },
        randStepCount := r } := ⟨_, GameRand_frame _⟩
  refine ⟨r, ?_⟩
  rw [hr]
  simp only [arraySet_self]
  exact NewSpawner_frame g _ w _ _ _ rfl rfl

theorem DestroyBarrelSpawn_fields (g : Glue) (w : World) (index : Nat) :
    (DestroyBarrelSpawn g w index).shards = (DestroyBarrelShards w index).shards ∧
    (DestroyBarrelSpawn g w index).spawners =
      (NewSpawner g w (w.actors index).data1 (wadd (w.actors index).x 1)
        (w.actors index).y).spawners ∧
    (DestroyBarrelSpawn g w index).actors =
      arraySet w.actors index { (w.actors index) with dead := true } ∧
    (DestroyBarrelSpawn g w index).numActors = w.numActors ∧
    (DestroyBarrelSpawn g w index).numBarrels = w.numBarrels ∧
    (DestroyBarrelSpawn g w index).playerX = w.playerX ∧
    (DestroyBarrelSpawn g w index).playerY = w.playerY := by
  obtain ⟨r, h4⟩ := DestroyBarrelSpawn_eq g w index
  rw [h4]
  simp only [and_self]

theorem NewActorAt_numBarrels (g : Glue) (w : World) (i t x y : Nat)
    (h : ∀ s, g.actorCases t x y = some s →
      ¬ (s.data2 = g.SPR_BARREL_SHARDS ∨ s.data2 = g.SPR_BASKET_SHARDS)) :
    (NewActorAt g w i t x y).numBarrels = w.numBarrels := by
  unfold NewActorAt NewActorAtIndex
  cases hc : g.actorCases t x y with
  | none =>
    simp only []
    split <;> rfl
  | some s =>
    simp only []
    unfold ConstructActor
    rw [if_neg (h s hc)]
    split <;> rfl

/-- The function `NewActor` leaves `numBarrels` as it is when the type it builds
is no barrel and no basket. -/
theorem NewActor_numBarrels (g : Glue) (w : World) (t x y : Nat)
    (h : ∀ s, g.actorCases t x y = some s →
      ¬ (s.data2 = g.SPR_BARREL_SHARDS ∨ s.data2 = g.SPR_BASKET_SHARDS)) :
    (NewActor g w t x y).numBarrels = w.numBarrels := by
  have hloop : ∀ n i w1, NewActorLoop g t x y w n i = some w1 →
      w1.numBarrels = w.numBarrels := by
    intro n
    induction n with
    | zero => intro i w1 e; simp [NewActorLoop] at e
    | succ n ih =>
      intro i w1 e
      unfold NewActorLoop at e
      split at e
      · rw [← Option.some.inj e]
        exact NewActorAt_numBarrels g w i t x y h
      · exact ih (i + 1) w1 e
  unfold NewActor
  split
  · rename_i w1 e
    exact hloop _ _ _ e
  · split
    · exact NewActorAt_numBarrels g w w.numActors t x y h
    · rfl

/-- The globals after a `NewShard` call whose lowest free slot is `k`. -/
theorem NewShard_exact (w : World) (k sprite frame x y : Nat)
    (hk : k < w.numShards) (hfree : (w.shards k).age = 0)
    (hlow : ∀ j, j < k → (w.shards j).age ≠ 0) :
    NewShard w sprite frame x y =
      { w with
        inclination := nextInclination w.inclination,
        shards := arraySet w.shards k
          (newShard sprite frame x y (nextInclination w.inclination)) } := by
  rw [NewShard_eq]
  exact NewShardLoop_found sprite frame x y
    { w with inclination := if wadd w.inclination 1 = 5 then 0 else wadd w.inclination 1 }
    w.numShards 0 k (Nat.zero_le k) (by omega) hfree (fun j _ h2 => hlow j h2)

theorem NewShard_exact_next (w : World) (i : Nat) (a : Nat → Shard)
    (k sprite frame x y : Nat)
    (hk : k < w.numShards) (hfree : (a k).age = 0)
    (hlow : ∀ j, j < k → (a j).age ≠ 0) :
    NewShard { w with inclination := i, shards := a } sprite frame x y =
      { w with
        inclination := nextInclination i,
        shards := arraySet a k (newShard sprite frame x y (nextInclination i)) } :=
  NewShard_exact { w with inclination := i, shards := a } k sprite frame x y hk hfree hlow

/-- Four `NewShard` calls in a pool whose four lowest free slots are
`k0 < k1 < k2 < k3`. -/
theorem NewShard_four (w : World) (k0 k1 k2 k3 : Nat) (s0 s1 s2 s3 : Nat)
    (f0 f1 f2 f3 x0 x1 x2 x3 y0 y1 y2 y3 : Nat)
    (h01 : k0 < k1) (h12 : k1 < k2) (h23 : k2 < k3) (h3 : k3 < w.numShards)
    (hf0 : (w.shards k0).age = 0) (hf1 : (w.shards k1).age = 0)
    (hf2 : (w.shards k2).age = 0) (hf3 : (w.shards k3).age = 0)
    (hlow : ∀ j, j < k3 → j ≠ k0 → j ≠ k1 → j ≠ k2 → (w.shards j).age ≠ 0) :
    (NewShard (NewShard (NewShard (NewShard w s0 f0 x0 y0) s1 f1 x1 y1) s2 f2 x2 y2)
        s3 f3 x3 y3).shards =
      arraySet (arraySet (arraySet (arraySet w.shards
        k0 (newShard s0 f0 x0 y0 (nextInclination w.inclination)))
        k1 (newShard s1 f1 x1 y1 (nextInclination (nextInclination w.inclination))))
        k2 (newShard s2 f2 x2 y2
          (nextInclination (nextInclination (nextInclination w.inclination)))))
        k3 (newShard s3 f3 x3 y3
          (nextInclination (nextInclination (nextInclination
            (nextInclination w.inclination))))) := by
  have hone : ∀ (sp fr x y i : Nat), (newShard sp fr x y i).age ≠ 0 := by
    intro sp fr x y i
    show (1 : Nat) ≠ 0
    decide
  rw [NewShard_exact w k0 s0 f0 x0 y0 (by omega) hf0
    (fun j hj => hlow j (by omega) (by omega) (by omega) (by omega))]
  rw [NewShard_exact_next w _ _ k1 s1 f1 x1 y1 (by omega)
    (by
      show ((arraySet w.shards k0 _) k1).age = 0
      rw [arraySet_of_ne _ _ _ _ (by omega)]
      exact hf1)
    (by
      intro j hj
      show ((arraySet w.shards k0 _) j).age ≠ 0
      by_cases e0 : j = k0
      · rw [e0, arraySet_self]
        exact hone _ _ _ _ _
      · rw [arraySet_of_ne _ _ _ _ e0]
        exact hlow j (by omega) e0 (by omega) (by omega))]
  rw [NewShard_exact_next w _ _ k2 s2 f2 x2 y2 (by omega)
    (by
      show ((arraySet (arraySet w.shards k0 _) k1 _) k2).age = 0
      rw [arraySet_of_ne _ _ _ _ (by omega), arraySet_of_ne _ _ _ _ (by omega)]
      exact hf2)
    (by
      intro j hj
      show ((arraySet (arraySet w.shards k0 _) k1 _) j).age ≠ 0
      by_cases e1 : j = k1
      · rw [e1, arraySet_self]
        exact hone _ _ _ _ _
      · rw [arraySet_of_ne _ _ _ _ e1]
        by_cases e0 : j = k0
        · rw [e0, arraySet_self]
          exact hone _ _ _ _ _
        · rw [arraySet_of_ne _ _ _ _ e0]
          exact hlow j (by omega) e0 e1 (by omega))]
  rw [NewShard_exact_next w _ _ k3 s3 f3 x3 y3 h3
    (by
      show ((arraySet (arraySet (arraySet w.shards k0 _) k1 _) k2 _) k3).age = 0
      rw [arraySet_of_ne _ _ _ _ (by omega), arraySet_of_ne _ _ _ _ (by omega),
        arraySet_of_ne _ _ _ _ (by omega)]
      exact hf3)
    (by
      intro j hj
      show ((arraySet (arraySet (arraySet w.shards k0 _) k1 _) k2 _) j).age ≠ 0
      by_cases e2 : j = k2
      · rw [e2, arraySet_self]
        exact hone _ _ _ _ _
      · rw [arraySet_of_ne _ _ _ _ e2]
        by_cases e1 : j = k1
        · rw [e1, arraySet_self]
          exact hone _ _ _ _ _
        · rw [arraySet_of_ne _ _ _ _ e1]
          by_cases e0 : j = k0
          · rw [e0, arraySet_self]
            exact hone _ _ _ _ _
          · rw [arraySet_of_ne _ _ _ _ e0]
            exact hlow j hj e0 e1 e2)]

/-- C17, counterexample: the last barrel of the level, in actor slot 0, the
lowest dead slot once `act->dead = true` has run.  The `NewActor` call for the
speech bubble builds the bubble in that slot: at the return of `DestroyBarrel(0)`
slot 0 holds sprite 40 and its `dead` flag is false. -/
theorem DestroyBarrel_last_barrel_slot_reused :
    ((DestroyBarrel tableGlue lastBarrelWorld 0).actors 0).dead = false ∧
    ((DestroyBarrel tableGlue lastBarrelWorld 0).actors 0).sprite = 40 := by
  decide

/-- The function `DestroyBarrel(index)` in terms of the calls it makes: four
`NewShard` calls, one `NewSpawner` call, and `NewActor` for the last barrel. -/
theorem DestroyBarrel_requests (g : Glue) (w : World) (index : Nat) :
    (DestroyBarrel g w index).shards =
      (NewShard (NewShard (NewShard (NewShard w
        (w.actors index).data2 0 (wsub (w.actors index).x 1) (w.actors index).y)
        (w.actors index).data2 1 (wadd (w.actors index).x 1) (wsub (w.actors index).y 1))
        (w.actors index).data2 2 (wadd (w.actors index).x 3) (w.actors index).y)
        (w.actors index).data2 3 (wadd (w.actors index).x 2)
          (wadd (w.actors index).y 2)).shards ∧
    (DestroyBarrel g w index).spawners =
      (NewSpawner g w (w.actors index).data1 (wadd (w.actors index).x 1)
        (w.actors index).y).spawners ∧
    (w.numBarrels ≠ 1 →
      (DestroyBarrel g w index).actors =
        arraySet w.actors index { (w.actors index) with dead := true } ∧
      (DestroyBarrel g w index).numActors = w.numActors ∧
      (DestroyBarrel g w index).numBarrels = wsub w.numBarrels 1) ∧
    (w.numBarrels = 1 →
      (∀ s, g.actorCases g.ACT_SPEECH_WOW_50K (wsub w.playerX 1) (wsub w.playerY 5) = some s →
        ¬ (s.data2 = g.SPR_BARREL_SHARDS ∨ s.data2 = g.SPR_BASKET_SHARDS)) →
      (DestroyBarrel g w index).numBarrels = 0) := by
  obtain ⟨hsh, hsp, hac, hna, hnb, hpx, hpy⟩ := DestroyBarrelSpawn_fields g w index
  rw [DestroyBarrelShards_eq] at hsh
  unfold DestroyBarrel
  simp only []
  generalize DestroyBarrelSpawn g w index = v at hsh hsp hac hna hnb hpx hpy ⊢
  by_cases hb : w.numBarrels = 1
  · rw [if_pos (hnb.trans hb)]
    obtain ⟨a, n, i, b, hf⟩ := NewActor_frame g v
      g.ACT_SPEECH_WOW_50K (wsub v.playerX 1) (wsub v.playerY 5)
    refine ⟨?_, ?_, fun hne => absurd hb hne, fun _ hs => ?_⟩
    · rw [hf]; exact hsh
    · rw [hf]; exact hsp
    · show wsub (NewActor g v g.ACT_SPEECH_WOW_50K (wsub v.playerX 1)
        (wsub v.playerY 5)).numBarrels 1 = 0
      rw [NewActor_numBarrels g v _ _ _ (by rw [hpx, hpy]; exact hs), hnb, hb]
      rfl
  · rw [if_neg (fun h => hb (hnb.symm.trans h))]
    refine ⟨hsh, hsp, fun _ => ⟨hac, hna, ?_⟩, fun h1 => absurd h1 hb⟩
    show wsub v.numBarrels 1 = wsub w.numBarrels 1
    rw [hnb]

/-- C17, amended: `DestroyBarrel(index)`, for the barrel `act = actors[index]`
at (x, y).  The shard pool is what four `NewShard` calls leave, for the frames
0, 1, 2, 3 of sprite `act->data2` at (x-1, y), (x+1, y-1), (x+3, y), (x+2, y+2):
when `k0 < k1 < k2 < k3` are the four lowest free shard slots, these four slots
take the four shards in this order and the others stay.  The spawner pool is
what one `NewSpawner(act->data1, x+1, y)` call leaves: when `p` is the lowest
free spawner slot, it takes the spawner and the others stay.  When `numBarrels`
is not 1, the actor array differs from the old one in the `dead` flag of slot
`index` only, which is true, and `numBarrels` is one less.  When `numBarrels`
is 1 and the speech bubble is no barrel and no basket, `numBarrels` is 0 after
the call. -/
theorem DestroyBarrel_effects (g : Glue) (w : World) (index : Nat) :
    (DestroyBarrel g w index).shards =
      (NewShard (NewShard (NewShard (NewShard w
        (w.actors index).data2 0 (wsub (w.actors index).x 1) (w.actors index).y)
        (w.actors index).data2 1 (wadd (w.actors index).x 1) (wsub (w.actors index).y 1))
        (w.actors index).data2 2 (wadd (w.actors index).x 3) (w.actors index).y)
        (w.actors index).data2 3 (wadd (w.actors index).x 2)
          (wadd (w.actors index).y 2)).shards ∧
    (∀ k0 k1 k2 k3, k0 < k1 → k1 < k2 → k2 < k3 → k3 < w.numShards →
      (w.shards k0).age = 0 → (w.shards k1).age = 0 →
      (w.shards k2).age = 0 → (w.shards k3).age = 0 →
      (∀ j, j < k3 → j ≠ k0 → j ≠ k1 → j ≠ k2 → (w.shards j).age ≠ 0) →
      (DestroyBarrel g w index).shards =
        arraySet (arraySet (arraySet (arraySet w.shards
          k0 (newShard (w.actors index).data2 0 (wsub (w.actors index).x 1) (w.actors index).y
            (nextInclination w.inclination)))
          k1 (newShard (w.actors index).data2 1 (wadd (w.actors index).x 1)
            (wsub (w.actors index).y 1) (nextInclination (nextInclination w.inclination))))
          k2 (newShard (w.actors index).data2 2 (wadd (w.actors index).x 3) (w.actors index).y
            (nextInclination (nextInclination (nextInclination w.inclination)))))
          k3 (newShard (w.actors index).data2 3 (wadd (w.actors index).x 2)
            (wadd (w.actors index).y 2)
            (nextInclination (nextInclination (nextInclination
              (nextInclination w.inclination)))))) ∧
    (DestroyBarrel g w index).spawners =
      (NewSpawner g w (w.actors index).data1 (wadd (w.actors index).x 1)
        (w.actors index).y).spawners ∧
    (∀ p, p < w.numSpawners → (w.spawners p).actor = g.ACT_BASKET_NULL →
      (∀ j, j < p → (w.spawners j).actor ≠ g.ACT_BASKET_NULL) →
      (DestroyBarrel g w index).spawners =
        arraySet w.spawners p
          { actor := (w.actors index).data1, x := wadd (w.actors index).x 1,
            y := (w.actors index).y, age := 0 }) ∧
    (w.numBarrels ≠ 1 →
      (DestroyBarrel g w index).actors =
        arraySet w.actors index { (w.actors index) with dead := true } ∧
      (DestroyBarrel g w index).numActors = w.numActors ∧
      (DestroyBarrel g w index).numBarrels = wsub w.numBarrels 1) ∧
    (w.numBarrels = 1 →
      (∀ s, g.actorCases g.ACT_SPEECH_WOW_50K (wsub w.playerX 1) (wsub w.playerY 5) = some s →
        ¬ (s.data2 = g.SPR_BARREL_SHARDS ∨ s.data2 = g.SPR_BASKET_SHARDS)) →
      (DestroyBarrel g w index).numBarrels = 0) := by
  obtain ⟨hsh, hsp, hmany, hlast⟩ := DestroyBarrel_requests g w index
  refine ⟨hsh, ?_, hsp, ?_, hmany, hlast⟩
  · intro k0 k1 k2 k3 h01 h12 h23 h3 hf0 hf1 hf2 hf3 hlow
    rw [hsh]
    exact NewShard_four w k0 k1 k2 k3 _ _ _ _ _ _ _ _ _ _ _ _ _ _ _ _
      h01 h12 h23 h3 hf0 hf1 hf2 hf3 hlow
  · intro p hp hfree hlow
    rw [hsp]
    exact NewSpawner_takes_lowest g w p _ _ _ hp hfree hlow

/-- Witness of C17, amended: in `barrelWorld`, with two barrels, the first four
shard slots hold the frames 0 to 3 of sprite 7, spawner slot 0 holds actor type
1 at (21, 20), slot 0 of the actor array is dead and one barrel is left; in
`lastBarrelWorld` no barrel is left. -/
theorem DestroyBarrel_effects_witness :
    (DestroyBarrel tableGlue barrelWorld 0).shards =
      arraySet (arraySet (arraySet (arraySet barrelWorld.shards
        0 { sprite := 7, x := 19, y := 20, frame := 0, age := 1, inclination := 1 })
        1 { sprite := 7, x := 21, y := 19, frame := 1, age := 1, inclination := 2 })
        2 { sprite := 7, x := 23, y := 20, frame := 2, age := 1, inclination := 3 })
        3 { sprite := 7, x := 22, y := 22, frame := 3, age := 1, inclination := 4 } ∧
    (DestroyBarrel tableGlue barrelWorld 0).spawners =
      arraySet barrelWorld.spawners 0 { actor := 1, x := 21, y := 20, age := 0 } ∧
    (((DestroyBarrel tableGlue barrelWorld 0).actors 0).dead = true ∧
      (DestroyBarrel tableGlue barrelWorld 0).numBarrels = 1) ∧
    (DestroyBarrel tableGlue lastBarrelWorld 0).numBarrels = 0 := by
  have h := DestroyBarrel_effects tableGlue barrelWorld 0
  have h3 := h.2.2.2.2.1 (by decide)
  refine ⟨?_, ?_, ?_, ?_⟩
  · exact h.2.1 0 1 2 3 (by decide) (by decide) (by decide) (by decide) rfl rfl rfl rfl
      (fun j h3 h0 h1 h2 => by omega)
  · exact h.2.2.2.1 0 (by decide) rfl (fun j hj => absurd hj (Nat.not_lt_zero j))
  · rw [h3.1, h3.2.2]; decide
  · exact (DestroyBarrel_effects tableGlue lastBarrelWorld 0).2.2.2.2.2 (by decide)
      (fun s hs => by
        have e : s = bubbleSpec 9 5 := (Option.some.inj hs).symm
        rw [e]; decide)

/-! ## C18 -/

theorem NewDecorationLoop_explosions (sprite numframes x y dir numtimes : Nat) (w : World)
    (n i : Nat) :
    (NewDecorationLoop sprite numframes x y dir numtimes w n i).explosions = w.explosions ∧
    (NewDecorationLoop sprite numframes x y dir numtimes w n i).numExplosions
      = w.numExplosions := by
  induction n generalizing i with
  | zero => exact ⟨rfl, rfl⟩
  | succ n ih =>
    unfold NewDecorationLoop
    split
    · exact ⟨rfl, rfl⟩
    · exact ih (i + 1)

/-- The function `NewDecoration` leaves the explosion pool as it is. -/
theorem NewDecoration_explosions (w : World) (sprite numframes x y dir numtimes : Nat) :
    (NewDecoration w sprite numframes x y dir numtimes).explosions = w.explosions ∧
    (NewDecoration w sprite numframes x y dir numtimes).numExplosions = w.numExplosions :=
  NewDecorationLoop_explosions sprite numframes x y dir numtimes w _ 0

theorem HurtPlayerHealth_frame (w : World) :
    ∃ h d m c, HurtPlayerHealth w =
      { w with playerHealth := h, playerDeadTime := d, scooterMounted := m,
               playerHurtCooldown := c } := by
  unfold HurtPlayerHealth
  simp only []
  by_cases h : wsub w.playerHealth 1 = 0
  · exact ⟨wsub w.playerHealth 1, 1, 0, w.playerHurtCooldown, by rw [if_pos h]⟩
  · exact ⟨wsub w.playerHealth 1, w.playerDeadTime, w.scooterMounted, 44, by rw [if_neg h]⟩

theorem HurtPlayerBubble_frame (g : Glue) (w : World) :
    ∃ a n i b p, HurtPlayerBubble g w =
      { w with sawHurtBubble := true, actors := a, numActors := n, nextActorIndex := i,
               numBarrels := b, pounceHintState := p } := by
  unfold HurtPlayerBubble
  obtain ⟨a, n, i, b, h⟩ := NewActor_frame g { w with sawHurtBubble := true }
    g.ACT_SPEECH_OUCH (wsub w.playerX 1) (wsub w.playerY 5)
  simp only []
  rw [h]
  by_cases hp : w.pounceHintState = g.POUNCE_HINT_UNSEEN
  · exact ⟨a, n, i, b, g.POUNCE_HINT_QUEUED, by rw [if_pos hp]⟩
  · exact ⟨a, n, i, b, w.pounceHintState, by rw [if_neg hp]⟩

/-- The globals that `HurtPlayer` writes. -/
theorem HurtPlayer_frame (g : Glue) (w : World) :
    ∃ cl sb a n i b p h d m c, HurtPlayer g w =
      { w with playerClingDir := cl, sawHurtBubble := sb, actors := a, numActors := n,
               nextActorIndex := i, numBarrels := b, pounceHintState := p,
               playerHealth := h, playerDeadTime := d, scooterMounted := m,
               playerHurtCooldown := c } := by
  unfold HurtPlayer
  split
  · exact ⟨_, _, _, _, _, _, _, _, _, _, _, rfl⟩
  · simp only []
    by_cases hs : w.sawHurtBubble = false
    · rw [if_pos hs]
      obtain ⟨a, n, i, b, p, e1⟩ := HurtPlayerBubble_frame g { w with playerClingDir := DIR4_NONE }
      rw [e1]
      obtain ⟨h, d, m, c, e2⟩ := HurtPlayerHealth_frame
        { w with playerClingDir := DIR4_NONE, sawHurtBubble := true, actors := a,
                 numActors := n, nextActorIndex := i, numBarrels := b, pounceHintState := p }
      exact ⟨_, _, _, _, _, _, _, _, _, _, _, e2⟩
    · rw [if_neg hs]
      obtain ⟨h, d, m, c, e2⟩ := HurtPlayerHealth_frame { w with playerClingDir := DIR4_NONE }
      exact ⟨_, w.sawHurtBubble, w.actors, w.numActors, w.nextActorIndex, w.numBarrels,
        w.pounceHintState, _, _, _, _, e2⟩

/-- The function `HurtPlayer` leaves the explosion and decoration pools as they are. -/
theorem HurtPlayer_pools (g : Glue) (w : World) :
    (HurtPlayer g w).explosions = w.explosions ∧
    (HurtPlayer g w).numExplosions = w.numExplosions ∧
    (HurtPlayer g w).decorations = w.decorations ∧
    (HurtPlayer g w).decorationFrame = w.decorationFrame ∧
    (HurtPlayer g w).numDecorations = w.numDecorations := by
  obtain ⟨cl, sb, a, n, i, b, p, h, d, m, c, e⟩ := HurtPlayer_frame g w
  rw [e]
  exact ⟨rfl, rfl, rfl, rfl, rfl⟩

theorem arraySet_same {α : Type} (a : Nat → α) (i : Nat) :
    arraySet a i (a i) = a := by
  funext j
  unfold arraySet
  split
  · rename_i h; rw [h]
  · rfl

theorem DrawExplosionsAge_explosions (g : Glue) (u : World) (i : Nat) :
    (DrawExplosionsAge g u i).explosions =
      arraySet u.explosions i
        { (u.explosions i) with
          age := if wadd (u.explosions i).age 1 = 9 then 0 else wadd (u.explosions i).age 1 } ∧
    (DrawExplosionsAge g u i).numExplosions = u.numExplosions := by
  unfold DrawExplosionsAge
  simp only []
  by_cases h : wadd (u.explosions i).age 1 = 9
  · rw [if_pos h, if_pos h]
    exact NewDecoration_explosions _ _ _ _ _ _ _
  · rw [if_neg h, if_neg h]
    exact ⟨rfl, rfl⟩

/-- A round of the loop of `DrawExplosions` on a live slot ends with the
statements from `ex->age++` on, run on globals with the same explosion pool. -/
theorem DrawExplosionsBody_live (g : Glue) (v : World) (i : Nat)
    (h : (v.explosions i).age ≠ 0) :
    ∃ u, DrawExplosionsBody g v i = DrawExplosionsAge g u i ∧
      u.explosions = v.explosions ∧ u.numExplosions = v.numExplosions := by
  have hH : ∀ u, (HurtPlayer g u).explosions = u.explosions :=
    fun u => (HurtPlayer_pools g u).1
  have hHn : ∀ u, (HurtPlayer g u).numExplosions = u.numExplosions :=
    fun u => (HurtPlayer_pools g u).2.1
  have hD : ∀ u a b c d e f, (NewDecoration u a b c d e f).explosions = u.explosions :=
    fun u a b c d e f => (NewDecoration_explosions u a b c d e f).1
  have hDn : ∀ u a b c d e f,
      (NewDecoration u a b c d e f).numExplosions = u.numExplosions :=
    fun u a b c d e f => (NewDecoration_explosions u a b c d e f).2
  unfold DrawExplosionsBody
  rw [if_neg h]
  refine ⟨_, rfl, ?_, ?_⟩
  · split <;> split <;> simp only [hH, hD]
  · split <;> split <;> simp only [hHn, hDn]

theorem DrawExplosionsBody_explosions (g : Glue) (v : World) (i : Nat) :
    (DrawExplosionsBody g v i).explosions =
      arraySet v.explosions i (agedExplosion (v.explosions i)) ∧
    (DrawExplosionsBody g v i).numExplosions = v.numExplosions := by
  by_cases h : (v.explosions i).age = 0
  · unfold DrawExplosionsBody agedExplosion
    rw [if_pos h, if_pos h, arraySet_same]
    exact ⟨rfl, rfl⟩
  · obtain ⟨u, hu, he, hn⟩ := DrawExplosionsBody_live g v i h
    rw [hu]
    obtain ⟨h1, h2⟩ := DrawExplosionsAge_explosions g u i
    rw [h1, h2, he, hn]
    unfold agedExplosion
    rw [if_neg h]
    exact ⟨rfl, rfl⟩

theorem DrawExplosionsLoop_slot (g : Glue) (n i : Nat) (v : World) (k : Nat) :
    (forLoop (DrawExplosionsBody g) n i v).numExplosions = v.numExplosions ∧
    (forLoop (DrawExplosionsBody g) n i v).explosions k =
      if i ≤ k ∧ k < i + n then agedExplosion (v.explosions k) else v.explosions k := by
  induction n generalizing i v with
  | zero =>
    refine ⟨rfl, ?_⟩
    rw [if_neg (by omega)]
    rfl
  | succ n ih =>
    obtain ⟨h1, h2⟩ := ih (i + 1) (DrawExplosionsBody g v i)
    obtain ⟨hb1, hb2⟩ := DrawExplosionsBody_explosions g v i
    show (forLoop (DrawExplosionsBody g) n (i + 1) (DrawExplosionsBody g v i)).numExplosions
        = v.numExplosions ∧
      (forLoop (DrawExplosionsBody g) n (i + 1) (DrawExplosionsBody g v i)).explosions k = _
    rw [h1, h2, hb1, hb2]
    refine ⟨rfl, ?_⟩
    by_cases hki : k = i
    · subst hki
      rw [if_neg (by omega), if_pos (by omega), arraySet_self]
    · rw [arraySet_of_ne _ _ _ _ hki]
      by_cases hc : i + 1 ≤ k ∧ k < i + 1 + n
      · rw [if_pos hc, if_pos (by omega)]
      · rw [if_neg hc, if_neg (by omega)]

/-- One call of `DrawExplosions` ages every slot of the pool once. -/
theorem DrawExplosions_slot (g : Glue) (v : World) (k : Nat) (hk : k < v.numExplosions) :
    (DrawExplosions g v).numExplosions = v.numExplosions ∧
    (DrawExplosions g v).explosions k = agedExplosion (v.explosions k) := by
  unfold DrawExplosions
  obtain ⟨h1, h2⟩ := DrawExplosionsLoop_slot g v.numExplosions 0 v k
  rw [h1, h2, if_pos (by omega)]
  exact ⟨rfl, rfl⟩

theorem agedExplosion_young (a x y : Nat) (h1 : 1 ≤ a) (h7 : a ≤ 7) :
    agedExplosion { age := a, x := x, y := y } = { age := a + 1, x := x, y := y } := by
  unfold agedExplosion wadd
  rw [if_neg (by show a ≠ 0; omega), if_neg (by show (a + 1) % 65536 ≠ 9; omega)]
  show ({ age := (a + 1) % 65536, x := x, y := y } : Explosion) = _
  rw [Nat.mod_eq_of_lt (by omega)]

theorem DrawExplosions_iterate (g : Glue) (v : World) (k x y : Nat)
    (hk : k < v.numExplosions) (h1 : v.explosions k = { age := 1, x := x, y := y })
    (n : Nat) (hn : n ≤ 7) :
    (Nat.iterate (DrawExplosions g) n v).numExplosions = v.numExplosions ∧
    (Nat.iterate (DrawExplosions g) n v).explosions k = { age := 1 + n, x := x, y := y } := by
  induction n with
  | zero => exact ⟨rfl, h1⟩
  | succ n ih =>
    obtain ⟨ihn, ihe⟩ := ih (by omega)
    rw [Function.iterate_succ_apply']
    obtain ⟨e1, e2⟩ := DrawExplosions_slot g (Nat.iterate (DrawExplosions g) n v) k
      (by rw [ihn]; exact hk)
    rw [e1, e2, ihe, agedExplosion_young _ _ _ (by omega) (by omega)]
    exact ⟨ihn, by rw [Nat.add_assoc]⟩

/-- The round of the loop of `DrawExplosions` that finds a slot at age 8. -/
theorem DrawExplosionsBody_last (g : Glue) (v : World) (k : Nat)
    (h8 : (v.explosions k).age = 8) :
    ∃ u, (u = v ∨ u = HurtPlayer g v) ∧
      DrawExplosionsBody g v k =
        NewDecoration
          { u with explosions := arraySet v.explosions k { (v.explosions k) with age := 0 } }
          g.SPR_SMOKE_LARGE 6 (wadd (v.explosions k).x 1) (wsub (v.explosions k).y 1)
          g.DIR8_NORTH 1 := by
  have hH : (HurtPlayer g v).explosions = v.explosions := (HurtPlayer_pools g v).1
  unfold DrawExplosionsBody
  rw [if_neg (by rw [h8]; decide), if_neg (by rw [h8]; decide)]
  simp only []
  by_cases ht : IsTouchingPlayer g v g.SPR_EXPLOSION (wsub (v.explosions k).age 1 % 4)
      (v.explosions k).x (v.explosions k).y = true
  · refine ⟨HurtPlayer g v, Or.inr rfl, ?_⟩
    rw [if_pos ht]
    unfold DrawExplosionsAge
    simp only [hH]
    rw [if_pos (by rw [h8]; rfl)]
  · refine ⟨v, Or.inl rfl, ?_⟩
    rw [if_neg ht]
    unfold DrawExplosionsAge
    simp only []
    rw [if_pos (by rw [h8]; rfl)]

/-- The rounds of the loop of `DrawExplosions` that find a slot at an age from 1
to 7 ask for no decoration but the sparkle at age 1. -/
theorem DrawExplosionsBody_young (g : Glue) (v : World) (k : Nat)
    (h1 : 1 ≤ (v.explosions k).age) (h7 : (v.explosions k).age ≤ 7) :
    (DrawExplosionsBody g v k).decorations =
      (if (v.explosions k).age = 1 then
        NewDecoration v g.SPR_SPARKLE_LONG 8 (wadd (v.explosions k).x 2)
          (wsub (v.explosions k).y 2) g.DIR8_STATIONARY 1
       else v).decorations := by
  have hH : ∀ u, (HurtPlayer g u).decorations = u.decorations :=
    fun u => (HurtPlayer_pools g u).2.2.1
  have hHe : ∀ u, (HurtPlayer g u).explosions = u.explosions :=
    fun u => (HurtPlayer_pools g u).1
  have hage : ∀ u : World, u.explosions = v.explosions →
      (DrawExplosionsAge g u k).decorations = u.decorations := by
    intro u hu
    unfold DrawExplosionsAge
    simp only [hu]
    rw [if_neg (by unfold wadd; omega)]
  have hD : ∀ u a b c d e f, (NewDecoration u a b c d e f).explosions = u.explosions :=
    fun u a b c d e f => (NewDecoration_explosions u a b c d e f).1
  unfold DrawExplosionsBody
  rw [if_neg (by omega)]
  simp only []
  split <;> split <;> rw [hage _ (by simp only [hHe, hD])] <;> try simp only [hH]

/-- C18, counterexample: an explosion made by `NewExplosion(5, 5)` in slot 0.
After seven calls of `DrawExplosions` its age is 8; after the eighth call its
age is 0, not 9: the slot is free, and decoration slot 1 holds the
`SPR_SMOKE_LARGE` decoration, which it did not after seven calls. -/
theorem DrawExplosions_frees_on_eighth_call :
    ((Nat.iterate (DrawExplosions demoGlue) 7 (NewExplosion blastWorld 5 5)).explosions 0).age
      = 8 ∧
    (Nat.iterate (DrawExplosions demoGlue) 7 (NewExplosion blastWorld 5 5)).decorations 1
      = { } ∧
    ((Nat.iterate (DrawExplosions demoGlue) 8 (NewExplosion blastWorld 5 5)).explosions 0).age
      = 0 ∧
    (Nat.iterate (DrawExplosions demoGlue) 8 (NewExplosion blastWorld 5 5)).decorations 1
      = { alive := true, sprite := 4, numframes := 6, x := 6, y := 6, dir := 1,
          numtimes := 1 } := by
  decide

/-- C18, amended: let `NewExplosion(x, y)` take slot `k`, the lowest free one.
The explosion has age 1.  After `n` calls of `DrawExplosions`, for `n` up to 7,
its age is `1 + n`, so the slot is not free; the eighth call raises the age to
9 and resets it to 0 in the same round, so after eight calls the slot is free.
The round that finds a slot at age 8 is the one that frees it, and it ends with
one call `NewDecoration(SPR_SMOKE_LARGE, 6, ex->x + 1, ex->y - 1, DIR8_NORTH, 1)`;
a round that finds the slot at an age from 1 to 7 asks for no decoration but
the `SPR_SPARKLE_LONG` one at age 1. -/
theorem explosion_lifetime (g : Glue) (w : World) (x y k : Nat)
    (hk : k < w.numExplosions) (hfree : (w.explosions k).age = 0)
    (hlow : ∀ j, j < k → (w.explosions j).age ≠ 0) :
    (NewExplosion w x y).explosions k = { age := 1, x := x, y := wadd y 2 } ∧
    (∀ n, n ≤ 7 →
      (Nat.iterate (DrawExplosions g) n (NewExplosion w x y)).explosions k =
        { age := 1 + n, x := x, y := wadd y 2 }) ∧
    (Nat.iterate (DrawExplosions g) 8 (NewExplosion w x y)).explosions k =
      { age := 0, x := x, y := wadd y 2 } ∧
    (∀ v : World, (v.explosions k).age = 8 →
      ∃ u, (u = v ∨ u = HurtPlayer g v) ∧
        DrawExplosionsBody g v k =
          NewDecoration
            { u with explosions := arraySet v.explosions k { (v.explosions k) with age := 0 } }
            g.SPR_SMOKE_LARGE 6 (wadd (v.explosions k).x 1) (wsub (v.explosions k).y 1)
            g.DIR8_NORTH 1) ∧
    (∀ v : World, 1 ≤ (v.explosions k).age → (v.explosions k).age ≤ 7 →
      (DrawExplosionsBody g v k).decorations =
        (if (v.explosions k).age = 1 then
          NewDecoration v g.SPR_SPARKLE_LONG 8 (wadd (v.explosions k).x 2)
            (wsub (v.explosions k).y 2) g.DIR8_STATIONARY 1
         else v).decorations) := by
  have hnew : NewExplosion w x y =
      { w with explosions := arraySet w.explosions k { age := 1, x := x, y := wadd y 2 } } := by
    unfold NewExplosion
    exact NewExplosionLoop_found x y w _ 0 k (Nat.zero_le k) (by omega) hfree
      (fun j _ h2 => hlow j h2)
  have h1 : (NewExplosion w x y).explosions k = { age := 1, x := x, y := wadd y 2 } := by
    rw [hnew]
    exact arraySet_self _ _ _
  have hk1 : k < (NewExplosion w x y).numExplosions := by
    rw [hnew]
    exact hk
  have hit := DrawExplosions_iterate g (NewExplosion w x y) k x (wadd y 2) hk1 h1
  refine ⟨h1, fun n hn => (hit n hn).2, ?_, fun v => DrawExplosionsBody_last g v k,
    fun v => DrawExplosionsBody_young g v k⟩
  obtain ⟨e7n, e7⟩ := hit 7 (Nat.le_refl 7)
  show (Nat.iterate (DrawExplosions g) (7 + 1) (NewExplosion w x y)).explosions k = _
  rw [Function.iterate_succ_apply']
  obtain ⟨_, e2⟩ := DrawExplosions_slot g (Nat.iterate (DrawExplosions g) 7 (NewExplosion w x y))
    k (by rw [e7n]; exact hk1)
  rw [e2, e7]
  rfl

/-- Witness of C18, amended: `NewExplosion(5, 5)` in `blastWorld` takes slot 0;
the age is 4 after three calls of `DrawExplosions` and the slot is free after
eight. -/
theorem explosion_lifetime_witness :
    (NewExplosion blastWorld 5 5).explosions 0 = { age := 1, x := 5, y := 7 } ∧
    (Nat.iterate (DrawExplosions demoGlue) 3 (NewExplosion blastWorld 5 5)).explosions 0 =
      { age := 4, x := 5, y := 7 } ∧
    (Nat.iterate (DrawExplosions demoGlue) 8 (NewExplosion blastWorld 5 5)).explosions 0 =
      { age := 0, x := 5, y := 7 } := by
  have h := explosion_lifetime demoGlue blastWorld 5 5 0 (by decide) (by decide)
    (fun j hj => absurd hj (Nat.not_lt_zero j))
  exact ⟨h.1, h.2.1 3 (by decide), h.2.2.1⟩

/-! ## C19 -/

theorem wordOfInt_intOfWord (v : Nat) : wordOfInt (intOfWord v) = v % 65536 := by
  unfold wordOfInt intOfWord
  split <;> omega

theorem dwordOfInt_intOfWord (v : Nat) :
    dwordOfInt (intOfWord v) =
      if v % 65536 < 32768 then v % 65536 else v % 65536 + 4294901760 := by
  unfold dwordOfInt intOfWord
  split <;> omega

theorem getw_cons (a b : Nat) (rest : List Nat) :
    getw (a :: b :: rest) = (intOfWord (a % 256 + 256 * (b % 256)), rest) := rfl

theorem SaveGameStateBytes_eq (g : Glue) (w : World) :
    SaveGameStateBytes g w =
      [w.playerHealth % 256, w.playerHealth / 256 % 256,
       w.gameScore % 256, w.gameScore / 256 % 256, w.gameScore / 65536 % 256,
       w.gameScore / 16777216 % 256,
       w.gameStars % 65536 % 256, w.gameStars % 65536 / 256 % 256,
       w.levelNum % 256, w.levelNum / 256 % 256,
       w.playerBombs % 256, w.playerBombs / 256 % 256,
       w.playerMaxHealth % 256, w.playerMaxHealth / 256 % 256,
       w.usedCheatCode % 256, w.usedCheatCode / 256 % 256,
       1 % 256, 1 / 256 % 256,
       g.POUNCE_HINT_SEEN % 256, g.POUNCE_HINT_SEEN / 256 % 256,
       1 % 256, 1 / 256 % 256,
       saveChecksum w % 256, saveChecksum w / 256 % 256] := rfl

theorem LoadGameStateFields_cons (w : World)
    (b0 b1 b2 b3 b4 b5 b6 b7 b8 b9 b10 b11 b12 b13 b14 b15 b16 b17 b18 b19 b20 b21 : Nat)
    (rest : List Nat) :
    LoadGameStateFields w
        (b0 :: b1 :: b2 :: b3 :: b4 :: b5 :: b6 :: b7 :: b8 :: b9 :: b10 :: b11 :: b12 ::
          b13 :: b14 :: b15 :: b16 :: b17 :: b18 :: b19 :: b20 :: b21 :: rest) =
      ({ w with
         playerHealth := wordOfInt (intOfWord (b0 % 256 + 256 * (b1 % 256))),
         gameScore :=
           b2 % 256 + 256 * (b3 % 256) + 65536 * (b4 % 256) + 16777216 * (b5 % 256),
         gameStars := dwordOfInt (intOfWord (b6 % 256 + 256 * (b7 % 256))),
         levelNum := wordOfInt (intOfWord (b8 % 256 + 256 * (b9 % 256))),
         playerBombs := wordOfInt (intOfWord (b10 % 256 + 256 * (b11 % 256))),
         playerMaxHealth := wordOfInt (intOfWord (b12 % 256 + 256 * (b13 % 256))),
         usedCheatCode := wordOfInt (intOfWord (b14 % 256 + 256 * (b15 % 256))),
         sawBombHint := wordOfInt (intOfWord (b16 % 256 + 256 * (b17 % 256))),
         pounceHintState := wordOfInt (intOfWord (b18 % 256 + 256 * (b19 % 256))),
         sawHealthHint := wordOfInt (intOfWord (b20 % 256 + 256 * (b21 % 256))) },
       rest) := rfl

theorem saveChecksum_eq (w : World) :
    saveChecksum w =
      (w.playerHealth + w.gameStars + w.levelNum + w.playerBombs + w.playerMaxHealth)
        % 65536 := by
  unfold saveChecksum wadd
  omega

/-- C19, counterexample: a game with 40000 stars.  `SaveGameState('1')` writes
the word 40000, `getw` reads it back as the `int` -25536, and `LoadGameState('1')`
leaves `gameStars = 4294941760`. -/
theorem SaveGameState_LoadGameState_40000_stars :
    starsWorld.gameStars = 40000 ∧
    (LoadGameState (SaveGameState demoGlue starsWorld 49) 49).globals.gameStars
      = 4294941760 := by
  decide

/-- C19, amended: `SaveGameState(c)` followed at once by `LoadGameState(c)`,
for every value of the word variables `playerHealth`, `levelNum`, `playerBombs`,
`playerMaxHealth` and of the dword variables `gameScore`, `gameStars`.  The load
returns true, so the checksum comparison succeeds, and `playerHealth`,
`gameScore`, `levelNum`, `playerBombs` and `playerMaxHealth` have their values
from before the save; `gameStars` has its old value exactly when that value is
below 32768 or at least 4294934528, that is when, as a signed 32-bit number,
it fits a 16-bit `int`. -/
theorem SaveGameState_LoadGameState (g : Glue) (w : World) (c : Nat)
    (hh : w.playerHealth < 65536) (hs : w.gameScore < 4294967296)
    (ht : w.gameStars < 4294967296) (hl : w.levelNum < 65536)
    (hb : w.playerBombs < 65536) (hm : w.playerMaxHealth < 65536) :
    ∃ w1, LoadGameState (SaveGameState g w c) c = LoadOutcome.returned true w1 ∧
      w1.playerHealth = w.playerHealth ∧ w1.gameScore = w.gameScore ∧
      (w1.gameStars = w.gameStars ↔ (w.gameStars < 32768 ∨ 4294934528 ≤ w.gameStars)) ∧
      w1.levelNum = w.levelNum ∧ w1.playerBombs = w.playerBombs ∧
      w1.playerMaxHealth = w.playerMaxHealth := by
  have hfile : (SaveGameState g w c).saveFiles c = some (SaveGameStateBytes g w) :=
    arraySet_self _ _ _
  have hfields := LoadGameStateFields_cons (SaveGameState g w c)
    (w.playerHealth % 256) (w.playerHealth / 256 % 256)
    (w.gameScore % 256) (w.gameScore / 256 % 256) (w.gameScore / 65536 % 256)
    (w.gameScore / 16777216 % 256)
    (w.gameStars % 65536 % 256) (w.gameStars % 65536 / 256 % 256)
    (w.levelNum % 256) (w.levelNum / 256 % 256)
    (w.playerBombs % 256) (w.playerBombs / 256 % 256)
    (w.playerMaxHealth % 256) (w.playerMaxHealth / 256 % 256)
    (w.usedCheatCode % 256) (w.usedCheatCode / 256 % 256)
    (1 % 256) (1 / 256 % 256)
    (g.POUNCE_HINT_SEEN % 256) (g.POUNCE_HINT_SEEN / 256 % 256)
    (1 % 256) (1 / 256 % 256)
    [saveChecksum w % 256, saveChecksum w / 256 % 256]
  rw [← SaveGameStateBytes_eq] at hfields
  generalize hv : LoadGameStateFields (SaveGameState g w c) (SaveGameStateBytes g w) = r
    at hfields
  have e1 : r.1.playerHealth = w.playerHealth := by
    rw [hfields]
    show wordOfInt (intOfWord _) = _
    rw [wordOfInt_intOfWord]
    omega
  have e2 : r.1.gameScore = w.gameScore := by
    rw [hfields]
    show _ + _ = w.gameScore
    omega
  have e3 : r.1.gameStars =
      if w.gameStars % 65536 < 32768 then w.gameStars % 65536
      else w.gameStars % 65536 + 4294901760 := by
    rw [hfields]
    show dwordOfInt (intOfWord _) = _
    rw [dwordOfInt_intOfWord]
    have e : (w.gameStars % 65536 % 256 % 256 + 256 * (w.gameStars % 65536 / 256 % 256 % 256))
        % 65536 = w.gameStars % 65536 := by omega
    rw [e]
  have e4 : r.1.levelNum = w.levelNum := by
    rw [hfields]
    show wordOfInt (intOfWord _) = _
    rw [wordOfInt_intOfWord]
    omega
  have e5 : r.1.playerBombs = w.playerBombs := by
    rw [hfields]
    show wordOfInt (intOfWord _) = _
    rw [wordOfInt_intOfWord]
    omega
  have e6 : r.1.playerMaxHealth = w.playerMaxHealth := by
    rw [hfields]
    show wordOfInt (intOfWord _) = _
    rw [wordOfInt_intOfWord]
    omega
  have e7 : wordOfInt (getw r.2).1 = saveChecksum w := by
    rw [hfields]
    show wordOfInt (intOfWord _) = _
    rw [wordOfInt_intOfWord]
    have : saveChecksum w < 65536 := by
      rw [saveChecksum_eq]
      omega
    omega
  have e8 : saveChecksum r.1 = saveChecksum w := by
    rw [saveChecksum_eq, saveChecksum_eq, e1, e3, e4, e5, e6]
    split <;> omega
  refine ⟨r.1, ?_, e1, e2, ?_, e4, e5, e6⟩
  · unfold LoadGameState
    rw [hfile]
    simp only []
    rw [hv, if_neg (by rw [e7, e8]; exact fun h => h rfl)]
  · rw [e3]
    split <;> omega

/-- Witness of C19, amended: a game with 12 stars. -/
theorem SaveGameState_LoadGameState_witness :
    ∃ w1, LoadGameState (SaveGameState demoGlue gameWorld 49) 49
        = LoadOutcome.returned true w1 ∧
      w1.playerHealth = 3 ∧ w1.gameScore = 123456 ∧ w1.gameStars = 12 ∧
      w1.levelNum = 2 ∧ w1.playerBombs = 1 ∧ w1.playerMaxHealth = 5 := by
  obtain ⟨w1, h, h1, h2, h3, h4, h5, h6⟩ :=
    SaveGameState_LoadGameState demoGlue gameWorld 49 (by decide) (by decide) (by decide)
      (by decide) (by decide) (by decide)
  exact ⟨w1, h, h1, h2, h3.mpr (Or.inl (by decide)), h4, h5, h6⟩

/-! ## C20 -/

/-- The words that `LoadGameState` reads from a file of 24 bytes or more. -/
theorem LoadGameStateFields_words (w : World) (f : List Nat) (hlen : 24 ≤ f.length) :
    wordOfInt (getw (LoadGameStateFields w f).2).1 = fileWord f 22 ∧
    (LoadGameStateFields w f).1.playerHealth = fileWord f 0 ∧
    (LoadGameStateFields w f).1.gameStars % 65536 = fileWord f 6 ∧
    (LoadGameStateFields w f).1.levelNum = fileWord f 8 ∧
    (LoadGameStateFields w f).1.playerBombs = fileWord f 10 ∧
    (LoadGameStateFields w f).1.playerMaxHealth = fileWord f 12 := by
  rcases f with _ | ⟨b0, f⟩
  · exact absurd hlen (by simp)
  rcases f with _ | ⟨b1, f⟩
  · exact absurd hlen (by simp)
  rcases f with _ | ⟨b2, f⟩
  · exact absurd hlen (by simp)
  rcases f with _ | ⟨b3, f⟩
  · exact absurd hlen (by simp)
  rcases f with _ | ⟨b4, f⟩
  · exact absurd hlen (by simp)
  rcases f with _ | ⟨b5, f⟩
  · exact absurd hlen (by simp)
  rcases f with _ | ⟨b6, f⟩
  · exact absurd hlen (by simp)
  rcases f with _ | ⟨b7, f⟩
  · exact absurd hlen (by simp)
  rcases f with _ | ⟨b8, f⟩
  · exact absurd hlen (by simp)
  rcases f with _ | ⟨b9, f⟩
  · exact absurd hlen (by simp)
  rcases f with _ | ⟨b10, f⟩
  · exact absurd hlen (by simp)
  rcases f with _ | ⟨b11, f⟩
  · exact absurd hlen (by simp)
  rcases f with _ | ⟨b12, f⟩
  · exact absurd hlen (by simp)
  rcases f with _ | ⟨b13, f⟩
  · exact absurd hlen (by simp)
  rcases f with _ | ⟨b14, f⟩
  · exact absurd hlen (by simp)
  rcases f with _ | ⟨b15, f⟩
  · exact absurd hlen (by simp)
  rcases f with _ | ⟨b16, f⟩
  · exact absurd hlen (by simp)
  rcases f with _ | ⟨b17, f⟩
  · exact absurd hlen (by simp)
  rcases f with _ | ⟨b18, f⟩
  · exact absurd hlen (by simp)
  rcases f with _ | ⟨b19, f⟩
  · exact absurd hlen (by simp)
  rcases f with _ | ⟨b20, f⟩
  · exact absurd hlen (by simp)
  rcases f with _ | ⟨b21, f⟩
  · exact absurd hlen (by simp)
  rcases f with _ | ⟨b22, f⟩
  · exact absurd hlen (by simp)
  rcases f with _ | ⟨b23, f⟩
  · exact absurd hlen (by simp)
  rw [LoadGameStateFields_cons]
  have hw : ∀ a b : Nat, wordOfInt (intOfWord (a % 256 + 256 * (b % 256)))
      = a % 256 + 256 * (b % 256) := by
    intro a b
    rw [wordOfInt_intOfWord]
    omega
  have hd : ∀ a b : Nat, dwordOfInt (intOfWord (a % 256 + 256 * (b % 256))) % 65536
      = a % 256 + 256 * (b % 256) := by
    intro a b
    rw [dwordOfInt_intOfWord]
    split <;> omega
  exact ⟨hw b22 b23, hw b0 b1, hd b6 b7, hw b8 b9, hw b10 b11, hw b12 b13⟩

/-- C20: let the save file of the slot exist, with bytes `f`.  `LoadGameState`
reads ten fields, then the stored checksum word.  It takes the path
`ShowAlteredFileError(); ExitClean();` exactly when the stored word differs
from (health + stars + levelNum + bombs + maxHealth) mod 2^16 of the fields
just loaded, and returns true otherwise.  In a file of 24 bytes or more the
stored word is bytes 22 and 23, and health, the low word of stars, levelNum,
bombs and maxHealth are the words at bytes 0, 6, 8, 10 and 12. -/
theorem LoadGameState_exits_iff_checksum_differs (w : World) (c : Nat) (f : List Nat)
    (hf : w.saveFiles c = some f) :
    (LoadGameState w c = LoadOutcome.exited (LoadGameStateFields w f).1 ↔
      wordOfInt (getw (LoadGameStateFields w f).2).1 ≠
        ((LoadGameStateFields w f).1.playerHealth + (LoadGameStateFields w f).1.gameStars +
          (LoadGameStateFields w f).1.levelNum + (LoadGameStateFields w f).1.playerBombs +
          (LoadGameStateFields w f).1.playerMaxHealth) % 65536) ∧
    (wordOfInt (getw (LoadGameStateFields w f).2).1 =
        ((LoadGameStateFields w f).1.playerHealth + (LoadGameStateFields w f).1.gameStars +
          (LoadGameStateFields w f).1.levelNum + (LoadGameStateFields w f).1.playerBombs +
          (LoadGameStateFields w f).1.playerMaxHealth) % 65536 →
      LoadGameState w c = LoadOutcome.returned true (LoadGameStateFields w f).1) ∧
    (24 ≤ f.length →
      wordOfInt (getw (LoadGameStateFields w f).2).1 = fileWord f 22 ∧
      (LoadGameStateFields w f).1.playerHealth = fileWord f 0 ∧
      (LoadGameStateFields w f).1.gameStars % 65536 = fileWord f 6 ∧
      (LoadGameStateFields w f).1.levelNum = fileWord f 8 ∧
      (LoadGameStateFields w f).1.playerBombs = fileWord f 10 ∧
      (LoadGameStateFields w f).1.playerMaxHealth = fileWord f 12) := by
  have hload : LoadGameState w c =
      if wordOfInt (getw (LoadGameStateFields w f).2).1 ≠ saveChecksum (LoadGameStateFields w f).1
      then LoadOutcome.exited (LoadGameStateFields w f).1
      else LoadOutcome.returned true (LoadGameStateFields w f).1 := by
    unfold LoadGameState
    rw [hf]
  rw [hload, ← saveChecksum_eq]
  refine ⟨?_, ?_, LoadGameStateFields_words w f⟩
  · by_cases h : wordOfInt (getw (LoadGameStateFields w f).2).1
        = saveChecksum (LoadGameStateFields w f).1
    · rw [if_neg (fun hne => hne h)]
      constructor
      · intro e
        cases e
      · intro hne
        exact absurd h hne
    · rw [if_pos h]
      exact ⟨fun _ => h, fun _ => rfl⟩
  · intro h
    rw [if_neg (fun hne => hne h)]

/-- Witness of C20: the file `saveBytes 23` ends with the right sum, 23, and
the load returns true; the file `saveBytes 24` does not, and the load takes the
altered-file path. -/
theorem LoadGameState_exits_iff_checksum_differs_witness :
    LoadGameState (savedWorld 23) 49 =
      LoadOutcome.returned true (LoadGameStateFields (savedWorld 23) (saveBytes 23)).1 ∧
    LoadGameState (savedWorld 24) 49 =
      LoadOutcome.exited (LoadGameStateFields (savedWorld 24) (saveBytes 24)).1 ∧
    (LoadGameStateFields (savedWorld 24) (saveBytes 24)).1.playerHealth = 3 ∧
    (LoadGameStateFields (savedWorld 24) (saveBytes 24)).1.playerMaxHealth = 5 := by
  have h23 := LoadGameState_exits_iff_checksum_differs (savedWorld 23) 49 (saveBytes 23) rfl
  have h24 := LoadGameState_exits_iff_checksum_differs (savedWorld 24) 49 (saveBytes 24) rfl
  have hw := h24.2.2 (by decide)
  refine ⟨h23.2.1 (by decide), h24.1.mpr (by decide), ?_, ?_⟩
  · rw [hw.2.1]; decide
  · rw [hw.2.2.2.2.2]; decide

/-! ## The player on a floor: what `TestPlayerMove` answers -/

theorem playerScanSouth_first (v : World) (c : Int)
    (hs : TILE_SLOPED v (v.mapData c) = 0) (hb : TILE_BLOCK_SOUTH v (v.mapData c) ≠ 0) :
    playerScanSouth v c 3 0 = (MOVE_BLOCKED, { v with pounceStreak := 0 }) := by
  have e : c + ((0 : Nat) : Int) = c := by simp
  unfold playerScanSouth
  rw [e, if_neg (fun h => h hs), if_pos hb]

theorem playerScanSouth_second (v : World) (c : Int)
    (hb : TILE_BLOCK_SOUTH v (v.mapData (c + 1)) ≠ 0) :
    ∃ r, playerScanSouth v c 3 0 = (r, { v with pounceStreak := 0 }) ∧ r ≠ MOVE_FREE := by
  have e0 : c + ((0 : Nat) : Int) = c := by simp
  have e1 : c + (((0 : Nat) + 1 : Nat) : Int) = c + 1 := by simp
  unfold playerScanSouth
  rw [e0]
  by_cases h1 : TILE_SLOPED v (v.mapData c) ≠ 0
  · rw [if_pos h1]
    exact ⟨MOVE_SLOPED, rfl, by decide⟩
  · rw [if_neg h1]
    by_cases h2 : TILE_BLOCK_SOUTH v (v.mapData c) ≠ 0
    · rw [if_pos h2]
      exact ⟨MOVE_BLOCKED, rfl, by decide⟩
    · rw [if_neg h2]
      unfold playerScanSouth
      rw [e1]
      by_cases h3 : TILE_SLOPED v (v.mapData (c + 1)) ≠ 0
      · rw [if_pos h3]
        exact ⟨MOVE_SLOPED, rfl, by decide⟩
      · rw [if_neg h3, if_pos hb]
        exact ⟨MOVE_BLOCKED, rfl, by decide⟩

/-- A south test over a floor tile that is not sloped and blocks south, with no
sloped tile two cells east of it: the answer is not `MOVE_SLOPED`, both sliding
flags are false after it. -/
theorem TestPlayerMove_south_floor (g : Glue) (v : World) (x y : Nat)
    (hs : TILE_SLOPED v (v.mapData (MAP_CELL_ADDR v x y)) = 0)
    (hb : TILE_BLOCK_SOUTH v (v.mapData (MAP_CELL_ADDR v x y)) ≠ 0)
    (hs2 : TILE_SLOPED v (v.mapData (MAP_CELL_ADDR v x y + 2)) = 0) :
    ∃ r p, TestPlayerMove g v DIR4_SOUTH x y =
        (r, { v with isPlayerSlidingEast := false, isPlayerSlidingWest := false,
                     pounceStreak := p }) ∧
      r ≠ MOVE_SLOPED := by
  unfold TestPlayerMove
  simp only []
  by_cases hcut : wadd v.mapHeight g.SCROLLH = v.playerY
  · rw [if_pos hcut]
    exact ⟨MOVE_FREE, v.pounceStreak, rfl, by decide⟩
  · have h1 : ¬ (¬ (TILE_BLOCK_SOUTH v (v.mapData (MAP_CELL_ADDR v x y)) ≠ 0) ∧
        TILE_SLOPED v (v.mapData (MAP_CELL_ADDR v x y)) ≠ 0 ∧
        TILE_SLIPPERY v (v.mapData (MAP_CELL_ADDR v x y)) ≠ 0) := fun h => h.2.1 hs
    have h2 : ¬ (¬ (TILE_BLOCK_SOUTH v (v.mapData (MAP_CELL_ADDR v x y + 2)) ≠ 0) ∧
        TILE_SLOPED v (v.mapData (MAP_CELL_ADDR v x y + 2)) ≠ 0 ∧
        TILE_SLIPPERY v (v.mapData (MAP_CELL_ADDR v x y + 2)) ≠ 0) := fun h => h.2.1 hs2
    rw [if_neg hcut, if_neg h2, if_neg h1]
    refine ⟨MOVE_BLOCKED, 0, ?_, by decide⟩
    exact playerScanSouth_first _ _ hs hb

/-- A south test, not short-cut, over a middle tile that blocks south: the
answer is not `MOVE_FREE` and `pounceStreak` is 0 after it. -/
theorem TestPlayerMove_south_lands (g : Glue) (v : World) (x y : Nat)
    (hcut : wadd v.mapHeight g.SCROLLH ≠ v.playerY)
    (hb : TILE_BLOCK_SOUTH v (v.mapData (MAP_CELL_ADDR v x y + 1)) ≠ 0) :
    ∃ r e s, TestPlayerMove g v DIR4_SOUTH x y =
        (r, { v with isPlayerSlidingEast := e, isPlayerSlidingWest := s,
                     pounceStreak := 0 }) ∧
      r ≠ MOVE_FREE := by
  unfold TestPlayerMove
  simp only []
  rw [if_neg hcut]
  by_cases h1 : ¬ (TILE_BLOCK_SOUTH v (v.mapData (MAP_CELL_ADDR v x y)) ≠ 0) ∧
      TILE_SLOPED v (v.mapData (MAP_CELL_ADDR v x y)) ≠ 0 ∧
      TILE_SLIPPERY v (v.mapData (MAP_CELL_ADDR v x y)) ≠ 0
  · rw [if_pos h1]
    by_cases h2 : ¬ (TILE_BLOCK_SOUTH v (v.mapData (MAP_CELL_ADDR v x y + 2)) ≠ 0) ∧
        TILE_SLOPED v (v.mapData (MAP_CELL_ADDR v x y + 2)) ≠ 0 ∧
        TILE_SLIPPERY v (v.mapData (MAP_CELL_ADDR v x y + 2)) ≠ 0
    · rw [if_pos h2]
      obtain ⟨r, hr, hne⟩ := playerScanSouth_second
        { v with isPlayerSlidingEast := true, isPlayerSlidingWest := true }
        (MAP_CELL_ADDR v x y) hb
      exact ⟨r, true, true, hr, hne⟩
    · rw [if_neg h2]
      obtain ⟨r, hr, hne⟩ := playerScanSouth_second
        { v with isPlayerSlidingEast := true, isPlayerSlidingWest := false }
        (MAP_CELL_ADDR v x y) hb
      exact ⟨r, true, false, hr, hne⟩
  · rw [if_neg h1]
    by_cases h2 : ¬ (TILE_BLOCK_SOUTH v (v.mapData (MAP_CELL_ADDR v x y + 2)) ≠ 0) ∧
        TILE_SLOPED v (v.mapData (MAP_CELL_ADDR v x y + 2)) ≠ 0 ∧
        TILE_SLIPPERY v (v.mapData (MAP_CELL_ADDR v x y + 2)) ≠ 0
    · rw [if_pos h2]
      obtain ⟨r, hr, hne⟩ := playerScanSouth_second
        { v with isPlayerSlidingEast := false, isPlayerSlidingWest := true }
        (MAP_CELL_ADDR v x y) hb
      exact ⟨r, false, true, hr, hne⟩
    · rw [if_neg h2]
      obtain ⟨r, hr, hne⟩ := playerScanSouth_second
        { v with isPlayerSlidingEast := false, isPlayerSlidingWest := false }
        (MAP_CELL_ADDR v x y) hb
      exact ⟨r, false, false, hr, hne⟩

theorem playerScanSide_free (v : World) (block : Nat → Nat) (n i : Nat) (c : Int)
    (hfree : ∀ k : Nat, k < n → block (v.mapData (c - (k : Int) * (v.mapWidth : Int))) = 0)
    (hs : i = 0 → TILE_SLOPED v (v.mapData c) = 0) :
    playerScanSide v block n i c = MOVE_FREE := by
  induction n generalizing i c with
  | zero => rfl
  | succ n ih =>
    unfold playerScanSide
    have h0 : block (v.mapData c) = 0 := by
      have h := hfree 0 (Nat.succ_pos n)
      simpa using h
    rw [if_neg (fun h => h h0), if_neg (fun h => h.2.1 (hs h.1))]
    apply ih
    · intro k hk
      have h := hfree (k + 1) (by omega)
      have e : c - ((k + 1 : Nat) : Int) * (v.mapWidth : Int)
          = c - (v.mapWidth : Int) - (k : Int) * (v.mapWidth : Int) := by
        push_cast
        ring
      rw [e] at h
      exact h
    · intro hi
      omega

/-- A west test along a column of five cells none of which blocks west, the
lowest not sloped: the answer is `MOVE_FREE`. -/
theorem TestPlayerMove_west_free (g : Glue) (v : World) (x y : Nat)
    (hfree : ∀ k : Nat, k < 5 →
      TILE_BLOCK_WEST v (v.mapData (MAP_CELL_ADDR v x y - (k : Int) * (v.mapWidth : Int))) = 0)
    (hs : TILE_SLOPED v (v.mapData (MAP_CELL_ADDR v x y)) = 0) :
    ∃ c, TestPlayerMove g v DIR4_WEST x y =
      (MOVE_FREE, { v with isPlayerSlidingEast := false, isPlayerSlidingWest := false,
                           canPlayerCling := c }) := by
  unfold TestPlayerMove
  simp only []
  rw [playerScanSide_free v (TILE_BLOCK_WEST v) 5 0 _ hfree (fun _ => hs)]
  exact ⟨_, rfl⟩

/-! ## `MovePlayer` for a player who is free to act -/

theorem MovePlayerPush_idle (g : Glue) (v : World) (h : v.isPlayerPushed = false) :
    MovePlayerPush g v = v := by
  unfold MovePlayerPush
  rw [if_pos h]

/-- The start of `MovePlayer` for a player who is alive, in no transporter, on
no scooter, not dizzy, not blocked and not pushed. -/
theorem MovePlayer_free (g : Glue) (o : Outside) (junk : MoveResult) (rnd : Nat) (w : World)
    (halive : w.playerDeadTime = 0) (htrans : w.activeTransporter = 0)
    (hscoot : w.scooterMounted = 0) (hdizzy : w.playerDizzyLeft = 0)
    (hblock : w.blockActionCmds = false) (hpush : w.isPlayerPushed = false) :
    MovePlayer g o junk rnd w =
      MovePlayerActs g o junk rnd
        { w with canPlayerCling := 0, movecount := wadd w.movecount 1 } := by
  unfold MovePlayer
  simp only []
  rw [if_neg (by
    intro h
    rcases h with h | h | h | h | h
    · exact h halive
    · exact h htrans
    · exact h hscoot
    · exact h hdizzy
    · rw [hblock] at h
      exact Bool.false_ne_true h)]
  rw [MovePlayerPush_idle g { w with canPlayerCling := 0, movecount := wadd w.movecount 1 }
    hpush]
  rw [if_neg (fun h => Bool.false_ne_true (hpush.symm.trans h))]

/-- The blocks of `MovePlayer` before the movement for a player who does not
cling and does not hold the bomb key. -/
theorem MovePlayerActs_free (g : Glue) (o : Outside) (junk : MoveResult) (rnd : Nat)
    (v : World) (hcling : v.playerClingDir = DIR4_NONE) (hbomb : v.cmdBomb = false) :
    MovePlayerActs g o junk rnd v =
      if (MovePlayerFrame g rnd false
          (MovePlayerMove g junk { v with bombcooldown := 0, cmdBomb := false })).1 = true then
        (MovePlayerFrame g rnd false
          (MovePlayerMove g junk { v with bombcooldown := 0, cmdBomb := false })).2
      else
        MovePlayerScroll g false (MovePlayerFrame g rnd false
          (MovePlayerMove g junk { v with bombcooldown := 0, cmdBomb := false })).2 := by
  have hc : MovePlayerCling g v = (false, v) := by
    unfold MovePlayerCling
    rw [if_neg (fun h => h hcling)]
  have hb : MovePlayerBomb g o v = { v with bombcooldown := 0, cmdBomb := false } := by
    simp [MovePlayerBomb, hcling, hbomb]
  unfold MovePlayerActs
  simp only []
  rw [hc, hb]
  simp only [Bool.false_eq_true, false_and, and_false, if_false]

/-- The south test that `MovePlayer` makes for its side effects, over a floor. -/
theorem MovePlayerGroundTest_floor (g : Glue) (v : World)
    (hs : TILE_SLOPED v (v.mapData (MAP_CELL_ADDR v v.playerX (wadd v.playerY 1))) = 0)
    (hb : TILE_BLOCK_SOUTH v (v.mapData (MAP_CELL_ADDR v v.playerX (wadd v.playerY 1))) ≠ 0)
    (hs2 : TILE_SLOPED v (v.mapData (MAP_CELL_ADDR v v.playerX (wadd v.playerY 1) + 2)) = 0) :
    ∃ p, MovePlayerGroundTest g v =
      { v with playerBombDir := DIR4_NONE, isPlayerSlidingEast := false,
               isPlayerSlidingWest := false, pounceStreak := p } := by
  obtain ⟨r, p, hr, _⟩ := TestPlayerMove_south_floor g { v with playerBombDir := DIR4_NONE }
    v.playerX (wadd v.playerY 1) hs hb hs2
  unfold MovePlayerGroundTest
  rw [hr]
  exact ⟨p, rfl⟩

theorem MovePlayerSlide_none (g : Glue) (v : World)
    (he : v.isPlayerSlidingEast = false) (hw : v.isPlayerSlidingWest = false) :
    MovePlayerSlide g v = v := by
  unfold MovePlayerSlide
  simp only []
  rw [if_pos (Or.inl he), if_neg (fun h => Bool.false_ne_true (hw.symm.trans h)),
    if_neg (fun h => Bool.false_ne_true (he.symm.trans h))]

theorem MovePlayerWest_none (g : Glue) (junk : MoveResult) (v : World)
    (h : v.cmdWest = false) : MovePlayerWest g junk v = v := by
  unfold MovePlayerWest
  rw [if_neg (fun hc => Bool.false_ne_true (h.symm.trans hc.1))]

theorem MovePlayerEast_none (g : Glue) (junk : MoveResult) (v : World)
    (h : v.cmdEast = false) : MovePlayerEast g junk v = v := by
  unfold MovePlayerEast
  rw [if_neg (fun hc => Bool.false_ne_true (h.symm.trans hc.1))]

theorem MovePlayerUnlatch_none (v : World) (h : v.playerClingDir = DIR4_NONE) :
    MovePlayerUnlatch v = v := by
  unfold MovePlayerUnlatch
  rw [if_neg (fun hc => hc.1 h)]

theorem MovePlayerJump_none (g : Glue) (v : World)
    (hm : v.playerMomentumNorth = 0) (hj : v.cmdJump = false) :
    MovePlayerJump g v = v := by
  unfold MovePlayerJump
  rw [if_neg (by
    intro h
    rcases h with h | h | h
    · exact h hm
    · exact Bool.false_ne_true (hj.symm.trans h.1)
    · exact Bool.false_ne_true (hj.symm.trans h.2.1))]

/-- The fall block of `MovePlayer` for a player over a floor: whether or not
the player was falling, the block ends with the player landed in the row where
it began. -/
theorem MovePlayerFall_lands (g : Glue) (v : World)
    (hcling : v.playerClingDir = DIR4_NONE) (hj : v.cmdJump = false)
    (hrec : v.isPlayerRecoiling = false)
    (hcut : wadd v.mapHeight g.SCROLLH ≠ wadd v.playerY 1)
    (hb : TILE_BLOCK_SOUTH v
      (v.mapData (MAP_CELL_ADDR v v.playerX (wadd v.playerY 1) + 1)) ≠ 0) :
    ∃ e s, MovePlayerFall g v =
      { v with
        isPlayerSlidingEast := e, isPlayerSlidingWest := s, pounceStreak := 0,
        isPlayerFalling := false, playerY := wsub (wadd v.playerY 1) 1, playerJumpTime := 0,
        cmdJumpLatch := false, playerFallTime := 1 } := by
  have hlatch : MovePlayerFallLatch v = v := by
    unfold MovePlayerFallLatch
    rw [if_neg (fun h => Bool.false_ne_true (hj.symm.trans h.2))]
  have hdown : ∀ t : Int, ∃ e s,
      MovePlayerFallDown g { v with isPlayerFalling := true, playerFallTime := t } =
        { v with
          isPlayerSlidingEast := e, isPlayerSlidingWest := s, pounceStreak := 0,
          isPlayerFalling := false, playerY := wsub (wadd v.playerY 1) 1, playerJumpTime := 0,
          cmdJumpLatch := false, playerFallTime := 0 } := by
    intro t
    obtain ⟨r, e, s, hr, hne⟩ := TestPlayerMove_south_lands g
      { v with isPlayerFalling := true, playerFallTime := t, playerY := wadd v.playerY 1 }
      v.playerX (wadd v.playerY 1) hcut hb
    refine ⟨e, s, ?_⟩
    unfold MovePlayerFallDown
    simp only []
    rw [hr]
    simp only []
    rw [if_pos hne]
    unfold MovePlayerLand
    simp only [hj]
  have hstep : ∀ t : Int, ∃ e s,
      MovePlayerFallStep g { v with isPlayerFalling := true, playerFallTime := t } =
        { v with
          isPlayerSlidingEast := e, isPlayerSlidingWest := s, pounceStreak := 0,
          isPlayerFalling := false, playerY := wsub (wadd v.playerY 1) 1, playerJumpTime := 0,
          cmdJumpLatch := false, playerFallTime := 1 } := by
    intro t
    obtain ⟨e, s, hd⟩ := hdown t
    refine ⟨e, s, ?_⟩
    unfold MovePlayerFallStep
    rw [if_pos ⟨rfl, hrec⟩, hd]
    unfold MovePlayerFallFaster
    rw [if_neg (show ¬ ((0 : Int) > 3) by decide)]
    unfold MovePlayerFallTick
    rw [if_pos (show (0 : Int) < 25 by decide)]
    rfl
  have hhold : ∀ e s, MovePlayerFallHold
        { v with
          isPlayerSlidingEast := e, isPlayerSlidingWest := s, pounceStreak := 0,
          isPlayerFalling := false, playerY := wsub (wadd v.playerY 1) 1, playerJumpTime := 0,
          cmdJumpLatch := false, playerFallTime := 1 } =
        { v with
          isPlayerSlidingEast := e, isPlayerSlidingWest := s, pounceStreak := 0,
          isPlayerFalling := false, playerY := wsub (wadd v.playerY 1) 1, playerJumpTime := 0,
          cmdJumpLatch := false, playerFallTime := 1 } := by
    intro e s
    unfold MovePlayerFallHold
    rw [if_neg (fun h => Bool.false_ne_true h.1)]
  unfold MovePlayerFall
  rw [if_pos hcling, hlatch]
  by_cases hf : v.isPlayerFalling = false
  · have hbegin : MovePlayerFallBegin v =
        { v with isPlayerFalling := true, playerFallTime := 0 } := by
      unfold MovePlayerFallBegin
      rw [if_pos ⟨Or.inl hj, hf⟩]
    obtain ⟨e, s, hs⟩ := hstep 0
    rw [hbegin, hs, hhold]
    exact ⟨e, s, rfl⟩
  · have hf1 : v.isPlayerFalling = true := by
      cases h : v.isPlayerFalling
      · exact absurd h hf
      · rfl
    have hbegin : MovePlayerFallBegin v = v := by
      unfold MovePlayerFallBegin
      rw [if_neg (fun h => hf h.2)]
    have hv : v = { v with isPlayerFalling := true, playerFallTime := v.playerFallTime } := by
      conv_lhs => rw [show v = { v with isPlayerFalling := v.isPlayerFalling } from rfl]
      rw [hf1]
    obtain ⟨e, s, hs⟩ := hstep v.playerFallTime
    rw [hbegin, hv, hs, hhold]
    exact ⟨e, s, rfl⟩

theorem flatFloor_cells (w : World) (x y : Nat) (h : flatFloor w x y) :
    (TILE_BLOCK_SOUTH w (w.mapData (MAP_CELL_ADDR w x y)) ≠ 0 ∧
      TILE_SLOPED w (w.mapData (MAP_CELL_ADDR w x y)) = 0) ∧
    (TILE_BLOCK_SOUTH w (w.mapData (MAP_CELL_ADDR w x y + 1)) ≠ 0 ∧
      TILE_SLOPED w (w.mapData (MAP_CELL_ADDR w x y + 1)) = 0) ∧
    (TILE_BLOCK_SOUTH w (w.mapData (MAP_CELL_ADDR w x y + 2)) ≠ 0 ∧
      TILE_SLOPED w (w.mapData (MAP_CELL_ADDR w x y + 2)) = 0) := by
  have h0 := h 0 (by decide)
  have h1 := h 1 (by decide)
  have h2 := h 2 (by decide)
  simp only [Nat.cast_zero, add_zero, Nat.cast_one, Nat.cast_ofNat] at h0 h1 h2
  exact ⟨h0, h1, h2⟩

/-- The movement part of `MovePlayer` for a player who stands on a flat floor
with no command held. -/
theorem MovePlayerMove_idle (g : Glue) (junk : MoveResult) (v : World)
    (hcling : v.playerClingDir = DIR4_NONE)
    (hwest : v.cmdWest = false) (heast : v.cmdEast = false) (hjump : v.cmdJump = false)
    (hmom : v.playerMomentumNorth = 0) (hrec : v.isPlayerRecoiling = false)
    (hcut : wadd v.mapHeight g.SCROLLH ≠ wadd v.playerY 1)
    (hfloor : flatFloor v v.playerX (wadd v.playerY 1)) :
    ∃ e s, MovePlayerMove g junk v =
      { v with
        playerBombDir := DIR4_NONE, isPlayerSlidingEast := e, isPlayerSlidingWest := s,
        pounceStreak := 0, isPlayerFalling := false, playerY := wsub (wadd v.playerY 1) 1,
        playerJumpTime := 0, cmdJumpLatch := false, playerFallTime := 1 } := by
  obtain ⟨⟨hb0, hs0⟩, ⟨hb1, _⟩, ⟨_, hs2⟩⟩ := flatFloor_cells v _ _ hfloor
  obtain ⟨p, h1⟩ := MovePlayerGroundTest_floor g v hs0 hb0 hs2
  obtain ⟨e, s, h2⟩ := MovePlayerFall_lands g
    { v with playerBombDir := DIR4_NONE, isPlayerSlidingEast := false,
             isPlayerSlidingWest := false, pounceStreak := p }
    hcling hjump hrec hcut hb1
  refine ⟨e, s, ?_⟩
  unfold MovePlayerMove
  rw [h1]
  rw [MovePlayerSlide_none g
    { v with playerBombDir := DIR4_NONE, isPlayerSlidingEast := false,
             isPlayerSlidingWest := false, pounceStreak := p } rfl rfl]
  rw [MovePlayerWest_none g junk
    { v with playerBombDir := DIR4_NONE, isPlayerSlidingEast := false,
             isPlayerSlidingWest := false, pounceStreak := p } hwest]
  rw [MovePlayerEast_none g junk
    { v with playerBombDir := DIR4_NONE, isPlayerSlidingEast := false,
             isPlayerSlidingWest := false, pounceStreak := p } heast]
  rw [MovePlayerUnlatch_none
    { v with playerBombDir := DIR4_NONE, isPlayerSlidingEast := false,
             isPlayerSlidingWest := false, pounceStreak := p } hcling]
  rw [MovePlayerJump_none g
    { v with playerBombDir := DIR4_NONE, isPlayerSlidingEast := false,
             isPlayerSlidingWest := false, pounceStreak := p } hmom hjump]
  rw [h2]

/-- The scroll statements at the end of `MovePlayer` write `scrollX` and
`scrollY` only. -/
theorem MovePlayerScroll_frame (g : Glue) (clingslip : Bool) (v : World) :
    ∃ sx sy, MovePlayerScroll g clingslip v = { v with scrollX := sx, scrollY := sy } := by
  have hdown : ∀ u : World, ∃ sy, MovePlayerScrollDown u = { u with scrollY := sy } := by
    intro u
    unfold MovePlayerScrollDown
    by_cases h : wsub u.playerY u.scrollY > 14
    · rw [if_pos h]; exact ⟨_, rfl⟩
    · rw [if_neg h]; exact ⟨u.scrollY, rfl⟩
  have hfast : ∀ u : World, ∃ sy, MovePlayerScrollUpFast u = { u with scrollY := sy } := by
    intro u
    unfold MovePlayerScrollUpFast
    by_cases h : u.playerMomentumNorth > 10 ∧ wsub u.playerY u.scrollY < 7 ∧ u.scrollY > 0
    · rw [if_pos h]; exact ⟨_, rfl⟩
    · rw [if_neg h]; exact ⟨u.scrollY, rfl⟩
  have hup : ∀ u : World, ∃ sy, MovePlayerScrollUp u = { u with scrollY := sy } := by
    intro u
    unfold MovePlayerScrollUp
    by_cases h : wsub u.playerY u.scrollY < 7 ∧ u.scrollY > 0
    · rw [if_pos h]; exact ⟨_, rfl⟩
    · rw [if_neg h]; exact ⟨u.scrollY, rfl⟩
  have hslip : ∀ u : World, ∃ sy, MovePlayerScrollSlip clingslip u = { u with scrollY := sy } := by
    intro u
    unfold MovePlayerScrollSlip
    by_cases h : clingslip = true ∧ wsub u.playerY u.scrollY > 14
    · rw [if_pos h]; exact ⟨_, rfl⟩
    · rw [if_neg h]
      obtain ⟨a, ha⟩ := hfast u
      obtain ⟨b, hb⟩ := hup { u with scrollY := a }
      rw [ha, hb]
      exact ⟨b, rfl⟩
  have hx : ∀ u : World, ∃ sx, MovePlayerScrollX g u = { u with scrollX := sx } := by
    intro u
    unfold MovePlayerScrollX
    by_cases h1 : wsub u.playerX u.scrollX > 23 ∧ wsub u.mapWidth g.SCROLLW > u.scrollX ∧
        u.mapYPower > 5
    · rw [if_pos h1]; exact ⟨_, rfl⟩
    · rw [if_neg h1]
      by_cases h2 : wsub u.playerX u.scrollX < 12 ∧ u.scrollX > 0
      · rw [if_pos h2]; exact ⟨_, rfl⟩
      · rw [if_neg h2]; exact ⟨u.scrollX, rfl⟩
  obtain ⟨a, ha⟩ := hdown v
  obtain ⟨b, hb⟩ := hslip { v with scrollY := a }
  obtain ⟨c, hc⟩ := hx { v with scrollY := b }
  unfold MovePlayerScroll MovePlayerScrollY
  rw [ha, hb, hc]
  exact ⟨c, b, rfl⟩

/-- The idle branch of the frame choice of `MovePlayer` for a player who holds
neither the west nor the east command and is not falling. -/
theorem MovePlayerIdle_eq (g : Glue) (rnd : Nat) (v : World)
    (hwest : v.cmdWest = false) (heast : v.cmdEast = false) (hfall : v.isPlayerFalling = false) :
    MovePlayerIdle g rnd v =
      { v with
        playerFrame := idleFrame g (wadd v.idlecount 1) rnd,
        idlecount := if wadd v.idlecount 1 = 185 then 0 else wadd v.idlecount 1 } := by
  have hcount : MovePlayerIdleCount g { v with playerFrame := g.PLAYER_STAND } =
      { v with
        playerFrame := idlePose g (wadd v.idlecount 1),
        idlecount := if wadd v.idlecount 1 = 185 then 0 else wadd v.idlecount 1 } := by
    unfold MovePlayerIdleCount idlePose
    simp only []
    generalize wadd v.idlecount 1 = c
    by_cases h1 : c > 100 ∧ c < 110
    · rw [if_pos h1, if_pos h1, if_neg (by omega)]
    · rw [if_neg h1, if_neg h1]
      by_cases h2 : c > 139 ∧ c < 150
      · rw [if_pos h2, if_pos h2, if_neg (by omega)]
      · rw [if_neg h2, if_neg h2]
        by_cases h3 : c = 180
        · rw [if_pos h3, if_pos h3, if_neg (by omega)]
        · rw [if_neg h3, if_neg h3]
          by_cases h4 : c = 181
          · rw [if_pos h4, if_pos h4, if_neg (by omega)]
          · rw [if_neg h4, if_neg h4]
            by_cases h5 : c = 182
            · rw [if_pos h5, if_pos h5, if_neg (by omega)]
            · rw [if_neg h5, if_neg h5]
              by_cases h6 : c = 183
              · rw [if_pos h6, if_pos h6, if_neg (by omega)]
              · rw [if_neg h6, if_neg h6]
                by_cases h7 : c = 184
                · rw [if_pos h7, if_pos h7, if_neg (by omega)]
                · rw [if_neg h7, if_neg h7]
                  by_cases h8 : c = 185
                  · rw [if_pos h8, if_pos h8]
                  · rw [if_neg h8, if_neg h8]
  have htick : MovePlayerIdleTick g { v with playerFrame := g.PLAYER_STAND } =
      MovePlayerIdleCount g { v with playerFrame := g.PLAYER_STAND } := by
    unfold MovePlayerIdleTick
    rw [if_pos ⟨hwest, heast, hfall⟩]
  unfold MovePlayerIdle
  rw [htick, hcount]
  unfold MovePlayerIdleBlink idleFrame
  simp only []
  generalize idlePose g (wadd v.idlecount 1) = f
  by_cases hb : f ≠ g.PLAYER_LOOK_NORTH ∧ f ≠ g.PLAYER_LOOK_SOUTH ∧
      (rnd % 256 = 0 ∨ rnd % 256 = 31)
  · rw [if_pos hb, if_pos hb]
  · rw [if_neg hb, if_neg hb]

/-- The frame choice of `MovePlayer` for a player who stands with no command held. -/
theorem MovePlayerFrame_idle (g : Glue) (rnd : Nat) (clingslip : Bool) (v : World)
    (hbomb : v.playerBombDir = DIR4_NONE) (hcling : v.playerClingDir = DIR4_NONE)
    (hnorth : v.cmdNorth = false) (hsouth : v.cmdSouth = false)
    (hwest : v.cmdWest = false) (heast : v.cmdEast = false) (hjump : v.cmdJump = false)
    (hfall : v.isPlayerFalling = false) (hrec : v.isPlayerRecoiling = false)
    (htime : v.playerJumpTime = 0) :
    MovePlayerFrame g rnd clingslip v = (false, MovePlayerIdle g rnd v) := by
  unfold MovePlayerFrame
  rw [if_neg (fun h => h hbomb)]
  rw [if_neg (by
    intro h
    rcases h.1 with h1 | h1
    · exact Bool.false_ne_true (hnorth.symm.trans h1)
    · exact Bool.false_ne_true (hsouth.symm.trans h1))]
  rw [if_neg (by rw [hcling]; decide), if_neg (by rw [hcling]; decide)]
  rw [if_neg (by
    intro h
    rcases h with h1 | h1
    · exact Bool.false_ne_true (hfall.symm.trans h1.1)
    · rw [htime] at h1
      exact absurd h1.1 (by decide))]
  rw [if_neg (by
    intro h
    rcases h with h1 | h1
    · exact Bool.false_ne_true (hjump.symm.trans h1.1)
    · exact Bool.false_ne_true (hrec.symm.trans h1))]
  rw [if_pos (hwest.trans heast.symm)]

/-- One call of `MovePlayer` in grounded idle: the globals after it. -/
theorem MovePlayer_idle_tick (g : Glue) (o : Outside) (junk : MoveResult) (rnd : Nat)
    (w : World) (h : IdleGround g w) :
    ∃ e s sx sy, MovePlayer g o junk rnd w =
      { w with
        canPlayerCling := 0, movecount := wadd w.movecount 1, bombcooldown := 0,
        cmdBomb := false, playerBombDir := DIR4_NONE, isPlayerSlidingEast := e,
        isPlayerSlidingWest := s, pounceStreak := 0, isPlayerFalling := false,
        playerY := wsub (wadd w.playerY 1) 1, playerJumpTime := 0, cmdJumpLatch := false,
        playerFallTime := 1,
        playerFrame := idleFrame g (wadd w.idlecount 1) rnd,
        idlecount := if wadd w.idlecount 1 = 185 then 0 else wadd w.idlecount 1,
        scrollX := sx, scrollY := sy } := by
  obtain ⟨⟨halive, htrans, hscoot, hdizzy, hblock, hpush, hcling⟩, hwest, heast, hnorth,
    hsouth, hjump, hbomb, hmom, hrec, hcut, hfloor⟩ := h
  obtain ⟨e, s, hm⟩ := MovePlayerMove_idle g junk
    { w with canPlayerCling := 0, movecount := wadd w.movecount 1, bombcooldown := 0,
             cmdBomb := false }
    hcling hwest heast hjump hmom hrec hcut hfloor
  have hframe := MovePlayerFrame_idle g rnd false
    { w with
      canPlayerCling := 0, movecount := wadd w.movecount 1, bombcooldown := 0,
      cmdBomb := false, playerBombDir := DIR4_NONE, isPlayerSlidingEast := e,
      isPlayerSlidingWest := s, pounceStreak := 0, isPlayerFalling := false,
      playerY := wsub (wadd w.playerY 1) 1, playerJumpTime := 0, cmdJumpLatch := false,
      playerFallTime := 1 }
    rfl hcling hnorth hsouth hwest heast hjump rfl hrec rfl
  have hidle := MovePlayerIdle_eq g rnd
    { w with
      canPlayerCling := 0, movecount := wadd w.movecount 1, bombcooldown := 0,
      cmdBomb := false, playerBombDir := DIR4_NONE, isPlayerSlidingEast := e,
      isPlayerSlidingWest := s, pounceStreak := 0, isPlayerFalling := false,
      playerY := wsub (wadd w.playerY 1) 1, playerJumpTime := 0, cmdJumpLatch := false,
      playerFallTime := 1 }
    hwest heast rfl
  obtain ⟨sx, sy, hscroll⟩ := MovePlayerScroll_frame g false
    { w with
      canPlayerCling := 0, movecount := wadd w.movecount 1, bombcooldown := 0,
      cmdBomb := false, playerBombDir := DIR4_NONE, isPlayerSlidingEast := e,
      isPlayerSlidingWest := s, pounceStreak := 0, isPlayerFalling := false,
      playerY := wsub (wadd w.playerY 1) 1, playerJumpTime := 0, cmdJumpLatch := false,
      playerFallTime := 1,
      playerFrame := idleFrame g (wadd w.idlecount 1) rnd,
      idlecount := if wadd w.idlecount 1 = 185 then 0 else wadd w.idlecount 1 }
  refine ⟨e, s, sx, sy, ?_⟩
  rw [MovePlayer_free g o junk rnd w halive htrans hscoot hdizzy hblock hpush]
  rw [MovePlayerActs_free g o junk rnd
    { w with canPlayerCling := 0, movecount := wadd w.movecount 1 } hcling hbomb]
  simp only []
  rw [hm, hframe]
  simp only [Bool.false_eq_true, if_false]
  rw [hidle]
  simp only []
  rw [hscroll]

/-! ## C15 -/

theorem freeColumnWest_congr (u v : World) (x y : Nat)
    (h1 : u.mapData = v.mapData) (h2 : u.tileAttributeData = v.tileAttributeData)
    (h3 : u.mapYPower = v.mapYPower) (h4 : u.mapWidth = v.mapWidth) :
    freeColumnWest u x y ↔ freeColumnWest v x y := by
  unfold freeColumnWest TILE_BLOCK_WEST TILE_SLOPED MAP_CELL_ADDR
  rw [h1, h2, h3, h4]

theorem TILE_BLOCK_SOUTH_congr (u v : World) (x : Int) (y : Nat) (i : Int)
    (h1 : u.mapData = v.mapData) (h2 : u.tileAttributeData = v.tileAttributeData)
    (h3 : u.mapYPower = v.mapYPower) :
    TILE_BLOCK_SOUTH u (u.mapData (MAP_CELL_ADDR u x y + i)) =
      TILE_BLOCK_SOUTH v (v.mapData (MAP_CELL_ADDR v x y + i)) := by
  unfold TILE_BLOCK_SOUTH MAP_CELL_ADDR
  rw [h1, h2, h3]

theorem MovePlayerWestStep_free (g : Glue) (junk : MoveResult) (u : World)
    (hx : 1 ≤ u.playerX) (hcol : freeColumnWest u u.playerX u.playerY) :
    ∃ c, MovePlayerWestStep g junk u =
      (MOVE_FREE, { u with isPlayerSlidingEast := false, isPlayerSlidingWest := false,
                           canPlayerCling := c }) := by
  obtain ⟨c, hr⟩ := TestPlayerMove_west_free g u u.playerX u.playerY hcol.1 hcol.2
  refine ⟨c, ?_⟩
  unfold MovePlayerWestStep
  rw [if_neg (by omega), hr]
  simp only []
  rw [if_neg (by decide)]

/-- The west block of `MovePlayer` for a player who faces west on a flat floor,
with a free column to the west. -/
theorem MovePlayerWestWalk_free (g : Glue) (junk : MoveResult) (v : World)
    (hface : v.playerFaceDir = DIR4_WEST) (hx : 1 < v.playerX) (hx2 : v.playerX < 65536)
    (hs : TILE_SLOPED v (v.mapData (MAP_CELL_ADDR v v.playerX (wadd v.playerY 1))) = 0)
    (hb : TILE_BLOCK_SOUTH v (v.mapData (MAP_CELL_ADDR v v.playerX (wadd v.playerY 1))) ≠ 0)
    (hs2 : TILE_SLOPED v (v.mapData (MAP_CELL_ADDR v v.playerX (wadd v.playerY 1) + 2)) = 0)
    (hcol : freeColumnWest v (wsub v.playerX 1) v.playerY) :
    ∃ p c, MovePlayerWestWalk g junk v =
      { v with
        isPlayerSlidingEast := false, isPlayerSlidingWest := false, pounceStreak := p,
        playerX := wsub v.playerX 1, playerBaseFrame := g.PLAYER_BASE_WEST,
        canPlayerCling := c } := by
  obtain ⟨r, p, hr, hne⟩ := TestPlayerMove_south_floor g v v.playerX (wadd v.playerY 1) hs hb hs2
  have hx1 : 1 ≤ wsub v.playerX 1 := by
    unfold wsub
    omega
  have hcol1 : freeColumnWest
      { v with
        isPlayerSlidingEast := false, isPlayerSlidingWest := false, pounceStreak := p,
        playerX := wsub v.playerX 1, playerBaseFrame := g.PLAYER_BASE_WEST }
      (wsub v.playerX 1) v.playerY :=
    (freeColumnWest_congr
      { v with
        isPlayerSlidingEast := false, isPlayerSlidingWest := false, pounceStreak := p,
        playerX := wsub v.playerX 1, playerBaseFrame := g.PLAYER_BASE_WEST }
      v (wsub v.playerX 1) v.playerY rfl rfl rfl rfl).mpr hcol
  obtain ⟨c, hstep⟩ := MovePlayerWestStep_free g junk
    { v with
      isPlayerSlidingEast := false, isPlayerSlidingWest := false, pounceStreak := p,
      playerX := wsub v.playerX 1, playerBaseFrame := g.PLAYER_BASE_WEST }
    hx1 hcol1
  refine ⟨p, c, ?_⟩
  unfold MovePlayerWestWalk
  rw [hr]
  simp only []
  rw [if_pos hface, hstep]
  simp only []
  rw [if_neg (by decide), if_neg hne]

theorem MovePlayerWest_walk (g : Glue) (junk : MoveResult) (v : World)
    (hwest : v.cmdWest = true) (hcling : v.playerClingDir = DIR4_NONE)
    (heast : v.cmdEast = false) :
    MovePlayerWest g junk v = MovePlayerWestWalk g junk v := by
  unfold MovePlayerWest
  rw [if_pos ⟨hwest, hcling, heast⟩]

theorem MAP_CELL_ADDR_west (v : World) (x y : Nat) (hx : 1 ≤ x) (hx2 : x < 65536) :
    MAP_CELL_ADDR v ((wsub x 1 : Nat) : Int) y + 1 = MAP_CELL_ADDR v (x : Int) y := by
  have h : wsub x 1 + 1 = x := by
    unfold wsub
    omega
  unfold MAP_CELL_ADDR
  rw [← h]
  push_cast
  rw [h]
  ring

/-- The movement part of `MovePlayer` for a player who stands on a flat floor,
faces west and holds the west command, with a free column to the west. -/
theorem MovePlayerMove_west (g : Glue) (junk : MoveResult) (v : World)
    (hcling : v.playerClingDir = DIR4_NONE)
    (hwest : v.cmdWest = true) (heast : v.cmdEast = false) (hjump : v.cmdJump = false)
    (hface : v.playerFaceDir = DIR4_WEST)
    (hmom : v.playerMomentumNorth = 0) (hrec : v.isPlayerRecoiling = false)
    (hx : 1 < v.playerX) (hx2 : v.playerX < 65536)
    (hcut : wadd v.mapHeight g.SCROLLH ≠ wadd v.playerY 1)
    (hfloor : flatFloor v v.playerX (wadd v.playerY 1))
    (hcol : freeColumnWest v (wsub v.playerX 1) v.playerY) :
    ∃ c e s, MovePlayerMove g junk v =
      { v with
        playerBombDir := DIR4_NONE, playerX := wsub v.playerX 1,
        playerBaseFrame := g.PLAYER_BASE_WEST, canPlayerCling := c,
        isPlayerSlidingEast := e, isPlayerSlidingWest := s,
        pounceStreak := 0, isPlayerFalling := false, playerY := wsub (wadd v.playerY 1) 1,
        playerJumpTime := 0, cmdJumpLatch := false, playerFallTime := 1 } := by
  obtain ⟨⟨hb0, hs0⟩, ⟨_, _⟩, ⟨_, hs2⟩⟩ := flatFloor_cells v _ _ hfloor
  obtain ⟨p, h1⟩ := MovePlayerGroundTest_floor g v hs0 hb0 hs2
  have hcol1 : freeColumnWest
      { v with playerBombDir := DIR4_NONE, isPlayerSlidingEast := false,
               isPlayerSlidingWest := false, pounceStreak := p }
      (wsub v.playerX 1) v.playerY :=
    (freeColumnWest_congr
      { v with playerBombDir := DIR4_NONE, isPlayerSlidingEast := false,
               isPlayerSlidingWest := false, pounceStreak := p }
      v (wsub v.playerX 1) v.playerY rfl rfl rfl rfl).mpr hcol
  obtain ⟨q, c, h2⟩ := MovePlayerWestWalk_free g junk
    { v with playerBombDir := DIR4_NONE, isPlayerSlidingEast := false,
             isPlayerSlidingWest := false, pounceStreak := p }
    hface hx hx2 hs0 hb0 hs2 hcol1
  have hbv : TILE_BLOCK_SOUTH v
      (v.mapData (MAP_CELL_ADDR v ((wsub v.playerX 1 : Nat) : Int) (wadd v.playerY 1) + 1))
        ≠ 0 := by
    rw [MAP_CELL_ADDR_west v v.playerX (wadd v.playerY 1) (by omega) hx2]
    exact hb0
  have hb1 := ne_of_eq_of_ne
    (TILE_BLOCK_SOUTH_congr
      { v with
        playerBombDir := DIR4_NONE, isPlayerSlidingEast := false,
        isPlayerSlidingWest := false, pounceStreak := q, playerX := wsub v.playerX 1,
        playerBaseFrame := g.PLAYER_BASE_WEST, canPlayerCling := c }
      v ((wsub v.playerX 1 : Nat) : Int) (wadd v.playerY 1) 1 rfl rfl rfl) hbv
  obtain ⟨e, s, h3⟩ := MovePlayerFall_lands g
    { v with
      playerBombDir := DIR4_NONE, isPlayerSlidingEast := false,
      isPlayerSlidingWest := false, pounceStreak := q, playerX := wsub v.playerX 1,
      playerBaseFrame := g.PLAYER_BASE_WEST, canPlayerCling := c }
    hcling hjump hrec hcut hb1
  refine ⟨c, e, s, ?_⟩
  unfold MovePlayerMove
  rw [h1]
  rw [MovePlayerSlide_none g
    { v with playerBombDir := DIR4_NONE, isPlayerSlidingEast := false,
             isPlayerSlidingWest := false, pounceStreak := p } rfl rfl]
  rw [MovePlayerWest_walk g junk
    { v with playerBombDir := DIR4_NONE, isPlayerSlidingEast := false,
             isPlayerSlidingWest := false, pounceStreak := p } hwest hcling heast]
  rw [h2]
  simp only []
  rw [MovePlayerEast_none g junk
    { v with
      playerBombDir := DIR4_NONE, isPlayerSlidingEast := false,
      isPlayerSlidingWest := false, pounceStreak := q, playerX := wsub v.playerX 1,
      playerBaseFrame := g.PLAYER_BASE_WEST, canPlayerCling := c } heast]
  rw [MovePlayerUnlatch_none
    { v with
      playerBombDir := DIR4_NONE, isPlayerSlidingEast := false,
      isPlayerSlidingWest := false, pounceStreak := q, playerX := wsub v.playerX 1,
      playerBaseFrame := g.PLAYER_BASE_WEST, canPlayerCling := c } hcling]
  rw [MovePlayerJump_none g
    { v with
      playerBombDir := DIR4_NONE, isPlayerSlidingEast := false,
      isPlayerSlidingWest := false, pounceStreak := q, playerX := wsub v.playerX 1,
      playerBaseFrame := g.PLAYER_BASE_WEST, canPlayerCling := c } hmom hjump]
  rw [h3]

/-- The walk branch of the frame choice of `MovePlayer` writes `idlecount` and
`playerFrame` only. -/
theorem MovePlayerWalkFrame_frame (g : Glue) (v : World) :
    ∃ f, MovePlayerWalkFrame g v = { v with idlecount := 0, playerFrame := f } := by
  unfold MovePlayerWalkFrame
  simp only []
  by_cases h1 : v.movecount % 2 ≠ 0
  · rw [if_pos h1]
    simp only []
    by_cases h2 : wadd v.playerFrame 1 > g.PLAYER_WALK_4
    · rw [if_pos h2]
      exact ⟨_, rfl⟩
    · rw [if_neg h2]
      exact ⟨_, rfl⟩
  · rw [if_neg h1]
    by_cases h2 : v.playerFrame > g.PLAYER_WALK_4
    · rw [if_pos h2]
      exact ⟨_, rfl⟩
    · rw [if_neg h2]
      exact ⟨v.playerFrame, rfl⟩

/-- The frame choice of `MovePlayer` for a player who walks west on the ground. -/
theorem MovePlayerFrame_walk (g : Glue) (rnd : Nat) (clingslip : Bool) (v : World)
    (hbomb : v.playerBombDir = DIR4_NONE) (hcling : v.playerClingDir = DIR4_NONE)
    (hwest : v.cmdWest = true) (heast : v.cmdEast = false) (hjump : v.cmdJump = false)
    (hfall : v.isPlayerFalling = false) (hrec : v.isPlayerRecoiling = false)
    (htime : v.playerJumpTime = 0) :
    MovePlayerFrame g rnd clingslip v = (false, MovePlayerWalkFrame g v) := by
  unfold MovePlayerFrame
  rw [if_neg (fun h => h hbomb)]
  rw [if_neg (by
    intro h
    rw [hwest] at h
    exact Bool.noConfusion h.2.1)]
  rw [if_neg (by rw [hcling]; decide), if_neg (by rw [hcling]; decide)]
  rw [if_neg (by
    intro h
    rcases h with h1 | h1
    · exact Bool.false_ne_true (hfall.symm.trans h1.1)
    · rw [htime] at h1
      exact absurd h1.1 (by decide))]
  rw [if_neg (by
    intro h
    rcases h with h1 | h1
    · exact Bool.false_ne_true (hjump.symm.trans h1.1)
    · exact Bool.false_ne_true (hrec.symm.trans h1))]
  rw [if_neg (by rw [hwest, heast]; decide), if_pos hfall]

/-- C15, counterexample: the player of `floorWorld` at (10, 10), on a flat
floor with a free column to the west, alive, not pushed, not clinging, not
dizzy, on no scooter, holding the west command only, but facing east.  One call
of `MovePlayer` turns the player west and leaves `playerX` at 10. -/
theorem MovePlayer_turns_before_walking :
    playerFree (walkWorld DIR4_EAST) ∧
    flatFloor (walkWorld DIR4_EAST) (walkWorld DIR4_EAST).playerX
      (wadd (walkWorld DIR4_EAST).playerY 1) ∧
    freeColumnWest (walkWorld DIR4_EAST) (wsub (walkWorld DIR4_EAST).playerX 1)
      (walkWorld DIR4_EAST).playerY ∧
    1 < (walkWorld DIR4_EAST).playerX ∧
    (walkWorld DIR4_EAST).cmdWest = true ∧ (walkWorld DIR4_EAST).cmdEast = false ∧
    (walkWorld DIR4_EAST).cmdNorth = false ∧ (walkWorld DIR4_EAST).cmdSouth = false ∧
    (walkWorld DIR4_EAST).cmdJump = false ∧ (walkWorld DIR4_EAST).cmdBomb = false ∧
    (MovePlayer demoGlue quietOutside MOVE_FREE 7 (walkWorld DIR4_EAST)).playerX = 10 ∧
    (MovePlayer demoGlue quietOutside MOVE_FREE 7 (walkWorld DIR4_EAST)).playerFaceDir
      = DIR4_WEST := by
  decide

/-- C15, amended: take a player who is free to act (alive, in no transporter,
on no scooter, not dizzy, not blocked, not pushed, not clinging), who faces
west, holds the west command and none of east, jump and bomb, has no upward
momentum and does not recoil, and who stands at (x, y) with 1 < x on a flat
floor whose row is not the cut-off row below the map, with no west-blocking tile
in the five rows of column x - 1 from y up and no slope at (x - 1, y).  One call
of `MovePlayer` ends with `playerX = x - 1`, `playerFaceDir = DIR4_WEST` and
`isPlayerFalling = false`. -/
theorem MovePlayer_walks_west (g : Glue) (o : Outside) (junk : MoveResult) (rnd : Nat)
    (w : World) (hfree : playerFree w)
    (hwest : w.cmdWest = true) (heast : w.cmdEast = false) (hjump : w.cmdJump = false)
    (hbomb : w.cmdBomb = false) (hface : w.playerFaceDir = DIR4_WEST)
    (hmom : w.playerMomentumNorth = 0) (hrec : w.isPlayerRecoiling = false)
    (hx : 1 < w.playerX) (hx2 : w.playerX < 65536)
    (hcut : wadd w.mapHeight g.SCROLLH ≠ wadd w.playerY 1)
    (hfloor : flatFloor w w.playerX (wadd w.playerY 1))
    (hcol : freeColumnWest w (wsub w.playerX 1) w.playerY) :
    (MovePlayer g o junk rnd w).playerX = w.playerX - 1 ∧
    (MovePlayer g o junk rnd w).playerFaceDir = DIR4_WEST ∧
    (MovePlayer g o junk rnd w).isPlayerFalling = false := by
  obtain ⟨halive, htrans, hscoot, hdizzy, hblock, hpush, hcling⟩ := hfree
  have hcol1 : freeColumnWest
      { w with canPlayerCling := 0, movecount := wadd w.movecount 1, bombcooldown := 0,
               cmdBomb := false }
      (wsub w.playerX 1) w.playerY :=
    (freeColumnWest_congr
      { w with canPlayerCling := 0, movecount := wadd w.movecount 1, bombcooldown := 0,
               cmdBomb := false }
      w (wsub w.playerX 1) w.playerY rfl rfl rfl rfl).mpr hcol
  obtain ⟨c, e, s, hm⟩ := MovePlayerMove_west g junk
    { w with canPlayerCling := 0, movecount := wadd w.movecount 1, bombcooldown := 0,
             cmdBomb := false }
    hcling hwest heast hjump hface hmom hrec hx hx2 hcut hfloor hcol1
  have hframe := MovePlayerFrame_walk g rnd false
    { w with
      canPlayerCling := c, movecount := wadd w.movecount 1, bombcooldown := 0,
      cmdBomb := false, playerBombDir := DIR4_NONE, playerX := wsub w.playerX 1,
      playerBaseFrame := g.PLAYER_BASE_WEST, isPlayerSlidingEast := e,
      isPlayerSlidingWest := s, pounceStreak := 0, isPlayerFalling := false,
      playerY := wsub (wadd w.playerY 1) 1, playerJumpTime := 0, cmdJumpLatch := false,
      playerFallTime := 1 }
    rfl hcling hwest heast hjump rfl hrec rfl
  obtain ⟨f, hwalk⟩ := MovePlayerWalkFrame_frame g
    { w with
      canPlayerCling := c, movecount := wadd w.movecount 1, bombcooldown := 0,
      cmdBomb := false, playerBombDir := DIR4_NONE, playerX := wsub w.playerX 1,
      playerBaseFrame := g.PLAYER_BASE_WEST, isPlayerSlidingEast := e,
      isPlayerSlidingWest := s, pounceStreak := 0, isPlayerFalling := false,
      playerY := wsub (wadd w.playerY 1) 1, playerJumpTime := 0, cmdJumpLatch := false,
      playerFallTime := 1 }
  obtain ⟨sx, sy, hscroll⟩ := MovePlayerScroll_frame g false
    { w with
      canPlayerCling := c, movecount := wadd w.movecount 1, bombcooldown := 0,
      cmdBomb := false, playerBombDir := DIR4_NONE, playerX := wsub w.playerX 1,
      playerBaseFrame := g.PLAYER_BASE_WEST, isPlayerSlidingEast := e,
      isPlayerSlidingWest := s, pounceStreak := 0, isPlayerFalling := false,
      playerY := wsub (wadd w.playerY 1) 1, playerJumpTime := 0, cmdJumpLatch := false,
      playerFallTime := 1, idlecount := 0, playerFrame := f }
  have hsub : wsub w.playerX 1 = w.playerX - 1 := by
    unfold wsub
    omega
  rw [MovePlayer_free g o junk rnd w halive htrans hscoot hdizzy hblock hpush]
  rw [MovePlayerActs_free g o junk rnd
    { w with canPlayerCling := 0, movecount := wadd w.movecount 1 } hcling hbomb]
  simp only []
  rw [hm]
  simp only []
  rw [hframe]
  simp only [Bool.false_eq_true, if_false]
  rw [hwalk]
  simp only []
  rw [hscroll]
  exact ⟨hsub, hface, rfl⟩

/-- Witness of C15, amended: the player of `floorWorld` at (10, 10), facing
west and holding the west command, is at column 9 after one call. -/
theorem MovePlayer_walks_west_witness :
    (MovePlayer demoGlue quietOutside MOVE_FREE 7 (walkWorld DIR4_WEST)).playerX = 10 - 1 ∧
    (MovePlayer demoGlue quietOutside MOVE_FREE 7 (walkWorld DIR4_WEST)).playerFaceDir
      = DIR4_WEST ∧
    (MovePlayer demoGlue quietOutside MOVE_FREE 7 (walkWorld DIR4_WEST)).isPlayerFalling
      = false :=
  MovePlayer_walks_west demoGlue quietOutside MOVE_FREE 7 (walkWorld DIR4_WEST)
    (by decide) rfl rfl rfl rfl rfl rfl rfl (by decide) (by decide) (by decide) (by decide)
    (by decide)

/-! ## C16 -/

theorem idlePose_eq (g : Glue) (c : Nat) :
    idlePose g c =
      if 101 ≤ c ∧ c ≤ 109 then g.PLAYER_LOOK_NORTH
      else if 140 ≤ c ∧ c ≤ 149 then g.PLAYER_LOOK_SOUTH
      else if c = 180 ∨ c = 184 then g.PLAYER_SHAKE_1
      else if c = 181 ∨ c = 183 then g.PLAYER_SHAKE_2
      else if c = 182 then g.PLAYER_SHAKE_3
      else g.PLAYER_STAND := by
  unfold idlePose
  by_cases h1 : 101 ≤ c ∧ c ≤ 109
  · rw [if_pos h1, if_pos (by omega)]
  · rw [if_neg h1, if_neg (by omega)]
    by_cases h2 : 140 ≤ c ∧ c ≤ 149
    · rw [if_pos h2, if_pos (by omega)]
    · rw [if_neg h2, if_neg (by omega)]
      by_cases h3 : c = 180
      · rw [if_pos h3, if_pos (Or.inl h3)]
      · rw [if_neg h3]
        by_cases h4 : c = 181
        · rw [if_pos h4, if_neg (by omega), if_pos (Or.inl h4)]
        · rw [if_neg h4]
          by_cases h5 : c = 182
          · rw [if_pos h5, if_neg (by omega), if_neg (by omega), if_pos h5]
          · rw [if_neg h5]
            by_cases h6 : c = 183
            · rw [if_pos h6, if_neg (by omega), if_pos (Or.inr h6)]
            · rw [if_neg h6]
              by_cases h7 : c = 184
              · rw [if_pos h7, if_pos (Or.inr h7)]
              · rw [if_neg h7, if_neg (by omega), if_neg (by omega), if_neg h5]

/-- The frame of the idle branch, case by case, when the seven frame numbers differ. -/
theorem idleFrame_cases (g : Glue) (c rnd : Nat) (hd : idleFramesDistinct g) :
    (idleFrame g c rnd = g.PLAYER_LOOK_NORTH ↔ 101 ≤ c ∧ c ≤ 109) ∧
    (idleFrame g c rnd = g.PLAYER_LOOK_SOUTH ↔ 140 ≤ c ∧ c ≤ 149) ∧
    (idleFrame g c rnd = g.PLAYER_SHAKE_1 ↔ (c = 180 ∨ c = 184) ∧ ¬ idleBlink rnd) ∧
    (idleFrame g c rnd = g.PLAYER_SHAKE_2 ↔ (c = 181 ∨ c = 183) ∧ ¬ idleBlink rnd) ∧
    (idleFrame g c rnd = g.PLAYER_SHAKE_3 ↔ c = 182 ∧ ¬ idleBlink rnd) ∧
    (idleFrame g c rnd = g.PLAYER_STAND_BLINK ↔
      idleBlink rnd ∧ ¬ (101 ≤ c ∧ c ≤ 109) ∧ ¬ (140 ≤ c ∧ c ≤ 149)) := by
  have hne : ∀ i j : Fin 7, i ≠ j →
      [g.PLAYER_STAND, g.PLAYER_STAND_BLINK, g.PLAYER_LOOK_NORTH, g.PLAYER_LOOK_SOUTH,
        g.PLAYER_SHAKE_1, g.PLAYER_SHAKE_2, g.PLAYER_SHAKE_3].get i ≠
      [g.PLAYER_STAND, g.PLAYER_STAND_BLINK, g.PLAYER_LOOK_NORTH, g.PLAYER_LOOK_SOUTH,
        g.PLAYER_SHAKE_1, g.PLAYER_SHAKE_2, g.PLAYER_SHAKE_3].get j := by
    intro i j hij h
    exact hij ((List.Nodup.get_inj_iff hd).mp h)
  have n_s : g.PLAYER_LOOK_NORTH ≠ g.PLAYER_LOOK_SOUTH := hne 2 3 (by decide)
  have n_1 : g.PLAYER_LOOK_NORTH ≠ g.PLAYER_SHAKE_1 := hne 2 4 (by decide)
  have n_2 : g.PLAYER_LOOK_NORTH ≠ g.PLAYER_SHAKE_2 := hne 2 5 (by decide)
  have n_3 : g.PLAYER_LOOK_NORTH ≠ g.PLAYER_SHAKE_3 := hne 2 6 (by decide)
  have n_k : g.PLAYER_LOOK_NORTH ≠ g.PLAYER_STAND_BLINK := hne 2 1 (by decide)
  have n_0 : g.PLAYER_LOOK_NORTH ≠ g.PLAYER_STAND := hne 2 0 (by decide)
  have s_1 : g.PLAYER_LOOK_SOUTH ≠ g.PLAYER_SHAKE_1 := hne 3 4 (by decide)
  have s_2 : g.PLAYER_LOOK_SOUTH ≠ g.PLAYER_SHAKE_2 := hne 3 5 (by decide)
  have s_3 : g.PLAYER_LOOK_SOUTH ≠ g.PLAYER_SHAKE_3 := hne 3 6 (by decide)
  have s_k : g.PLAYER_LOOK_SOUTH ≠ g.PLAYER_STAND_BLINK := hne 3 1 (by decide)
  have s_0 : g.PLAYER_LOOK_SOUTH ≠ g.PLAYER_STAND := hne 3 0 (by decide)
  have k_1 : g.PLAYER_STAND_BLINK ≠ g.PLAYER_SHAKE_1 := hne 1 4 (by decide)
  have k_2 : g.PLAYER_STAND_BLINK ≠ g.PLAYER_SHAKE_2 := hne 1 5 (by decide)
  have k_3 : g.PLAYER_STAND_BLINK ≠ g.PLAYER_SHAKE_3 := hne 1 6 (by decide)
  have k_0 : g.PLAYER_STAND_BLINK ≠ g.PLAYER_STAND := hne 1 0 (by decide)
  have p12 : g.PLAYER_SHAKE_1 ≠ g.PLAYER_SHAKE_2 := hne 4 5 (by decide)
  have p13 : g.PLAYER_SHAKE_1 ≠ g.PLAYER_SHAKE_3 := hne 4 6 (by decide)
  have p23 : g.PLAYER_SHAKE_2 ≠ g.PLAYER_SHAKE_3 := hne 5 6 (by decide)
  have p10 : g.PLAYER_SHAKE_1 ≠ g.PLAYER_STAND := hne 4 0 (by decide)
  have p20 : g.PLAYER_SHAKE_2 ≠ g.PLAYER_STAND := hne 5 0 (by decide)
  have p30 : g.PLAYER_SHAKE_3 ≠ g.PLAYER_STAND := hne 6 0 (by decide)
  unfold idleFrame idleBlink
  rw [idlePose_eq]
  by_cases h1 : 101 ≤ c ∧ c ≤ 109
  · rw [if_pos h1, if_neg (fun h => h.1 rfl)]
    exact ⟨⟨fun _ => h1, fun _ => rfl⟩,
      ⟨fun h => absurd h n_s, fun hp => by omega⟩,
      ⟨fun h => absurd h n_1, fun hp => by omega⟩,
      ⟨fun h => absurd h n_2, fun hp => by omega⟩,
      ⟨fun h => absurd h n_3, fun hp => by omega⟩,
      ⟨fun h => absurd h n_k, fun hp => absurd h1 hp.2.1⟩⟩
  · rw [if_neg h1]
    by_cases h2 : 140 ≤ c ∧ c ≤ 149
    · rw [if_pos h2, if_neg (fun h => h.2.1 rfl)]
      exact ⟨⟨fun h => absurd h n_s.symm, fun hp => absurd hp h1⟩,
        ⟨fun _ => h2, fun _ => rfl⟩,
        ⟨fun h => absurd h s_1, fun hp => by omega⟩,
        ⟨fun h => absurd h s_2, fun hp => by omega⟩,
        ⟨fun h => absurd h s_3, fun hp => by omega⟩,
        ⟨fun h => absurd h s_k, fun hp => absurd h2 hp.2.2⟩⟩
    · rw [if_neg h2]
      by_cases hb : rnd % 256 = 0 ∨ rnd % 256 = 31
      · have hpose : ∀ f : Nat, f ≠ g.PLAYER_LOOK_NORTH → f ≠ g.PLAYER_LOOK_SOUTH →
            (if f ≠ g.PLAYER_LOOK_NORTH ∧ f ≠ g.PLAYER_LOOK_SOUTH ∧
              (rnd % 256 = 0 ∨ rnd % 256 = 31) then g.PLAYER_STAND_BLINK else f)
              = g.PLAYER_STAND_BLINK := fun f hn hs => if_pos ⟨hn, hs, hb⟩
        rw [hpose _ (by
            split_ifs
            · exact n_1.symm
            · exact n_2.symm
            · exact n_3.symm
            · exact n_0.symm)
          (by
            split_ifs
            · exact s_1.symm
            · exact s_2.symm
            · exact s_3.symm
            · exact s_0.symm)]
        exact ⟨⟨fun h => absurd h n_k.symm, fun hp => absurd hp h1⟩,
          ⟨fun h => absurd h s_k.symm, fun hp => absurd hp h2⟩,
          ⟨fun h => absurd h k_1, fun hp => absurd hb hp.2⟩,
          ⟨fun h => absurd h k_2, fun hp => absurd hb hp.2⟩,
          ⟨fun h => absurd h k_3, fun hp => absurd hb hp.2⟩,
          ⟨fun _ => ⟨hb, h1, h2⟩, fun _ => rfl⟩⟩
      · have hpose : ∀ f : Nat,
            (if f ≠ g.PLAYER_LOOK_NORTH ∧ f ≠ g.PLAYER_LOOK_SOUTH ∧
              (rnd % 256 = 0 ∨ rnd % 256 = 31) then g.PLAYER_STAND_BLINK else f) = f :=
          fun f => if_neg (fun h => hb h.2.2)
        rw [hpose]
        by_cases c1 : c = 180 ∨ c = 184
        · rw [if_pos c1]
          exact ⟨⟨fun h => absurd h n_1.symm, fun hp => absurd hp h1⟩,
            ⟨fun h => absurd h s_1.symm, fun hp => absurd hp h2⟩,
            ⟨fun _ => ⟨c1, hb⟩, fun _ => rfl⟩,
            ⟨fun h => absurd h p12, fun hp => by omega⟩,
            ⟨fun h => absurd h p13, fun hp => by omega⟩,
            ⟨fun h => absurd h k_1.symm, fun hp => absurd hp.1 hb⟩⟩
        · rw [if_neg c1]
          by_cases c2 : c = 181 ∨ c = 183
          · rw [if_pos c2]
            exact ⟨⟨fun h => absurd h n_2.symm, fun hp => absurd hp h1⟩,
              ⟨fun h => absurd h s_2.symm, fun hp => absurd hp h2⟩,
              ⟨fun h => absurd h p12.symm, fun hp => absurd hp.1 c1⟩,
              ⟨fun _ => ⟨c2, hb⟩, fun _ => rfl⟩,
              ⟨fun h => absurd h p23, fun hp => by omega⟩,
              ⟨fun h => absurd h k_2.symm, fun hp => absurd hp.1 hb⟩⟩
          · rw [if_neg c2]
            by_cases c3 : c = 182
            · rw [if_pos c3]
              exact ⟨⟨fun h => absurd h n_3.symm, fun hp => absurd hp h1⟩,
                ⟨fun h => absurd h s_3.symm, fun hp => absurd hp h2⟩,
                ⟨fun h => absurd h p13.symm, fun hp => absurd hp.1 c1⟩,
                ⟨fun h => absurd h p23.symm, fun hp => absurd hp.1 c2⟩,
                ⟨fun _ => ⟨c3, hb⟩, fun _ => rfl⟩,
                ⟨fun h => absurd h k_3.symm, fun hp => absurd hp.1 hb⟩⟩
            · rw [if_neg c3]
              exact ⟨⟨fun h => absurd h n_0.symm, fun hp => absurd hp h1⟩,
                ⟨fun h => absurd h s_0.symm, fun hp => absurd hp h2⟩,
                ⟨fun h => absurd h p10.symm, fun hp => absurd hp.1 c1⟩,
                ⟨fun h => absurd h p20.symm, fun hp => absurd hp.1 c2⟩,
                ⟨fun h => absurd h p30.symm, fun hp => absurd hp.1 c3⟩,
                ⟨fun h => absurd h k_0.symm, fun hp => absurd hp.1 hb⟩⟩

/-- C16, counterexample: the player of `floorWorld`, in grounded idle, after 179
idle ticks.  On tick 180 `random(50)` gives 0: `MovePlayer` counts `idlecount`
to 180 and leaves the frame `PLAYER_STAND_BLINK`, 20, not `PLAYER_SHAKE_1`, 17. -/
theorem MovePlayer_blink_on_tick_180 :
    IdleGround demoGlue (floorWorld 179) ∧
    (MovePlayer demoGlue quietOutside MOVE_FREE 0 (floorWorld 179)).idlecount = 180 ∧
    (MovePlayer demoGlue quietOutside MOVE_FREE 0 (floorWorld 179)).playerFrame = 20 ∧
    demoGlue.PLAYER_STAND_BLINK = 20 ∧ demoGlue.PLAYER_SHAKE_1 = 17 := by
  decide

/-- C16, amended: take 185 calls of `MovePlayer`, call `n + 1` on the state
`s n`, each in grounded idle, the first with `idlecount = 0`, with nothing
between two calls that writes `idlecount`, and let the seven frame numbers of
the idle branch differ.  Call `n + 1` is idle tick `n + 1`.  Its frame is
`PLAYER_LOOK_NORTH` exactly on ticks 101 to 109 and `PLAYER_LOOK_SOUTH` exactly
on ticks 140 to 149.  It is `PLAYER_SHAKE_1` exactly on ticks 180 and 184,
`PLAYER_SHAKE_2` exactly on ticks 181 and 183, `PLAYER_SHAKE_3` exactly on tick
182, each provided the random blink does not happen on that tick; when the
blink happens on a tick outside 101 to 109 and 140 to 149, the frame is
`PLAYER_STAND_BLINK`.  After tick `n + 1` the counter is `n + 1`, but 0 after
tick 185. -/
theorem MovePlayer_idle_frames (g : Glue) (o : Outside) (s : Nat → World)
    (junk : Nat → MoveResult) (rnd : Nat → Nat)
    (hdistinct : idleFramesDistinct g)
    (hground : ∀ n, n < 185 → IdleGround g (s n))
    (hzero : (s 0).idlecount = 0)
    (hkeep : ∀ n, n < 184 →
      (s (n + 1)).idlecount = (MovePlayer g o (junk n) (rnd n) (s n)).idlecount) :
    ∀ n, n < 185 →
      ((MovePlayer g o (junk n) (rnd n) (s n)).playerFrame = g.PLAYER_LOOK_NORTH ↔
        101 ≤ n + 1 ∧ n + 1 ≤ 109) ∧
      ((MovePlayer g o (junk n) (rnd n) (s n)).playerFrame = g.PLAYER_LOOK_SOUTH ↔
        140 ≤ n + 1 ∧ n + 1 ≤ 149) ∧
      ((MovePlayer g o (junk n) (rnd n) (s n)).playerFrame = g.PLAYER_SHAKE_1 ↔
        (n + 1 = 180 ∨ n + 1 = 184) ∧ ¬ idleBlink (rnd n)) ∧
      ((MovePlayer g o (junk n) (rnd n) (s n)).playerFrame = g.PLAYER_SHAKE_2 ↔
        (n + 1 = 181 ∨ n + 1 = 183) ∧ ¬ idleBlink (rnd n)) ∧
      ((MovePlayer g o (junk n) (rnd n) (s n)).playerFrame = g.PLAYER_SHAKE_3 ↔
        n + 1 = 182 ∧ ¬ idleBlink (rnd n)) ∧
      ((MovePlayer g o (junk n) (rnd n) (s n)).playerFrame = g.PLAYER_STAND_BLINK ↔
        idleBlink (rnd n) ∧ ¬ (101 ≤ n + 1 ∧ n + 1 ≤ 109) ∧ ¬ (140 ≤ n + 1 ∧ n + 1 ≤ 149)) ∧
      (MovePlayer g o (junk n) (rnd n) (s n)).idlecount = (if n + 1 = 185 then 0 else n + 1) := by
  have hcall : ∀ n, n < 185 → (s n).idlecount = n →
      (MovePlayer g o (junk n) (rnd n) (s n)).playerFrame = idleFrame g (n + 1) (rnd n) ∧
      (MovePlayer g o (junk n) (rnd n) (s n)).idlecount = (if n + 1 = 185 then 0 else n + 1) := by
    intro n hn hc
    obtain ⟨e, sl, sx, sy, h⟩ := MovePlayer_idle_tick g o (junk n) (rnd n) (s n) (hground n hn)
    have hw : wadd (s n).idlecount 1 = n + 1 := by
      rw [hc]
      unfold wadd
      omega
    rw [h]
    show idleFrame g (wadd (s n).idlecount 1) (rnd n) = _ ∧
      (if wadd (s n).idlecount 1 = 185 then 0 else wadd (s n).idlecount 1) = _
    rw [hw]
    exact ⟨rfl, rfl⟩
  have hcount : ∀ n, n < 185 → (s n).idlecount = n := by
    intro n
    induction n with
    | zero => intro _; exact hzero
    | succ k ih =>
      intro hk
      rw [hkeep k (by omega), (hcall k (by omega) (ih (by omega))).2, if_neg (by omega)]
  intro n hn
  obtain ⟨hf, hc⟩ := hcall n hn (hcount n hn)
  rw [hf, hc]
  obtain ⟨h1, h2, h3, h4, h5, h6⟩ := idleFrame_cases g (n + 1) (rnd n) hdistinct
  exact ⟨h1, h2, h3, h4, h5, h6, rfl⟩

theorem floorWorld_ground (n : Nat) : IdleGround demoGlue (floorWorld n) := by
  refine ⟨⟨rfl, rfl, rfl, rfl, rfl, rfl, rfl⟩, rfl, rfl, rfl, rfl, rfl, rfl, rfl, rfl, ?_, ?_⟩
  · show wadd 64 18 ≠ wadd 10 1
    decide
  · show flatFloor (floorWorld 0) (floorWorld 0).playerX (wadd (floorWorld 0).playerY 1)
    decide

/-- Witness of C16, amended: the player of `floorWorld`, with `floorWorld n`
before call `n + 1` and `random(50)` giving 7 on every tick: the frame of tick
105 is `PLAYER_LOOK_NORTH`, that of tick 182 is `PLAYER_SHAKE_3`, and the
counter is 0 after tick 185. -/
theorem MovePlayer_idle_frames_witness :
    (MovePlayer demoGlue quietOutside MOVE_FREE 7 (floorWorld 104)).playerFrame
      = demoGlue.PLAYER_LOOK_NORTH ∧
    (MovePlayer demoGlue quietOutside MOVE_FREE 7 (floorWorld 181)).playerFrame
      = demoGlue.PLAYER_SHAKE_3 ∧
    (MovePlayer demoGlue quietOutside MOVE_FREE 7 (floorWorld 184)).idlecount = 0 := by
  have h := MovePlayer_idle_frames demoGlue quietOutside floorWorld (fun _ => MOVE_FREE)
    (fun _ => 7) (by decide) (fun n _ => floorWorld_ground n) rfl
    (fun n hn => by
      obtain ⟨e, sl, sx, sy, h⟩ := MovePlayer_idle_tick demoGlue quietOutside MOVE_FREE 7
        (floorWorld n) (floorWorld_ground n)
      have hw : wadd n 1 = n + 1 := by
        unfold wadd
        omega
      rw [h]
      show n + 1 = if wadd n 1 = 185 then 0 else wadd n 1
      rw [hw, if_neg (by omega)])
  exact ⟨(h 104 (by decide)).1.mpr (by decide), (h 181 (by decide)).2.2.2.2.1.mpr (by decide),
    (h 184 (by decide)).2.2.2.2.2.2⟩

/-! ## C21 -/

theorem ProcessActorHead_dead (g : Glue) (w : World) (index : Nat)
    (h : (w.actors index).dead = true) : ProcessActorHead g w index = ActorPass.returned w := by
  unfold ProcessActorHead
  rw [if_pos h]

theorem ProcessActorHead_fallen (g : Glue) (w : World) (index : Nat)
    (h : (w.actors index).dead = false)
    (hy : (w.actors index).y > wadd (wadd w.mapHeight g.SCROLLH) 3) :
    ProcessActorHead g w index = ActorPass.returned
      { w with actors := arraySet w.actors index { (w.actors index) with dead := true } } := by
  unfold ProcessActorHead
  rw [if_neg (fun hd => Bool.false_ne_true (h.symm.trans hd)), if_pos hy]

/-- C21: `ProcessActor(index)` on an actor whose `dead` flag is set returns at
once: whatever the tick functions, `TouchPlayer` and `DrawSprite` do, the
globals after the call are the globals before it.  On a live actor whose `y`
exceeds `mapHeight + SCROLLH + 3` (a sum that fits a word) it returns from its
second statement: the globals after the call are those before it with the
actor's `dead` flag set, again whatever the callees do, so no tick function is
called. -/
theorem ProcessActor_dead_or_below_map (g : Glue) (w : World) (index : Nat) :
    ((w.actors index).dead = true →
      ProcessActorHead g w index = ActorPass.returned w ∧
      ∀ o : ActorCalls, ProcessActor g o w index = w) ∧
    ((w.actors index).dead = false → w.mapHeight + g.SCROLLH + 3 < 65536 →
      (w.actors index).y > w.mapHeight + g.SCROLLH + 3 →
      ((ProcessActorHead g w index).isReturned = true ∧
       ∀ o : ActorCalls, ProcessActor g o w index =
        { w with actors := arraySet w.actors index { (w.actors index) with dead := true } })) := by
  refine ⟨fun h => ?_, fun h hfit hy => ?_⟩
  · refine ⟨ProcessActorHead_dead g w index h, fun o => ?_⟩
    unfold ProcessActor
    rw [ProcessActorHead_dead g w index h]
  · have hsum : wadd (wadd w.mapHeight g.SCROLLH) 3 = w.mapHeight + g.SCROLLH + 3 := by
      unfold wadd
      omega
    have hy2 : (w.actors index).y > wadd (wadd w.mapHeight g.SCROLLH) 3 := by
      rw [hsum]
      exact hy
    refine ⟨?_, fun o => ?_⟩
    · rw [ProcessActorHead_fallen g w index h hy2]
      rfl
    · unfold ProcessActor
      rw [ProcessActorHead_fallen g w index h hy2]

/-- Witness of C21: with callees that leave a trace, the dead actor in slot 1
of `oneActorWorld` and the live actor in slot 0 at row 90, below the row
64 + 18 + 3. -/
theorem ProcessActor_dead_or_below_map_witness :
    (ProcessActor demoGlue traceCalls (oneActorWorld 5 90 false false) 1 =
      oneActorWorld 5 90 false false) ∧
    (ProcessActor demoGlue traceCalls (oneActorWorld 5 90 false false) 0).randStepCount = 0 ∧
    ((ProcessActor demoGlue traceCalls (oneActorWorld 5 90 false false) 0).actors 0).dead
      = true :=
  ⟨((ProcessActor_dead_or_below_map demoGlue (oneActorWorld 5 90 false false) 1).1 rfl).2
      traceCalls,
    by
      rw [((ProcessActor_dead_or_below_map demoGlue (oneActorWorld 5 90 false false) 0).2 rfl
        (by decide) (by decide)).2 traceCalls]
      rfl,
    by
      rw [((ProcessActor_dead_or_below_map demoGlue (oneActorWorld 5 90 false false) 0).2 rfl
        (by decide) (by decide)).2 traceCalls]
      rfl⟩

/-! ## C22 -/

theorem cooledDown_actor (g : Glue) (w : World) (index : Nat) :
    ((cooledDown g w index).actors index).sprite = (w.actors index).sprite ∧
    ((cooledDown g w index).actors index).frame = (w.actors index).frame ∧
    ((cooledDown g w index).actors index).x = (w.actors index).x ∧
    ((cooledDown g w index).actors index).y = (w.actors index).y ∧
    ((cooledDown g w index).actors index).stayactive = (w.actors index).stayactive ∧
    ((cooledDown g w index).actors index).forceactive = (w.actors index).forceactive := by
  unfold cooledDown
  by_cases hc : (w.actors index).damagecooldown ≠ 0
  · rw [if_pos hc]
    simp only [arraySet_self, and_self]
  · rw [if_neg hc]
    simp only [and_self]

theorem cooledDown_visible (g : Glue) (w : World) (index : Nat) (sprite frame x y : Nat) :
    IsSpriteVisible g (cooledDown g w index) sprite frame x y =
      IsSpriteVisible g w sprite frame x y := by
  unfold cooledDown
  by_cases hc : (w.actors index).damagecooldown ≠ 0
  · rw [if_pos hc]
    rfl
  · rw [if_neg hc]
    rfl

theorem ProcessActorWake_eq (g : Glue) (w : World) (index : Nat) :
    ProcessActorWake g w index =
      if IsSpriteVisible g w (w.actors index).sprite (w.actors index).frame (w.actors index).x
          (w.actors index).y = true then
        if (w.actors index).stayactive = true then
          ActorPass.goes_on
            { (cooledDown g w index) with
              actors := arraySet (cooledDown g w index).actors index
                { ((cooledDown g w index).actors index) with forceactive := true } }
        else ActorPass.goes_on (cooledDown g w index)
      else if (w.actors index).forceactive = false then ActorPass.returned (cooledDown g w index)
      else ActorPass.goes_on { (cooledDown g w index) with nextDrawMode := g.DRAWMODE_HIDDEN } := by
  obtain ⟨h1, h2, h3, h4, h5, h6⟩ := cooledDown_actor g w index
  have hv := cooledDown_visible g w index (w.actors index).sprite (w.actors index).frame
    (w.actors index).x (w.actors index).y
  have e : ProcessActorWake g w index =
      if IsSpriteVisible g (cooledDown g w index) ((cooledDown g w index).actors index).sprite
          ((cooledDown g w index).actors index).frame ((cooledDown g w index).actors index).x
          ((cooledDown g w index).actors index).y = true then
        if ((cooledDown g w index).actors index).stayactive = true then
          ActorPass.goes_on
            { (cooledDown g w index) with
              actors := arraySet (cooledDown g w index).actors index
                { ((cooledDown g w index).actors index) with forceactive := true } }
        else ActorPass.goes_on (cooledDown g w index)
      else if ((cooledDown g w index).actors index).forceactive = false then
        ActorPass.returned (cooledDown g w index)
      else ActorPass.goes_on
        { (cooledDown g w index) with nextDrawMode := g.DRAWMODE_HIDDEN } := by
    unfold ProcessActorWake cooledDown
    by_cases hc : (w.actors index).damagecooldown ≠ 0
    · simp only [if_pos hc]
    · simp only [if_neg hc]
  rw [e, h1, h2, h3, h4, h5, h6, hv]

/-- The visibility statement of `ProcessActor` in terms of the globals at the
call: whether the call returns there. -/
theorem ProcessActorWake_isReturned (g : Glue) (w : World) (index : Nat) :
    (ProcessActorWake g w index).isReturned =
      (if IsSpriteVisible g w (w.actors index).sprite (w.actors index).frame (w.actors index).x
          (w.actors index).y = true then false
       else if (w.actors index).forceactive = false then true else false) ∧
    ((ProcessActorWake g w index).isReturned = true →
      ProcessActorWake g w index = ActorPass.returned (cooledDown g w index)) := by
  rw [ProcessActorWake_eq]
  by_cases h1 : IsSpriteVisible g w (w.actors index).sprite (w.actors index).frame
      (w.actors index).x (w.actors index).y = true
  · rw [if_pos h1, if_pos h1]
    by_cases h2 : (w.actors index).stayactive = true
    · rw [if_pos h2]
      exact ⟨rfl, fun h => absurd h Bool.false_ne_true⟩
    · rw [if_neg h2]
      exact ⟨rfl, fun h => absurd h Bool.false_ne_true⟩
  · rw [if_neg h1, if_neg h1]
    by_cases h3 : (w.actors index).forceactive = false
    · rw [if_pos h3, if_pos h3]
      exact ⟨rfl, fun _ => rfl⟩
    · rw [if_neg h3, if_neg h3]
      exact ⟨rfl, fun h => absurd h Bool.false_ne_true⟩

theorem ProcessActorHead_live (g : Glue) (w : World) (index : Nat)
    (hlive : (w.actors index).dead = false)
    (hy : (w.actors index).y ≤ wadd (wadd w.mapHeight g.SCROLLH) 3) :
    ProcessActorHead g w index = ProcessActorWake g w index := by
  unfold ProcessActorHead
  rw [if_neg (fun hd => Bool.false_ne_true (hlive.symm.trans hd)), if_neg (by omega)]

/-- C22, counterexample: a live actor at (50, 10), outside the scroll window of
38 by 18 tiles at (0, 0), with its stay-active flag set and its force-active
flag clear.  `ProcessActor` returns at the visibility test: no tick function is
called, nothing is drawn. -/
theorem ProcessActor_culls_stay_active_actor :
    ((oneActorWorld 50 10 true false).actors 0).dead = false ∧
    ((oneActorWorld 50 10 true false).actors 0).stayactive = true ∧
    ((oneActorWorld 50 10 true false).actors 0).forceactive = false ∧
    IsSpriteVisible demoGlue (oneActorWorld 50 10 true false) 0 0 50 10 = false ∧
    (ProcessActorHead demoGlue (oneActorWorld 50 10 true false) 0).isReturned = true ∧
    (ProcessActor demoGlue traceCalls (oneActorWorld 50 10 true false) 0).randStepCount = 0 ∧
    (ProcessActor demoGlue traceCalls (oneActorWorld 50 10 true false) 0).idlecount = 0 ∧
    (ProcessActor demoGlue traceCalls (oneActorWorld 50 10 true false) 0).movecount = 0 := by
  decide

/-- C22, amended: `ProcessActor` on a live actor that is not below the map
(`y` at most `mapHeight + SCROLLH + 3`) returns in front of the gravity block,
the tick function, the interaction and the drawing exactly when the actor's
sprite is outside the scroll window and its force-active flag is clear; the
stay-active flag plays no part for a sprite outside the window.  The globals
after such a call are those before it with `nextDrawMode` set to
`DRAWMODE_NORMAL` and the actor's damage cooldown counted down, whatever the
callees do. -/
theorem ProcessActor_culls_iff (g : Glue) (w : World) (index : Nat)
    (hlive : (w.actors index).dead = false)
    (hy : (w.actors index).y ≤ wadd (wadd w.mapHeight g.SCROLLH) 3) :
    ((ProcessActorHead g w index).isReturned = true ↔
      (IsSpriteVisible g w (w.actors index).sprite (w.actors index).frame (w.actors index).x
          (w.actors index).y = false ∧
        (w.actors index).forceactive = false)) ∧
    ((ProcessActorHead g w index).isReturned = true →
      ∀ o : ActorCalls, ProcessActor g o w index = cooledDown g w index) := by
  obtain ⟨h1, h2⟩ := ProcessActorWake_isReturned g w index
  rw [ProcessActorHead_live g w index hlive hy]
  refine ⟨?_, fun h o => ?_⟩
  · rw [h1]
    cases hv : IsSpriteVisible g w (w.actors index).sprite (w.actors index).frame
        (w.actors index).x (w.actors index).y <;>
      cases hf : (w.actors index).forceactive <;> simp
  · unfold ProcessActor
    rw [ProcessActorHead_live g w index hlive hy, h2 h]

/-- Witness of C22, amended: the actor at (50, 10) outside the window, with
neither flag set, is culled; with callees that leave a trace, no call shows. -/
theorem ProcessActor_culls_iff_witness :
    (ProcessActorHead demoGlue (oneActorWorld 50 10 false false) 0).isReturned = true ∧
    (ProcessActor demoGlue traceCalls (oneActorWorld 50 10 false false) 0).randStepCount = 0 :=
  ⟨(ProcessActor_culls_iff demoGlue (oneActorWorld 50 10 false false) 0 rfl (by decide)).1.mpr
      (by decide),
    by
      rw [(ProcessActor_culls_iff demoGlue (oneActorWorld 50 10 false false) 0 rfl
        (by decide)).2 (by decide) traceCalls]
      decide⟩

/-! ## C23 -/

theorem ProcessActorDrop_fallspeed_le (w : World) (a : Actor) (h : a.fallspeed ≤ 5) :
    (ProcessActorDrop w a).fallspeed ≤ 5 := by
  unfold ProcessActorDrop
  simp only []
  by_cases h1 : a.fallspeed < 5
  · have e : wadd a.fallspeed 1 = a.fallspeed + 1 := by
      unfold wadd
      omega
    simp only [if_pos h1, e]
    split_ifs <;> first | exact Nat.zero_le 5 | (show a.fallspeed + 1 ≤ 5; omega)
  · simp only [if_neg h1]
    split_ifs <;> first | exact Nat.zero_le 5 | exact h

theorem ProcessActorFall_fallspeed_le (w : World) (a : Actor) (h : a.fallspeed ≤ 5) :
    (ProcessActorFall w a).fallspeed ≤ 5 := by
  have hu : (ProcessActorUnstick w a).fallspeed ≤ 5 := by
    unfold ProcessActorUnstick
    split_ifs
    · exact Nat.zero_le 5
    · exact h
  unfold ProcessActorFall
  split_ifs
  · unfold ProcessActorSink
    split_ifs
    · exact ProcessActorDrop_fallspeed_le w _ hu
    · exact Nat.zero_le 5
  · exact h

/-- One frame of the gravity block for a weighted actor with nothing below it
in its column. -/
theorem ProcessActorFall_free (w : World) (a : Actor) (hw : a.weighted = true)
    (hfree : ∀ y, TestSpriteMove w DIR4_SOUTH a.sprite 0 a.x y = MOVE_FREE)
    (hs : a.fallspeed ≤ 5) (hy : a.y < 65536) :
    ProcessActorFall w a =
      { a with
        fallspeed := min (a.fallspeed + 1) 5,
        y := wadd a.y (if a.fallspeed = 0 then 0 else if a.fallspeed < 4 then 1 else 2) } := by
  rcases a with ⟨sprite, frame, x, y, fa, sa, wt, acro, dead, tick, p1, p2, fs, d1, d2, d3, d4,
    d5, dc⟩
  have hw1 : wt = true := hw
  have hf1 : ∀ r, TestSpriteMove w DIR4_SOUTH sprite 0 x r = MOVE_FREE := hfree
  have hs1 : fs ≤ 5 := hs
  have hy1 : y < 65536 := hy
  have e0 : wadd y 0 = y := by
    unfold wadd
    omega
  have e2 : wadd (wadd y 1) 1 = wadd y 2 := by
    unfold wadd
    omega
  subst hw1
  unfold ProcessActorFall ProcessActorSink ProcessActorUnstick ProcessActorDrop
  have n0 : wadd 0 1 = 1 := rfl
  have n1 : wadd 1 1 = 2 := rfl
  have n2 : wadd 2 1 = 3 := rfl
  have n3 : wadd 3 1 = 4 := rfl
  have n4 : wadd 4 1 = 5 := rfl
  interval_cases fs <;> simp [hf1, e0, e2, n0, n1, n2, n3, n4]

/-- The frames of a free fall: the state of a weighted actor after `n` frames
of the gravity block, with nothing below it in its column. -/
theorem ProcessActorFall_iterate (w : World) (act : Actor) (hw : act.weighted = true)
    (hfree : ∀ y, TestSpriteMove w DIR4_SOUTH act.sprite 0 act.x y = MOVE_FREE)
    (hzero : act.fallspeed = 0) (hy : act.y < 65536) (n : Nat) :
    ((ProcessActorFall w)^[n] act).weighted = true ∧
    ((ProcessActorFall w)^[n] act).sprite = act.sprite ∧
    ((ProcessActorFall w)^[n] act).x = act.x ∧
    ((ProcessActorFall w)^[n] act).y < 65536 ∧
    ((ProcessActorFall w)^[n] act).fallspeed = min n 5 := by
  induction n with
  | zero => exact ⟨hw, rfl, rfl, hy, by rw [Function.iterate_zero, id, hzero]; rfl⟩
  | succ n ih =>
    obtain ⟨h1, h2, h3, h4, h5⟩ := ih
    rw [Function.iterate_succ_apply']
    rw [ProcessActorFall_free w _ h1 (by rw [h2, h3]; exact hfree) (by omega) h4]
    refine ⟨h1, h2, h3, ?_, ?_⟩
    · show wadd _ _ < 65536
      unfold wadd
      omega
    · show min (((ProcessActorFall w)^[n] act).fallspeed + 1) 5 = min (n + 1) 5
      rw [h5]
      omega

/-- The gravity block for a weighted actor that reaches `fallspeed` 5 over a
row that is not free two rows down. -/
theorem ProcessActorFall_lands_at_speed_5 (w : World) (a : Actor) (hw : a.weighted = true)
    (hy : a.y < 65536)
    (h0 : TestSpriteMove w DIR4_SOUTH a.sprite 0 a.x a.y = MOVE_FREE)
    (h1 : TestSpriteMove w DIR4_SOUTH a.sprite 0 a.x (wadd a.y 1) = MOVE_FREE)
    (h2 : TestSpriteMove w DIR4_SOUTH a.sprite 0 a.x (wadd a.y 2) ≠ MOVE_FREE)
    (h4 : 4 ≤ a.fallspeed) (h5 : a.fallspeed ≤ 5) :
    (ProcessActorFall w a).fallspeed = 0 ∧ (ProcessActorFall w a).y = wadd a.y 1 := by
  rcases a with ⟨sprite, frame, x, y, fa, sa, wt, acro, dead, tick, p1, p2, fs, d1, d2, d3, d4,
    d5, dc⟩
  have hw1 : wt = true := hw
  have g0 : TestSpriteMove w DIR4_SOUTH sprite 0 x y = MOVE_FREE := h0
  have g1 : TestSpriteMove w DIR4_SOUTH sprite 0 x (wadd y 1) = MOVE_FREE := h1
  have g2 : TestSpriteMove w DIR4_SOUTH sprite 0 x (wadd y 2) ≠ MOVE_FREE := h2
  have hs4 : 4 ≤ fs := h4
  have hs5 : fs ≤ 5 := h5
  have hy1 : y < 65536 := hy
  have e2 : wadd (wadd y 1) 1 = wadd y 2 := by
    unfold wadd
    omega
  have n4 : wadd 4 1 = 5 := rfl
  subst hw1
  unfold ProcessActorFall ProcessActorSink ProcessActorUnstick ProcessActorDrop
  interval_cases fs <;> simp [g0, g1, g2, e2, n4]

/-- C23: the gravity block of `ProcessActor` for a weighted actor.  A
`fallspeed` of at most 5 is at most 5 after the block.  In a free fall from
`fallspeed` 0, with no ground in the actor's column, after frame `n + 1` of the
fall `fallspeed` is `n + 1`, capped at 5, and `y` has grown on that frame by 0
rows on the first frame, by 1 row on the next three and by 2 rows from then on.
When the south test of the row below the actor is not free, `fallspeed` is 0
after the block; so it is when the actor reaches `fallspeed` 5 and the row
below its new place is not free. -/
theorem ProcessActor_gravity (w : World) (act : Actor) (hw : act.weighted = true)
    (hy : act.y < 65536) :
    (act.fallspeed ≤ 5 → (ProcessActorFall w act).fallspeed ≤ 5) ∧
    ((∀ y, TestSpriteMove w DIR4_SOUTH act.sprite 0 act.x y = MOVE_FREE) →
      act.fallspeed = 0 →
      ∀ n, ((ProcessActorFall w)^[n + 1] act).fallspeed = min (n + 1) 5 ∧
        ((ProcessActorFall w)^[n + 1] act).y =
          wadd ((ProcessActorFall w)^[n] act).y (fallRows n)) ∧
    (TestSpriteMove w DIR4_SOUTH act.sprite 0 act.x
        (wadd (ProcessActorUnstick w act).y 1) ≠ MOVE_FREE →
      (ProcessActorFall w act).fallspeed = 0) ∧
    (TestSpriteMove w DIR4_SOUTH act.sprite 0 act.x act.y = MOVE_FREE →
      TestSpriteMove w DIR4_SOUTH act.sprite 0 act.x (wadd act.y 1) = MOVE_FREE →
      TestSpriteMove w DIR4_SOUTH act.sprite 0 act.x (wadd act.y 2) ≠ MOVE_FREE →
      4 ≤ act.fallspeed → act.fallspeed ≤ 5 →
      (ProcessActorFall w act).fallspeed = 0 ∧ (ProcessActorFall w act).y = wadd act.y 1) := by
  refine ⟨ProcessActorFall_fallspeed_le w act, fun hfree hzero n => ?_, fun hb => ?_,
    fun h0 h1 h2 h4 h5 => ?_⟩
  · obtain ⟨h1, h2, h3, h4, h5⟩ := ProcessActorFall_iterate w act hw hfree hzero hy n
    refine ⟨(ProcessActorFall_iterate w act hw hfree hzero hy (n + 1)).2.2.2.2, ?_⟩
    rw [Function.iterate_succ_apply']
    rw [ProcessActorFall_free w _ h1 (by rw [h2, h3]; exact hfree) (by omega) h4]
    show wadd _ _ = wadd _ _
    rw [h5]
    unfold fallRows
    congr 1
    by_cases hn0 : n = 0
    · rw [if_pos (by omega), if_pos hn0]
    · rw [if_neg (by omega), if_neg hn0]
      by_cases hn4 : n < 4
      · rw [if_pos (by omega), if_pos hn4]
      · rw [if_neg (by omega), if_neg hn4]
  · have hsx : (ProcessActorUnstick w act).sprite = act.sprite ∧
        (ProcessActorUnstick w act).x = act.x := by
      unfold ProcessActorUnstick
      split_ifs <;> exact ⟨rfl, rfl⟩
    unfold ProcessActorFall
    rw [if_pos hw]
    unfold ProcessActorSink
    rw [hsx.1, hsx.2, if_neg hb]
  · exact ProcessActorFall_lands_at_speed_5 w act hw hy h0 h1 h2 h4 h5

theorem emptyWorld_south_free (x y : Nat) :
    TestSpriteMove emptyWorld DIR4_SOUTH 0 0 x y = MOVE_FREE := by
  simp [TestSpriteMove, spriteWidth, infoOffset, emptyWorld, oneSprite, wadd, wmul, scanSouth,
    TILE_SLOPED, TILE_BLOCK_SOUTH]

/-- Witness of C23: the weighted actor at (5, 10) of the empty map falls, from
`fallspeed` 0, by 0, 1, 1, 1, 2 and 2 rows on its first six frames. -/
theorem ProcessActor_gravity_witness :
    (((ProcessActorFall emptyWorld)^[6] weightedActor).fallspeed = min 6 5 ∧
      ((ProcessActorFall emptyWorld)^[6] weightedActor).y =
        wadd ((ProcessActorFall emptyWorld)^[5] weightedActor).y (fallRows 5)) ∧
    ((ProcessActorFall emptyWorld)^[1] weightedActor).y = 10 ∧
    ((ProcessActorFall emptyWorld)^[2] weightedActor).y = 11 ∧
    ((ProcessActorFall emptyWorld)^[4] weightedActor).y = 13 ∧
    ((ProcessActorFall emptyWorld)^[5] weightedActor).y = 15 ∧
    ((ProcessActorFall emptyWorld)^[6] weightedActor).y = 17 :=
  ⟨(ProcessActor_gravity emptyWorld weightedActor rfl (by decide)).2.1
      (fun y => emptyWorld_south_free 5 y) rfl 5,
    by decide, by decide, by decide, by decide, by decide⟩

/-! ## C24 -/

theorem wadd_one_ne (x : Nat) : wadd x 1 ≠ x := by
  unfold wadd
  omega

theorem wsub_one_ne (x : Nat) : wsub x 1 ≠ x := by
  unfold wsub
  omega

/-- The two outcomes of the west branch of `AdjustActorMove`. -/
theorem AdjustActorMoveWest_outcome (w : World) (a : Actor) :
    ((AdjustActorMoveWest w a).private1 = 0 ∧ (AdjustActorMoveWest w a).x = wadd a.x 1 ∧
      (AdjustActorMoveWest w a).y = a.y) ∨
    ((AdjustActorMoveWest w a).private1 = 1 ∧ (AdjustActorMoveWest w a).x = a.x ∧
      ((AdjustActorMoveWest w a).y = a.y ∨ (AdjustActorMoveWest w a).y = wadd a.y 1 ∨
        (AdjustActorMoveWest w a).y = wsub a.y 1)) := by
  unfold AdjustActorMoveWest
  simp only []
  generalize TestSpriteMove w DIR4_WEST a.sprite a.frame a.x a.y = r
  cases r
  · simp only [moveWord, if_true]
    rw [if_neg (by decide), if_neg (by decide)]
    unfold AdjustActorMoveWestSettle
    split_ifs <;> simp_all
  · simp [moveWord]
  · simp [moveWord]

/-- The two outcomes of the east branch of `AdjustActorMove`. -/
theorem AdjustActorMoveEast_outcome (w : World) (a : Actor) :
    ((AdjustActorMoveEast w a).private2 = 0 ∧ (AdjustActorMoveEast w a).x = wsub a.x 1 ∧
      (AdjustActorMoveEast w a).y = a.y) ∨
    ((AdjustActorMoveEast w a).private2 = 1 ∧ (AdjustActorMoveEast w a).x = a.x ∧
      ((AdjustActorMoveEast w a).y = a.y ∨ (AdjustActorMoveEast w a).y = wadd a.y 1 ∨
        (AdjustActorMoveEast w a).y = wsub a.y 1)) := by
  unfold AdjustActorMoveEast
  simp only []
  generalize TestSpriteMove w DIR4_EAST a.sprite a.frame a.x a.y = r
  cases r
  · simp only [moveWord, if_true]
    rw [if_neg (by decide), if_neg (by decide)]
    unfold AdjustActorMoveEastSettle
    split_ifs <;> simp_all
  · simp [moveWord]
  · simp [moveWord]

theorem AdjustActorMove_actor (w : World) (index : Nat) (dir : Dir4) :
    (AdjustActorMove w index dir).actors index =
      if dir = DIR4_WEST then AdjustActorMoveWest w (w.actors index)
      else AdjustActorMoveEast w (w.actors index) := by
  unfold AdjustActorMove
  exact arraySet_self _ _ _

/-- C24: `AdjustActorMove(index, DIR4_WEST)`, called on an actor that has been
moved one tile west to `x`, leaves `private1` at 0 or 1.  It is 0 exactly when
`x` has been put back one tile east, and then `y` is unchanged; it is 1 exactly
when `x` is kept, and then `y` is unchanged or one row up or down.  The same
holds for `DIR4_EAST` with `private2` and `x` put back one tile west. -/
theorem AdjustActorMove_outcome (w : World) (index : Nat) :
    ((((AdjustActorMove w index DIR4_WEST).actors index).private1 = 0 ∨
        ((AdjustActorMove w index DIR4_WEST).actors index).private1 = 1) ∧
      (((AdjustActorMove w index DIR4_WEST).actors index).private1 = 0 ↔
        ((AdjustActorMove w index DIR4_WEST).actors index).x = wadd (w.actors index).x 1) ∧
      (((AdjustActorMove w index DIR4_WEST).actors index).private1 = 0 →
        ((AdjustActorMove w index DIR4_WEST).actors index).y = (w.actors index).y) ∧
      (((AdjustActorMove w index DIR4_WEST).actors index).private1 = 1 ↔
        ((AdjustActorMove w index DIR4_WEST).actors index).x = (w.actors index).x) ∧
      (((AdjustActorMove w index DIR4_WEST).actors index).private1 = 1 →
        (((AdjustActorMove w index DIR4_WEST).actors index).y = (w.actors index).y ∨
         ((AdjustActorMove w index DIR4_WEST).actors index).y = wadd (w.actors index).y 1 ∨
         ((AdjustActorMove w index DIR4_WEST).actors index).y = wsub (w.actors index).y 1))) ∧
    ((((AdjustActorMove w index DIR4_EAST).actors index).private2 = 0 ∨
        ((AdjustActorMove w index DIR4_EAST).actors index).private2 = 1) ∧
      (((AdjustActorMove w index DIR4_EAST).actors index).private2 = 0 ↔
        ((AdjustActorMove w index DIR4_EAST).actors index).x = wsub (w.actors index).x 1) ∧
      (((AdjustActorMove w index DIR4_EAST).actors index).private2 = 0 →
        ((AdjustActorMove w index DIR4_EAST).actors index).y = (w.actors index).y) ∧
      (((AdjustActorMove w index DIR4_EAST).actors index).private2 = 1 ↔
        ((AdjustActorMove w index DIR4_EAST).actors index).x = (w.actors index).x) ∧
      (((AdjustActorMove w index DIR4_EAST).actors index).private2 = 1 →
        (((AdjustActorMove w index DIR4_EAST).actors index).y = (w.actors index).y ∨
         ((AdjustActorMove w index DIR4_EAST).actors index).y = wadd (w.actors index).y 1 ∨
         ((AdjustActorMove w index DIR4_EAST).actors index).y = wsub (w.actors index).y 1))) := by
  have hw := AdjustActorMoveWest_outcome w (w.actors index)
  have he := AdjustActorMoveEast_outcome w (w.actors index)
  have hxw := wadd_one_ne (w.actors index).x
  have hxe := wsub_one_ne (w.actors index).x
  rw [AdjustActorMove_actor, AdjustActorMove_actor, if_pos rfl, if_neg (by decide)]
  constructor
  · rcases hw with ⟨h1, h2, h3⟩ | ⟨h1, h2, h3⟩
    · rw [h1, h2, h3]
      simp [hxw]
    · rw [h1, h2]
      simp [hxw.symm, h3]
  · rcases he with ⟨h1, h2, h3⟩ | ⟨h1, h2, h3⟩
    · rw [h1, h2, h3]
      simp [hxe]
    · rw [h1, h2]
      simp [hxe.symm, h3]

/-! ## C25 -/

/-- The west branch of `AdjustActorMove` where the west test is free. -/
theorem AdjustActorMoveWest_free (w : World) (a : Actor)
    (hdir : TestSpriteMove w DIR4_WEST a.sprite a.frame a.x a.y = MOVE_FREE) :
    AdjustActorMoveWest w a = AdjustActorMoveWestSettle w { a with private1 := 1 } := by
  unfold AdjustActorMoveWest
  simp only []
  rw [hdir]
  simp only [moveWord, if_true]
  rw [if_neg (by decide), if_neg (by decide)]

/-- The east branch of `AdjustActorMove` where the east test is free. -/
theorem AdjustActorMoveEast_free (w : World) (a : Actor)
    (hdir : TestSpriteMove w DIR4_EAST a.sprite a.frame a.x a.y = MOVE_FREE) :
    AdjustActorMoveEast w a = AdjustActorMoveEastSettle w { a with private2 := 1 } := by
  unfold AdjustActorMoveEast
  simp only []
  rw [hdir]
  simp only [moveWord, if_true]
  rw [if_neg (by decide), if_neg (by decide)]

theorem AdjustActorMoveWest_ledge (w : World) (a : Actor)
    (hdir : TestSpriteMove w DIR4_WEST a.sprite a.frame a.x a.y = MOVE_FREE) :
    (a.acrophile = true →
      (AdjustActorMoveWest w a).x = a.x ∧ (AdjustActorMoveWest w a).private1 = 1) ∧
    (a.acrophile = false →
      TestSpriteMove w DIR4_SOUTH a.sprite a.frame a.x (wadd a.y 1) = MOVE_FREE →
      ¬ slopeGoesOnWest w a →
      (TestSpriteMove w DIR4_WEST a.sprite a.frame a.x (wadd a.y 1) = MOVE_FREE ∧
          TILE_SLOPED w (GetMapTile w (wsub (wadd a.x (adjustWidth w a)) 1) (wadd a.y 1)) = 0 →
        AdjustActorMoveWest w a = { a with x := wadd a.x 1, private1 := 0 }) ∧
      (TestSpriteMove w DIR4_WEST a.sprite a.frame a.x (wadd a.y 1) ≠ MOVE_FREE ∨
          TILE_SLOPED w (GetMapTile w (wsub (wadd a.x (adjustWidth w a)) 1) (wadd a.y 1)) ≠ 0 →
        AdjustActorMoveWest w a = { a with private1 := 1 })) := by
  rw [AdjustActorMoveWest_free w a hdir]
  unfold AdjustActorMoveWestSettle slopeGoesOnWest adjustWidth
  simp only []
  constructor
  · intro hacro
    split_ifs <;> simp_all
  · intro hacro hsouth hslope
    rw [hsouth]
    simp only [moveWord]
    rw [if_neg (by decide), if_neg hslope, if_neg (by decide)]
    constructor
    · intro h
      rw [if_pos ⟨hacro, h.1, fun hne => hne h.2⟩]
    · intro h
      rw [if_neg (fun hc => h.elim (fun h1 => h1 hc.2.1) (fun h2 => hc.2.2 h2))]

theorem AdjustActorMoveEast_ledge (w : World) (a : Actor)
    (hdir : TestSpriteMove w DIR4_EAST a.sprite a.frame a.x a.y = MOVE_FREE) :
    (a.acrophile = true →
      (AdjustActorMoveEast w a).x = a.x ∧ (AdjustActorMoveEast w a).private2 = 1) ∧
    (a.acrophile = false →
      TestSpriteMove w DIR4_SOUTH a.sprite a.frame a.x (wadd a.y 1) = MOVE_FREE →
      ¬ slopeGoesOnEast w a →
      (TestSpriteMove w DIR4_EAST a.sprite a.frame a.x (wadd a.y 1) = MOVE_FREE ∧
          TILE_SLOPED w (GetMapTile w a.x (wadd a.y 1)) = 0 →
        AdjustActorMoveEast w a = { a with x := wsub a.x 1, private2 := 0 }) ∧
      (TestSpriteMove w DIR4_EAST a.sprite a.frame a.x (wadd a.y 1) ≠ MOVE_FREE ∨
          TILE_SLOPED w (GetMapTile w a.x (wadd a.y 1)) ≠ 0 →
        AdjustActorMoveEast w a = { a with private2 := 1 })) := by
  rw [AdjustActorMoveEast_free w a hdir]
  unfold AdjustActorMoveEastSettle slopeGoesOnEast
  simp only []
  constructor
  · intro hacro
    split_ifs <;> simp_all
  · intro hacro hsouth hslope
    rw [hsouth]
    simp only [moveWord]
    rw [if_neg (by decide), if_neg hslope, if_neg (by decide)]
    constructor
    · intro h
      rw [if_pos ⟨hacro, h.1, fun hne => hne h.2⟩]
    · intro h
      rw [if_neg (fun hc => h.elim (fun h1 => h1 hc.2.1) (fun h2 => hc.2.2 h2))]

/-- C25, counterexample: a step down of one row.  The actor of `stepDownWorld`,
not acrophile, has been moved west to (5, 10): the west test there is free, the
south test at row 11 is free (no ground below) and there is no slope
continuation; one row further down, in row 12, the tiles under it are solid
ground, so an actor one row down would stand (the south test at row 12 is not
free).  `AdjustActorMove` puts it back to column 6 with `private1` at 0, and
the same for a move east, back to column 4 with `private2` at 0: the ledge test
never reads row 12. -/
theorem AdjustActorMove_reverts_step_down :
    (stepDownWorld.actors 0).acrophile = false ∧
    TestSpriteMove stepDownWorld DIR4_WEST 0 0 5 10 = MOVE_FREE ∧
    TestSpriteMove stepDownWorld DIR4_EAST 0 0 5 10 = MOVE_FREE ∧
    TestSpriteMove stepDownWorld DIR4_SOUTH 0 0 5 11 = MOVE_FREE ∧
    ¬ slopeGoesOnWest stepDownWorld (stepDownWorld.actors 0) ∧
    ¬ slopeGoesOnEast stepDownWorld (stepDownWorld.actors 0) ∧
    TILE_BLOCK_SOUTH stepDownWorld (GetMapTile stepDownWorld 4 12) ≠ 0 ∧
    TILE_BLOCK_SOUTH stepDownWorld (GetMapTile stepDownWorld 5 12) ≠ 0 ∧
    TILE_BLOCK_SOUTH stepDownWorld (GetMapTile stepDownWorld 6 12) ≠ 0 ∧
    TestSpriteMove stepDownWorld DIR4_SOUTH 0 0 5 12 = MOVE_BLOCKED ∧
    (AdjustActorMove stepDownWorld 0 DIR4_WEST).actors 0 =
      { sprite := 0, x := 6, y := 10, acrophile := false, private1 := 0 } ∧
    (AdjustActorMove stepDownWorld 0 DIR4_EAST).actors 0 =
      { sprite := 0, x := 4, y := 10, acrophile := false, private2 := 0 } := by
  decide

/-- C25, amended: the ledge rule of `AdjustActorMove` for an actor moved west
(east) whose west (east) test at the new place is `MOVE_FREE`.  The move of an
acrophile actor is kept, with `private1` (`private2`) at 1.  For an actor that
is not acrophile, with no ground below (the south test at `y + 1` is free) and
no slope continuation, the move is reverted, `x` put back and the flag at 0
with nothing else written, when the west (east) test one row down, at `y + 1`,
is free as well and the tile at row `y + 1` under the actor's east (west) end
is not sloped; when that test is not free or that tile is sloped, the actor is
left where it is with the flag at 1.  Ground in row `y + 2` plays no part. -/
theorem AdjustActorMove_ledge_rule (w : World) (index : Nat) :
    (TestSpriteMove w DIR4_WEST (w.actors index).sprite (w.actors index).frame
        (w.actors index).x (w.actors index).y = MOVE_FREE →
      ((w.actors index).acrophile = true →
        ((AdjustActorMove w index DIR4_WEST).actors index).x = (w.actors index).x ∧
        ((AdjustActorMove w index DIR4_WEST).actors index).private1 = 1) ∧
      ((w.actors index).acrophile = false →
        TestSpriteMove w DIR4_SOUTH (w.actors index).sprite (w.actors index).frame
          (w.actors index).x (wadd (w.actors index).y 1) = MOVE_FREE →
        ¬ slopeGoesOnWest w (w.actors index) →
        (TestSpriteMove w DIR4_WEST (w.actors index).sprite (w.actors index).frame
              (w.actors index).x (wadd (w.actors index).y 1) = MOVE_FREE ∧
            TILE_SLOPED w
              (GetMapTile w
                (wsub (wadd (w.actors index).x (adjustWidth w (w.actors index))) 1)
                (wadd (w.actors index).y 1)) = 0 →
          (AdjustActorMove w index DIR4_WEST).actors index =
            { (w.actors index) with x := wadd (w.actors index).x 1, private1 := 0 }) ∧
        (TestSpriteMove w DIR4_WEST (w.actors index).sprite (w.actors index).frame
              (w.actors index).x (wadd (w.actors index).y 1) ≠ MOVE_FREE ∨
            TILE_SLOPED w
              (GetMapTile w
                (wsub (wadd (w.actors index).x (adjustWidth w (w.actors index))) 1)
                (wadd (w.actors index).y 1)) ≠ 0 →
          (AdjustActorMove w index DIR4_WEST).actors index =
            { (w.actors index) with private1 := 1 }))) ∧
    (TestSpriteMove w DIR4_EAST (w.actors index).sprite (w.actors index).frame
        (w.actors index).x (w.actors index).y = MOVE_FREE →
      ((w.actors index).acrophile = true →
        ((AdjustActorMove w index DIR4_EAST).actors index).x = (w.actors index).x ∧
        ((AdjustActorMove w index DIR4_EAST).actors index).private2 = 1) ∧
      ((w.actors index).acrophile = false →
        TestSpriteMove w DIR4_SOUTH (w.actors index).sprite (w.actors index).frame
          (w.actors index).x (wadd (w.actors index).y 1) = MOVE_FREE →
        ¬ slopeGoesOnEast w (w.actors index) →
        (TestSpriteMove w DIR4_EAST (w.actors index).sprite (w.actors index).frame
              (w.actors index).x (wadd (w.actors index).y 1) = MOVE_FREE ∧
            TILE_SLOPED w (GetMapTile w (w.actors index).x (wadd (w.actors index).y 1)) = 0 →
          (AdjustActorMove w index DIR4_EAST).actors index =
            { (w.actors index) with x := wsub (w.actors index).x 1, private2 := 0 }) ∧
        (TestSpriteMove w DIR4_EAST (w.actors index).sprite (w.actors index).frame
              (w.actors index).x (wadd (w.actors index).y 1) ≠ MOVE_FREE ∨
            TILE_SLOPED w (GetMapTile w (w.actors index).x (wadd (w.actors index).y 1)) ≠ 0 →
          (AdjustActorMove w index DIR4_EAST).actors index =
            { (w.actors index) with private2 := 1 }))) := by
  rw [AdjustActorMove_actor, AdjustActorMove_actor, if_pos rfl, if_neg (by decide)]
  exact ⟨AdjustActorMoveWest_ledge w (w.actors index),
    AdjustActorMoveEast_ledge w (w.actors index)⟩

/-- The theorem `AdjustActorMove_ledge_rule` on three actors at (5, 10).  On the
empty map the actor that is not acrophile is put back, to column 6 after a move
west and to column 4 after a move east, and the acrophile one stays in column 5
with `private1` at 1.  Over the west-blocking tile of `wallBelowWorld` at
(5, 11) the west test one row down is not free, and the actor that is not
acrophile stays in column 5 with `private1` at 1. -/
theorem AdjustActorMove_ledge_rule_witness :
    ((AdjustActorMove (ledgeWorld false) 0 DIR4_WEST).actors 0 =
        { ((ledgeWorld false).actors 0) with
          x := wadd ((ledgeWorld false).actors 0).x 1, private1 := 0 } ∧
      (AdjustActorMove (ledgeWorld false) 0 DIR4_EAST).actors 0 =
        { ((ledgeWorld false).actors 0) with
          x := wsub ((ledgeWorld false).actors 0).x 1, private2 := 0 }) ∧
    (((AdjustActorMove (ledgeWorld true) 0 DIR4_WEST).actors 0).x = 5 ∧
      ((AdjustActorMove (ledgeWorld true) 0 DIR4_WEST).actors 0).private1 = 1) ∧
    (AdjustActorMove wallBelowWorld 0 DIR4_WEST).actors 0 =
      { (wallBelowWorld.actors 0) with private1 := 1 } :=
  ⟨⟨(((AdjustActorMove_ledge_rule (ledgeWorld false) 0).1 (by decide)).2 rfl (by decide)
        (by decide)).1 (by decide),
     (((AdjustActorMove_ledge_rule (ledgeWorld false) 0).2 (by decide)).2 rfl (by decide)
        (by decide)).1 (by decide)⟩,
   ((AdjustActorMove_ledge_rule (ledgeWorld true) 0).1 (by decide)).1 rfl,
   (((AdjustActorMove_ledge_rule wallBelowWorld 0).1 (by decide)).2 rfl (by decide)
      (by decide)).2 (by decide)⟩

/-! ## C26 -/

theorem NewActor_shards (g : Glue) (w : World) (t x y : Nat) :
    (NewActor g w t x y).shards = w.shards ∧ (NewActor g w t x y).numShards = w.numShards ∧
    (NewActor g w t x y).inclination = w.inclination := by
  obtain ⟨a, n, i, b, e⟩ := NewActor_frame g w t x y
  rw [e]
  exact ⟨rfl, rfl, rfl⟩

theorem NewDecorationLoop_shards (sprite numframes x y dir numtimes : Nat) (w : World)
    (n i : Nat) :
    (NewDecorationLoop sprite numframes x y dir numtimes w n i).shards = w.shards ∧
    (NewDecorationLoop sprite numframes x y dir numtimes w n i).numShards = w.numShards ∧
    (NewDecorationLoop sprite numframes x y dir numtimes w n i).inclination
      = w.inclination := by
  induction n generalizing i with
  | zero => exact ⟨rfl, rfl, rfl⟩
  | succ n ih =>
    unfold NewDecorationLoop
    split
    · exact ⟨rfl, rfl, rfl⟩
    · exact ih (i + 1)

theorem NewDecoration_shards (w : World) (sprite numframes x y dir numtimes : Nat) :
    (NewDecoration w sprite numframes x y dir numtimes).shards = w.shards ∧
    (NewDecoration w sprite numframes x y dir numtimes).numShards = w.numShards ∧
    (NewDecoration w sprite numframes x y dir numtimes).inclination = w.inclination :=
  NewDecorationLoop_shards sprite numframes x y dir numtimes w _ 0

theorem NewSpawner_shards (g : Glue) (w : World) (actor x y : Nat) :
    (NewSpawner g w actor x y).shards = w.shards ∧
    (NewSpawner g w actor x y).numShards = w.numShards ∧
    (NewSpawner g w actor x y).inclination = w.inclination := by
  rw [NewSpawner_frame g w w actor x y rfl rfl]
  exact ⟨rfl, rfl, rfl⟩

/-- The statements of `CanBeExploded` in front of `NewShard` leave the shard pool
as it is. -/
theorem CanBeExplodedGlobe_shards (g : Glue) (w : World) (sprite x y : Nat) :
    (CanBeExplodedGlobe g w sprite x y).shards = w.shards ∧
    (CanBeExplodedGlobe g w sprite x y).numShards = w.numShards ∧
    (CanBeExplodedGlobe g w sprite x y).inclination = w.inclination := by
  unfold CanBeExplodedGlobe
  by_cases h : sprite = g.SPR_HINT_GLOBE
  · rw [if_pos h]
    exact NewActor_shards g w _ x y
  · rw [if_neg h]
    exact ⟨rfl, rfl, rfl⟩

/-- The statements of `CanBeExploded` after `AddScoreForSprite` leave the shard
pool as it is. -/
theorem CanBeExplodedRest_shards (g : Glue) (v : World) (sprite x y : Nat) :
    (CanBeExplodedRest g v sprite x y).shards = v.shards ∧
    (CanBeExplodedRest g v sprite x y).numShards = v.numShards ∧
    (CanBeExplodedRest g v sprite x y).inclination = v.inclination := by
  unfold CanBeExplodedRest
  by_cases h : sprite = g.SPR_EYE_PLANT
  · rw [if_pos h]
    unfold CanBeExplodedEyePlant
    simp only []
    have h1 : (if v.numEyePlants = 1 then
          NewActor g v g.ACT_SPEECH_WOW_50K (wsub v.playerX 1) (wsub v.playerY 5)
        else v).shards = v.shards ∧
        (if v.numEyePlants = 1 then
          NewActor g v g.ACT_SPEECH_WOW_50K (wsub v.playerX 1) (wsub v.playerY 5)
        else v).numShards = v.numShards ∧
        (if v.numEyePlants = 1 then
          NewActor g v g.ACT_SPEECH_WOW_50K (wsub v.playerX 1) (wsub v.playerY 5)
        else v).inclination = v.inclination := by
      by_cases hn : v.numEyePlants = 1
      · rw [if_pos hn]
        exact NewActor_shards g v _ _ _
      · rw [if_neg hn]
        exact ⟨rfl, rfl, rfl⟩
    generalize (if v.numEyePlants = 1 then
        NewActor g v g.ACT_SPEECH_WOW_50K (wsub v.playerX 1) (wsub v.playerY 5)
      else v) = v1 at h1 ⊢
    have h2 := NewDecoration_shards v1 g.SPR_SPARKLE_LONG 8 x y g.DIR8_STATIONARY 1
    have h3 := NewSpawner_shards g
      (NewDecoration v1 g.SPR_SPARKLE_LONG 8 x y g.DIR8_STATIONARY 1) g.ACT_BOMB_IDLE x y
    exact ⟨h3.1.trans (h2.1.trans h1.1), h3.2.1.trans (h2.2.1.trans h1.2.1),
      h3.2.2.trans (h2.2.2.trans h1.2.2)⟩
  · rw [if_neg h]
    exact ⟨rfl, rfl, rfl⟩

/-- C26: `CanBeExploded(sprite, frame, x, y)`, with `SPR_HINT_GLOBE` a sprite
other than the two reciprocating spikes.  For a sprite that is no case label of
its `switch` it returns false and the globals are as before the call; so it
does for `SPR_SPIKES_FLOOR_RECIP` and `SPR_SPIKES_E_RECIP` at frame 2.  For
every other case label it returns true, and in between statements that leave
the shard pool as it is it calls `NewShard(sprite, frame, x, y)` once, on the
shard pool of before the call, followed by `AddScoreForSprite(sprite)`. -/
theorem CanBeExploded_allow_list (g : Glue) (o : ActorCalls) (w : World)
    (sprite frame x y : Nat)
    (hglobe : g.SPR_HINT_GLOBE ≠ g.SPR_SPIKES_FLOOR_RECIP ∧
      g.SPR_HINT_GLOBE ≠ g.SPR_SPIKES_E_RECIP) :
    (sprite ∉ explodableSprites g → CanBeExploded g o w sprite frame x y = (false, w)) ∧
    ((sprite = g.SPR_SPIKES_FLOOR_RECIP ∨ sprite = g.SPR_SPIKES_E_RECIP) → frame = 2 →
      CanBeExploded g o w sprite frame x y = (false, w)) ∧
    (sprite ∈ explodableSprites g →
      ¬ ((sprite = g.SPR_SPIKES_FLOOR_RECIP ∨ sprite = g.SPR_SPIKES_E_RECIP) ∧ frame = 2) →
      CanBeExploded g o w sprite frame x y =
        (true, CanBeExplodedRest g
          (o.AddScoreForSprite sprite
            (NewShard (CanBeExplodedGlobe g w sprite x y) sprite frame x y)) sprite x y) ∧
      ((CanBeExplodedGlobe g w sprite x y).shards = w.shards ∧
        (CanBeExplodedGlobe g w sprite x y).numShards = w.numShards ∧
        (CanBeExplodedGlobe g w sprite x y).inclination = w.inclination) ∧
      ∀ v : World,
        (CanBeExplodedRest g v sprite x y).shards = v.shards ∧
        (CanBeExplodedRest g v sprite x y).numShards = v.numShards ∧
        (CanBeExplodedRest g v sprite x y).inclination = v.inclination) := by
  refine ⟨fun h => ?_, fun hs hf => ?_, fun h hn => ⟨?_, CanBeExplodedGlobe_shards g w sprite x y,
    fun v => CanBeExplodedRest_shards g v sprite x y⟩⟩
  · unfold CanBeExploded
    rw [if_neg h]
  · have hmem : sprite ∈ explodableSprites g := by
      unfold explodableSprites
      rcases hs with hs | hs
      · rw [hs]
        simp
      · rw [hs]
        simp
    have hne : sprite ≠ g.SPR_HINT_GLOBE := by
      rcases hs with hs | hs
      · rw [hs]
        exact hglobe.1.symm
      · rw [hs]
        exact hglobe.2.symm
    unfold CanBeExploded
    rw [if_pos hmem, if_pos ⟨hs, hf⟩]
    unfold CanBeExplodedGlobe
    rw [if_neg hne]
  · unfold CanBeExploded
    rw [if_pos h, if_neg hn]

/-- Witness of C26: with the constants of `demoGlue`, sprite 999 is no case
label, sprite 103 is `SPR_SPIKES_FLOOR_RECIP` and sprite 105 is `SPR_CABBAGE`,
whose shard goes to the free slot 2 of the shard pool of `poolWorld`. -/
theorem CanBeExploded_allow_list_witness :
    CanBeExploded demoGlue traceCalls poolWorld 999 0 7 8 = (false, poolWorld) ∧
    CanBeExploded demoGlue traceCalls poolWorld 103 2 7 8 = (false, poolWorld) ∧
    (CanBeExploded demoGlue traceCalls poolWorld 105 1 7 8).1 = true ∧
    ((CanBeExploded demoGlue traceCalls poolWorld 105 1 7 8).2.shards 2).sprite = 105 ∧
    ((CanBeExploded demoGlue traceCalls poolWorld 105 1 7 8).2.shards 2).frame = 1 ∧
    ((CanBeExploded demoGlue traceCalls poolWorld 105 1 7 8).2.shards 2).x = 7 ∧
    ((CanBeExploded demoGlue traceCalls poolWorld 105 1 7 8).2.shards 2).y = 8 :=
  ⟨(CanBeExploded_allow_list demoGlue traceCalls poolWorld 999 0 7 8 (by decide)).1 (by decide),
    (CanBeExploded_allow_list demoGlue traceCalls poolWorld 103 2 7 8 (by decide)).2.1
      (by decide) rfl,
    by
      rw [((CanBeExploded_allow_list demoGlue traceCalls poolWorld 105 1 7 8 (by decide)).2.2
        (by decide) (by decide)).1],
    by decide, by decide, by decide, by decide⟩

/-! ## C27 -/

theorem LoadMapDataWidth_power (w : World) (width : Nat)
    (hw : width ∈ [32, 64, 128, 256, 512, 1024, 2048]) :
    (LoadMapDataWidth w width).mapWidth = width ∧
    2 ^ (LoadMapDataWidth w width).mapYPower = width ∧ 5 ≤ (LoadMapDataWidth w width).mapYPower ∧
    (LoadMapDataWidth w width).mapYPower ≤ 11 := by
  simp only [List.mem_cons, List.mem_singleton, List.not_mem_nil, or_false] at hw
  unfold LoadMapDataWidth
  rcases hw with h | h | h | h | h | h | h <;> subst h <;> simp

/-- The cell of (x, y) on a map whose width is `2 ^ mapYPower`, for a row whose
offset fits a word. -/
theorem cell_row_major (v : World) (width x y : Nat) (hp : 2 ^ v.mapYPower = width)
    (hy : y * width < 65536) :
    (x : Int) + ((wshl y v.mapYPower : Nat) : Int) = (x : Int) + (y : Int) * (width : Int) := by
  unfold wshl
  rw [Nat.shiftLeft_eq, hp, Nat.mod_eq_of_lt hy]
  push_cast
  rfl

/-- C27: after the statements of `LoadMapData` that read a declared map width
`width` out of 32, 64, 128, 256, 512, 1024 and 2048, in every state `v` that
has the `mapWidth` and the `mapYPower` they leave: `2 ^ mapYPower` is `width`;
for a row `y` whose offset `y * width` fits a word, the cell
`x + (y << mapYPower)` is the row-major cell `x + y * width`, and the cell one
row up is the cell less `mapWidth`; `GetMapTile(x, y)` after
`SetMapTile(value, x, y)` is `value`, and for rows whose offsets fit a word and
columns below `width`, no other cell (x', y') changes. -/
theorem LoadMapData_row_major (w v : World) (width : Nat)
    (hw : width ∈ [32, 64, 128, 256, 512, 1024, 2048])
    (hW : v.mapWidth = (LoadMapDataWidth w width).mapWidth)
    (hP : v.mapYPower = (LoadMapDataWidth w width).mapYPower) :
    2 ^ v.mapYPower = width ∧ v.mapWidth = width ∧
    (∀ x y : Nat, y * width < 65536 →
      MAP_CELL_ADDR v (x : Int) y = (x : Int) + (y : Int) * (width : Int)) ∧
    (∀ x y : Nat, (y + 1) * width < 65536 →
      MAP_CELL_ADDR v (x : Int) y = MAP_CELL_ADDR v (x : Int) (y + 1) - (v.mapWidth : Int)) ∧
    (∀ value x y : Nat, GetMapTile (SetMapTile v value x y) x y = value) ∧
    (∀ value x y x' y' : Nat, x < width → x' < width → y * width < 65536 →
      y' * width < 65536 → (x', y') ≠ (x, y) →
      GetMapTile (SetMapTile v value x y) x' y' = GetMapTile v x' y') := by
  obtain ⟨h1, h2, _, _⟩ := LoadMapDataWidth_power w width hw
  rw [← hP] at h2
  rw [← hW] at h1
  have hcell : ∀ x y : Nat, y * width < 65536 →
      MAP_CELL_ADDR v (x : Int) y = (x : Int) + (y : Int) * (width : Int) := by
    intro x y hy
    unfold MAP_CELL_ADDR
    rw [add_comm]
    exact cell_row_major v width x y h2 hy
  refine ⟨h2, h1, hcell, ?_, ?_, ?_⟩
  · intro x y hy
    rw [hcell x y (by nlinarith), hcell x (y + 1) hy, h1]
    push_cast
    ring
  · intro value x y
    unfold GetMapTile SetMapTile
    exact if_pos rfl
  · intro value x y x' y' hx hx' hy hy' hne
    unfold GetMapTile SetMapTile
    refine if_neg ?_
    rw [cell_row_major v width x' y' h2 hy', cell_row_major v width x y h2 hy]
    intro heq
    apply hne
    have hxi : (x : Int) < width := by exact_mod_cast hx
    have hxi' : (x' : Int) < width := by exact_mod_cast hx'
    have hx0 : (0 : Int) ≤ x := Int.natCast_nonneg x
    have hx0' : (0 : Int) ≤ x' := Int.natCast_nonneg x'
    have hyy : (y' : Int) = y := by
      by_contra hcon
      rcases lt_or_gt_of_ne hcon with hlt | hgt
      · have : (y' : Int) + 1 ≤ y := hlt
        nlinarith
      · have : (y : Int) + 1 ≤ y' := hgt
        nlinarith
    have hxx : (x' : Int) = x := by
      rw [hyy] at heq
      linarith
    have e1 : y' = y := by exact_mod_cast hyy
    have e2 : x' = x := by exact_mod_cast hxx
    rw [e1, e2]

/-- Witness of C27: a map file that declares the width 64, read into
`emptyWorld`: the cell of (3, 2) is cell 131, and writing the tile 9 to (3, 2)
leaves the tile of (3, 1) as it is. -/
theorem LoadMapData_row_major_witness :
    2 ^ (LoadMapDataWidth emptyWorld 64).mapYPower = 64 ∧
    MAP_CELL_ADDR (LoadMapDataWidth emptyWorld 64) ((3 : Nat) : Int) 2
      = ((3 : Nat) : Int) + ((2 : Nat) : Int) * ((64 : Nat) : Int) ∧
    GetMapTile (SetMapTile (LoadMapDataWidth emptyWorld 64) 9 3 2) 3 2 = 9 ∧
    GetMapTile (SetMapTile (LoadMapDataWidth emptyWorld 64) 9 3 2) 3 1
      = GetMapTile (LoadMapDataWidth emptyWorld 64) 3 1 :=
  ⟨(LoadMapData_row_major emptyWorld (LoadMapDataWidth emptyWorld 64) 64 (by decide) rfl rfl).1,
    (LoadMapData_row_major emptyWorld (LoadMapDataWidth emptyWorld 64) 64 (by decide) rfl
      rfl).2.2.1 3 2 (by decide),
    (LoadMapData_row_major emptyWorld (LoadMapDataWidth emptyWorld 64) 64 (by decide) rfl
      rfl).2.2.2.2.1 9 3 2,
    (LoadMapData_row_major emptyWorld (LoadMapDataWidth emptyWorld 64) 64 (by decide) rfl
      rfl).2.2.2.2.2 9 3 2 3 1 (by decide) (by decide) (by decide) (by decide) (by decide)⟩

/-! ## C28 -/

theorem TestPlayerMove_north_globals (g : Glue) (v : World) (x y : Nat) :
    (TestPlayerMove g v DIR4_NORTH x y).2 =
      { v with isPlayerSlidingEast := false, isPlayerSlidingWest := false } := by
  have e : TestPlayerMove g v DIR4_NORTH x y =
      if wsub v.playerY 3 = 0 ∨ wsub v.playerY 2 = 0 then
        (MOVE_BLOCKED, { v with isPlayerSlidingEast := false, isPlayerSlidingWest := false })
      else (scanNorth v (MAP_CELL_ADDR v x (wsub y 4)) 3 0,
        { v with isPlayerSlidingEast := false, isPlayerSlidingWest := false }) := rfl
  rw [e]
  by_cases h : wsub v.playerY 3 = 0 ∨ wsub v.playerY 2 = 0
  · rw [if_pos h]
  · rw [if_neg h]

/-- The end of the jump block of `MovePlayer` for a player who does not recoil
and whose head does not hit the ceiling. -/
theorem MovePlayerJumpEnd_free (g : Glue) (v : World)
    (hrec : v.isPlayerRecoiling = false)
    (hhead : (TestPlayerMove g { v with playerClingDir := DIR4_NONE } DIR4_NORTH v.playerX
      v.playerY).1 = MOVE_FREE) :
    MovePlayerJumpEnd g v =
      if v.playerJumpTime > 6 then
        { v with
          playerClingDir := DIR4_NONE, isPlayerSlidingEast := false,
          isPlayerSlidingWest := false, playerJumpTime := (v.playerJumpTime + 1) % 256,
          isPlayerFalling := true, cmdJumpLatch := (if v.cmdJump = true then true
            else v.cmdJumpLatch), playerFallTime := 0 }
      else
        { v with
          playerClingDir := DIR4_NONE, isPlayerSlidingEast := false,
          isPlayerSlidingWest := false, playerJumpTime := (v.playerJumpTime + 1) % 256 } := by
  have hr : TestPlayerMove g { v with playerClingDir := DIR4_NONE } DIR4_NORTH v.playerX
      v.playerY =
      (MOVE_FREE, { v with playerClingDir := DIR4_NONE, isPlayerSlidingEast := false,
                           isPlayerSlidingWest := false }) :=
    Prod.ext hhead (TestPlayerMove_north_globals g _ _ _)
  unfold MovePlayerJumpEnd
  show (if (if (TestPlayerMove g { v with playerClingDir := DIR4_NONE } DIR4_NORTH v.playerX
        v.playerY).1 ≠ MOVE_FREE then
        MovePlayerHeadHit g (TestPlayerMove g { v with playerClingDir := DIR4_NONE } DIR4_NORTH
          v.playerX v.playerY).2
      else (TestPlayerMove g { v with playerClingDir := DIR4_NONE } DIR4_NORTH v.playerX
        v.playerY).2).isPlayerRecoiling = false then _ else _) = _
  rw [hr]
  simp only []
  rw [if_neg (show ¬ (MOVE_FREE ≠ MOVE_FREE) from fun h => h rfl)]
  simp only []
  rw [if_pos hrec]
  by_cases h6 : v.playerJumpTime > 6
  · rw [if_pos h6, if_pos h6]
    unfold latchJump
    by_cases hj : v.cmdJump = true
    · rw [if_pos hj, if_pos hj]
    · rw [if_neg hj, if_neg hj]
  · rw [if_neg h6, if_neg h6]

/-- The rise of the jump block of `MovePlayer` for a player who does not cling:
it writes `playerY`, the sliding flags and `isPlayerRecoiling`. -/
theorem MovePlayerJumpRise_frame (g : Glue) (v : World) (hcling : v.playerClingDir = DIR4_NONE) :
    ∃ y e s, MovePlayerJumpRise g v =
      { v with
        playerY := y, isPlayerSlidingEast := e, isPlayerSlidingWest := s,
        isPlayerRecoiling := false } := by
  have hoff : MovePlayerJumpOffWall g v = v := by
    simp [MovePlayerJumpOffWall, hcling]
  have hlift : MovePlayerJumpLift v =
      { v with playerY := waddInt v.playerY (jumptable.getD v.playerJumpTime 0) } := by
    unfold MovePlayerJumpLift
    rw [if_pos hcling]
  have hbump : ∃ y e s, MovePlayerJumpBump g
      { v with playerY := waddInt v.playerY (jumptable.getD v.playerJumpTime 0) } =
      { v with playerY := y, isPlayerSlidingEast := e, isPlayerSlidingWest := s } := by
    unfold MovePlayerJumpBump
    by_cases h0 : v.playerJumpTime = 0
    · rw [if_pos h0]
      have hr2 := TestPlayerMove_north_globals g
        { v with playerY := waddInt v.playerY (jumptable.getD v.playerJumpTime 0) } v.playerX
        (wadd (waddInt v.playerY (jumptable.getD v.playerJumpTime 0)) 1)
      generalize TestPlayerMove g
        { v with playerY := waddInt v.playerY (jumptable.getD v.playerJumpTime 0) } DIR4_NORTH
        v.playerX (wadd (waddInt v.playerY (jumptable.getD v.playerJumpTime 0)) 1) = r at hr2 ⊢
      obtain ⟨m, u⟩ := r
      have hu : u = { v with
          playerY := waddInt v.playerY (jumptable.getD v.playerJumpTime 0),
          isPlayerSlidingEast := false, isPlayerSlidingWest := false } := hr2
      subst hu
      by_cases hm : m ≠ MOVE_FREE
      · exact ⟨wadd (waddInt v.playerY (jumptable.getD v.playerJumpTime 0)) 1, false, false,
          if_pos hm⟩
      · exact ⟨waddInt v.playerY (jumptable.getD v.playerJumpTime 0), false, false, if_neg hm⟩
    · rw [if_neg h0]
      exact ⟨waddInt v.playerY (jumptable.getD v.playerJumpTime 0), v.isPlayerSlidingEast,
        v.isPlayerSlidingWest, rfl⟩
  obtain ⟨y, e, s, hb⟩ := hbump
  refine ⟨y, e, s, ?_⟩
  unfold MovePlayerJumpRise
  rw [hoff, hlift, hb]
  rfl

/-- C28, counterexample: the player in the air over an empty map, in a jump
with the jump command held, not recoiling, with `playerJumpTime` at 6.  After
the jump block, and after the whole call of `MovePlayer`, `isPlayerFalling` is
still false and `playerJumpTime` is 7; the same call with `playerJumpTime` at 7
sets `isPlayerFalling`. -/
theorem MovePlayer_jump_goes_on_at_6 :
    (jumpWorld 6).cmdJump = true ∧ (jumpWorld 6).cmdJumpLatch = false ∧
    (jumpWorld 6).isPlayerFalling = false ∧ (jumpWorld 6).isPlayerRecoiling = false ∧
    (jumpWorld 6).playerJumpTime = 6 ∧
    (MovePlayerJump demoGlue (jumpWorld 6)).isPlayerFalling = false ∧
    (MovePlayer demoGlue quietOutside MOVE_FREE 7 (jumpWorld 6)).isPlayerFalling = false ∧
    (MovePlayer demoGlue quietOutside MOVE_FREE 7 (jumpWorld 6)).cmdJumpLatch = false ∧
    (MovePlayer demoGlue quietOutside MOVE_FREE 7 (jumpWorld 6)).playerJumpTime = 7 ∧
    (MovePlayer demoGlue quietOutside MOVE_FREE 7 (jumpWorld 7)).isPlayerFalling = true := by
  decide

/-- C28, amended: the jump block of `MovePlayer` for a sustained jump (the jump
command held and not latched, the player not falling, not clinging, with no
upward momentum, so not recoiling) in which the head does not hit a ceiling.
The block sets `isPlayerFalling` exactly when `playerJumpTime` is above 6 on
entry, that is 7 on the eighth tick of a jump begun at 0, and then it resets
`playerFallTime` to 0 and latches the jump; on every such tick `playerJumpTime`,
a byte, goes up by one. -/
theorem MovePlayerJump_falls_after_6 (g : Glue) (v : World)
    (hjump : v.cmdJump = true) (hlatch : v.cmdJumpLatch = false)
    (hfall : v.isPlayerFalling = false) (hcling : v.playerClingDir = DIR4_NONE)
    (hmom : v.playerMomentumNorth = 0)
    (hhead : (TestPlayerMove g { (MovePlayerJumpRise g v) with playerClingDir := DIR4_NONE }
      DIR4_NORTH (MovePlayerJumpRise g v).playerX (MovePlayerJumpRise g v).playerY).1
        = MOVE_FREE) :
    ((MovePlayerJump g v).isPlayerFalling = true ↔ v.playerJumpTime > 6) ∧
    (v.playerJumpTime > 6 →
      (MovePlayerJump g v).playerFallTime = 0 ∧ (MovePlayerJump g v).cmdJumpLatch = true) ∧
    (MovePlayerJump g v).playerJumpTime = (v.playerJumpTime + 1) % 256 := by
  obtain ⟨y, e, s, hrise⟩ := MovePlayerJumpRise_frame g v hcling
  rw [hrise] at hhead
  have hend := MovePlayerJumpEnd_free g
    { v with
      playerY := y, isPlayerSlidingEast := e, isPlayerSlidingWest := s,
      isPlayerRecoiling := false }
    rfl hhead
  have hgo : MovePlayerJump g v = MovePlayerJumpEnd g (MovePlayerJumpRise g v) := by
    unfold MovePlayerJump
    rw [if_pos (Or.inr (Or.inl ⟨hjump, hfall, hlatch⟩)),
      if_neg (fun h => absurd h.2 (by rw [hmom]; decide))]
  rw [hgo, hrise, hend]
  simp only []
  by_cases h6 : v.playerJumpTime > 6
  · rw [if_pos h6, if_pos hjump]
    exact ⟨⟨fun _ => h6, fun _ => rfl⟩, fun _ => ⟨rfl, rfl⟩, rfl⟩
  · rw [if_neg h6]
    exact ⟨⟨fun h => absurd (hfall.symm.trans h) Bool.false_ne_true, fun h => absurd h h6⟩,
      fun h => absurd h h6, rfl⟩

/-- Witness of C28, amended: the player of `jumpWorld`, 7 ticks into the jump. -/
theorem MovePlayerJump_falls_after_6_witness :
    (MovePlayerJump demoGlue (jumpWorld 7)).isPlayerFalling = true ∧
    (MovePlayerJump demoGlue (jumpWorld 7)).playerFallTime = 0 ∧
    (MovePlayerJump demoGlue (jumpWorld 7)).cmdJumpLatch = true ∧
    (MovePlayerJump demoGlue (jumpWorld 7)).playerJumpTime = (7 + 1) % 256 :=
  ⟨(MovePlayerJump_falls_after_6 demoGlue (jumpWorld 7) rfl rfl rfl rfl rfl (by decide)).1.mpr
      (by decide),
    ((MovePlayerJump_falls_after_6 demoGlue (jumpWorld 7) rfl rfl rfl rfl rfl (by decide)).2.1
      (by decide)).1,
    ((MovePlayerJump_falls_after_6 demoGlue (jumpWorld 7) rfl rfl rfl rfl rfl (by decide)).2.1
      (by decide)).2,
    (MovePlayerJump_falls_after_6 demoGlue (jumpWorld 7) rfl rfl rfl rfl rfl (by decide)).2.2⟩

/-! ## C29 -/

theorem scanSouth_congr (u v : World) (h1 : u.mapData = v.mapData)
    (h2 : u.tileAttributeData = v.tileAttributeData) (c : Int) (n i : Nat) :
    scanSouth u c n i = scanSouth v c n i := by
  induction n generalizing i with
  | zero => rfl
  | succ n ih =>
    unfold scanSouth TILE_SLOPED TILE_BLOCK_SOUTH
    rw [h1, h2, ih]

theorem playerScanSouth_free (w : World) (c : Int) (n i : Nat)
    (h : (playerScanSouth w c n i).1 = MOVE_FREE) : (playerScanSouth w c n i).2 = w := by
  induction n generalizing i with
  | zero => rfl
  | succ n ih =>
    unfold playerScanSouth at h ⊢
    by_cases h1 : TILE_SLOPED w (w.mapData (c + (i : Int))) ≠ 0
    · rw [if_pos h1] at h
      exact absurd h (fun h => MoveResult.noConfusion h)
    · rw [if_neg h1] at h ⊢
      by_cases h2 : TILE_BLOCK_SOUTH w (w.mapData (c + (i : Int))) ≠ 0
      · rw [if_pos h2] at h
        exact absurd h (fun h => MoveResult.noConfusion h)
      · rw [if_neg h2] at h ⊢
        exact ih (i + 1) h

/-- The answer of a south test of `TestPlayerMove`. -/
theorem TestPlayerMove_south_fst (g : Glue) (v : World) (x y : Nat) :
    (TestPlayerMove g v DIR4_SOUTH x y).1 =
      if wadd v.mapHeight g.SCROLLH = v.playerY then MOVE_FREE
      else scanSouth v (MAP_CELL_ADDR v x y) 3 0 := by
  unfold TestPlayerMove
  simp only []
  by_cases hcut : wadd v.mapHeight g.SCROLLH = v.playerY
  · rw [if_pos hcut, if_pos hcut]
  · rw [if_neg hcut, if_neg hcut, playerScanSouth_fst]
    apply scanSouth_congr
    · split_ifs <;> rfl
    · split_ifs <;> rfl

theorem TestPlayerMove_south_fst_congr (g : Glue) (u v : World) (x y : Nat)
    (h1 : u.mapData = v.mapData) (h2 : u.tileAttributeData = v.tileAttributeData)
    (h3 : u.mapYPower = v.mapYPower) (h4 : u.mapHeight = v.mapHeight)
    (h5 : u.playerY = v.playerY) :
    (TestPlayerMove g u DIR4_SOUTH x y).1 = (TestPlayerMove g v DIR4_SOUTH x y).1 := by
  rw [TestPlayerMove_south_fst, TestPlayerMove_south_fst, h4, h5,
    scanSouth_congr u v h1 h2]
  unfold MAP_CELL_ADDR
  rw [h3]

/-- A south test of `TestPlayerMove` that answers `MOVE_FREE` writes the
sliding flags only. -/
theorem TestPlayerMove_south_free_globals (g : Glue) (v : World) (x y : Nat)
    (h : (TestPlayerMove g v DIR4_SOUTH x y).1 = MOVE_FREE) :
    ∃ e s, TestPlayerMove g v DIR4_SOUTH x y =
      (MOVE_FREE, { v with isPlayerSlidingEast := e, isPlayerSlidingWest := s }) := by
  unfold TestPlayerMove at h ⊢
  simp only [] at h ⊢
  by_cases hcut : wadd v.mapHeight g.SCROLLH = v.playerY
  · rw [if_pos hcut]
    exact ⟨false, false, rfl⟩
  · rw [if_neg hcut] at h ⊢
    by_cases c1 : ¬ (TILE_BLOCK_SOUTH v (v.mapData (MAP_CELL_ADDR v x y)) ≠ 0) ∧
        TILE_SLOPED v (v.mapData (MAP_CELL_ADDR v x y)) ≠ 0 ∧
        TILE_SLIPPERY v (v.mapData (MAP_CELL_ADDR v x y)) ≠ 0
    · by_cases c2 : ¬ (TILE_BLOCK_SOUTH v (v.mapData (MAP_CELL_ADDR v x y + 2)) ≠ 0) ∧
          TILE_SLOPED v (v.mapData (MAP_CELL_ADDR v x y + 2)) ≠ 0 ∧
          TILE_SLIPPERY v (v.mapData (MAP_CELL_ADDR v x y + 2)) ≠ 0
      · rw [if_pos c2, if_pos c1] at h ⊢
        exact ⟨true, true, Prod.ext h (playerScanSouth_free _ _ _ _ h)⟩
      · rw [if_neg c2, if_pos c1] at h ⊢
        exact ⟨true, false, Prod.ext h (playerScanSouth_free _ _ _ _ h)⟩
    · by_cases c2 : ¬ (TILE_BLOCK_SOUTH v (v.mapData (MAP_CELL_ADDR v x y + 2)) ≠ 0) ∧
          TILE_SLOPED v (v.mapData (MAP_CELL_ADDR v x y + 2)) ≠ 0 ∧
          TILE_SLIPPERY v (v.mapData (MAP_CELL_ADDR v x y + 2)) ≠ 0
      · rw [if_pos c2, if_neg c1] at h ⊢
        exact ⟨false, true, Prod.ext h (playerScanSouth_free _ _ _ _ h)⟩
      · rw [if_neg c2, if_neg c1] at h ⊢
        exact ⟨false, false, Prod.ext h (playerScanSouth_free _ _ _ _ h)⟩

/-- The first statements of the fall of `MovePlayer` with no ground one row down. -/
theorem MovePlayerFallDown_free (g : Glue) (v : World) (h : airBelow g v (wadd v.playerY 1)) :
    ∃ e s, MovePlayerFallDown g v =
      { v with playerY := wadd v.playerY 1, isPlayerSlidingEast := e,
               isPlayerSlidingWest := s } := by
  obtain ⟨e, s, hr⟩ := TestPlayerMove_south_free_globals g
    { v with playerY := wadd v.playerY 1 } v.playerX (wadd v.playerY 1) h
  refine ⟨e, s, ?_⟩
  unfold MovePlayerFallDown
  rw [hr]
  exact if_neg (fun hne => hne rfl)

/-- The statements of `MovePlayer` under `if (playerFallTime > 3)` with no
ground one row down. -/
theorem MovePlayerFallFast_free (g : Glue) (u : World)
    (h : (TestPlayerMove g
      { u with playerY := wadd u.playerY 1, scrollY := wadd u.scrollY 1 } DIR4_SOUTH u.playerX
      (wadd u.playerY 1)).1 = MOVE_FREE) :
    ∃ e s, MovePlayerFallFast g u =
      { u with playerY := wadd u.playerY 1, scrollY := wadd u.scrollY 1,
               isPlayerSlidingEast := e, isPlayerSlidingWest := s } := by
  obtain ⟨e, s, hr⟩ := TestPlayerMove_south_free_globals g
    { u with playerY := wadd u.playerY 1, scrollY := wadd u.scrollY 1 } u.playerX
    (wadd u.playerY 1) h
  refine ⟨e, s, ?_⟩
  unfold MovePlayerFallFast
  show (if (TestPlayerMove g
      { u with playerY := wadd u.playerY 1, scrollY := wadd u.scrollY 1 } DIR4_SOUTH u.playerX
      (wadd u.playerY 1)).1 ≠ MOVE_FREE then _ else _) = _
  rw [hr]
  exact if_neg (fun hne => hne rfl)

/-- One tick of the fall of `MovePlayer` for a player who falls, does not
recoil and does not land. -/
theorem MovePlayerFallStep_free (g : Glue) (v : World)
    (hfall : v.isPlayerFalling = true) (hrec : v.isPlayerRecoiling = false)
    (h1 : airBelow g v (wadd v.playerY 1))
    (h2 : v.playerFallTime > 3 → airBelow g v (wadd (wadd v.playerY 1) 1)) :
    ∃ e s, MovePlayerFallStep g v =
      { v with
        playerY := if v.playerFallTime > 3 then wadd (wadd v.playerY 1) 1 else wadd v.playerY 1,
        scrollY := if v.playerFallTime > 3 then wadd v.scrollY 1 else v.scrollY,
        isPlayerSlidingEast := e, isPlayerSlidingWest := s,
        playerFallTime := if v.playerFallTime < 25 then v.playerFallTime + 1
          else v.playerFallTime } := by
  obtain ⟨e1, s1, hd⟩ := MovePlayerFallDown_free g v h1
  unfold MovePlayerFallStep
  rw [if_pos ⟨hfall, hrec⟩, hd]
  unfold MovePlayerFallFaster
  simp only []
  by_cases h3 : v.playerFallTime > 3
  · have hair : (TestPlayerMove g
        { v with playerY := wadd (wadd v.playerY 1) 1, isPlayerSlidingEast := e1,
                 isPlayerSlidingWest := s1, scrollY := wadd v.scrollY 1 }
        DIR4_SOUTH v.playerX (wadd (wadd v.playerY 1) 1)).1 = MOVE_FREE :=
      (TestPlayerMove_south_fst_congr g
        { v with playerY := wadd (wadd v.playerY 1) 1, isPlayerSlidingEast := e1,
                 isPlayerSlidingWest := s1, scrollY := wadd v.scrollY 1 }
        { v with playerY := wadd (wadd v.playerY 1) 1 }
        v.playerX (wadd (wadd v.playerY 1) 1) rfl rfl rfl rfl rfl).trans (h2 h3)
    obtain ⟨e2, s2, hf⟩ := MovePlayerFallFast_free g
      { v with playerY := wadd v.playerY 1, isPlayerSlidingEast := e1,
               isPlayerSlidingWest := s1 } hair
    refine ⟨e2, s2, ?_⟩
    rw [if_pos h3, if_pos h3, if_pos h3, hf]
    unfold MovePlayerFallTick
    simp only []
    by_cases h25 : v.playerFallTime < 25
    · rw [if_pos h25, if_pos h25]
    · rw [if_neg h25, if_neg h25]
  · refine ⟨e1, s1, ?_⟩
    rw [if_neg h3, if_neg h3, if_neg h3]
    unfold MovePlayerFallTick
    simp only []
    by_cases h25 : v.playerFallTime < 25
    · rw [if_pos h25, if_pos h25]
    · rw [if_neg h25, if_neg h25]

/-- The fall branch of the frame choice of `MovePlayer` for a player who falls. -/
theorem MovePlayerFallFrame_falling (g : Glue) (v : World)
    (hfall : v.isPlayerFalling = true) :
    MovePlayerFallFrame g v =
      if v.playerFallTime ≥ 10 ∧ v.playerFallTime < 25 then
        { v with idlecount := 0, playerFrame := g.PLAYER_FALL_LONG }
      else if v.playerFallTime = 25 then
        { v with idlecount := 0, playerFrame := g.PLAYER_FALL_SEVERE, queuePlayerDizzy := true }
      else { v with idlecount := 0, playerFrame := g.PLAYER_FALL } := by
  unfold MovePlayerFallFrame
  simp only []
  rw [if_neg (fun h => absurd (hfall.symm.trans h.2.1) (by decide))]
  by_cases h1 : v.playerFallTime ≥ 10 ∧ v.playerFallTime < 25
  · rw [if_pos h1, if_pos h1]
  · rw [if_neg h1, if_neg h1]
    by_cases h2 : v.playerFallTime = 25
    · rw [if_pos h2, if_pos h2]
    · rw [if_neg h2, if_neg h2, if_neg (fun h => absurd (hfall.symm.trans h) (by decide))]

/-- The frame choice of `MovePlayer` for a player who falls, does not recoil,
does not cling and does not crouch. -/
theorem MovePlayerFrame_falling (g : Glue) (rnd : Nat) (clingslip : Bool) (v : World)
    (hfall : v.isPlayerFalling = true) (hrec : v.isPlayerRecoiling = false)
    (hbomb : v.playerBombDir = DIR4_NONE) (hcling : v.playerClingDir = DIR4_NONE) :
    MovePlayerFrame g rnd clingslip v = (false, MovePlayerFallFrame g v) := by
  unfold MovePlayerFrame
  rw [if_neg (fun h => h hbomb)]
  rw [if_neg (fun h => absurd (hfall.symm.trans h.2.2.2.1) (by decide))]
  rw [if_neg (by rw [hcling]; decide), if_neg (by rw [hcling]; decide)]
  rw [if_pos (Or.inl ⟨hfall, hrec⟩)]

theorem airUnder_congr (u v : World) (x y : Nat)
    (h1 : u.mapData = v.mapData) (h2 : u.tileAttributeData = v.tileAttributeData)
    (h3 : u.mapYPower = v.mapYPower) :
    airUnder u x y ↔ airUnder v x y := by
  unfold airUnder TILE_BLOCK_SOUTH TILE_SLOPED MAP_CELL_ADDR
  rw [h1, h2, h3]

theorem scanSouth_air (w : World) (c : Int) (n i : Nat)
    (h : ∀ k : Nat, i ≤ k → k < i + n →
      TILE_SLOPED w (w.mapData (c + (k : Int))) = 0 ∧
      TILE_BLOCK_SOUTH w (w.mapData (c + (k : Int))) = 0) :
    scanSouth w c n i = MOVE_FREE := by
  induction n generalizing i with
  | zero => rfl
  | succ n ih =>
    unfold scanSouth
    obtain ⟨hs, hb⟩ := h i (le_refl i) (by omega)
    rw [if_neg (fun hh => hh hs), if_neg (fun hh => hh hb)]
    exact ih (i + 1) (fun k hk1 hk2 => h k (by omega) (by omega))

/-- The south test of `TestPlayerMove` over three tiles that are neither sloped
nor south-blocking: free, and both sliding flags cleared. -/
theorem TestPlayerMove_south_air (g : Glue) (v : World) (x y : Nat) (h : airUnder v x y) :
    TestPlayerMove g v DIR4_SOUTH x y =
      (MOVE_FREE, { v with isPlayerSlidingEast := false, isPlayerSlidingWest := false }) := by
  have hfree : (TestPlayerMove g v DIR4_SOUTH x y).1 = MOVE_FREE := by
    rw [TestPlayerMove_south_fst]
    by_cases hcut : wadd v.mapHeight g.SCROLLH = v.playerY
    · rw [if_pos hcut]
    · rw [if_neg hcut]
      exact scanSouth_air v _ 3 0 (fun k _ hk => h k (by omega))
  have hs0 : TILE_SLOPED v (v.mapData (MAP_CELL_ADDR v x y)) = 0 := by
    have := (h 0 (by omega)).1
    simpa using this
  have hs2 : TILE_SLOPED v (v.mapData (MAP_CELL_ADDR v x y + 2)) = 0 := by
    have := (h 2 (by omega)).1
    simpa using this
  unfold TestPlayerMove at hfree ⊢
  simp only [] at hfree ⊢
  by_cases hcut : wadd v.mapHeight g.SCROLLH = v.playerY
  · rw [if_pos hcut]
  · rw [if_neg hcut] at hfree ⊢
    rw [if_neg (fun hc => hc.2.1 hs2), if_neg (fun hc => hc.2.1 hs0)] at hfree ⊢
    exact Prod.ext hfree (playerScanSouth_free _ _ _ _ hfree)

/-- The south test that `MovePlayer` makes for its side effects, over air. -/
theorem MovePlayerGroundTest_air (g : Glue) (v : World)
    (h : airUnder v v.playerX (wadd v.playerY 1)) :
    MovePlayerGroundTest g v =
      { v with playerBombDir := DIR4_NONE, isPlayerSlidingEast := false,
               isPlayerSlidingWest := false } := by
  unfold MovePlayerGroundTest
  rw [TestPlayerMove_south_air g { v with playerBombDir := DIR4_NONE } v.playerX
    (wadd v.playerY 1)
    ((airUnder_congr { v with playerBombDir := DIR4_NONE } v v.playerX (wadd v.playerY 1)
      rfl rfl rfl).mpr h)]

theorem MovePlayerFallLatch_none (v : World) (hj : v.cmdJump = false) :
    MovePlayerFallLatch v = v := by
  unfold MovePlayerFallLatch
  rw [if_neg (fun h => Bool.false_ne_true (hj.symm.trans h.2))]

theorem MovePlayerFallBegin_falling (v : World) (hfall : v.isPlayerFalling = true) :
    MovePlayerFallBegin v = v := by
  unfold MovePlayerFallBegin
  rw [if_neg (fun h => Bool.false_ne_true (h.2.symm.trans hfall))]

/-- The movement part of `MovePlayer` for a player who falls through air, does
not recoil, has no upward momentum and holds no movement command. -/
theorem MovePlayerMove_falls (g : Glue) (junk : MoveResult) (v : World)
    (hcling : v.playerClingDir = DIR4_NONE)
    (hwest : v.cmdWest = false) (heast : v.cmdEast = false) (hjump : v.cmdJump = false)
    (hmom : v.playerMomentumNorth = 0) (hrec : v.isPlayerRecoiling = false)
    (hfall : v.isPlayerFalling = true)
    (h1 : airUnder v v.playerX (wadd v.playerY 1))
    (h2 : v.playerFallTime > 3 → airUnder v v.playerX (wadd (wadd v.playerY 1) 1)) :
    ∃ e s, MovePlayerMove g junk v =
      MovePlayerFallHold
        { v with
          playerBombDir := DIR4_NONE,
          playerY := if v.playerFallTime > 3 then wadd (wadd v.playerY 1) 1
            else wadd v.playerY 1,
          scrollY := if v.playerFallTime > 3 then wadd v.scrollY 1 else v.scrollY,
          isPlayerSlidingEast := e, isPlayerSlidingWest := s,
          playerFallTime := if v.playerFallTime < 25 then v.playerFallTime + 1
            else v.playerFallTime } := by
  have a1 : airBelow g
      { v with playerBombDir := DIR4_NONE, isPlayerSlidingEast := false,
               isPlayerSlidingWest := false } (wadd v.playerY 1) := by
    unfold airBelow
    rw [TestPlayerMove_south_air g
      { v with playerBombDir := DIR4_NONE, isPlayerSlidingEast := false,
               isPlayerSlidingWest := false, playerY := wadd v.playerY 1 }
      v.playerX (wadd v.playerY 1)
      ((airUnder_congr
        { v with playerBombDir := DIR4_NONE, isPlayerSlidingEast := false,
                 isPlayerSlidingWest := false, playerY := wadd v.playerY 1 }
        v v.playerX (wadd v.playerY 1) rfl rfl rfl).mpr h1)]
  have a2 : v.playerFallTime > 3 → airBelow g
      { v with playerBombDir := DIR4_NONE, isPlayerSlidingEast := false,
               isPlayerSlidingWest := false } (wadd (wadd v.playerY 1) 1) := by
    intro h3
    unfold airBelow
    rw [TestPlayerMove_south_air g
      { v with playerBombDir := DIR4_NONE, isPlayerSlidingEast := false,
               isPlayerSlidingWest := false, playerY := wadd (wadd v.playerY 1) 1 }
      v.playerX (wadd (wadd v.playerY 1) 1)
      ((airUnder_congr
        { v with playerBombDir := DIR4_NONE, isPlayerSlidingEast := false,
                 isPlayerSlidingWest := false, playerY := wadd (wadd v.playerY 1) 1 }
        v v.playerX (wadd (wadd v.playerY 1) 1) rfl rfl rfl).mpr (h2 h3))]
  obtain ⟨e, s, hs⟩ := MovePlayerFallStep_free g
    { v with playerBombDir := DIR4_NONE, isPlayerSlidingEast := false,
             isPlayerSlidingWest := false } hfall hrec a1 a2
  refine ⟨e, s, ?_⟩
  unfold MovePlayerMove
  rw [MovePlayerGroundTest_air g v h1]
  rw [MovePlayerSlide_none g
    { v with playerBombDir := DIR4_NONE, isPlayerSlidingEast := false,
             isPlayerSlidingWest := false } rfl rfl]
  rw [MovePlayerWest_none g junk
    { v with playerBombDir := DIR4_NONE, isPlayerSlidingEast := false,
             isPlayerSlidingWest := false } hwest]
  rw [MovePlayerEast_none g junk
    { v with playerBombDir := DIR4_NONE, isPlayerSlidingEast := false,
             isPlayerSlidingWest := false } heast]
  rw [MovePlayerUnlatch_none
    { v with playerBombDir := DIR4_NONE, isPlayerSlidingEast := false,
             isPlayerSlidingWest := false } hcling]
  rw [MovePlayerJump_none g
    { v with playerBombDir := DIR4_NONE, isPlayerSlidingEast := false,
             isPlayerSlidingWest := false } hmom hjump]
  unfold MovePlayerFall
  rw [if_pos hcling]
  rw [MovePlayerFallLatch_none
    { v with playerBombDir := DIR4_NONE, isPlayerSlidingEast := false,
             isPlayerSlidingWest := false } hjump]
  rw [MovePlayerFallBegin_falling
    { v with playerBombDir := DIR4_NONE, isPlayerSlidingEast := false,
             isPlayerSlidingWest := false } hfall]
  rw [hs]

theorem MovePlayerFallHold_fields (v : World) :
    ∃ y, MovePlayerFallHold v = { v with playerY := y } ∧
      y = if v.isPlayerFalling = true ∧ v.playerFallTime = 1 ∧ v.isPlayerRecoiling = false
        then wsub v.playerY 1 else v.playerY := by
  unfold MovePlayerFallHold
  by_cases h : v.isPlayerFalling = true ∧ v.playerFallTime = 1 ∧ v.isPlayerRecoiling = false
  · rw [if_pos h, if_pos h]
    exact ⟨_, rfl, rfl⟩
  · rw [if_neg h, if_neg h]
    exact ⟨_, rfl, rfl⟩

/-- The fall branch of the frame choice of `MovePlayer` for a player who falls
writes `idlecount`, `playerFrame` and `queuePlayerDizzy` only. -/
theorem MovePlayerFallFrame_fields (g : Glue) (v : World) (hfall : v.isPlayerFalling = true) :
    ∃ f q, MovePlayerFallFrame g v =
        { v with idlecount := 0, playerFrame := f, queuePlayerDizzy := q } ∧
      f = (if v.playerFallTime ≥ 10 ∧ v.playerFallTime < 25 then g.PLAYER_FALL_LONG
        else if v.playerFallTime = 25 then g.PLAYER_FALL_SEVERE else g.PLAYER_FALL) ∧
      q = (if v.playerFallTime ≥ 10 ∧ v.playerFallTime < 25 then v.queuePlayerDizzy
        else if v.playerFallTime = 25 then true else v.queuePlayerDizzy) := by
  rw [MovePlayerFallFrame_falling g v hfall]
  by_cases h1 : v.playerFallTime ≥ 10 ∧ v.playerFallTime < 25
  · rw [if_pos h1, if_pos h1, if_pos h1]
    exact ⟨_, _, rfl, rfl, rfl⟩
  · rw [if_neg h1, if_neg h1, if_neg h1]
    by_cases h2 : v.playerFallTime = 25
    · rw [if_pos h2, if_pos h2, if_pos h2]
      exact ⟨_, _, rfl, rfl, rfl⟩
    · rw [if_neg h2, if_neg h2, if_neg h2]
      exact ⟨_, _, rfl, rfl, rfl⟩

/-- One call of `MovePlayer` for a free player who falls through air, does not
recoil, has no upward momentum and holds no movement, jump or bomb command. -/
theorem MovePlayer_falls (g : Glue) (o : Outside) (junk : MoveResult) (rnd : Nat)
    (w : World) (hfree : playerFree w)
    (hwest : w.cmdWest = false) (heast : w.cmdEast = false) (hjump : w.cmdJump = false)
    (hbomb : w.cmdBomb = false)
    (hmom : w.playerMomentumNorth = 0) (hrec : w.isPlayerRecoiling = false)
    (hfall : w.isPlayerFalling = true)
    (h1 : airUnder w w.playerX (wadd w.playerY 1))
    (h2 : w.playerFallTime > 3 → airUnder w w.playerX (wadd (wadd w.playerY 1) 1)) :
    ∃ y f q sx sy e s, MovePlayer g o junk rnd w =
      { w with
        canPlayerCling := 0, movecount := wadd w.movecount 1, bombcooldown := 0,
        cmdBomb := false, playerBombDir := DIR4_NONE,
        playerY := y, scrollX := sx, scrollY := sy,
        isPlayerSlidingEast := e, isPlayerSlidingWest := s,
        playerFallTime := if w.playerFallTime < 25 then w.playerFallTime + 1
          else w.playerFallTime,
        idlecount := 0, playerFrame := f, queuePlayerDizzy := q } ∧
      y = (if (if w.playerFallTime < 25 then w.playerFallTime + 1 else w.playerFallTime) = 1
        then wsub (if w.playerFallTime > 3 then wadd (wadd w.playerY 1) 1
          else wadd w.playerY 1) 1
        else (if w.playerFallTime > 3 then wadd (wadd w.playerY 1) 1
          else wadd w.playerY 1)) ∧
      f = (if (if w.playerFallTime < 25 then w.playerFallTime + 1 else w.playerFallTime) ≥ 10 ∧
            (if w.playerFallTime < 25 then w.playerFallTime + 1 else w.playerFallTime) < 25
          then g.PLAYER_FALL_LONG
        else if (if w.playerFallTime < 25 then w.playerFallTime + 1 else w.playerFallTime) = 25
          then g.PLAYER_FALL_SEVERE else g.PLAYER_FALL) ∧
      q = (if (if w.playerFallTime < 25 then w.playerFallTime + 1 else w.playerFallTime) ≥ 10 ∧
            (if w.playerFallTime < 25 then w.playerFallTime + 1 else w.playerFallTime) < 25
          then w.queuePlayerDizzy
        else if (if w.playerFallTime < 25 then w.playerFallTime + 1 else w.playerFallTime) = 25
          then true else w.queuePlayerDizzy) := by
  obtain ⟨halive, htrans, hscoot, hdizzy, hblock, hpush, hcling⟩ := hfree
  obtain ⟨e, s, hm⟩ := MovePlayerMove_falls g junk
    { w with canPlayerCling := 0, movecount := wadd w.movecount 1, bombcooldown := 0,
             cmdBomb := false }
    hcling hwest heast hjump hmom hrec hfall
    ((airUnder_congr
      { w with canPlayerCling := 0, movecount := wadd w.movecount 1, bombcooldown := 0,
               cmdBomb := false }
      w w.playerX (wadd w.playerY 1) rfl rfl rfl).mpr h1)
    (fun h3 => (airUnder_congr
      { w with canPlayerCling := 0, movecount := wadd w.movecount 1, bombcooldown := 0,
               cmdBomb := false }
      w w.playerX (wadd (wadd w.playerY 1) 1) rfl rfl rfl).mpr (h2 h3))
  obtain ⟨y, hh, hy⟩ := MovePlayerFallHold_fields
    { w with
      canPlayerCling := 0, movecount := wadd w.movecount 1, bombcooldown := 0,
      cmdBomb := false, playerBombDir := DIR4_NONE,
      playerY := if w.playerFallTime > 3 then wadd (wadd w.playerY 1) 1
        else wadd w.playerY 1,
      scrollY := if w.playerFallTime > 3 then wadd w.scrollY 1 else w.scrollY,
      isPlayerSlidingEast := e, isPlayerSlidingWest := s,
      playerFallTime := if w.playerFallTime < 25 then w.playerFallTime + 1
        else w.playerFallTime }
  have hframe := MovePlayerFrame_falling g rnd false
    { w with
      canPlayerCling := 0, movecount := wadd w.movecount 1, bombcooldown := 0,
      cmdBomb := false, playerBombDir := DIR4_NONE,
      playerY := y,
      scrollY := if w.playerFallTime > 3 then wadd w.scrollY 1 else w.scrollY,
      isPlayerSlidingEast := e, isPlayerSlidingWest := s,
      playerFallTime := if w.playerFallTime < 25 then w.playerFallTime + 1
        else w.playerFallTime }
    hfall hrec rfl hcling
  obtain ⟨f, q, hf, hfv, hqv⟩ := MovePlayerFallFrame_fields g
    { w with
      canPlayerCling := 0, movecount := wadd w.movecount 1, bombcooldown := 0,
      cmdBomb := false, playerBombDir := DIR4_NONE,
      playerY := y,
      scrollY := if w.playerFallTime > 3 then wadd w.scrollY 1 else w.scrollY,
      isPlayerSlidingEast := e, isPlayerSlidingWest := s,
      playerFallTime := if w.playerFallTime < 25 then w.playerFallTime + 1
        else w.playerFallTime }
    hfall
  obtain ⟨sx, sy, hscroll⟩ := MovePlayerScroll_frame g false
    { w with
      canPlayerCling := 0, movecount := wadd w.movecount 1, bombcooldown := 0,
      cmdBomb := false, playerBombDir := DIR4_NONE,
      playerY := y,
      scrollY := if w.playerFallTime > 3 then wadd w.scrollY 1 else w.scrollY,
      isPlayerSlidingEast := e, isPlayerSlidingWest := s,
      playerFallTime := if w.playerFallTime < 25 then w.playerFallTime + 1
        else w.playerFallTime,
      idlecount := 0, playerFrame := f, queuePlayerDizzy := q }
  refine ⟨y, f, q, sx, sy, e, s, ?_, ?_, hfv, hqv⟩
  · rw [MovePlayer_free g o junk rnd w halive htrans hscoot hdizzy hblock hpush]
    rw [MovePlayerActs_free g o junk rnd
      { w with canPlayerCling := 0, movecount := wadd w.movecount 1 } hcling hbomb]
    simp only []
    rw [hm, hh]
    simp only []
    rw [hframe]
    simp only [Bool.false_eq_true, if_false]
    rw [hf]
    simp only []
    rw [hscroll]
  · rw [hy]
    simp only [hfall, hrec, true_and, and_true]

/-- C29: the fall of `MovePlayer` for a player who falls and does not recoil.
While the player does not land (no ground one row down, nor two rows down when
`playerFallTime` is above 3), one tick of the fall block adds one to
`playerFallTime` below 25 and leaves it at 25, moves the player down by two
rows with `scrollY` one more when `playerFallTime` was above 3 and by one row
with `scrollY` as it was otherwise.  When the frame is chosen, it is
`PLAYER_FALL_LONG` exactly for a `playerFallTime` from 10 to 24, and the
dizziness is queued, with the frame `PLAYER_FALL_SEVERE`, exactly at 25.  The
same over a whole call of `MovePlayer` for a free player who holds no command
and has only air in the rows below: the call adds one to `playerFallTime` below
25, and the frame and the queued dizziness it leaves follow the `playerFallTime`
it leaves. -/
theorem MovePlayer_fall_timing (g : Glue) (o : Outside) (junk : MoveResult) (rnd : Nat)
    (clingslip : Bool) (v : World)
    (hfall : v.isPlayerFalling = true) (hrec : v.isPlayerRecoiling = false)
    (hframes : g.PLAYER_FALL_LONG ≠ g.PLAYER_FALL ∧ g.PLAYER_FALL_LONG ≠ g.PLAYER_FALL_SEVERE) :
    (airBelow g v (wadd v.playerY 1) →
      (v.playerFallTime > 3 → airBelow g v (wadd (wadd v.playerY 1) 1)) →
      (MovePlayerFallStep g v).playerFallTime =
        (if v.playerFallTime < 25 then v.playerFallTime + 1 else v.playerFallTime) ∧
      (v.playerFallTime ≤ 25 → (MovePlayerFallStep g v).playerFallTime ≤ 25) ∧
      (MovePlayerFallStep g v).playerY =
        (if v.playerFallTime > 3 then wadd (wadd v.playerY 1) 1 else wadd v.playerY 1) ∧
      (MovePlayerFallStep g v).scrollY =
        (if v.playerFallTime > 3 then wadd v.scrollY 1 else v.scrollY)) ∧
    (v.playerBombDir = DIR4_NONE → v.playerClingDir = DIR4_NONE →
      MovePlayerFrame g rnd clingslip v = (false, MovePlayerFallFrame g v)) ∧
    ((MovePlayerFallFrame g v).playerFrame = g.PLAYER_FALL_LONG ↔
      (10 ≤ v.playerFallTime ∧ v.playerFallTime < 25)) ∧
    (v.queuePlayerDizzy = false →
      ((MovePlayerFallFrame g v).queuePlayerDizzy = true ↔ v.playerFallTime = 25)) ∧
    (v.playerFallTime = 25 → (MovePlayerFallFrame g v).playerFrame = g.PLAYER_FALL_SEVERE) ∧
    (playerFree v → v.cmdWest = false → v.cmdEast = false → v.cmdJump = false →
      v.cmdBomb = false → v.playerMomentumNorth = 0 →
      airUnder v v.playerX (wadd v.playerY 1) →
      (v.playerFallTime > 3 → airUnder v v.playerX (wadd (wadd v.playerY 1) 1)) →
      (MovePlayer g o junk rnd v).playerFallTime =
        (if v.playerFallTime < 25 then v.playerFallTime + 1 else v.playerFallTime) ∧
      ((MovePlayer g o junk rnd v).playerFrame = g.PLAYER_FALL_LONG ↔
        (10 ≤ (MovePlayer g o junk rnd v).playerFallTime ∧
          (MovePlayer g o junk rnd v).playerFallTime < 25)) ∧
      (v.queuePlayerDizzy = false →
        ((MovePlayer g o junk rnd v).queuePlayerDizzy = true ↔
          (MovePlayer g o junk rnd v).playerFallTime = 25))) := by
  refine ⟨fun h1 h2 => ?_, MovePlayerFrame_falling g rnd clingslip v hfall hrec, ?_, ?_, ?_, ?_⟩
  · obtain ⟨e, s, hs⟩ := MovePlayerFallStep_free g v hfall hrec h1 h2
    rw [hs]
    refine ⟨rfl, fun h25 => ?_, rfl, rfl⟩
    show (if v.playerFallTime < 25 then v.playerFallTime + 1 else v.playerFallTime) ≤ 25
    split_ifs <;> omega
  · rw [MovePlayerFallFrame_falling g v hfall]
    by_cases h1 : v.playerFallTime ≥ 10 ∧ v.playerFallTime < 25
    · rw [if_pos h1]
      exact ⟨fun _ => h1, fun _ => rfl⟩
    · rw [if_neg h1]
      by_cases h2 : v.playerFallTime = 25
      · rw [if_pos h2]
        exact ⟨fun h => absurd h.symm hframes.2, fun h => absurd h h1⟩
      · rw [if_neg h2]
        exact ⟨fun h => absurd h.symm hframes.1, fun h => absurd h h1⟩
  · intro hq
    rw [MovePlayerFallFrame_falling g v hfall]
    by_cases h1 : v.playerFallTime ≥ 10 ∧ v.playerFallTime < 25
    · rw [if_pos h1]
      exact ⟨fun h => absurd (hq.symm.trans h) (by decide), fun h => absurd h (by omega)⟩
    · rw [if_neg h1]
      by_cases h2 : v.playerFallTime = 25
      · rw [if_pos h2]
        exact ⟨fun _ => h2, fun _ => rfl⟩
      · rw [if_neg h2]
        exact ⟨fun h => absurd (hq.symm.trans h) (by decide), fun h => absurd h h2⟩
  · intro h25
    rw [MovePlayerFallFrame_falling g v hfall, if_neg (by omega), if_pos h25]
  · intro hfree hwest heast hjump hbomb hmom a1 a2
    obtain ⟨y, f, q, sx, sy, e, s, hm, _, hf, hq⟩ := MovePlayer_falls g o junk rnd v hfree
      hwest heast hjump hbomb hmom hrec hfall a1 a2
    rw [hm]
    show _ = _ ∧ (f = g.PLAYER_FALL_LONG ↔ _) ∧ (_ → (q = true ↔ _))
    rw [hf, hq]
    generalize (if v.playerFallTime < 25 then v.playerFallTime + 1 else v.playerFallTime) = T
    refine ⟨rfl, ?_, fun hq0 => ?_⟩
    · show _ ↔ (10 ≤ T ∧ T < 25)
      by_cases h1 : T ≥ 10 ∧ T < 25
      · rw [if_pos h1]
        exact ⟨fun _ => h1, fun _ => rfl⟩
      · rw [if_neg h1]
        by_cases h2 : T = 25
        · rw [if_pos h2]
          exact ⟨fun h => absurd h.symm hframes.2, fun h => absurd h h1⟩
        · rw [if_neg h2]
          exact ⟨fun h => absurd h.symm hframes.1, fun h => absurd h h1⟩
    · show _ ↔ T = 25
      by_cases h1 : T ≥ 10 ∧ T < 25
      · rw [if_pos h1]
        exact ⟨fun h => absurd (hq0.symm.trans h) (by decide), fun h => absurd h (by omega)⟩
      · rw [if_neg h1]
        by_cases h2 : T = 25
        · rw [if_pos h2]
          exact ⟨fun _ => h2, fun _ => rfl⟩
        · rw [if_neg h2]
          exact ⟨fun h => absurd (hq0.symm.trans h) (by decide), fun h => absurd h h2⟩

/-- Witness of C29: the player of `fallWorld` after 12 ticks of the fall, and
after 25: one tick takes the fall time from 12 to 13 and the player two rows
down; at 12 the frame is `PLAYER_FALL_LONG`, at 25 the dizziness is queued; a
whole call at 12 leaves the fall time at 13. -/
theorem MovePlayer_fall_timing_witness :
    ((MovePlayerFallStep demoGlue (fallWorld 12)).playerFallTime =
        (if (12 : Int) < 25 then 12 + 1 else 12) ∧
      ((12 : Int) ≤ 25 → (MovePlayerFallStep demoGlue (fallWorld 12)).playerFallTime ≤ 25) ∧
      (MovePlayerFallStep demoGlue (fallWorld 12)).playerY =
        (if (12 : Int) > 3 then wadd (wadd 20 1) 1 else wadd 20 1) ∧
      (MovePlayerFallStep demoGlue (fallWorld 12)).scrollY =
        (if (12 : Int) > 3 then wadd 0 1 else 0)) ∧
    (MovePlayerFallFrame demoGlue (fallWorld 12)).playerFrame = demoGlue.PLAYER_FALL_LONG ∧
    (MovePlayerFallFrame demoGlue (fallWorld 25)).queuePlayerDizzy = true ∧
    (MovePlayerFallFrame demoGlue (fallWorld 25)).playerFrame = demoGlue.PLAYER_FALL_SEVERE ∧
    (MovePlayer demoGlue quietOutside MOVE_FREE 7 (fallWorld 12)).playerFallTime =
      (if (12 : Int) < 25 then 12 + 1 else 12) :=
  ⟨(MovePlayer_fall_timing demoGlue quietOutside MOVE_FREE 7 false (fallWorld 12) rfl rfl
      (by decide)).1 (by decide) (fun _ => by decide),
    (MovePlayer_fall_timing demoGlue quietOutside MOVE_FREE 7 false (fallWorld 12) rfl rfl
      (by decide)).2.2.1.mpr (by decide),
    ((MovePlayer_fall_timing demoGlue quietOutside MOVE_FREE 7 false (fallWorld 25) rfl rfl
      (by decide)).2.2.2.1 rfl).mpr rfl,
    (MovePlayer_fall_timing demoGlue quietOutside MOVE_FREE 7 false (fallWorld 25) rfl rfl
      (by decide)).2.2.2.2.1 rfl,
    ((MovePlayer_fall_timing demoGlue quietOutside MOVE_FREE 7 false (fallWorld 12) rfl rfl
      (by decide)).2.2.2.2.2 (by decide) rfl rfl rfl rfl rfl (by decide)
      (fun _ => by decide)).1⟩

/-- A whole call of `MovePlayer` for the player of `fallWorld`: after 12 ticks
of the fall the call leaves the fall time at 13, the player two rows down,
`scrollY` two more (one from the fall, one from the scroll statements) and the
frame `PLAYER_FALL_LONG`, 9; after 24 ticks it leaves the fall time at 25 and
queues the dizziness. -/
theorem MovePlayer_fall_tick :
    (MovePlayer demoGlue quietOutside MOVE_FREE 7 (fallWorld 12)).playerFallTime = 13 ∧
    (MovePlayer demoGlue quietOutside MOVE_FREE 7 (fallWorld 12)).playerY = 22 ∧
    (MovePlayer demoGlue quietOutside MOVE_FREE 7 (fallWorld 12)).scrollY = 2 ∧
    (MovePlayer demoGlue quietOutside MOVE_FREE 7 (fallWorld 12)).playerFrame = 9 ∧
    (MovePlayer demoGlue quietOutside MOVE_FREE 7 (fallWorld 2)).playerY = 21 ∧
    (MovePlayer demoGlue quietOutside MOVE_FREE 7 (fallWorld 24)).playerFallTime = 25 ∧
    (MovePlayer demoGlue quietOutside MOVE_FREE 7 (fallWorld 24)).queuePlayerDizzy = true ∧
    (MovePlayer demoGlue quietOutside MOVE_FREE 7 (fallWorld 25)).playerFallTime = 25 := by
  decide

/-! ## C30 -/

theorem playerScanSouth_globals (w : World) (c : Int) (n i : Nat) :
    ∃ p, (playerScanSouth w c n i).2 = { w with pounceStreak := p } := by
  induction n generalizing i with
  | zero => exact ⟨w.pounceStreak, rfl⟩
  | succ n ih =>
    unfold playerScanSouth
    by_cases h1 : TILE_SLOPED w (w.mapData (c + (i : Int))) ≠ 0
    · rw [if_pos h1]
      exact ⟨0, rfl⟩
    · rw [if_neg h1]
      by_cases h2 : TILE_BLOCK_SOUTH w (w.mapData (c + (i : Int))) ≠ 0
      · rw [if_pos h2]
        exact ⟨0, rfl⟩
      · rw [if_neg h2]
        exact ih (i + 1)

/-- A south test of `TestPlayerMove` writes the sliding flags and `pounceStreak` only. -/
theorem TestPlayerMove_south_globals (g : Glue) (v : World) (x y : Nat) :
    ∃ e s p, (TestPlayerMove g v DIR4_SOUTH x y).2 =
      { v with isPlayerSlidingEast := e, isPlayerSlidingWest := s, pounceStreak := p } := by
  unfold TestPlayerMove
  simp only []
  by_cases hcut : wadd v.mapHeight g.SCROLLH = v.playerY
  · rw [if_pos hcut]
    exact ⟨false, false, v.pounceStreak, rfl⟩
  · rw [if_neg hcut]
    by_cases c1 : ¬ (TILE_BLOCK_SOUTH v (v.mapData (MAP_CELL_ADDR v x y)) ≠ 0) ∧
        TILE_SLOPED v (v.mapData (MAP_CELL_ADDR v x y)) ≠ 0 ∧
        TILE_SLIPPERY v (v.mapData (MAP_CELL_ADDR v x y)) ≠ 0
    · by_cases c2 : ¬ (TILE_BLOCK_SOUTH v (v.mapData (MAP_CELL_ADDR v x y + 2)) ≠ 0) ∧
          TILE_SLOPED v (v.mapData (MAP_CELL_ADDR v x y + 2)) ≠ 0 ∧
          TILE_SLIPPERY v (v.mapData (MAP_CELL_ADDR v x y + 2)) ≠ 0
      · rw [if_pos c2, if_pos c1]
        obtain ⟨p, hp⟩ := playerScanSouth_globals
          { v with isPlayerSlidingEast := true, isPlayerSlidingWest := true }
          (MAP_CELL_ADDR v x y) 3 0
        exact ⟨true, true, p, hp⟩
      · rw [if_neg c2, if_pos c1]
        obtain ⟨p, hp⟩ := playerScanSouth_globals
          { v with isPlayerSlidingEast := true, isPlayerSlidingWest := false }
          (MAP_CELL_ADDR v x y) 3 0
        exact ⟨true, false, p, hp⟩
    · by_cases c2 : ¬ (TILE_BLOCK_SOUTH v (v.mapData (MAP_CELL_ADDR v x y + 2)) ≠ 0) ∧
          TILE_SLOPED v (v.mapData (MAP_CELL_ADDR v x y + 2)) ≠ 0 ∧
          TILE_SLIPPERY v (v.mapData (MAP_CELL_ADDR v x y + 2)) ≠ 0
      · rw [if_pos c2, if_neg c1]
        obtain ⟨p, hp⟩ := playerScanSouth_globals
          { v with isPlayerSlidingEast := false, isPlayerSlidingWest := true }
          (MAP_CELL_ADDR v x y) 3 0
        exact ⟨false, true, p, hp⟩
      · rw [if_neg c2, if_neg c1]
        obtain ⟨p, hp⟩ := playerScanSouth_globals
          { v with isPlayerSlidingEast := false, isPlayerSlidingWest := false }
          (MAP_CELL_ADDR v x y) 3 0
        exact ⟨false, false, p, hp⟩

theorem ProcessPlayerDizzyCling_none (w : World) (h : w.playerClingDir = DIR4_NONE) :
    ProcessPlayerDizzyCling w = w := by
  unfold ProcessPlayerDizzyCling
  rw [if_neg (fun hne => hne h)]

/-- The start of a dizziness that is queued, over ground. -/
theorem ProcessPlayerDizzyStart_ground (g : Glue) (w : World)
    (hq : w.queuePlayerDizzy = true)
    (hground : (TestPlayerMove g w DIR4_SOUTH w.playerX (wadd w.playerY 1)).1 ≠ MOVE_FREE) :
    ∃ e s p, ProcessPlayerDizzyStart g w =
      { w with isPlayerSlidingEast := e, isPlayerSlidingWest := s, pounceStreak := p,
               queuePlayerDizzy := false, playerDizzyLeft := 8 } := by
  obtain ⟨e, s, p, hr⟩ := TestPlayerMove_south_globals g w w.playerX (wadd w.playerY 1)
  refine ⟨e, s, p, ?_⟩
  unfold ProcessPlayerDizzyStart
  rw [if_pos hq]
  generalize TestPlayerMove g w DIR4_SOUTH w.playerX (wadd w.playerY 1) = r at hr hground ⊢
  obtain ⟨m, u⟩ := r
  have hu : u = { w with isPlayerSlidingEast := e, isPlayerSlidingWest := s,
                         pounceStreak := p } := hr
  subst hu
  exact if_pos hground

theorem ProcessPlayerDizzyStart_idle (g : Glue) (w : World) (hq : w.queuePlayerDizzy = false) :
    ProcessPlayerDizzyStart g w = w := by
  unfold ProcessPlayerDizzyStart
  rw [if_neg (fun h => absurd (hq.symm.trans h) (by decide))]

/-- The shake of `ProcessPlayerDizzy` for a countdown from 1 to 8. -/
theorem ProcessPlayerDizzyShake_step (g : Glue) (w : World)
    (h1 : 1 ≤ w.playerDizzyLeft) (h8 : w.playerDizzyLeft ≤ 8) :
    ProcessPlayerDizzyShake g w =
      { w with
        playerFrame := (shakeframes g).getD w.playerDizzyLeft 0,
        playerDizzyLeft := w.playerDizzyLeft - 1, isPlayerFalling := false } := by
  have e : wsub w.playerDizzyLeft 1 = w.playerDizzyLeft - 1 := by
    unfold wsub
    omega
  unfold ProcessPlayerDizzyShake
  rw [if_pos (by omega)]
  simp only [e]
  rw [if_neg (by omega)]

/-- The first call of `ProcessPlayerDizzy` for a queued dizziness that takes effect. -/
theorem ProcessPlayerDizzy_first (g : Glue) (w : World)
    (hcling : w.playerClingDir = DIR4_NONE) (hq : w.queuePlayerDizzy = true)
    (hground : (TestPlayerMove g w DIR4_SOUTH w.playerX (wadd w.playerY 1)).1 ≠ MOVE_FREE) :
    (ProcessPlayerDizzyStart g (ProcessPlayerDizzyCling w)).playerDizzyLeft = 8 ∧
    (ProcessPlayerDizzy g w).playerDizzyLeft = 7 ∧
    (ProcessPlayerDizzy g w).queuePlayerDizzy = false ∧
    (ProcessPlayerDizzy g w).playerFrame = (shakeframes g).getD 8 0 := by
  obtain ⟨e, s, p, hs⟩ := ProcessPlayerDizzyStart_ground g w hq hground
  unfold ProcessPlayerDizzy
  rw [ProcessPlayerDizzyCling_none w hcling, hs]
  rw [ProcessPlayerDizzyShake_step g
    { w with isPlayerSlidingEast := e, isPlayerSlidingWest := s, pounceStreak := p,
             queuePlayerDizzy := false, playerDizzyLeft := 8 }
    (show 1 ≤ 8 by decide) (le_refl 8)]
  exact ⟨rfl, rfl, rfl, rfl⟩

/-- A later call of `ProcessPlayerDizzy`, with nothing queued and a countdown
from 1 to 8. -/
theorem ProcessPlayerDizzy_later (g : Glue) (w : World)
    (hcling : w.playerClingDir = DIR4_NONE) (hq : w.queuePlayerDizzy = false)
    (h1 : 1 ≤ w.playerDizzyLeft) (h8 : w.playerDizzyLeft ≤ 8) :
    (ProcessPlayerDizzyStart g (ProcessPlayerDizzyCling w)).playerDizzyLeft
      = w.playerDizzyLeft ∧
    (ProcessPlayerDizzy g w).playerDizzyLeft = w.playerDizzyLeft - 1 ∧
    (ProcessPlayerDizzy g w).queuePlayerDizzy = false ∧
    (ProcessPlayerDizzy g w).playerFrame = (shakeframes g).getD w.playerDizzyLeft 0 := by
  unfold ProcessPlayerDizzy
  rw [ProcessPlayerDizzyCling_none w hcling, ProcessPlayerDizzyStart_idle g w hq]
  rw [ProcessPlayerDizzyShake_step g w h1 h8]
  exact ⟨rfl, rfl, hq, rfl⟩

/-- `MovePlayer` for a dizzy player: it returns from its first statement. -/
theorem MovePlayer_dizzy (g : Glue) (o : Outside) (junk : MoveResult) (rnd : Nat) (w : World)
    (h : w.playerDizzyLeft ≠ 0) :
    MovePlayer g o junk rnd w = { w with canPlayerCling := 0 } := by
  unfold MovePlayer
  simp only []
  rw [if_pos (Or.inr (Or.inr (Or.inr (Or.inl h))))]

/-- C30: a queued dizziness that takes effect (the player does not cling, the
south test of the row below is not free), followed over eight calls of
`ProcessPlayerDizzy`: call `k + 1` is made in the state `s k`, in which the
player does not cling, and nothing between two calls writes `playerDizzyLeft`
or `queuePlayerDizzy`.  The first call sets the countdown to 8; call `k + 1`
reads `shakeframes` at the index `8 - k`, from 8 down to 1 and so inside the
table of 9 entries, and leaves the countdown at `7 - k`, which is 0 after the
eighth call and not before.  And `MovePlayer`, called with a countdown that is
not 0, returns from its first statement, having written `canPlayerCling` only:
the player is not moved. -/
theorem ProcessPlayerDizzy_countdown (g : Glue) (s : Nat → World)
    (hq : (s 0).queuePlayerDizzy = true)
    (hcling : ∀ k, k < 8 → (s k).playerClingDir = DIR4_NONE)
    (hground : (TestPlayerMove g (s 0) DIR4_SOUTH (s 0).playerX (wadd (s 0).playerY 1)).1
      ≠ MOVE_FREE)
    (hleft : ∀ k, k < 7 →
      (s (k + 1)).playerDizzyLeft = (ProcessPlayerDizzy g (s k)).playerDizzyLeft)
    (hqueue : ∀ k, k < 7 →
      (s (k + 1)).queuePlayerDizzy = (ProcessPlayerDizzy g (s k)).queuePlayerDizzy) :
    (∀ k, k < 8 →
      (ProcessPlayerDizzyStart g (ProcessPlayerDizzyCling (s k))).playerDizzyLeft = 8 - k ∧
      1 ≤ 8 - k ∧ 8 - k < (shakeframes g).length ∧
      (ProcessPlayerDizzy g (s k)).playerFrame = (shakeframes g).getD (8 - k) 0 ∧
      (ProcessPlayerDizzy g (s k)).playerDizzyLeft = 7 - k ∧
      ((ProcessPlayerDizzy g (s k)).playerDizzyLeft = 0 ↔ k = 7)) ∧
    (∀ (o : Outside) (junk : MoveResult) (rnd : Nat) (w : World), w.playerDizzyLeft ≠ 0 →
      MovePlayer g o junk rnd w = { w with canPlayerCling := 0 } ∧
      (MovePlayer g o junk rnd w).playerX = w.playerX ∧
      (MovePlayer g o junk rnd w).playerY = w.playerY) := by
  have key : ∀ k, k < 8 →
      (ProcessPlayerDizzyStart g (ProcessPlayerDizzyCling (s k))).playerDizzyLeft = 8 - k ∧
      (ProcessPlayerDizzy g (s k)).playerDizzyLeft = 7 - k ∧
      (ProcessPlayerDizzy g (s k)).queuePlayerDizzy = false ∧
      (ProcessPlayerDizzy g (s k)).playerFrame = (shakeframes g).getD (8 - k) 0 := by
    intro k
    induction k with
    | zero =>
      intro _
      exact ProcessPlayerDizzy_first g (s 0) (hcling 0 (by decide)) hq hground
    | succ k ih =>
      intro hk
      obtain ⟨_, h2, h3, _⟩ := ih (by omega)
      have hl : (s (k + 1)).playerDizzyLeft = 7 - k := (hleft k (by omega)).trans h2
      have hqk : (s (k + 1)).queuePlayerDizzy = false := (hqueue k (by omega)).trans h3
      obtain ⟨a, b, c, d⟩ := ProcessPlayerDizzy_later g (s (k + 1)) (hcling (k + 1) hk) hqk
        (by omega) (by omega)
      rw [hl] at a b d
      have e1 : 7 - k = 8 - (k + 1) := by omega
      have e2 : 7 - k - 1 = 7 - (k + 1) := by omega
      rw [← e1, ← e2]
      exact ⟨a, b, c, d⟩
  refine ⟨fun k hk => ?_, fun o junk rnd w hw => ?_⟩
  · obtain ⟨a, b, _, d⟩ := key k hk
    refine ⟨a, by omega, ?_, d, b, ?_⟩
    · show 8 - k < 9
      omega
    · rw [b]
      omega
  · rw [MovePlayer_dizzy g o junk rnd w hw]
    exact ⟨rfl, rfl, rfl⟩

theorem dizzyWorlds_succ (k : Nat) :
    dizzyWorlds (k + 1) = ProcessPlayerDizzy demoGlue (dizzyWorlds k) :=
  Function.iterate_succ_apply' _ _ _

/-- Witness of C30: the player of `floorWorld` with a dizziness queued; the
state before call `k + 1` is `dizzyWorld` after `k` calls.  The countdown is 7
after the first call and 0 after the eighth, and the third call shows
`shakeframes[6]`. -/
theorem ProcessPlayerDizzy_countdown_witness :
    (ProcessPlayerDizzy demoGlue (dizzyWorlds 7)).playerDizzyLeft = 7 - 7 ∧
    (ProcessPlayerDizzy demoGlue (dizzyWorlds 0)).playerDizzyLeft = 7 - 0 ∧
    (ProcessPlayerDizzy demoGlue (dizzyWorlds 2)).playerFrame
      = (shakeframes demoGlue).getD (8 - 2) 0 :=
  ⟨((ProcessPlayerDizzy_countdown demoGlue dizzyWorlds rfl (by decide) (by decide)
      (fun k _ => congrArg World.playerDizzyLeft (dizzyWorlds_succ k))
      (fun k _ => congrArg World.queuePlayerDizzy (dizzyWorlds_succ k))).1 7
      (by decide)).2.2.2.2.1,
    ((ProcessPlayerDizzy_countdown demoGlue dizzyWorlds rfl (by decide) (by decide)
      (fun k _ => congrArg World.playerDizzyLeft (dizzyWorlds_succ k))
      (fun k _ => congrArg World.queuePlayerDizzy (dizzyWorlds_succ k))).1 0
      (by decide)).2.2.2.2.1,
    ((ProcessPlayerDizzy_countdown demoGlue dizzyWorlds rfl (by decide) (by decide)
      (fun k _ => congrArg World.playerDizzyLeft (dizzyWorlds_succ k))
      (fun k _ => congrArg World.queuePlayerDizzy (dizzyWorlds_succ k))).1 2
      (by decide)).2.2.2.1⟩

/-! ## C36 -/

/-- The counter that `GameRand` leaves, which is the index it uses. -/
theorem GameRand_eq (v : World) :
    GameRand v =
      (wadd (wadd (wadd (wadd (wadd
        (randtable.getD (if wadd v.randStepCount 1 > 35 then 0 else wadd v.randStepCount 1) 0)
          v.scrollX) v.scrollY)
        (if wadd v.randStepCount 1 > 35 then 0 else wadd v.randStepCount 1)) v.playerX)
        v.playerY,
       { v with
         randStepCount := if wadd v.randStepCount 1 > 35 then 0 else wadd v.randStepCount 1 }) := by
  unfold GameRand
  simp only []
  by_cases h : wadd v.randStepCount 1 > 35
  · rw [if_pos h, if_pos h]
  · rw [if_neg h, if_neg h]

theorem GameRand_index (v : World) : (GameRand v).2.randStepCount ≤ 35 := by
  rw [GameRand_eq]
  show (if wadd v.randStepCount 1 > 35 then 0 else wadd v.randStepCount 1) ≤ 35
  split_ifs <;> omega

theorem GameRand_next (v : World) (h : v.randStepCount ≤ 35) :
    (GameRand v).2.randStepCount = (v.randStepCount + 1) % 36 := by
  rw [GameRand_eq]
  show (if wadd v.randStepCount 1 > 35 then 0 else wadd v.randStepCount 1) = _
  unfold wadd
  split_ifs <;> omega

/-- Two calls of `GameRand` that leave the same counter, with the same scroll
and player positions, return the same number. -/
theorem GameRand_same (u v : World)
    (hc : (GameRand u).2.randStepCount = (GameRand v).2.randStepCount)
    (h1 : u.scrollX = v.scrollX) (h2 : u.scrollY = v.scrollY)
    (h3 : u.playerX = v.playerX) (h4 : u.playerY = v.playerY) :
    (GameRand u).1 = (GameRand v).1 := by
  rw [GameRand_eq u, GameRand_eq v] at hc
  rw [GameRand_eq u, GameRand_eq v]
  have hc2 : (if wadd u.randStepCount 1 > 35 then 0 else wadd u.randStepCount 1) =
      (if wadd v.randStepCount 1 > 35 then 0 else wadd v.randStepCount 1) := hc
  show wadd (wadd (wadd (wadd (wadd (randtable.getD _ 0) _) _) _) _) _ =
    wadd (wadd (wadd (wadd (wadd (randtable.getD _ 0) _) _) _) _) _
  rw [hc2, h1, h2, h3, h4]

/-- The counter left by call `k + j` of a run of `GameRand` calls. -/
theorem GameRand_run_index (s : Nat → World)
    (hstep : ∀ k, (s (k + 1)).randStepCount = (GameRand (s k)).2.randStepCount)
    (k j : Nat) :
    (GameRand (s (k + j))).2.randStepCount =
      ((GameRand (s k)).2.randStepCount + j) % 36 := by
  induction j with
  | zero =>
    have := GameRand_index (s k)
    show (GameRand (s k)).2.randStepCount = ((GameRand (s k)).2.randStepCount + 0) % 36
    omega
  | succ j ih =>
    have hle : (s (k + j + 1)).randStepCount ≤ 35 := by
      rw [hstep]
      exact GameRand_index _
    have e : k + (j + 1) = k + j + 1 := rfl
    rw [e, GameRand_next _ hle, hstep, ih]
    omega

/-- C36: `GameRand` is deterministic.  Two calls from states with the same
`randStepCount`, `scrollX`, `scrollY`, `playerX` and `playerY` return the same
number and leave the same counter; the number is the table entry at the counter
left plus the two scroll positions, that counter and the two player positions,
in 16 bits; the counter left, the index into the 36 entries of `randtable`, is
below 36 whatever the counter was; and in a run of calls between which the
counter is not written and the positions are as at the start, call `k + 36`
returns what call `k` returns. -/
theorem GameRand_deterministic (s : Nat → World)
    (hstep : ∀ k, (s (k + 1)).randStepCount = (GameRand (s k)).2.randStepCount)
    (hfix : ∀ k, (s k).scrollX = (s 0).scrollX ∧ (s k).scrollY = (s 0).scrollY ∧
      (s k).playerX = (s 0).playerX ∧ (s k).playerY = (s 0).playerY) :
    (∀ u v : World, u.randStepCount = v.randStepCount → u.scrollX = v.scrollX →
      u.scrollY = v.scrollY → u.playerX = v.playerX → u.playerY = v.playerY →
      (GameRand u).1 = (GameRand v).1 ∧
      (GameRand u).2.randStepCount = (GameRand v).2.randStepCount) ∧
    (∀ v : World,
      (GameRand v).1 =
        wadd (wadd (wadd (wadd (wadd (randtable.getD (GameRand v).2.randStepCount 0) v.scrollX)
          v.scrollY) (GameRand v).2.randStepCount) v.playerX) v.playerY ∧
      (GameRand v).2.randStepCount < randtable.length) ∧
    (∀ k, (GameRand (s (k + 36))).1 = (GameRand (s k)).1) := by
  refine ⟨fun u v hc h1 h2 h3 h4 => ?_, fun v => ?_, fun k => ?_⟩
  · have hcount : (GameRand u).2.randStepCount = (GameRand v).2.randStepCount := by
      rw [GameRand_eq u, GameRand_eq v]
      show (if wadd u.randStepCount 1 > 35 then 0 else wadd u.randStepCount 1) =
        (if wadd v.randStepCount 1 > 35 then 0 else wadd v.randStepCount 1)
      rw [hc]
    exact ⟨GameRand_same u v hcount h1 h2 h3 h4, hcount⟩
  · refine ⟨?_, Nat.lt_succ_of_le (GameRand_index v)⟩
    rw [GameRand_eq]
  · have hi := GameRand_run_index s hstep k 36
    have hle := GameRand_index (s k)
    have hcount : (GameRand (s (k + 36))).2.randStepCount =
        (GameRand (s k)).2.randStepCount := by
      rw [hi]
      omega
    obtain ⟨a1, a2, a3, a4⟩ := hfix (k + 36)
    obtain ⟨b1, b2, b3, b4⟩ := hfix k
    exact GameRand_same _ _ hcount (a1.trans b1.symm) (a2.trans b2.symm) (a3.trans b3.symm)
      (a4.trans b4.symm)

theorem randWorlds_succ (k : Nat) :
    randWorlds (k + 1) = (GameRand (randWorlds k)).2 :=
  Function.iterate_succ_apply' _ _ _

theorem randWorlds_fixed (k : Nat) :
    (randWorlds k).scrollX = (randWorlds 0).scrollX ∧
    (randWorlds k).scrollY = (randWorlds 0).scrollY ∧
    (randWorlds k).playerX = (randWorlds 0).playerX ∧
    (randWorlds k).playerY = (randWorlds 0).playerY := by
  induction k with
  | zero => exact ⟨rfl, rfl, rfl, rfl⟩
  | succ k ih =>
    rw [randWorlds_succ, GameRand_eq]
    exact ih

/-- Witness of C36: a run of calls from `randWorld`, whose counter starts past
the table at 40: the first call returns what the 37th returns, 31 + 3 + 4 + 0 +
10 + 12 = 60. -/
theorem GameRand_deterministic_witness :
    (GameRand (randWorlds (0 + 36))).1 = (GameRand (randWorlds 0)).1 ∧
    (GameRand (randWorlds 0)).1 = 60 ∧
    (GameRand (randWorlds 0)).2.randStepCount < randtable.length :=
  ⟨(GameRand_deterministic randWorlds
      (fun k => congrArg World.randStepCount (randWorlds_succ k)) randWorlds_fixed).2.2 0,
    by decide,
    ((GameRand_deterministic randWorlds
      (fun k => congrArg World.randStepCount (randWorlds_succ k)) randWorlds_fixed).2.1
      (randWorlds 0)).2⟩

/-! ## C35 -/

theorem HurtPlayer_spared (g : Glue) (w : World) (h : hurtSpared w) : HurtPlayer g w = w := by
  unfold HurtPlayer
  exact if_pos h

theorem HurtPlayerHealth_eq (v : World) :
    HurtPlayerHealth v =
      { v with
        playerHealth := wsub v.playerHealth 1,
        playerDeadTime := if wsub v.playerHealth 1 = 0 then 1 else v.playerDeadTime,
        scooterMounted := if wsub v.playerHealth 1 = 0 then 0 else v.scooterMounted,
        playerHurtCooldown := if wsub v.playerHealth 1 = 0 then v.playerHurtCooldown
          else 44 } := by
  unfold HurtPlayerHealth
  simp only []
  by_cases h : wsub v.playerHealth 1 = 0
  · rw [if_pos h, if_pos h, if_pos h, if_pos h]
  · rw [if_neg h, if_neg h, if_neg h, if_neg h]

/-- The globals after a call of `HurtPlayer` that does not take the early `return`. -/
theorem HurtPlayer_hurt (g : Glue) (w : World) (h : ¬ hurtSpared w) :
    ∃ sb a n i b p, HurtPlayer g w =
      { w with
        playerClingDir := DIR4_NONE, sawHurtBubble := sb, actors := a, numActors := n,
        nextActorIndex := i, numBarrels := b, pounceHintState := p,
        playerHealth := wsub w.playerHealth 1,
        playerDeadTime := if wsub w.playerHealth 1 = 0 then 1 else w.playerDeadTime,
        scooterMounted := if wsub w.playerHealth 1 = 0 then 0 else w.scooterMounted,
        playerHurtCooldown := if wsub w.playerHealth 1 = 0 then w.playerHurtCooldown
          else 44 } := by
  unfold HurtPlayer
  unfold hurtSpared at h
  rw [if_neg h]
  simp only []
  by_cases hs : w.sawHurtBubble = false
  · rw [if_pos hs]
    obtain ⟨a, n, i, b, p, e1⟩ := HurtPlayerBubble_frame g { w with playerClingDir := DIR4_NONE }
    rw [e1, HurtPlayerHealth_eq]
    exact ⟨_, _, _, _, _, _, rfl⟩
  · rw [if_neg hs, HurtPlayerHealth_eq]
    exact ⟨w.sawHurtBubble, w.actors, w.numActors, w.nextActorIndex, w.numBarrels,
      w.pounceHintState, rfl⟩

theorem DrawPlayerHelperAlive_cooldown (v : World) (h : v.playerHurtCooldown ≠ 0)
    (hw : v.playerHurtCooldown < 65536) :
    (DrawPlayerHelperAlive v).playerHurtCooldown = v.playerHurtCooldown - 1 := by
  unfold DrawPlayerHelperAlive
  rw [if_pos h]
  show wsub v.playerHurtCooldown 1 = _
  unfold wsub
  omega

/-- The hurt cooldown in the frames after a hurt: 44 less one per frame. -/
theorem hurt_cooldown_runs (s : Nat → World) (h0 : (s 0).playerHurtCooldown = 44)
    (hstep : ∀ k, (s (k + 1)).playerHurtCooldown =
      (DrawPlayerHelperAlive (s k)).playerHurtCooldown)
    (k : Nat) (hk : k ≤ 44) : (s k).playerHurtCooldown = 44 - k := by
  induction k with
  | zero => exact h0
  | succ k ih =>
    have e := ih (by omega)
    rw [hstep, DrawPlayerHelperAlive_cooldown (s k) (by omega) (by omega), e]
    omega
/-- C35: `HurtPlayer` changes no global when the player is dead, in god mode,
action-blocked, in a transporter, invincible, in a pipe or in hurt cooldown.
Otherwise it takes one off `playerHealth`, sets `playerClingDir` to
`DIR4_NONE`, and sets `playerDeadTime` to 1 exactly when the health has reached
0 and `playerHurtCooldown` to 44 exactly when it has not.  After a hurt that
leaves health, in frames `s 0`, `s 1`, ... between which only the statement of
`DrawPlayerHelper` writes the cooldown, the cooldown is 44 - k in frame k, a
`HurtPlayer` call in any frame k < 44 changes no global, and the cooldown is 0
in frame 44. -/
theorem HurtPlayer_health (g : Glue) (w : World) (s : Nat → World)
    (h0 : s 0 = HurtPlayer g w)
    (hstep : ∀ k, (s (k + 1)).playerHurtCooldown =
      (DrawPlayerHelperAlive (s k)).playerHurtCooldown) :
    (hurtSpared w → HurtPlayer g w = w) ∧
    (¬ hurtSpared w →
      (HurtPlayer g w).playerHealth = wsub w.playerHealth 1 ∧
      (1 ≤ w.playerHealth → w.playerHealth < 65536 →
        (HurtPlayer g w).playerHealth = w.playerHealth - 1) ∧
      (HurtPlayer g w).playerClingDir = DIR4_NONE ∧
      ((HurtPlayer g w).playerDeadTime = 1 ↔ (HurtPlayer g w).playerHealth = 0) ∧
      ((HurtPlayer g w).playerHurtCooldown = 44 ↔ (HurtPlayer g w).playerHealth ≠ 0) ∧
      ((HurtPlayer g w).playerHealth ≠ 0 →
        (∀ k, k < 44 → (s k).playerHurtCooldown = 44 - k ∧ HurtPlayer g (s k) = s k) ∧
        (s 44).playerHurtCooldown = 0)) := by
  refine ⟨HurtPlayer_spared g w, fun hn => ?_⟩
  have hdead : w.playerDeadTime = 0 := by
    by_contra hc
    exact hn (Or.inl hc)
  have hcool : w.playerHurtCooldown = 0 := by
    by_contra hc
    exact hn (Or.inr (Or.inr (Or.inr (Or.inr (Or.inr (Or.inr hc))))))
  obtain ⟨sb, a, n, i, b, p, e⟩ := HurtPlayer_hurt g w hn
  have hh : (HurtPlayer g w).playerHealth = wsub w.playerHealth 1 := by rw [e]
  have hd : (HurtPlayer g w).playerDeadTime =
      if wsub w.playerHealth 1 = 0 then 1 else w.playerDeadTime := by rw [e]
  have hc : (HurtPlayer g w).playerHurtCooldown =
      if wsub w.playerHealth 1 = 0 then w.playerHurtCooldown else 44 := by rw [e]
  have hcl : (HurtPlayer g w).playerClingDir = DIR4_NONE := by rw [e]
  refine ⟨hh, fun h1 h2 => ?_, hcl, ?_, ?_, fun hne => ?_⟩
  · rw [hh]
    unfold wsub
    omega
  · rw [hd, hh]
    by_cases hz : wsub w.playerHealth 1 = 0
    · rw [if_pos hz]
      exact ⟨fun _ => hz, fun _ => rfl⟩
    · rw [if_neg hz, hdead]
      exact ⟨fun h => absurd h (by decide), fun h => absurd h hz⟩
  · rw [hc, hh]
    by_cases hz : wsub w.playerHealth 1 = 0
    · rw [if_pos hz, hcool]
      exact ⟨fun h => absurd h (by decide), fun h => absurd hz h⟩
    · rw [if_neg hz]
      exact ⟨fun _ => hz, fun _ => rfl⟩
  · rw [hh] at hne
    have h44 : (s 0).playerHurtCooldown = 44 := by
      rw [h0, hc, if_neg hne]
    refine ⟨fun k hk => ?_, ?_⟩
    · have hk2 := hurt_cooldown_runs s h44 hstep k (by omega)
      refine ⟨hk2, HurtPlayer_spared g (s k) ?_⟩
      refine Or.inr (Or.inr (Or.inr (Or.inr (Or.inr (Or.inr ?_)))))
      rw [hk2]
      omega
    · exact hurt_cooldown_runs s h44 hstep 44 (le_refl 44)

theorem hurtWorlds_succ (k : Nat) :
    hurtWorlds (k + 1) = DrawPlayerHelperAlive (hurtWorlds k) :=
  Function.iterate_succ_apply' _ _ _

/-- Witness of C35: the player of `hurtWorld` with 3 on the health counter: a
hurt leaves 2 and stops the clinging; 43 frames later a second hurt changes
nothing, and one frame on the cooldown is 0. -/
theorem HurtPlayer_health_witness :
    (HurtPlayer demoGlue (hurtWorld 3)).playerHealth = 3 - 1 ∧
    (HurtPlayer demoGlue (hurtWorld 3)).playerClingDir = DIR4_NONE ∧
    HurtPlayer demoGlue (hurtWorlds 43) = hurtWorlds 43 ∧
    (hurtWorlds 44).playerHurtCooldown = 0 :=
  ⟨((HurtPlayer_health demoGlue (hurtWorld 3) hurtWorlds rfl
      (fun k => congrArg World.playerHurtCooldown (hurtWorlds_succ k))).2 (by decide)).2.1
      (by decide) (by decide),
    ((HurtPlayer_health demoGlue (hurtWorld 3) hurtWorlds rfl
      (fun k => congrArg World.playerHurtCooldown (hurtWorlds_succ k))).2 (by decide)).2.2.1,
    ((((HurtPlayer_health demoGlue (hurtWorld 3) hurtWorlds rfl
      (fun k => congrArg World.playerHurtCooldown (hurtWorlds_succ k))).2
      (by decide)).2.2.2.2.2 (by decide)).1 43 (by decide)).2,
    (((HurtPlayer_health demoGlue (hurtWorld 3) hurtWorlds rfl
      (fun k => congrArg World.playerHurtCooldown (hurtWorlds_succ k))).2
      (by decide)).2.2.2.2.2 (by decide)).2⟩

/-! ## C38 -/

/-- The two places of `NewActor` that call `NewActorAtIndex`, for an actor type
of the `default` case that is not the parachute ball: only `nextActorIndex` is
written. -/
theorem NewActorAt_unknown (g : Glue) (w : World) (i t x y : Nat)
    (hcase : g.actorCases t x y = none) (hball : t ≠ g.ACT_PARACHUTE_BALL) :
    NewActorAt g w i t x y = { w with nextActorIndex := i } := by
  unfold NewActorAt NewActorAtIndex
  simp only [hcase]
  rw [if_neg hball]

/-- The function `NewActor` for an actor type of the `default` case of
`NewActorAtIndex`: no actor is written; `numActors` stays when a dead slot
is found and when the array is full, and is incremented when the array grows. -/
theorem NewActor_unknown_type (g : Glue) (w : World) (t x y : Nat)
    (hcase : g.actorCases t x y = none) (hball : t ≠ g.ACT_PARACHUTE_BALL) :
    (NewActor g w t x y).actors = w.actors ∧
    (∀ k, k < w.numActors → (w.actors k).dead = true →
      (∀ j, j < k → (w.actors j).dead = false) →
      NewActor g w t x y = { w with nextActorIndex := k }) ∧
    ((∀ j, j < w.numActors → (w.actors j).dead = false) →
      w.numActors < wsub g.MAX_ACTORS 2 →
      NewActor g w t x y =
        { w with nextActorIndex := w.numActors, numActors := wadd w.numActors 1 }) ∧
    ((∀ j, j < w.numActors → (w.actors j).dead = false) →
      ¬ (w.numActors < wsub g.MAX_ACTORS 2) → NewActor g w t x y = w) := by
  have hdead : ∀ k, k < w.numActors → (w.actors k).dead = true →
      (∀ j, j < k → (w.actors j).dead = false) →
      NewActor g w t x y = { w with nextActorIndex := k } := by
    intro k hk hd hlow
    unfold NewActor
    rw [NewActorLoop_found g t x y w w.numActors 0 k (Nat.zero_le k) (by omega) hd
      (fun j _ hj => hlow j hj)]
    exact NewActorAt_unknown g w k t x y hcase hball
  have hgrow : (∀ j, j < w.numActors → (w.actors j).dead = false) →
      w.numActors < wsub g.MAX_ACTORS 2 →
      NewActor g w t x y =
        { w with nextActorIndex := w.numActors, numActors := wadd w.numActors 1 } := by
    intro hlive hroom
    unfold NewActor
    rw [NewActorLoop_none g t x y w w.numActors 0 (fun j _ hj => hlive j (by omega))]
    simp only []
    rw [if_pos hroom, NewActorAt_unknown g w w.numActors t x y hcase hball]
  have hfull : (∀ j, j < w.numActors → (w.actors j).dead = false) →
      ¬ (w.numActors < wsub g.MAX_ACTORS 2) → NewActor g w t x y = w := by
    intro hlive hroom
    unfold NewActor
    rw [NewActorLoop_none g t x y w w.numActors 0 (fun j _ hj => hlive j (by omega))]
    simp only []
    rw [if_neg hroom]
  refine ⟨?_, hdead, hgrow, hfull⟩
  by_cases hex : ∃ k, k < w.numActors ∧ (w.actors k).dead = true
  · have hex2 : ∃ k, k < w.numActors ∧ (w.actors k).dead = true ∧
        ∀ j, j < k → (w.actors j).dead = false := by
      classical
      refine ⟨Nat.find hex, (Nat.find_spec hex).1, (Nat.find_spec hex).2, fun j hj => ?_⟩
      have hmin := Nat.find_min hex hj
      have hjn : j < w.numActors := lt_trans hj (Nat.find_spec hex).1
      cases hd : (w.actors j).dead with
      | false => rfl
      | true => exact absurd ⟨hjn, hd⟩ hmin
    obtain ⟨k, hk, hd, hlow⟩ := hex2
    rw [hdead k hk hd hlow]
  · have hlive : ∀ j, j < w.numActors → (w.actors j).dead = false := by
      intro j hj
      cases hd : (w.actors j).dead with
      | false => rfl
      | true => exact absurd ⟨j, hj, hd⟩ hex
    by_cases hroom : w.numActors < wsub g.MAX_ACTORS 2
    · rw [hgrow hlive hroom]
    · rw [hfull hlive hroom]

/-- C38, the failing input: `NewActor(99, 5, 6)` with a `switch` of
`NewActorAtIndex` that knows the types 1 and 11 only.  With a dead actor in
slot 1 of three, `numActors` stays 3 and the slot stays dead; with three live
actors `numActors` goes up to 4, the actor in the new slot 3 being what the
array held there, although `NewActorAtIndex` answered false.  `NewMapActor`,
which tests the answer, leaves `numActors` at 3 for the same type (map actor
130). -/
theorem NewActor_unknown_type_grows :
    tableGlue.actorCases 99 5 6 = none ∧
    (NewActorAtIndex tableGlue liveActorWorld 3 99 5 6).1 = false ∧
    (NewActor tableGlue actorWorld 99 5 6).numActors = 3 ∧
    (NewActor tableGlue actorWorld 99 5 6).actors 1 = actorWorld.actors 1 ∧
    liveActorWorld.numActors = 3 ∧
    (NewActor tableGlue liveActorWorld 99 5 6).numActors = 4 ∧
    (NewActor tableGlue liveActorWorld 99 5 6).actors 3 = liveActorWorld.actors 3 ∧
    (NewMapActor tableGlue liveActorWorld 3 130 5 6).numActors = 3 := by
  decide

/-! ## What the collision queries read -/

theorem scanNorth_congr (u v : World) (h1 : u.mapData = v.mapData)
    (h2 : u.tileAttributeData = v.tileAttributeData) (c : Int) (n i : Nat) :
    scanNorth u c n i = scanNorth v c n i := by
  induction n generalizing i with
  | zero => rfl
  | succ n ih =>
    unfold scanNorth TILE_BLOCK_NORTH
    rw [h1, h2, ih]

theorem scanSide_congr (u v : World) (h1 : u.mapData = v.mapData)
    (h2 : u.tileAttributeData = v.tileAttributeData) (h4 : u.mapWidth = v.mapWidth)
    (block : Nat → Nat) (n i : Nat) (c : Int) :
    scanSide u block n i c = scanSide v block n i c := by
  induction n generalizing i c with
  | zero => rfl
  | succ n ih =>
    unfold scanSide TILE_SLOPED
    rw [h1, h2, h4, ih]

/-- The function `TestSpriteMove` reads the map, the tile attributes, the sprite
table, `mapWidth` and `mapYPower` only. -/
theorem TestSpriteMove_congr (u v : World) (h1 : u.mapData = v.mapData)
    (h2 : u.tileAttributeData = v.tileAttributeData)
    (h3 : u.actorInfoData = v.actorInfoData) (h4 : u.mapWidth = v.mapWidth)
    (h5 : u.mapYPower = v.mapYPower) (dir : Dir4) (sprite frame x y : Nat) :
    TestSpriteMove u dir sprite frame x y = TestSpriteMove v dir sprite frame x y := by
  have hw : TILE_BLOCK_WEST u = TILE_BLOCK_WEST v := by
    funext a
    unfold TILE_BLOCK_WEST
    rw [h2]
  have he : TILE_BLOCK_EAST u = TILE_BLOCK_EAST v := by
    funext a
    unfold TILE_BLOCK_EAST
    rw [h2]
  unfold TestSpriteMove spriteHeight spriteWidth infoOffset MAP_CELL_ADDR
  cases dir <;> simp only [h3, h4, h5, hw, he, scanNorth_congr u v h1 h2,
    scanSouth_congr u v h1 h2, scanSide_congr u v h1 h2 h4]

/-- The function `IsSpriteVisible` reads the scroll position and the sprite
table only. -/
theorem IsSpriteVisible_congr (g : Glue) (u v : World) (h1 : u.actorInfoData = v.actorInfoData)
    (h2 : u.scrollX = v.scrollX) (h3 : u.scrollY = v.scrollY) (sprite frame x y : Nat) :
    IsSpriteVisible g u sprite frame x y = IsSpriteVisible g v sprite frame x y := by
  unfold IsSpriteVisible spriteHeight spriteWidth infoOffset
  rw [h1, h2, h3]
/-! ## C37 -/

theorem shardJumps_age_3 (g : Glue) (w : World) (n : Nat) (sh : Shard) (h : sh.age = 3) :
    shardJumps g w (n + 1) sh = some (0, shardAge { sh with y := wsub sh.y 2 }) := by
  have e1 : shardRise w sh = (ShardFlow.onward, { sh with y := wsub sh.y 2 }) := by
    unfold shardRise
    simp [h]
  have e2 : shardFall g w { sh with y := wsub sh.y 2 }
      = (ShardFlow.onward, { sh with y := wsub sh.y 2 }) := by
    unfold shardFall
    simp [h]
  unfold shardJumps
  simp only [e1, e2]

/-- From the label `restart`, with two units of fuel or more, the round comes to
its end after no or one `goto restart`, with the shard of `shardFromRestart`. -/
theorem shardJumps_once (g : Glue) (w : World) (n : Nat) (sh : Shard) :
    ∃ j, j ≤ 1 ∧ shardJumps g w (n + 2) sh = some (j, shardFromRestart g w 2 sh) := by
  have hr := shardRise_restart_age w sh
  conv => enter [1, j, 2, 1]; rw [shardJumps]
  conv => enter [1, j, 2, 2, 1, 2]; rw [shardFromRestart]
  rcases hrise : shardRise w sh with ⟨flow, sh1⟩
  rw [hrise] at hr
  cases flow with
  | toNext => exact ⟨0, by omega, rfl⟩
  | toRestart =>
    simp only
    rw [shardJumps_age_3 g w n sh1 (hr rfl), shardFromRestart_age_3 g w 0 sh1 (hr rfl)]
    exact ⟨1, le_refl 1, rfl⟩
  | onward =>
    simp only
    have hf := shardFall_restart_age g w sh1
    rcases hfall : shardFall g w sh1 with ⟨flow2, sh2⟩
    rw [hfall] at hf
    cases flow2 with
    | toNext => exact ⟨0, by omega, rfl⟩
    | onward => exact ⟨0, by omega, rfl⟩
    | toRestart =>
      simp only
      rw [shardJumps_age_3 g w n sh2 (hf rfl), shardFromRestart_age_3 g w 0 sh2 (hf rfl)]
      exact ⟨1, le_refl 1, rfl⟩
theorem shardStep_congr (g : Glue) (u v : World) (h1 : u.mapData = v.mapData)
    (h2 : u.tileAttributeData = v.tileAttributeData)
    (h3 : u.actorInfoData = v.actorInfoData) (h4 : u.mapWidth = v.mapWidth)
    (h5 : u.mapYPower = v.mapYPower) (h6 : u.scrollX = v.scrollX) (h7 : u.scrollY = v.scrollY)
    (sh : Shard) : shardStep g u sh = shardStep g v sh := by
  have ht := TestSpriteMove_congr u v h1 h2 h3 h4 h5
  have hv := IsSpriteVisible_congr g u v h3 h6 h7
  have hside : ∀ s, shardSideways u s = shardSideways v s := by
    intro s
    unfold shardSideways
    simp only [ht]
  have hrise : ∀ s, shardRise u s = shardRise v s := by
    intro s
    unfold shardRise
    simp only [ht]
  have hfall : ∀ s, shardFall g u s = shardFall g v s := by
    intro s
    unfold shardFall
    simp only [ht, hv]
  have hrun : ∀ n s, shardFromRestart g u n s = shardFromRestart g v n s := by
    intro n
    induction n with
    | zero => intro s; rfl
    | succ n ih =>
      intro s
      unfold shardFromRestart
      simp only [hrise, hfall, ih]
  unfold shardStep
  rw [hside, hrun]

/-- One round of the loop of `MoveAndDrawShards` writes the shard of its slot only. -/
theorem MoveAndDrawShardsBody_eq (g : Glue) (v : World) (i : Nat) :
    MoveAndDrawShardsBody g v i =
      { v with shards := arraySet v.shards i (shardStep g v (v.shards i)) } := by
  unfold MoveAndDrawShardsBody shardStep
  by_cases h : (v.shards i).age = 0
  · rw [if_pos h, if_pos h, arraySet_same]
  · rw [if_neg h, if_neg h]

theorem MoveAndDrawShardsLoop_slot (g : Glue) (n i : Nat) (v : World) :
    ∃ a, forLoop (MoveAndDrawShardsBody g) n i v = { v with shards := a } ∧
      ∀ k, a k = if i ≤ k ∧ k < i + n then shardStep g v (v.shards k) else v.shards k := by
  induction n generalizing i v with
  | zero =>
    refine ⟨v.shards, rfl, fun k => ?_⟩
    rw [if_neg (by omega)]
  | succ n ih =>
    obtain ⟨a, h1, h2⟩ := ih (i + 1)
      { v with shards := arraySet v.shards i (shardStep g v (v.shards i)) }
    refine ⟨a, ?_, fun k => ?_⟩
    · show forLoop (MoveAndDrawShardsBody g) n (i + 1) (MoveAndDrawShardsBody g v i) = _
      rw [MoveAndDrawShardsBody_eq, h1]
    · rw [h2 k]
      rw [shardStep_congr g
        { v with shards := arraySet v.shards i (shardStep g v (v.shards i)) } v
        rfl rfl rfl rfl rfl rfl rfl]
      show (if i + 1 ≤ k ∧ k < i + 1 + n then
          shardStep g v (arraySet v.shards i (shardStep g v (v.shards i)) k)
        else arraySet v.shards i (shardStep g v (v.shards i)) k) = _
      by_cases hki : k = i
      · subst hki
        rw [if_neg (by omega), if_pos (by omega), arraySet_self]
      · rw [arraySet_of_ne _ _ _ _ hki]
        by_cases hc : i + 1 ≤ k ∧ k < i + 1 + n
        · rw [if_pos hc, if_pos (by omega)]
        · rw [if_neg hc, if_neg (by omega)]

/-- One call of `MoveAndDrawShards` writes the shard pool only, each slot below
`numShards` once. -/
theorem MoveAndDrawShards_slot (g : Glue) (w : World) :
    ∃ a, MoveAndDrawShards g w = { w with shards := a } ∧
      ∀ k, a k = if k < w.numShards then shardStep g w (w.shards k) else w.shards k := by
  obtain ⟨a, h1, h2⟩ := MoveAndDrawShardsLoop_slot g w.numShards 0 w
  refine ⟨a, h1, fun k => ?_⟩
  rw [h2 k]
  by_cases hk : k < w.numShards
  · rw [if_pos hk, if_pos (by omega)]
  · rw [if_neg hk, if_neg (by omega)]

/-- C37: the `goto restart` of `MoveAndDrawShards`.  For every shard and every
map, the statements from the label `restart` on, given two or more arrivals at
the label, end the round after no or one `goto restart`, with the shard that the
model of the pass computes.  So one call of `MoveAndDrawShards` ends: it writes
the shard pool only, leaves the slots from `numShards` on, and gives each slot
below `numShards` the result of one round on the shard that was in it. -/
theorem MoveAndDrawShards_restarts_once (g : Glue) (w : World) :
    (∀ (sh : Shard) (n : Nat), ∃ j, j ≤ 1 ∧
      shardJumps g w (n + 2) sh = some (j, shardFromRestart g w 2 sh)) ∧
    (∃ a, MoveAndDrawShards g w = { w with shards := a } ∧
      ∀ k, a k = if k < w.numShards then shardStep g w (w.shards k) else w.shards k) :=
  ⟨fun sh n => shardJumps_once g w n sh, MoveAndDrawShards_slot g w⟩
/-! ## C34 -/

theorem shardSideways_bounced (w : World) (sh : Shard) :
    (shardSideways w sh).bounced = sh.bounced ∧ (shardSideways w sh).age = sh.age := by
  unfold shardSideways
  simp only []
  split_ifs <;> exact ⟨rfl, rfl⟩

theorem shardRise_bounced (w : World) (sh : Shard) :
    (shardRise w sh).2.bounced = sh.bounced := by
  unfold shardRise
  simp only []
  split_ifs <;> rfl

theorem shardFall_bounced (g : Glue) (w : World) (sh : Shard) :
    (sh.bounced = true → (shardFall g w sh).2.bounced = true ∧
      (shardFall g w sh).1 ≠ ShardFlow.toRestart) ∧
    ((shardFall g w sh).1 = ShardFlow.toRestart →
      sh.bounced = false ∧ (shardFall g w sh).2.bounced = true) := by
  unfold shardFall
  simp only []
  split_ifs with h1 h2 h3 h4
  · exact ⟨fun h => ⟨h, fun hc => ShardFlow.noConfusion hc⟩, fun h => False.elim h⟩
  · exact ⟨fun h => absurd (h.symm.trans h3.1) (by decide), fun _ => ⟨h3.1, rfl⟩⟩
  · exact ⟨fun h => absurd (h.symm.trans h4.1) (by decide), fun _ => ⟨h4.1, rfl⟩⟩
  · exact ⟨fun h => ⟨h, fun hc => ShardFlow.noConfusion hc⟩, fun h => False.elim h⟩
  · exact ⟨fun h => ⟨h, fun hc => ShardFlow.noConfusion hc⟩, fun h => False.elim h⟩

theorem shardAge_bounced (sh : Shard) : (shardAge sh).bounced = sh.bounced := by
  unfold shardAge
  simp only []
  split_ifs <;> rfl

/-- A shard that has bounced keeps the flag `bounced` through a round of the
loop of `MoveAndDrawShards`. -/
theorem shardStep_bounced (g : Glue) (w : World) (sh : Shard) (h : sh.bounced = true) :
    (shardStep g w sh).bounced = true := by
  unfold shardStep
  by_cases h0 : sh.age = 0
  · rw [if_pos h0]
    exact h
  · rw [if_neg h0]
    have hs : (shardSideways w sh).bounced = true := (shardSideways_bounced w sh).1.trans h
    generalize shardSideways w sh = s at hs
    have hr := shardRise_bounced w s
    have hra := shardRise_restart_age w s
    unfold shardFromRestart
    rcases hrise : shardRise w s with ⟨flow, s1⟩
    rw [hrise] at hr hra
    have hs1 : s1.bounced = true := hr.trans hs
    cases flow with
    | toNext => exact hs1
    | toRestart =>
      simp only
      rw [shardFromRestart_age_3 g w 0 s1 (hra rfl), shardAge_bounced]
      exact hs1
    | onward =>
      simp only
      have hf := (shardFall_bounced g w s1).1 hs1
      rcases hfall : shardFall g w s1 with ⟨flow2, s2⟩
      rw [hfall] at hf
      cases flow2 with
      | toNext => exact hf.1
      | onward =>
        simp only
        rw [shardAge_bounced]
        exact hf.1
      | toRestart => exact absurd rfl hf.2

/-- A round of the loop of `MoveAndDrawShards` that takes a `goto restart` of
the bounce finds the flag `bounced` clear and leaves it set. -/
theorem shardBounces_sets (g : Glue) (w : World) (sh : Shard)
    (h : shardBounces g w sh = true) :
    sh.bounced = false ∧ (shardStep g w sh).bounced = true := by
  unfold shardBounces at h
  obtain ⟨h0, h1, h2⟩ := of_decide_eq_true h
  have hs := (shardSideways_bounced w sh).1
  unfold shardStep
  rw [if_neg h0]
  generalize shardSideways w sh = s at hs h1 h2
  have hr := shardRise_bounced w s
  unfold shardFromRestart
  rcases hrise : shardRise w s with ⟨flow, s1⟩
  rw [hrise] at hr h1 h2
  have e1 : flow = ShardFlow.onward := h1
  subst e1
  simp only
  have hf := (shardFall_bounced g w s1).2 h2
  have hfa := shardFall_restart_age g w s1
  rcases hfall : shardFall g w s1 with ⟨flow2, s2⟩
  rw [hfall] at hf h2 hfa
  have e2 : flow2 = ShardFlow.toRestart := h2
  subst e2
  simp only
  rw [shardFromRestart_age_3 g w 0 s2 (hfa rfl), shardAge_bounced]
  exact ⟨hs.symm.trans (hr.symm.trans hf.1), hf.2⟩
/-- C34, counterexample: a shard made by `NewShard(0, 0, 10, 28)` eight rows
under a platform of south-blocking tiles, in the only slot of the pool.  The
seventh call of `MoveAndDrawShards` leaves it at age 8, the eighth, which finds
the platform under it at the top of its arc, at age 4; the fourteenth leaves
it at age 10, the fifteenth, in which it comes down on the platform, at age 4
again with `bounced` set.  The age has gone back twice, and the shard is live
all the time. -/
theorem MoveAndDrawShards_resets_age_twice :
    ((platformWorlds 0).shards 0).age = 1 ∧
    ((platformWorlds 7).shards 0).age = 8 ∧
    ((platformWorlds 8).shards 0).age = 4 ∧
    ((platformWorlds 8).shards 0).bounced = false ∧
    ((platformWorlds 14).shards 0).age = 10 ∧
    ((platformWorlds 15).shards 0).age = 4 ∧
    ((platformWorlds 15).shards 0).bounced = true := by
  decide

/-- C34, amended: the bounce of a shard.  Take the rounds of the loop of
`MoveAndDrawShards` on one shard, round `k` on the shard `sh k` in the globals
`ws k`, whatever the maps are.  A round that takes a `goto restart` of the
bounce, under `if (sh->age >= 9)`, finds `bounced` clear and leaves it set, and
no later round takes one.  One call of `MoveAndDrawShards` is one such round
on every slot below `numShards`. -/
theorem shard_bounces_once (g : Glue) (ws : Nat → World) (sh : Nat → Shard) (n : Nat)
    (hstep : ∀ k, k < n → sh (k + 1) = shardStep g (ws k) (sh k)) :
    (∀ k, k < n → shardBounces g (ws k) (sh k) = true →
      (sh k).bounced = false ∧ (sh (k + 1)).bounced = true) ∧
    (∀ j k, j < k → k < n → shardBounces g (ws j) (sh j) = true →
      shardBounces g (ws k) (sh k) = false) ∧
    (∀ (w : World) (i : Nat), i < w.numShards →
      (MoveAndDrawShards g w).shards i = shardStep g w (w.shards i)) := by
  have hset : ∀ k, k < n → shardBounces g (ws k) (sh k) = true →
      (sh k).bounced = false ∧ (sh (k + 1)).bounced = true := by
    intro k hk hb
    rw [hstep k hk]
    exact shardBounces_sets g (ws k) (sh k) hb
  have hkeep : ∀ j d, j + d ≤ n → (sh j).bounced = true → (sh (j + d)).bounced = true := by
    intro j d
    induction d with
    | zero => exact fun _ h => h
    | succ d ih =>
      intro hle h
      have e : j + (d + 1) = j + d + 1 := rfl
      rw [e, hstep (j + d) (by omega)]
      exact shardStep_bounced g _ _ (ih (by omega) h)
  refine ⟨hset, fun j k hjk hk hb => ?_, fun w i hi => ?_⟩
  · have h1 := (hset j (by omega) hb).2
    have h2 := hkeep (j + 1) (k - (j + 1)) (by omega) h1
    have e : j + 1 + (k - (j + 1)) = k := by omega
    rw [e] at h2
    cases hc : shardBounces g (ws k) (sh k) with
    | false => rfl
    | true =>
      have h3 := (shardBounces_sets g (ws k) (sh k) hc).1
      exact absurd (h2.symm.trans h3) (by decide)
  · obtain ⟨a, h1, h2⟩ := MoveAndDrawShards_slot g w
    rw [h1]
    show a i = _
    rw [h2 i, if_pos hi]

theorem platformWorlds_succ (k : Nat) :
    platformWorlds (k + 1) = MoveAndDrawShards demoGlue (platformWorlds k) :=
  Function.iterate_succ_apply' _ _ _

theorem platformWorlds_numShards (k : Nat) : (platformWorlds k).numShards = 1 := by
  induction k with
  | zero => decide
  | succ k ih =>
    rw [platformWorlds_succ]
    obtain ⟨a, h1, _⟩ := MoveAndDrawShards_slot demoGlue (platformWorlds k)
    rw [h1]
    exact ih

theorem platformWorlds_step (k : Nat) :
    (platformWorlds (k + 1)).shards 0 =
      shardStep demoGlue (platformWorlds k) ((platformWorlds k).shards 0) := by
  rw [platformWorlds_succ]
  obtain ⟨a, h1, h2⟩ := MoveAndDrawShards_slot demoGlue (platformWorlds k)
  rw [h1]
  show a 0 = _
  rw [h2 0, if_pos (by rw [platformWorlds_numShards]; decide)]

/-- Witness of C34, amended: the shard of `platformWorld`.  Its fifteenth
round is the bounce: `bounced` is clear before it and set after it, and the
sixteenth round is no bounce. -/
theorem shard_bounces_once_witness :
    (((platformWorlds 14).shards 0).bounced = false ∧
      ((platformWorlds (14 + 1)).shards 0).bounced = true) ∧
    shardBounces demoGlue (platformWorlds 15) ((platformWorlds 15).shards 0) = false :=
  ⟨(shard_bounces_once demoGlue platformWorlds (fun k => (platformWorlds k).shards 0) 16
      (fun k _ => platformWorlds_step k)).1 14 (by decide) (by decide),
    (shard_bounces_once demoGlue platformWorlds (fun k => (platformWorlds k).shards 0) 16
      (fun k _ => platformWorlds_step k)).2.1 14 15 (by decide) (by decide) (by decide)⟩

/-! ## C32 -/

theorem spawnerRise_congr (u v : World) (h1 : u.mapData = v.mapData)
    (h2 : u.tileAttributeData = v.tileAttributeData)
    (h3 : u.actorInfoData = v.actorInfoData) (h4 : u.mapWidth = v.mapWidth)
    (h5 : u.mapYPower = v.mapYPower) (sp : Spawner) :
    spawnerRise u sp = spawnerRise v sp := by
  have ht := TestSpriteMove_congr u v h1 h2 h3 h4 h5
  unfold spawnerRise
  simp only [ht]

theorem spawnerStep_congr (g : Glue) (u v : World) (h1 : u.mapData = v.mapData)
    (h2 : u.tileAttributeData = v.tileAttributeData)
    (h3 : u.actorInfoData = v.actorInfoData) (h4 : u.mapWidth = v.mapWidth)
    (h5 : u.mapYPower = v.mapYPower) (sp : Spawner) :
    spawnerStep g u sp = spawnerStep g v sp := by
  unfold spawnerStep
  rw [spawnerRise_congr u v h1 h2 h3 h4 h5]

/-- The statements `NewActor(...); sp->actor = ACT_BASKET_NULL;` of
`MoveAndDrawSpawners` write the actor globals and the slot of the spawner. -/
theorem spawnerHatch_frame (g : Glue) (v : World) (i y : Nat) :
    ∃ a n j b, spawnerHatch g v i y =
      { v with
        actors := a, numActors := n, nextActorIndex := j, numBarrels := b,
        spawners := arraySet v.spawners i
          { (v.spawners i) with actor := g.ACT_BASKET_NULL } } := by
  obtain ⟨a, n, j, b, h⟩ := NewActor_frame g v (v.spawners i).actor (v.spawners i).x y
  refine ⟨a, n, j, b, ?_⟩
  unfold spawnerHatch
  simp only []
  rw [h]

/-- One round of the loop of `MoveAndDrawSpawners` writes the spawner of its
slot and, through `NewActor`, the actor globals. -/
theorem MoveAndDrawSpawnersBody_frame (g : Glue) (v : World) (i : Nat) :
    ∃ a n j b, MoveAndDrawSpawnersBody g v i =
      { v with
        actors := a, numActors := n, nextActorIndex := j, numBarrels := b,
        spawners := arraySet v.spawners i (spawnerStep g v (v.spawners i)) } := by
  unfold MoveAndDrawSpawnersBody spawnerStep
  by_cases h0 : (v.spawners i).actor = g.ACT_BASKET_NULL
  · rw [if_pos h0, if_pos h0, arraySet_same]
    exact ⟨_, _, _, _, rfl⟩
  · rw [if_neg h0, if_neg h0]
    simp only []
    generalize spawnerRise v { (v.spawners i) with age := wadd (v.spawners i).age 1 } = r
    by_cases h1 : r.1 = true
    · rw [if_pos h1, if_pos (Or.inl h1)]
      obtain ⟨a, n, j, b, h⟩ := spawnerHatch_frame g
        { v with spawners := arraySet v.spawners i r.2 } i (wadd r.2.y 1)
      rw [h]
      refine ⟨a, n, j, b, ?_⟩
      simp only [arraySet_self, arraySet_arraySet]
    · rw [if_neg h1]
      by_cases h2 : r.2.age = 11
      · rw [if_pos h2, if_pos (Or.inr h2)]
        obtain ⟨a, n, j, b, h⟩ := spawnerHatch_frame g
          { v with spawners := arraySet v.spawners i r.2 } i r.2.y
        rw [h]
        refine ⟨a, n, j, b, ?_⟩
        simp only [arraySet_self, arraySet_arraySet]
      · rw [if_neg h2, if_neg (fun h => h.elim h1 h2)]
        exact ⟨_, _, _, _, rfl⟩
theorem MoveAndDrawSpawnersLoop_slot (g : Glue) (n i : Nat) (v : World) :
    ∃ a m j b sp, forLoop (MoveAndDrawSpawnersBody g) n i v =
        { v with actors := a, numActors := m, nextActorIndex := j, numBarrels := b,
                 spawners := sp } ∧
      ∀ k, sp k = if i ≤ k ∧ k < i + n then spawnerStep g v (v.spawners k)
        else v.spawners k := by
  induction n generalizing i v with
  | zero =>
    refine ⟨v.actors, v.numActors, v.nextActorIndex, v.numBarrels, v.spawners, rfl, fun k => ?_⟩
    rw [if_neg (by omega)]
  | succ n ih =>
    obtain ⟨a0, m0, j0, b0, hb⟩ := MoveAndDrawSpawnersBody_frame g v i
    obtain ⟨a, m, j, b, sp, h1, h2⟩ := ih (i + 1)
      { v with
        actors := a0, numActors := m0, nextActorIndex := j0, numBarrels := b0,
        spawners := arraySet v.spawners i (spawnerStep g v (v.spawners i)) }
    refine ⟨a, m, j, b, sp, ?_, fun k => ?_⟩
    · show forLoop (MoveAndDrawSpawnersBody g) n (i + 1) (MoveAndDrawSpawnersBody g v i) = _
      rw [hb, h1]
    · rw [h2 k]
      rw [spawnerStep_congr g
        { v with
          actors := a0, numActors := m0, nextActorIndex := j0, numBarrels := b0,
          spawners := arraySet v.spawners i (spawnerStep g v (v.spawners i)) } v
        rfl rfl rfl rfl rfl]
      show (if i + 1 ≤ k ∧ k < i + 1 + n then
          spawnerStep g v (arraySet v.spawners i (spawnerStep g v (v.spawners i)) k)
        else arraySet v.spawners i (spawnerStep g v (v.spawners i)) k) = _
      by_cases hki : k = i
      · subst hki
        rw [if_neg (by omega), if_pos (by omega), arraySet_self]
      · rw [arraySet_of_ne _ _ _ _ hki]
        by_cases hc : i + 1 ≤ k ∧ k < i + 1 + n
        · rw [if_pos hc, if_pos (by omega)]
        · rw [if_neg hc, if_neg (by omega)]

/-- One call of `MoveAndDrawSpawners` takes each slot below `numSpawners`
through one round. -/
theorem MoveAndDrawSpawners_slot (g : Glue) (w : World) (k : Nat) (hk : k < w.numSpawners) :
    (MoveAndDrawSpawners g w).spawners k = spawnerStep g w (w.spawners k) := by
  obtain ⟨a, m, j, b, sp, h1, h2⟩ := MoveAndDrawSpawnersLoop_slot g w.numSpawners 0 w
  unfold MoveAndDrawSpawners
  rw [h1]
  show sp k = _
  rw [h2 k, if_pos (by omega)]

/-- The rise of a spawner whose northward tests are free. -/
theorem spawnerRise_free (w : World) (actor x y k : Nat) (hy : 19 ≤ y) (hy2 : y < 65536)
    (hk : k ≤ 10) (hfree : spawnerFree w actor x y k) :
    spawnerRise w { actor := actor, x := x, y := y - spawnerRows k, age := wadd k 1 } =
      (false, { actor := actor, x := x, y := y - spawnerRows (k + 1), age := k + 1 }) := by
  obtain ⟨hf1, hf2⟩ := hfree
  have hage : wadd k 1 = k + 1 := by
    unfold wadd
    omega
  have hrows : spawnerRows k ≤ 18 := by
    unfold spawnerRows
    split_ifs <;> omega
  have e1 : wsub (y - spawnerRows k) 1 = y - spawnerRows k - 1 := by
    unfold wsub
    omega
  rw [hage]
  unfold spawnerRise
  simp only [e1]
  rw [if_neg (fun h => h hf1)]
  by_cases h8 : k < 8
  · have hrows8 : spawnerRows k ≤ 14 := by
      unfold spawnerRows
      rw [if_pos (by omega)]
      omega
    have e2 : wsub (y - spawnerRows k - 1) 1 = y - spawnerRows k - 2 := by
      unfold wsub
      omega
    rw [if_pos (by omega), e2]
    have hr : y - spawnerRows k - 2 = y - spawnerRows (k + 1) := by
      unfold spawnerRows
      rw [if_pos (by omega), if_pos (by omega)]
      omega
    rw [hf2 h8, hr]
    rfl
  · rw [if_neg (by omega)]
    have hr : y - spawnerRows k - 1 = y - spawnerRows (k + 1) := by
      unfold spawnerRows
      by_cases h88 : k = 8
      · subst h88
        rw [if_pos (by omega), if_neg (by omega)]
        omega
      · rw [if_neg (by omega), if_neg (by omega)]
        omega
    rw [hr]

/-- One round on a spawner whose northward tests are free. -/
theorem spawnerStep_free (g : Glue) (w : World) (actor x y k : Nat)
    (hact : actor ≠ g.ACT_BASKET_NULL) (hy : 19 ≤ y) (hy2 : y < 65536)
    (hk : k ≤ 10) (hfree : spawnerFree w actor x y k) :
    spawnerStep g w { actor := actor, x := x, y := y - spawnerRows k, age := k } =
      { actor := if k = 10 then g.ACT_BASKET_NULL else actor, x := x,
        y := y - spawnerRows (k + 1), age := k + 1 } := by
  have hr := spawnerRise_free w actor x y k hy hy2 hk hfree
  unfold spawnerStep
  rw [if_neg hact]
  simp only []
  rw [hr]
  by_cases h10 : k = 10
  · rw [if_pos (Or.inr (by show k + 1 = 11; omega)), if_pos h10]
  · rw [if_neg (by
      intro h
      rcases h with h | h
      · exact Bool.false_ne_true h
      · exact h10 (by
          have h' : k + 1 = 11 := h
          omega)), if_neg h10]
theorem spawnerRise_age (w : World) (sp : Spawner) :
    (spawnerRise w sp).2.age = sp.age ∧ (spawnerRise w sp).2.actor = sp.actor := by
  unfold spawnerRise
  simp only []
  split_ifs <;> exact ⟨rfl, rfl⟩

/-- One round frees a spawner or adds one to its age, which is then not 11. -/
theorem spawnerStep_age (g : Glue) (w : World) (sp : Spawner)
    (hlive : sp.actor ≠ g.ACT_BASKET_NULL) :
    (spawnerStep g w sp).actor = g.ACT_BASKET_NULL ∨
    ((spawnerStep g w sp).actor = sp.actor ∧ (spawnerStep g w sp).age = wadd sp.age 1 ∧
      wadd sp.age 1 ≠ 11) := by
  obtain ⟨ha, hc⟩ := spawnerRise_age w { sp with age := wadd sp.age 1 }
  unfold spawnerStep
  rw [if_neg hlive]
  generalize spawnerRise w { sp with age := wadd sp.age 1 } = r at ha hc
  by_cases h : r.1 = true ∨ r.2.age = 11
  · rw [if_pos h]
    exact Or.inl rfl
  · rw [if_neg h]
    refine Or.inr ⟨hc, ha, fun h11 => h (Or.inr (ha.trans h11))⟩

theorem spawnerStep_freed (g : Glue) (w : World) (sp : Spawner)
    (h : sp.actor = g.ACT_BASKET_NULL) : spawnerStep g w sp = sp := by
  unfold spawnerStep
  rw [if_pos h]

/-- A spawner made with age 0 is freed by its eleventh round at the latest,
whatever the northward tests answer. -/
theorem spawner_freed_by_11 (g : Glue) (t : Nat → World) (i : Nat)
    (hi : ∀ k, i < (t k).numSpawners) (h0 : ((t 0).spawners i).age = 0)
    (hstep : ∀ k, (t (k + 1)).spawners i = (MoveAndDrawSpawners g (t k)).spawners i)
    (k : Nat) :
    ((t k).spawners i).actor = g.ACT_BASKET_NULL ∨
      (((t k).spawners i).age = k ∧ k ≤ 10) := by
  induction k with
  | zero => exact Or.inr ⟨h0, by omega⟩
  | succ k ih =>
    rw [hstep k, MoveAndDrawSpawners_slot g (t k) i (hi k)]
    rcases ih with ih | ⟨ih1, ih2⟩
    · rw [spawnerStep_freed g _ _ ih]
      exact Or.inl ih
    · by_cases hl : ((t k).spawners i).actor = g.ACT_BASKET_NULL
      · rw [spawnerStep_freed g _ _ hl]
        exact Or.inl hl
      · rcases spawnerStep_age g (t k) _ hl with h | ⟨_, h2, h3⟩
        · exact Or.inl h
        · rw [ih1] at h2 h3
          have e : wadd k 1 = k + 1 := by
            unfold wadd
            omega
          rw [e] at h2 h3
          exact Or.inr ⟨h2, by omega⟩

/-- The round that finds a spawner at an age below 10, with free northward
tests, writes the spawner only. -/
theorem MoveAndDrawSpawnersBody_rise (g : Glue) (v : World) (i actor x y k : Nat)
    (hact : actor ≠ g.ACT_BASKET_NULL) (hy : 19 ≤ y) (hy2 : y < 65536) (hk : k < 10)
    (hslot : v.spawners i = { actor := actor, x := x, y := y - spawnerRows k, age := k })
    (hfree : spawnerFree v actor x y k) :
    MoveAndDrawSpawnersBody g v i =
      { v with
        spawners := arraySet v.spawners i
          { actor := actor, x := x, y := y - spawnerRows (k + 1), age := k + 1 } } := by
  have hr := spawnerRise_free v actor x y k hy hy2 (by omega) hfree
  unfold MoveAndDrawSpawnersBody
  rw [hslot, if_neg hact]
  simp only []
  rw [hr]
  simp only []
  rw [if_neg Bool.false_ne_true, if_neg (by show ¬ (k + 1 = 11); omega)]

/-- The round that finds a spawner at age 10, with a free northward test, calls
`NewActor(sp->actor, sp->x, sp->y)` one row up and frees the slot. -/
theorem MoveAndDrawSpawnersBody_hatch (g : Glue) (v : World) (i actor x y : Nat)
    (hact : actor ≠ g.ACT_BASKET_NULL) (hy : 19 ≤ y) (hy2 : y < 65536)
    (hslot : v.spawners i = { actor := actor, x := x, y := y - spawnerRows 10, age := 10 })
    (hfree : spawnerFree v actor x y 10) :
    ∃ a n j b,
      NewActor g
          { v with
            spawners := arraySet v.spawners i
              { actor := actor, x := x, y := y - 19, age := 11 } }
          actor x (y - 19) =
        { v with
          actors := a, numActors := n, nextActorIndex := j, numBarrels := b,
          spawners := arraySet v.spawners i
            { actor := actor, x := x, y := y - 19, age := 11 } } ∧
      MoveAndDrawSpawnersBody g v i =
        { v with
          actors := a, numActors := n, nextActorIndex := j, numBarrels := b,
          spawners := arraySet v.spawners i
            { actor := g.ACT_BASKET_NULL, x := x, y := y - 19, age := 11 } } := by
  have hr := spawnerRise_free v actor x y 10 hy hy2 (le_refl 10) hfree
  have h19 : spawnerRows (10 + 1) = 19 := by decide
  have h11 : (10 : Nat) + 1 = 11 := rfl
  rw [h19, h11] at hr
  obtain ⟨a, n, j, b, hn⟩ := NewActor_frame g
    { v with
      spawners := arraySet v.spawners i
        { actor := actor, x := x, y := y - 19, age := 11 } }
    actor x (y - 19)
  refine ⟨a, n, j, b, hn, ?_⟩
  unfold MoveAndDrawSpawnersBody
  rw [hslot, if_neg hact]
  simp only []
  rw [hr]
  simp only []
  rw [if_neg Bool.false_ne_true, if_pos True.intro]
  unfold spawnerHatch
  simp only [arraySet_self]
  rw [hn]
  simp only [arraySet_self, arraySet_arraySet]
/-- C32: the life of a spawner.  Let `NewSpawner(actor, x, y)` take slot `i`,
the lowest free one, and let `s 0`, `s 1`, ... be the globals before the calls
of `MoveAndDrawSpawners`, between which nothing else writes the slot.  With
the northward tests of the first eleven calls free, the spawner is at age `k`,
`spawnerRows k` rows up, after `k` calls up to the tenth: two rows per call for
eight calls, then one row per call; the eleventh call frees the slot, 19 rows
up.  The round of a call before the eleventh writes the spawner only; the round
of the eleventh call is `NewActor(actor, x, y - 19)` and the freeing of the
slot.  Whatever the tests answer, the slot is free after the eleventh call. -/
theorem spawner_lifetime (g : Glue) (w : World) (s : Nat → World) (i actor x y : Nat)
    (hact : actor ≠ g.ACT_BASKET_NULL) (hy : 19 ≤ y) (hy2 : y < 65536)
    (hiw : i < w.numSpawners) (hfree : (w.spawners i).actor = g.ACT_BASKET_NULL)
    (hlow : ∀ j, j < i → (w.spawners j).actor ≠ g.ACT_BASKET_NULL)
    (h0 : s 0 = NewSpawner g w actor x y)
    (hi : ∀ k, i < (s k).numSpawners)
    (hstep : ∀ k, (s (k + 1)).spawners i = (MoveAndDrawSpawners g (s k)).spawners i) :
    ((∀ k, k < 11 → spawnerFree (s k) actor x y k) →
      (∀ k, k ≤ 10 →
        (s k).spawners i = { actor := actor, x := x, y := y - spawnerRows k, age := k }) ∧
      (s 11).spawners i = { actor := g.ACT_BASKET_NULL, x := x, y := y - 19, age := 11 }) ∧
    (∀ (v : World) (k : Nat), k < 10 →
      v.spawners i = { actor := actor, x := x, y := y - spawnerRows k, age := k } →
      spawnerFree v actor x y k →
      MoveAndDrawSpawnersBody g v i =
        { v with
          spawners := arraySet v.spawners i
            { actor := actor, x := x, y := y - spawnerRows (k + 1), age := k + 1 } }) ∧
    (∀ v : World,
      v.spawners i = { actor := actor, x := x, y := y - spawnerRows 10, age := 10 } →
      spawnerFree v actor x y 10 →
      ∃ a n j b,
        NewActor g
            { v with
              spawners := arraySet v.spawners i
                { actor := actor, x := x, y := y - 19, age := 11 } }
            actor x (y - 19) =
          { v with
            actors := a, numActors := n, nextActorIndex := j, numBarrels := b,
            spawners := arraySet v.spawners i
              { actor := actor, x := x, y := y - 19, age := 11 } } ∧
        MoveAndDrawSpawnersBody g v i =
          { v with
            actors := a, numActors := n, nextActorIndex := j, numBarrels := b,
            spawners := arraySet v.spawners i
              { actor := g.ACT_BASKET_NULL, x := x, y := y - 19, age := 11 } }) ∧
    (∀ k, 11 ≤ k → ((s k).spawners i).actor = g.ACT_BASKET_NULL) := by
  have hnew : (s 0).spawners i = { actor := actor, x := x, y := y, age := 0 } := by
    rw [h0, NewSpawner_takes_lowest g w i actor x y hiw hfree hlow]
    exact arraySet_self _ _ _
  refine ⟨fun hf => ?_, fun v k hk hslot hfv =>
      MoveAndDrawSpawnersBody_rise g v i actor x y k hact hy hy2 hk hslot hfv,
    fun v hslot hfv => MoveAndDrawSpawnersBody_hatch g v i actor x y hact hy hy2 hslot hfv,
    fun k hk => ?_⟩
  · have hrun : ∀ k, k ≤ 10 →
        (s k).spawners i = { actor := actor, x := x, y := y - spawnerRows k, age := k } := by
      intro k
      induction k with
      | zero =>
        intro _
        rw [hnew]
        rfl
      | succ k ih =>
        intro hk
        rw [hstep k, MoveAndDrawSpawners_slot g (s k) i (hi k), ih (by omega),
          spawnerStep_free g (s k) actor x y k hact hy hy2 (by omega) (hf k (by omega)),
          if_neg (by omega)]
    refine ⟨hrun, ?_⟩
    rw [hstep 10, MoveAndDrawSpawners_slot g (s 10) i (hi 10), hrun 10 (le_refl 10),
      spawnerStep_free g (s 10) actor x y 10 hact hy hy2 (le_refl 10) (hf 10 (by omega)),
      if_pos rfl]
    rfl
  · rcases spawner_freed_by_11 g s i hi (by rw [hnew]) hstep k with h | ⟨_, h⟩
    · exact h
    · omega

theorem spawnWorlds_succ (k : Nat) :
    spawnWorlds (k + 1) = MoveAndDrawSpawners demoGlue (spawnWorlds k) :=
  Function.iterate_succ_apply' _ _ _

/-- The calls of `MoveAndDrawSpawners` on `spawnWorld` leave the map, the
sprite table and the size of the pool as they are. -/
theorem spawnWorlds_terrain (k : Nat) :
    (spawnWorlds k).mapData = spawnWorld.mapData ∧
    (spawnWorlds k).tileAttributeData = spawnWorld.tileAttributeData ∧
    (spawnWorlds k).actorInfoData = spawnWorld.actorInfoData ∧
    (spawnWorlds k).mapWidth = spawnWorld.mapWidth ∧
    (spawnWorlds k).mapYPower = spawnWorld.mapYPower ∧
    (spawnWorlds k).numSpawners = spawnWorld.numSpawners := by
  induction k with
  | zero => exact ⟨rfl, rfl, rfl, rfl, rfl, rfl⟩
  | succ k ih =>
    rw [spawnWorlds_succ]
    obtain ⟨a, m, j, b, sp, h1, _⟩ :=
      MoveAndDrawSpawnersLoop_slot demoGlue (spawnWorlds k).numSpawners 0 (spawnWorlds k)
    unfold MoveAndDrawSpawners
    rw [h1]
    exact ih

theorem spawnWorlds_free (k : Nat) (hk : k < 11) : spawnerFree (spawnWorlds k) 1 5 40 k := by
  obtain ⟨h1, h2, h3, h4, h5, _⟩ := spawnWorlds_terrain k
  have hbase : spawnerFree spawnWorld 1 5 40 k := by
    interval_cases k <;> decide
  unfold spawnerFree at hbase ⊢
  rw [TestSpriteMove_congr (spawnWorlds k) spawnWorld h1 h2 h3 h4 h5,
    TestSpriteMove_congr (spawnWorlds k) spawnWorld h1 h2 h3 h4 h5]
  exact hbase

/-- Witness of C32: the spawner made by `NewSpawner(1, 5, 40)` on the empty map
of `spawnWorld`: after eight calls it is at row 24, after ten at row 22, and
the eleventh call frees the slot at row 21. -/
theorem spawner_lifetime_witness :
    (spawnWorlds 8).spawners 0 = { actor := 1, x := 5, y := 40 - spawnerRows 8, age := 8 } ∧
    (spawnWorlds 10).spawners 0 = { actor := 1, x := 5, y := 40 - spawnerRows 10, age := 10 } ∧
    (spawnWorlds 11).spawners 0 = { actor := 0, x := 5, y := 40 - 19, age := 11 } ∧
    ((spawnWorlds 12).spawners 0).actor = 0 :=
  ⟨((spawner_lifetime demoGlue spawnWorld spawnWorlds 0 1 5 40 (by decide) (by decide)
      (by decide) (by decide) rfl (fun j hj => absurd hj (Nat.not_lt_zero j)) rfl
      (fun k => by rw [(spawnWorlds_terrain k).2.2.2.2.2]; decide)
      (fun k => congrArg (fun v => v.spawners 0) (spawnWorlds_succ k))).1
      spawnWorlds_free).1 8 (by decide),
    ((spawner_lifetime demoGlue spawnWorld spawnWorlds 0 1 5 40 (by decide) (by decide)
      (by decide) (by decide) rfl (fun j hj => absurd hj (Nat.not_lt_zero j)) rfl
      (fun k => by rw [(spawnWorlds_terrain k).2.2.2.2.2]; decide)
      (fun k => congrArg (fun v => v.spawners 0) (spawnWorlds_succ k))).1
      spawnWorlds_free).1 10 (by decide),
    ((spawner_lifetime demoGlue spawnWorld spawnWorlds 0 1 5 40 (by decide) (by decide)
      (by decide) (by decide) rfl (fun j hj => absurd hj (Nat.not_lt_zero j)) rfl
      (fun k => by rw [(spawnWorlds_terrain k).2.2.2.2.2]; decide)
      (fun k => congrArg (fun v => v.spawners 0) (spawnWorlds_succ k))).1
      spawnWorlds_free).2,
    (spawner_lifetime demoGlue spawnWorld spawnWorlds 0 1 5 40 (by decide) (by decide)
      (by decide) (by decide) rfl (fun j hj => absurd hj (Nat.not_lt_zero j)) rfl
      (fun k => by rw [(spawnWorlds_terrain k).2.2.2.2.2]; decide)
      (fun k => congrArg (fun v => v.spawners 0) (spawnWorlds_succ k))).2.2.2 12
      (by decide)⟩

/-! ## C33 -/

theorem decorationStep_congr (g : Glue) (u v : World) (h1 : u.actorInfoData = v.actorInfoData)
    (h2 : u.scrollX = v.scrollX) (h3 : u.scrollY = v.scrollY) (r : Nat) (dec : Decoration)
    (frame : Nat) : decorationStep g u r dec frame = decorationStep g v r dec frame := by
  unfold decorationStep
  rw [IsSpriteVisible_congr g u v h1 h2 h3]

/-- One round of the loop of `MoveAndDrawDecorations` writes the decoration and
the `decorationFrame` entry of its slot only. -/
theorem MoveAndDrawDecorationsBody_eq (g : Glue) (rnd : Nat → Nat) (v : World) (i : Nat) :
    MoveAndDrawDecorationsBody g rnd v i =
      { v with
        decorations := arraySet v.decorations i
          (decorationStep g v (rnd i % 3) (v.decorations i) (v.decorationFrame i)).1,
        decorationFrame := arraySet v.decorationFrame i
          (decorationStep g v (rnd i % 3) (v.decorations i) (v.decorationFrame i)).2 } := by
  unfold MoveAndDrawDecorationsBody decorationStep
  simp only []
  by_cases h0 : (v.decorations i).alive = false
  · rw [if_pos h0, if_pos h0]
    simp only [arraySet_same]
  · rw [if_neg h0, if_neg h0]
    by_cases hv : IsSpriteVisible g v (v.decorations i).sprite (v.decorations i).numframes
        (v.decorations i).x (v.decorations i).y = true
    · rw [if_pos hv, if_pos hv]
      by_cases hf : wadd (v.decorationFrame i) 1 =
          (decorationMove g (rnd i % 3) (v.decorations i)).numframes
      · rw [if_pos hf, if_pos hf]
      · rw [if_neg hf, if_neg hf]
    · rw [if_neg hv, if_neg hv]
      simp only [arraySet_same]
theorem MoveAndDrawDecorationsLoop_slot (g : Glue) (rnd : Nat → Nat) (n i : Nat) (v : World) :
    ∃ d f, forLoop (MoveAndDrawDecorationsBody g rnd) n i v =
        { v with decorations := d, decorationFrame := f } ∧
      ∀ k,
        d k = (if i ≤ k ∧ k < i + n then
            (decorationStep g v (rnd k % 3) (v.decorations k) (v.decorationFrame k)).1
          else v.decorations k) ∧
        f k = (if i ≤ k ∧ k < i + n then
            (decorationStep g v (rnd k % 3) (v.decorations k) (v.decorationFrame k)).2
          else v.decorationFrame k) := by
  induction n generalizing i v with
  | zero =>
    refine ⟨v.decorations, v.decorationFrame, rfl, fun k => ?_⟩
    rw [if_neg (by omega), if_neg (by omega)]
    exact ⟨rfl, rfl⟩
  | succ n ih =>
    obtain ⟨d, f, h1, h2⟩ := ih (i + 1)
      { v with
        decorations := arraySet v.decorations i
          (decorationStep g v (rnd i % 3) (v.decorations i) (v.decorationFrame i)).1,
        decorationFrame := arraySet v.decorationFrame i
          (decorationStep g v (rnd i % 3) (v.decorations i) (v.decorationFrame i)).2 }
    refine ⟨d, f, ?_, fun k => ?_⟩
    · show forLoop (MoveAndDrawDecorationsBody g rnd) n (i + 1)
        (MoveAndDrawDecorationsBody g rnd v i) = _
      rw [MoveAndDrawDecorationsBody_eq, h1]
    · obtain ⟨hd, hf⟩ := h2 k
      rw [hd, hf]
      rw [decorationStep_congr g
        { v with
          decorations := arraySet v.decorations i
            (decorationStep g v (rnd i % 3) (v.decorations i) (v.decorationFrame i)).1,
          decorationFrame := arraySet v.decorationFrame i
            (decorationStep g v (rnd i % 3) (v.decorations i) (v.decorationFrame i)).2 }
        v rfl rfl rfl]
      show (if i + 1 ≤ k ∧ k < i + 1 + n then
          (decorationStep g v (rnd k % 3)
            (arraySet v.decorations i
              (decorationStep g v (rnd i % 3) (v.decorations i) (v.decorationFrame i)).1 k)
            (arraySet v.decorationFrame i
              (decorationStep g v (rnd i % 3) (v.decorations i) (v.decorationFrame i)).2 k)).1
        else arraySet v.decorations i
          (decorationStep g v (rnd i % 3) (v.decorations i) (v.decorationFrame i)).1 k) = _ ∧
        (if i + 1 ≤ k ∧ k < i + 1 + n then
          (decorationStep g v (rnd k % 3)
            (arraySet v.decorations i
              (decorationStep g v (rnd i % 3) (v.decorations i) (v.decorationFrame i)).1 k)
            (arraySet v.decorationFrame i
              (decorationStep g v (rnd i % 3) (v.decorations i) (v.decorationFrame i)).2 k)).2
        else arraySet v.decorationFrame i
          (decorationStep g v (rnd i % 3) (v.decorations i) (v.decorationFrame i)).2 k) = _
      by_cases hki : k = i
      · subst hki
        rw [if_neg (by omega), if_pos (by omega), if_neg (by omega), if_pos (by omega),
          arraySet_self, arraySet_self]
        exact ⟨rfl, rfl⟩
      · rw [arraySet_of_ne _ _ _ _ hki, arraySet_of_ne _ _ _ _ hki]
        by_cases hc : i + 1 ≤ k ∧ k < i + 1 + n
        · rw [if_pos hc, if_pos (by omega), if_pos hc, if_pos (by omega)]
          exact ⟨rfl, rfl⟩
        · rw [if_neg hc, if_neg (by omega), if_neg hc, if_neg (by omega)]
          exact ⟨rfl, rfl⟩

/-- One call of `MoveAndDrawDecorations` takes each slot below `numDecorations`
through one round and writes nothing but the decoration pool. -/
theorem MoveAndDrawDecorations_slot (g : Glue) (rnd : Nat → Nat) (w : World) :
    ∃ d f, MoveAndDrawDecorations g rnd w = { w with decorations := d, decorationFrame := f } ∧
      ∀ k, k < w.numDecorations →
        d k = (decorationStep g w (rnd k % 3) (w.decorations k) (w.decorationFrame k)).1 ∧
        f k = (decorationStep g w (rnd k % 3) (w.decorations k) (w.decorationFrame k)).2 := by
  obtain ⟨d, f, h1, h2⟩ := MoveAndDrawDecorationsLoop_slot g rnd w.numDecorations 0 w
  refine ⟨d, f, h1, fun k hk => ?_⟩
  obtain ⟨hd, hf⟩ := h2 k
  rw [hd, hf, if_pos (by omega), if_pos (by omega)]
  exact ⟨rfl, rfl⟩
theorem decorationMove_keeps (g : Glue) (r : Nat) (dec : Decoration) :
    (decorationMove g r dec).alive = dec.alive ∧
    (decorationMove g r dec).sprite = dec.sprite ∧
    (decorationMove g r dec).numframes = dec.numframes ∧
    (decorationMove g r dec).dir = dec.dir ∧
    (decorationMove g r dec).numtimes = dec.numtimes := by
  unfold decorationMove
  simp only []
  split_ifs <;> exact ⟨rfl, rfl, rfl, rfl, rfl⟩

theorem decorationRepeat_keeps (dec : Decoration) :
    (decorationRepeat dec).sprite = dec.sprite ∧
    (decorationRepeat dec).numframes = dec.numframes ∧
    (decorationRepeat dec).alive =
      (if dec.numtimes ≠ 0 ∧ wsub dec.numtimes 1 = 0 then false else dec.alive) ∧
    (decorationRepeat dec).numtimes =
      (if dec.numtimes ≠ 0 then wsub dec.numtimes 1 else dec.numtimes) := by
  unfold decorationRepeat
  simp only []
  by_cases h1 : dec.numtimes ≠ 0
  · rw [if_pos h1, if_pos h1]
    by_cases h2 : wsub dec.numtimes 1 = 0
    · rw [if_pos h2, if_pos ⟨h1, h2⟩]
      exact ⟨rfl, rfl, rfl, rfl⟩
    · rw [if_neg h2, if_neg (fun h => h2 h.2)]
      exact ⟨rfl, rfl, rfl, rfl⟩
  · rw [if_neg h1, if_neg h1, if_neg (fun h => h1 h.1)]
    exact ⟨rfl, rfl, rfl, rfl⟩

/-- One round on a decoration that is alive and visible. -/
theorem decorationStep_visible (g : Glue) (w : World) (r : Nat) (dec : Decoration)
    (frame : Nat) (ha : dec.alive = true)
    (hv : IsSpriteVisible g w dec.sprite dec.numframes dec.x dec.y = true) :
    (decorationStep g w r dec frame).1.sprite = dec.sprite ∧
    (decorationStep g w r dec frame).1.numframes = dec.numframes ∧
    (decorationStep g w r dec frame).2 =
      (if wadd frame 1 = dec.numframes then 0 else wadd frame 1) ∧
    (decorationStep g w r dec frame).1.numtimes =
      (if wadd frame 1 = dec.numframes ∧ dec.numtimes ≠ 0 then wsub dec.numtimes 1
        else dec.numtimes) ∧
    (decorationStep g w r dec frame).1.alive =
      (if wadd frame 1 = dec.numframes ∧ dec.numtimes ≠ 0 ∧ wsub dec.numtimes 1 = 0 then false
        else true) := by
  obtain ⟨m1, m2, m3, _, m5⟩ := decorationMove_keeps g r dec
  obtain ⟨r1, r2, r3, r4⟩ := decorationRepeat_keeps (decorationMove g r dec)
  unfold decorationStep
  rw [if_neg (by rw [ha]; decide), if_pos hv, m3]
  by_cases hf : wadd frame 1 = dec.numframes
  · rw [if_pos hf, if_pos hf]
    refine ⟨r1.trans m2, r2.trans m3, rfl, ?_, ?_⟩
    · show (decorationRepeat (decorationMove g r dec)).numtimes = _
      rw [r4, m5]
      by_cases hn : dec.numtimes ≠ 0
      · rw [if_pos hn, if_pos ⟨hf, hn⟩]
      · rw [if_neg hn, if_neg (fun h => hn h.2)]
    · show (decorationRepeat (decorationMove g r dec)).alive = _
      rw [r3, m5, m1, ha]
      by_cases hn : dec.numtimes ≠ 0 ∧ wsub dec.numtimes 1 = 0
      · rw [if_pos hn, if_pos ⟨hf, hn⟩]
      · rw [if_neg hn, if_neg (fun h => hn h.2)]
  · rw [if_neg hf, if_neg hf, if_neg (fun h => hf h.1), if_neg (fun h => hf h.1)]
    exact ⟨m2, m3, rfl, m5, m1.trans ha⟩

theorem decorationStep_dead (g : Glue) (w : World) (r : Nat) (dec : Decoration)
    (frame : Nat) (ha : dec.alive = false) :
    decorationStep g w r dec frame = (dec, frame) := by
  unfold decorationStep
  rw [if_pos ha]

theorem decorationStep_hidden (g : Glue) (w : World) (r : Nat) (dec : Decoration)
    (frame : Nat) (ha : dec.alive = true)
    (hv : IsSpriteVisible g w dec.sprite dec.numframes dec.x dec.y = false) :
    (decorationStep g w r dec frame).1.alive = false := by
  unfold decorationStep
  rw [if_neg (by rw [ha]; decide), if_neg (by rw [hv]; decide)]

theorem succ_div_mod (k f : Nat) (hf : 1 ≤ f) :
    (k % f + 1 = f → (k + 1) % f = 0 ∧ (k + 1) / f = k / f + 1) ∧
    (k % f + 1 ≠ f → (k + 1) % f = k % f + 1 ∧ (k + 1) / f = k / f) := by
  have hd := Nat.div_add_mod k f
  have hm := Nat.mod_lt k (show f > 0 by omega)
  constructor
  · intro h
    have e : k + 1 = f * (k / f + 1) := by
      rw [Nat.mul_add, Nat.mul_one]
      omega
    rw [e]
    exact ⟨Nat.mul_mod_right _ _, Nat.mul_div_cancel_left _ (by omega)⟩
  · intro h
    have e : k + 1 = f * (k / f) + (k % f + 1) := by omega
    have hlt : k % f + 1 < f := by omega
    constructor
    · conv_lhs => rw [e]
      rw [Nat.mul_add_mod, Nat.mod_eq_of_lt hlt]
    · conv_lhs => rw [e]
      rw [Nat.mul_add_div (by omega), Nat.div_eq_of_lt hlt]
      omega
/-- C33: the life of a decoration.  Let `NewDecoration(sprite, f, x, y, dir, n)`
take slot `i`, the lowest free one, with `f` at least 1, and let `s 0`, `s 1`,
... be the globals before the calls of `MoveAndDrawDecorations`, between which
nothing else writes the slot.  With `n` at least 1 and the decoration visible
in the first `n * f` calls, call `k + 1` draws it for every `k` below `n * f`,
with frame `k % f`; after call `n * f` the slot is free, and no later call
draws it.  A round on a live decoration with `numtimes = 0` leaves `numtimes`
at 0 and the decoration alive exactly when the visibility test holds. -/
theorem decoration_lifetime (g : Glue) (w : World) (s : Nat → World) (rnd : Nat → Nat → Nat)
    (i sprite f x y dir n : Nat) (hf : 1 ≤ f) (hf2 : f < 65536) (hn2 : n < 65536)
    (hiw : i < w.numDecorations) (hfree : (w.decorations i).alive = false)
    (hlow : ∀ j, j < i → (w.decorations j).alive = true)
    (h0 : s 0 = NewDecoration w sprite f x y dir n)
    (hi : ∀ k, i < (s k).numDecorations)
    (hstep : ∀ k,
      (s (k + 1)).decorations i = (MoveAndDrawDecorations g (rnd k) (s k)).decorations i ∧
      (s (k + 1)).decorationFrame i =
        (MoveAndDrawDecorations g (rnd k) (s k)).decorationFrame i) :
    (1 ≤ n →
      (∀ k, k < n * f →
        IsSpriteVisible g (s k) sprite f ((s k).decorations i).x ((s k).decorations i).y
          = true) →
      (∀ k, k < n * f → decorationDrawn g (s k) i = some (k % f)) ∧
      ((s (n * f)).decorations i).alive = false ∧
      (∀ k, n * f ≤ k → decorationDrawn g (s k) i = none)) ∧
    (∀ (v : World) (r : Nat) (dec : Decoration) (frame : Nat),
      dec.alive = true → dec.numtimes = 0 →
      (decorationStep g v r dec frame).1.numtimes = 0 ∧
      ((decorationStep g v r dec frame).1.alive = true ↔
        IsSpriteVisible g v dec.sprite dec.numframes dec.x dec.y = true)) := by
  have hslot : ∀ k,
      (s (k + 1)).decorations i =
        (decorationStep g (s k) (rnd k i % 3) ((s k).decorations i)
          ((s k).decorationFrame i)).1 ∧
      (s (k + 1)).decorationFrame i =
        (decorationStep g (s k) (rnd k i % 3) ((s k).decorations i)
          ((s k).decorationFrame i)).2 := by
    intro k
    obtain ⟨d, fr, h1, h2⟩ := MoveAndDrawDecorations_slot g (rnd k) (s k)
    obtain ⟨hd, hfr⟩ := h2 i (hi k)
    obtain ⟨e1, e2⟩ := hstep k
    rw [e1, e2, h1]
    exact ⟨hd, hfr⟩
  have hnew : (s 0).decorations i =
        { alive := true, sprite := sprite, numframes := f, x := x, y := y, dir := dir,
          numtimes := n } ∧
      (s 0).decorationFrame i = 0 := by
    obtain ⟨e1, e2⟩ := NewDecoration_takes_lowest w i sprite f x y dir n hiw hfree hlow
    rw [h0, e1, e2]
    exact ⟨arraySet_self _ _ _, arraySet_self _ _ _⟩
  refine ⟨fun hn hvis => ?_, fun v r dec frame ha hz => ?_⟩
  · have hpos : 0 < n * f := Nat.mul_pos (by omega) (by omega)
    have hinv : ∀ k, k < n * f →
        ((s k).decorations i).alive = true ∧ ((s k).decorations i).sprite = sprite ∧
        ((s k).decorations i).numframes = f ∧ (s k).decorationFrame i = k % f ∧
        ((s k).decorations i).numtimes = n - k / f := by
      intro k
      induction k with
      | zero =>
        intro _
        rw [hnew.1, hnew.2]
        exact ⟨rfl, rfl, rfl, (Nat.zero_mod f).symm, by rw [Nat.zero_div]; rfl⟩
      | succ k ih =>
        intro hk
        obtain ⟨ia, is, inf, ifr, int⟩ := ih (by omega)
        have hv := hvis k (by omega)
        rw [← is, ← inf] at hv
        obtain ⟨p1, p2, p3, p4, p5⟩ := decorationStep_visible g (s k) (rnd k i % 3)
          ((s k).decorations i) ((s k).decorationFrame i) ia hv
        obtain ⟨e1, e2⟩ := hslot k
        have hm := Nat.mod_lt k (show f > 0 by omega)
        have hq : k / f < n := Nat.div_lt_of_lt_mul (by rw [Nat.mul_comm]; omega)
        have hq1 : (k + 1) / f < n := Nat.div_lt_of_lt_mul (by rw [Nat.mul_comm]; omega)
        obtain ⟨hA, hB⟩ := succ_div_mod k f hf
        rw [e1, e2, p1, p2, p3, p4, p5, is, inf, ifr, int]
        generalize k / f = q at hq hA hB ⊢
        generalize (k + 1) / f = q1 at hq1 hA hB ⊢
        generalize k % f = m at hm hA hB ⊢
        generalize (k + 1) % f = m1 at hA hB ⊢
        have hw1 : wadd m 1 = m + 1 := by
          unfold wadd
          omega
        have hws : wsub (n - q) 1 = n - q - 1 := by
          unfold wsub
          omega
        rw [hw1, hws]
        by_cases hc : m + 1 = f
        · obtain ⟨a1, a2⟩ := hA hc
          have c2 : m + 1 = f ∧ n - q ≠ 0 := ⟨hc, by omega⟩
          have c3 : ¬ (m + 1 = f ∧ n - q ≠ 0 ∧ n - q - 1 = 0) := by
            intro h
            have := h.2.2
            omega
          rw [if_pos hc, if_pos c2, if_neg c3]
          exact ⟨rfl, rfl, rfl, a1.symm, by omega⟩
        · obtain ⟨b1, b2⟩ := hB hc
          rw [if_neg hc, if_neg (fun h => hc h.1), if_neg (fun h => hc h.1)]
          exact ⟨rfl, rfl, rfl, b1.symm, by omega⟩
    have hend : ((s (n * f)).decorations i).alive = false := by
      obtain ⟨ia, is, inf, ifr, int⟩ := hinv (n * f - 1) (by omega)
      have hv : IsSpriteVisible g (s (n * f - 1)) ((s (n * f - 1)).decorations i).sprite
          ((s (n * f - 1)).decorations i).numframes ((s (n * f - 1)).decorations i).x
          ((s (n * f - 1)).decorations i).y = true := by
        rw [is, inf]
        exact hvis (n * f - 1) (by omega)
      obtain ⟨_, _, _, _, p5⟩ := decorationStep_visible g (s (n * f - 1))
        (rnd (n * f - 1) i % 3) ((s (n * f - 1)).decorations i)
        ((s (n * f - 1)).decorationFrame i) ia hv
      obtain ⟨e1, _⟩ := hslot (n * f - 1)
      have ek : n * f - 1 + 1 = n * f := by omega
      rw [ek] at e1
      have hm := Nat.mod_lt (n * f - 1) (show f > 0 by omega)
      obtain ⟨hA, hB⟩ := succ_div_mod (n * f - 1) f hf
      have hmod0 : (n * f - 1 + 1) % f = 0 := by
        rw [ek]
        exact Nat.mul_mod_left n f
      have hdiv0 : (n * f - 1 + 1) / f = n := by
        rw [ek]
        exact Nat.mul_div_cancel _ (show 0 < f by omega)
      rw [e1, p5, inf, ifr, int]
      generalize (n * f - 1) / f = q at hA hB ⊢
      generalize (n * f - 1 + 1) / f = q1 at hdiv0 hA hB ⊢
      generalize (n * f - 1) % f = m at hm hA hB ⊢
      generalize (n * f - 1 + 1) % f = m1 at hmod0 hA hB ⊢
      have hw1 : wadd m 1 = m + 1 := by
        unfold wadd
        omega
      have hc : m + 1 = f := by
        by_contra hne
        have := (hB hne).1
        omega
      have hdiv : q + 1 = n := by
        have h1 := (hA hc).2
        omega
      have hws : wsub (n - q) 1 = 0 := by
        unfold wsub
        omega
      have c3 : m + 1 = f ∧ n - q ≠ 0 ∧ wsub (n - q) 1 = 0 := ⟨hc, by omega, hws⟩
      rw [hw1, if_pos c3]
    have hdead : ∀ d, ((s (n * f + d)).decorations i).alive = false := by
      intro d
      induction d with
      | zero => exact hend
      | succ d ih =>
        obtain ⟨e1, _⟩ := hslot (n * f + d)
        have e : n * f + (d + 1) = n * f + d + 1 := rfl
        rw [e, e1, decorationStep_dead g _ _ _ _ ih]
        exact ih
    refine ⟨fun k hk => ?_, hend, fun k hk => ?_⟩
    · obtain ⟨ia, is, inf, ifr, _⟩ := hinv k hk
      have hv := hvis k hk
      rw [← is, ← inf] at hv
      unfold decorationDrawn
      rw [if_pos ⟨ia, hv⟩, ifr]
    · have hd := hdead (k - n * f)
      have e : n * f + (k - n * f) = k := by omega
      rw [e] at hd
      unfold decorationDrawn
      rw [if_neg (fun h => absurd (hd.symm.trans h.1) (by decide))]
  · by_cases hv : IsSpriteVisible g v dec.sprite dec.numframes dec.x dec.y = true
    · obtain ⟨_, _, _, p4, p5⟩ := decorationStep_visible g v r dec frame ha hv
      rw [p4, p5, if_neg (fun h => h.2 hz), if_neg (fun h => h.2.1 hz)]
      exact ⟨hz, fun _ => hv, fun _ => rfl⟩
    · have hv2 : IsSpriteVisible g v dec.sprite dec.numframes dec.x dec.y = false := by
        cases hc : IsSpriteVisible g v dec.sprite dec.numframes dec.x dec.y with
        | false => rfl
        | true => exact absurd hc hv
      have hal := decorationStep_hidden g v r dec frame ha hv2
      refine ⟨?_, fun h => absurd (hal.symm.trans h) (by decide), fun h => absurd h hv⟩
      unfold decorationStep
      rw [if_neg (by rw [ha]; decide), if_neg hv]
      exact hz
theorem decoWorlds_succ (k : Nat) :
    decoWorlds (k + 1) = MoveAndDrawDecorations demoGlue (fun _ => 0) (decoWorlds k) :=
  Function.iterate_succ_apply' _ _ _

theorem decoWorlds_pool (k : Nat) : (decoWorlds k).numDecorations = 2 := by
  induction k with
  | zero => decide
  | succ k ih =>
    rw [decoWorlds_succ]
    obtain ⟨d, f, h1, _⟩ := MoveAndDrawDecorations_slot demoGlue (fun _ => 0) (decoWorlds k)
    rw [h1]
    exact ih

theorem decoWorlds_visible (k : Nat) (hk : k < 2 * 3) :
    IsSpriteVisible demoGlue (decoWorlds k) 0 3 ((decoWorlds k).decorations 0).x
      ((decoWorlds k).decorations 0).y = true := by
  interval_cases k <;> decide

/-- Witness of C33: the decoration made by
`NewDecoration(0, 3, 5, 5, DIR8_STATIONARY, 2)` in `decoWorld`: the fifth call
draws frame 1, the sixth call frees the slot, the eighth draws nothing. -/
theorem decoration_lifetime_witness :
    decorationDrawn demoGlue (decoWorlds 4) 0 = some (4 % 3) ∧
    ((decoWorlds (2 * 3)).decorations 0).alive = false ∧
    decorationDrawn demoGlue (decoWorlds 7) 0 = none :=
  ⟨((decoration_lifetime demoGlue decoWorld decoWorlds (fun _ _ => 0) 0 0 3 5 5 0 2
      (by decide) (by decide) (by decide) (by decide) rfl
      (fun j hj => absurd hj (Nat.not_lt_zero j)) rfl
      (fun k => by rw [decoWorlds_pool]; decide)
      (fun k => ⟨congrArg (fun v => v.decorations 0) (decoWorlds_succ k),
        congrArg (fun v => v.decorationFrame 0) (decoWorlds_succ k)⟩)).1 (by decide)
      decoWorlds_visible).1 4 (by decide),
    ((decoration_lifetime demoGlue decoWorld decoWorlds (fun _ _ => 0) 0 0 3 5 5 0 2
      (by decide) (by decide) (by decide) (by decide) rfl
      (fun j hj => absurd hj (Nat.not_lt_zero j)) rfl
      (fun k => by rw [decoWorlds_pool]; decide)
      (fun k => ⟨congrArg (fun v => v.decorations 0) (decoWorlds_succ k),
        congrArg (fun v => v.decorationFrame 0) (decoWorlds_succ k)⟩)).1 (by decide)
      decoWorlds_visible).2.1,
    ((decoration_lifetime demoGlue decoWorld decoWorlds (fun _ _ => 0) 0 0 3 5 5 0 2
      (by decide) (by decide) (by decide) (by decide) rfl
      (fun j hj => absurd hj (Nat.not_lt_zero j)) rfl
      (fun k => by rw [decoWorlds_pool]; decide)
      (fun k => ⟨congrArg (fun v => v.decorations 0) (decoWorlds_succ k),
        congrArg (fun v => v.decorationFrame 0) (decoWorlds_succ k)⟩)).1 (by decide)
      decoWorlds_visible).2.2 7 (by decide)⟩

/-! ## C40 -/

theorem NewDecoration_frame (w : World) (sprite numframes x y dir numtimes : Nat) :
    ∃ d f, NewDecoration w sprite numframes x y dir numtimes =
      { w with decorations := d, decorationFrame := f } := by
  have h : ∀ n i, ∃ d f, NewDecorationLoop sprite numframes x y dir numtimes w n i =
      { w with decorations := d, decorationFrame := f } := by
    intro n
    induction n with
    | zero => exact fun i => ⟨_, _, rfl⟩
    | succ n ih =>
      intro i
      unfold NewDecorationLoop
      by_cases hc : ¬ (w.decorations i).alive
      · rw [if_pos hc]
        exact ⟨_, _, rfl⟩
      · rw [if_neg hc]
        exact ih (i + 1)
  exact h _ 0

/-- The function `NewPounceDecoration` writes the decoration pool only. -/
theorem NewPounceDecoration_frame (g : Glue) (w : World) (x y : Nat) :
    ∃ d f, NewPounceDecoration g w x y = { w with decorations := d, decorationFrame := f } := by
  unfold NewPounceDecoration
  obtain ⟨d1, f1, h1⟩ := NewDecoration_frame w g.SPR_POUNCE_DEBRIS 6 (wadd x 1) y
    g.DIR8_SOUTHWEST 2
  rw [h1]
  obtain ⟨d2, f2, h2⟩ := NewDecoration_frame { w with decorations := d1, decorationFrame := f1 }
    g.SPR_POUNCE_DEBRIS 6 (wadd x 3) y g.DIR8_SOUTHEAST 2
  rw [h2]
  obtain ⟨d3, f3, h3⟩ := NewDecoration_frame { w with decorations := d2, decorationFrame := f2 }
    g.SPR_POUNCE_DEBRIS 6 (wadd x 4) (wsub y 2) g.DIR8_EAST 2
  rw [h3]
  obtain ⟨d4, f4, h4⟩ := NewDecoration_frame { w with decorations := d3, decorationFrame := f3 }
    g.SPR_POUNCE_DEBRIS 6 (wadd x 3) (wsub y 4) g.DIR8_NORTHEAST 2
  rw [h4]
  obtain ⟨d5, f5, h5⟩ := NewDecoration_frame { w with decorations := d4, decorationFrame := f4 }
    g.SPR_POUNCE_DEBRIS 6 (wadd x 1) (wsub y 4) g.DIR8_NORTHWEST 2
  rw [h5]
  obtain ⟨d6, f6, h6⟩ := NewDecoration_frame { w with decorations := d5, decorationFrame := f5 }
    g.SPR_POUNCE_DEBRIS 6 x (wsub y 2) g.DIR8_WEST 2
  rw [h6]
  exact ⟨d6, f6, rfl⟩

theorem NewExplosion_frame (w : World) (x y : Nat) :
    ∃ e, NewExplosion w x y = { w with explosions := e } := by
  have h : ∀ n i, ∃ e, NewExplosionLoop x y w n i = { w with explosions := e } := by
    intro n
    induction n with
    | zero => exact fun i => ⟨_, rfl⟩
    | succ n ih =>
      intro i
      unfold NewExplosionLoop
      by_cases hc : (w.explosions i).age ≠ 0
      · rw [if_pos hc]
        exact ih (i + 1)
      · rw [if_neg hc]
        exact ⟨_, rfl⟩
  exact h _ 0

/-- The last statement of `ActBombArmed` writes the row of the bomb only. -/
theorem ActBombArmedSettle_frame (g : Glue) (v : World) (index : Nat) :
    ∃ y, ActBombArmedSettle g v index =
      { v with actors := arraySet v.actors index { (v.actors index) with y := y } } := by
  unfold ActBombArmedSettle
  by_cases h : TestSpriteMove v DIR4_SOUTH g.SPR_BOMB_ARMED 0 (v.actors index).x
      (v.actors index).y ≠ MOVE_FREE
  · rw [if_pos h]
    exact ⟨_, rfl⟩
  · rw [if_neg h]
    refine ⟨(v.actors index).y, ?_⟩
    rw [arraySet_same]

/-- A tick of `ActBombArmed` on a bomb whose frame is not 3: no actor dies, no
pool is written, `data1` counts to 5 and then the frame goes up. -/
theorem ActBombArmed_count (g : Glue) (v : World) (index : Nat)
    (hf : (v.actors index).frame ≠ 3) :
    ∃ y, ActBombArmed g v index =
      { v with
        actors := arraySet v.actors index
          { (v.actors index) with
            y := y,
            data1 := if wadd (v.actors index).data1 1 = 5 then 0
              else wadd (v.actors index).data1 1,
            frame := if wadd (v.actors index).data1 1 = 5 then wadd (v.actors index).frame 1
              else (v.actors index).frame } } := by
  have hc : ActBombArmedCount v index =
      { v with
        actors := arraySet v.actors index
          { (v.actors index) with
            data1 := if wadd (v.actors index).data1 1 = 5 then 0
              else wadd (v.actors index).data1 1,
            frame := if wadd (v.actors index).data1 1 = 5 then wadd (v.actors index).frame 1
              else (v.actors index).frame } } := by
    unfold ActBombArmedCount
    simp only [arraySet_self, arraySet_arraySet]
    by_cases h5 : wadd (v.actors index).data1 1 = 5
    · rw [if_pos h5, if_pos h5, if_pos h5]
    · rw [if_neg h5, if_neg h5, if_neg h5]
  unfold ActBombArmed
  rw [if_neg hf, hc]
  obtain ⟨y, hy⟩ := ActBombArmedSettle_frame g
    { v with
      actors := arraySet v.actors index
        { (v.actors index) with
          data1 := if wadd (v.actors index).data1 1 = 5 then 0
            else wadd (v.actors index).data1 1,
          frame := if wadd (v.actors index).data1 1 = 5 then wadd (v.actors index).frame 1
            else (v.actors index).frame } }
    index
  rw [hy]
  refine ⟨y, ?_⟩
  simp only [arraySet_self, arraySet_arraySet]

/-- The explosion pool after `NewExplosion` is a function of the pool before. -/
theorem NewExplosion_congr (u w : World) (x y : Nat) (he : u.explosions = w.explosions)
    (hn : u.numExplosions = w.numExplosions) :
    (NewExplosion u x y).explosions = (NewExplosion w x y).explosions := by
  have h : ∀ n i, (NewExplosionLoop x y u n i).explosions =
      (NewExplosionLoop x y w n i).explosions := by
    intro n
    induction n with
    | zero => exact fun _ => he
    | succ n ih =>
      intro i
      unfold NewExplosionLoop
      rw [he]
      by_cases hc : (w.explosions i).age ≠ 0
      · rw [if_pos hc, if_pos hc]
        exact ih (i + 1)
      · rw [if_neg hc, if_neg hc]
  unfold NewExplosion
  rw [hn]
  exact h _ 0

/-- The fields of the bomb after a tick of `ActBombArmed` on a frame other than 3. -/
theorem ActBombArmed_count_fields (g : Glue) (v : World) (index : Nat)
    (hf : (v.actors index).frame ≠ 3) :
    ((ActBombArmed g v index).actors index).frame =
        (if wadd (v.actors index).data1 1 = 5 then wadd (v.actors index).frame 1
          else (v.actors index).frame) ∧
      ((ActBombArmed g v index).actors index).data1 =
        (if wadd (v.actors index).data1 1 = 5 then 0 else wadd (v.actors index).data1 1) ∧
      ((ActBombArmed g v index).actors index).data2 = (v.actors index).data2 ∧
      ((ActBombArmed g v index).actors index).dead = (v.actors index).dead ∧
      (ActBombArmed g v index).explosions = v.explosions := by
  obtain ⟨y, hy⟩ := ActBombArmed_count g v index hf
  rw [hy]
  refine ⟨?_, ?_, ?_, ?_, ?_⟩ <;> simp only [arraySet_self]

/-- The globals after the statements of `ActBombArmed` under `if (act->frame == 3)`,
up to the test of `act->data2`. -/
theorem ActBombArmedFuse_frame (g : Glue) (v : World) (index : Nat) :
    ∃ m, ActBombArmedFuse g v index =
      { v with
        nextDrawMode := m,
        actors := arraySet v.actors index
          { (v.actors index) with
            data2 := wadd (v.actors index).data2 1, data1 := wadd (v.actors index).data1 1 } } := by
  unfold ActBombArmedFuse
  simp only []
  split_ifs
  · exact ⟨_, rfl⟩
  · exact ⟨v.nextDrawMode, rfl⟩

/-- The fields of the bomb after a tick of `ActBombArmed` on frame 3 that does
not bring `data2` to 10. -/
theorem ActBombArmed_fuse_fields (g : Glue) (v : World) (index : Nat)
    (hf : (v.actors index).frame = 3) (hd : wadd (v.actors index).data2 1 ≠ 10) :
    ((ActBombArmed g v index).actors index).frame = 3 ∧
      ((ActBombArmed g v index).actors index).data1 = wadd (v.actors index).data1 1 ∧
      ((ActBombArmed g v index).actors index).data2 = wadd (v.actors index).data2 1 ∧
      ((ActBombArmed g v index).actors index).dead = (v.actors index).dead ∧
      (ActBombArmed g v index).explosions = v.explosions := by
  obtain ⟨m, hm⟩ := ActBombArmedFuse_frame g v index
  unfold ActBombArmed
  rw [if_pos hf, hm]
  unfold ActBombArmedEnd
  simp only [arraySet_self]
  rw [if_neg hd]
  obtain ⟨y, hy⟩ := ActBombArmedSettle_frame g
    { v with
      nextDrawMode := m,
      actors := arraySet v.actors index
        { (v.actors index) with
          data2 := wadd (v.actors index).data2 1, data1 := wadd (v.actors index).data1 1 } }
    index
  rw [hy]
  refine ⟨?_, ?_, ?_, ?_, ?_⟩
  · simp only [arraySet_self]
    exact hf
  all_goals simp only [arraySet_self]

/-- The tick of `ActBombArmed` on frame 3 that brings `data2` to 10: the bomb
is marked dead and `NewExplosion` is called at two columns to its left. -/
theorem ActBombArmed_blast (g : Glue) (v : World) (index : Nat)
    (hf : (v.actors index).frame = 3) (hd : wadd (v.actors index).data2 1 = 10) :
    ((ActBombArmed g v index).actors index).dead = true ∧
      (ActBombArmed g v index).explosions =
        (NewExplosion v (wsub (v.actors index).x 2) (v.actors index).y).explosions := by
  obtain ⟨m, hm⟩ := ActBombArmedFuse_frame g v index
  unfold ActBombArmed
  rw [if_pos hf, hm]
  unfold ActBombArmedEnd
  simp only [arraySet_self]
  rw [if_pos hd]
  unfold ActBombArmedBlast
  simp only [arraySet_self, arraySet_arraySet]
  obtain ⟨d, f, hp⟩ := NewPounceDecoration_frame g
    { v with
      nextDrawMode := m,
      actors := arraySet v.actors index
        { (v.actors index) with
          data2 := wadd (v.actors index).data2 1, data1 := wadd (v.actors index).data1 1,
          dead := true } }
    (wsub (v.actors index).x 2) (wadd (v.actors index).y 2)
  rw [hp]
  simp only [arraySet_self]
  obtain ⟨e, he⟩ := NewExplosion_frame
    { v with
      nextDrawMode := g.DRAWMODE_HIDDEN,
      actors := arraySet v.actors index
        { (v.actors index) with
          data2 := wadd (v.actors index).data2 1, data1 := wadd (v.actors index).data1 1,
          dead := true },
      decorations := d, decorationFrame := f }
    (wsub (v.actors index).x 2) (v.actors index).y
  have hx := NewExplosion_congr
    { v with
      nextDrawMode := g.DRAWMODE_HIDDEN,
      actors := arraySet v.actors index
        { (v.actors index) with
          data2 := wadd (v.actors index).data2 1, data1 := wadd (v.actors index).data1 1,
          dead := true },
      decorations := d, decorationFrame := f }
    v (wsub (v.actors index).x 2) (v.actors index).y rfl rfl
  rw [← hx, he]
  obtain ⟨y, hy⟩ := ActBombArmedSettle_frame g
    { v with
      nextDrawMode := g.DRAWMODE_HIDDEN,
      actors := arraySet v.actors index
        { (v.actors index) with
          data2 := wadd (v.actors index).data2 1, data1 := wadd (v.actors index).data1 1,
          dead := true },
      decorations := d, decorationFrame := f, explosions := e }
    index
  rw [hy]
  refine ⟨?_, ?_⟩ <;> simp only [arraySet_self]

/-- The bomb that `case ACT_BOMB_ARMED:` of `NewActorAtIndex` leaves in the slot. -/
theorem NewActorAtIndex_bomb (g : Glue) (w : World) (index x y : Nat)
    (hcase : g.actorCases g.ACT_BOMB_ARMED x y = some (caseBombArmed g x y)) :
    ((NewActorAtIndex g w index g.ACT_BOMB_ARMED x y).2.actors index).frame = 0 ∧
      ((NewActorAtIndex g w index g.ACT_BOMB_ARMED x y).2.actors index).data1 = 0 ∧
      ((NewActorAtIndex g w index g.ACT_BOMB_ARMED x y).2.actors index).data2 = 0 ∧
      ((NewActorAtIndex g w index g.ACT_BOMB_ARMED x y).2.actors index).dead = false ∧
      ((NewActorAtIndex g w index g.ACT_BOMB_ARMED x y).2.actors index).x = x ∧
      ((NewActorAtIndex g w index g.ACT_BOMB_ARMED x y).2.actors index).y = y := by
  unfold NewActorAtIndex
  simp only []
  rw [hcase]
  unfold ConstructActor
  simp only []
  split_ifs <;> refine ⟨?_, ?_, ?_, ?_, ?_, ?_⟩ <;> simp only [arraySet_self] <;> rfl

/-- The counters of a bomb that is ticked by `ActBombArmed` only, before each
of its first 25 ticks. -/
theorem bomb_counters (g : Glue) (index : Nat) (s : Nat → World)
    (h0 : ((s 0).actors index).frame = 0 ∧ ((s 0).actors index).data1 = 0 ∧
      ((s 0).actors index).data2 = 0)
    (hstep : ∀ k,
      ((s (k + 1)).actors index).frame = ((ActBombArmed g (s k) index).actors index).frame ∧
      ((s (k + 1)).actors index).data1 = ((ActBombArmed g (s k) index).actors index).data1 ∧
      ((s (k + 1)).actors index).data2 = ((ActBombArmed g (s k) index).actors index).data2)
    (k : Nat) (hk : k < 25) :
    ((s k).actors index).frame = bombFrame k ∧ ((s k).actors index).data1 = bombData1 k ∧
      ((s k).actors index).data2 = bombData2 k := by
  induction k with
  | zero => exact h0
  | succ k ih =>
    obtain ⟨i1, i2, i3⟩ := ih (by omega)
    obtain ⟨s1, s2, s3⟩ := hstep k
    rw [s1, s2, s3]
    by_cases h15 : k < 15
    · have hf : ((s k).actors index).frame ≠ 3 := by
        rw [i1]
        unfold bombFrame
        split_ifs <;> decide
      obtain ⟨c1, c2, c3, -, -⟩ := ActBombArmed_count_fields g (s k) index hf
      rw [c1, c2, c3, i1, i2, i3]
      interval_cases k <;> decide
    · have hf : ((s k).actors index).frame = 3 := by
        rw [i1]
        unfold bombFrame
        rw [if_neg (by omega), if_neg (by omega), if_neg (by omega)]
      have hd : wadd ((s k).actors index).data2 1 ≠ 10 := by
        rw [i3]
        have hk2 : 15 ≤ k ∧ k < 24 := by omega
        obtain ⟨ha, hb⟩ := hk2
        interval_cases k <;> decide
      obtain ⟨c1, c2, c3, -, -⟩ := ActBombArmed_fuse_fields g (s k) index hf hd
      rw [c1, c2, c3, i2, i3]
      have hk2 : 15 ≤ k ∧ k < 24 := by omega
      obtain ⟨ha, hb⟩ := hk2
      interval_cases k <;> decide

/-- C40: an armed bomb made by `NewActorAtIndex(index, ACT_BOMB_ARMED, x, y)`
and ticked by `ActBombArmed` is on frame 0 at its ticks 1 to 5, on frame 1 at
ticks 6 to 10, on frame 2 at ticks 11 to 15 and on frame 3 at ticks 16 to 25;
none of the first 24 ticks changes its `dead` flag, which starts as false, or
the explosion pool; the 25th tick sets `dead` and leaves the explosion pool
that `NewExplosion(x - 2, y)` gives, for the position of the bomb at that tick. -/
theorem ActBombArmed_lifetime (g : Glue) (w : World) (index x y : Nat) (s : Nat → World)
    (hcase : g.actorCases g.ACT_BOMB_ARMED x y = some (caseBombArmed g x y))
    (h0 : (s 0).actors index = (NewActorAtIndex g w index g.ACT_BOMB_ARMED x y).2.actors index)
    (hstep : ∀ k,
      ((s (k + 1)).actors index).frame = ((ActBombArmed g (s k) index).actors index).frame ∧
      ((s (k + 1)).actors index).data1 = ((ActBombArmed g (s k) index).actors index).data1 ∧
      ((s (k + 1)).actors index).data2 = ((ActBombArmed g (s k) index).actors index).data2) :
    (∀ k, k < 25 → ((s k).actors index).frame = bombFrame k) ∧
      ((s 0).actors index).dead = false ∧
      (∀ k, k < 24 →
        ((ActBombArmed g (s k) index).actors index).dead = ((s k).actors index).dead ∧
        (ActBombArmed g (s k) index).explosions = (s k).explosions) ∧
      ((ActBombArmed g (s 24) index).actors index).dead = true ∧
      (ActBombArmed g (s 24) index).explosions =
        (NewExplosion (s 24) (wsub ((s 24).actors index).x 2)
          ((s 24).actors index).y).explosions := by
  obtain ⟨b1, b2, b3, b4, -, -⟩ := NewActorAtIndex_bomb g w index x y hcase
  rw [← h0] at b1 b2 b3 b4
  have hc := bomb_counters g index s ⟨b1, b2, b3⟩ hstep
  refine ⟨fun k hk => (hc k hk).1, b4, ?_, ?_⟩
  · intro k hk
    obtain ⟨i1, -, i3⟩ := hc k (by omega)
    by_cases h15 : k < 15
    · have hf : ((s k).actors index).frame ≠ 3 := by
        rw [i1]
        unfold bombFrame
        split_ifs <;> decide
      obtain ⟨-, -, -, c4, c5⟩ := ActBombArmed_count_fields g (s k) index hf
      exact ⟨c4, c5⟩
    · have hf : ((s k).actors index).frame = 3 := by
        rw [i1]
        unfold bombFrame
        rw [if_neg (by omega), if_neg (by omega), if_neg (by omega)]
      have hd : wadd ((s k).actors index).data2 1 ≠ 10 := by
        rw [i3]
        have hk2 : 15 ≤ k ∧ k < 24 := by omega
        obtain ⟨ha, hb⟩ := hk2
        interval_cases k <;> decide
      obtain ⟨-, -, -, c4, c5⟩ := ActBombArmed_fuse_fields g (s k) index hf hd
      exact ⟨c4, c5⟩
  · obtain ⟨i1, -, i3⟩ := hc 24 (by omega)
    exact ActBombArmed_blast g (s 24) index i1 (by rw [i3]; decide)

theorem bombWorlds_succ (k : Nat) :
    bombWorlds (k + 1) = ActBombArmed switchGlue (bombWorlds k) 0 :=
  Function.iterate_succ_apply' _ _ _

/-- The theorem `ActBombArmed_lifetime` on the bomb of `bombWorld`: it is on
frame 0 at its fifth tick, on frame 1 at its sixth, on frame 3 at its 25th,
which marks it dead and calls `NewExplosion`. -/
theorem ActBombArmed_lifetime_witness :
    ((bombWorlds 4).actors 0).frame = bombFrame 4 ∧
    ((bombWorlds 5).actors 0).frame = bombFrame 5 ∧
    ((bombWorlds 24).actors 0).frame = bombFrame 24 ∧
    ((ActBombArmed switchGlue (bombWorlds 24) 0).actors 0).dead = true ∧
    (ActBombArmed switchGlue (bombWorlds 24) 0).explosions =
      (NewExplosion (bombWorlds 24) (wsub ((bombWorlds 24).actors 0).x 2)
        ((bombWorlds 24).actors 0).y).explosions :=
  ⟨(ActBombArmed_lifetime switchGlue bombWorld 0 10 20 bombWorlds rfl rfl
      (fun k => by rw [bombWorlds_succ k]; exact ⟨rfl, rfl, rfl⟩)).1 4 (by decide),
    (ActBombArmed_lifetime switchGlue bombWorld 0 10 20 bombWorlds rfl rfl
      (fun k => by rw [bombWorlds_succ k]; exact ⟨rfl, rfl, rfl⟩)).1 5 (by decide),
    (ActBombArmed_lifetime switchGlue bombWorld 0 10 20 bombWorlds rfl rfl
      (fun k => by rw [bombWorlds_succ k]; exact ⟨rfl, rfl, rfl⟩)).1 24 (by decide),
    (ActBombArmed_lifetime switchGlue bombWorld 0 10 20 bombWorlds rfl rfl
      (fun k => by rw [bombWorlds_succ k]; exact ⟨rfl, rfl, rfl⟩)).2.2.2⟩

theorem bombWorlds_frames :
    ((bombWorlds 4).actors 0).frame = 0 ∧ ((bombWorlds 5).actors 0).frame = 1 ∧
    ((bombWorlds 14).actors 0).frame = 2 ∧ ((bombWorlds 15).actors 0).frame = 3 := by
  decide

set_option maxRecDepth 4000 in
theorem bombWorlds_blast :
    ((bombWorlds 24).actors 0).dead = false ∧ ((bombWorlds 25).actors 0).dead = true ∧
    (bombWorlds 24).explosions 0 = { age := 0, x := 0, y := 0 } ∧
    (bombWorlds 25).explosions 0 = { age := 1, x := 8, y := 22 } := by
  decide

/-! ## C39 -/

/-- The counter `numBarrels` after `ConstructActor`: one more exactly when the
argument `data2` is one of the two shard sprites. -/
theorem ConstructActor_numBarrels (g : Glue) (w : World) (a : ActorSpec) :
    (ConstructActor g w a).numBarrels =
      if a.data2 = g.SPR_BARREL_SHARDS ∨ a.data2 = g.SPR_BASKET_SHARDS then wadd w.numBarrels 1
      else w.numBarrels := by
  unfold ConstructActor
  simp only []
  by_cases h : a.data2 = g.SPR_BARREL_SHARDS ∨ a.data2 = g.SPR_BASKET_SHARDS
  · rw [if_pos h, if_pos h]
  · rw [if_neg h, if_neg h]

/-- With the `case ACT_FIREBALL_W:` of the source, a fireball made at the
column whose number is `SPR_BARREL_SHARDS` is counted in `numBarrels`. -/
theorem NewActorAtIndex_fireball_numBarrels (g : Glue) (w : World) (index y : Nat)
    (hcase : g.actorCases g.ACT_FIREBALL_W g.SPR_BARREL_SHARDS y =
      some (caseFireballW g g.SPR_BARREL_SHARDS y)) :
    (NewActorAtIndex g w index g.ACT_FIREBALL_W g.SPR_BARREL_SHARDS y).2.numBarrels =
      wadd w.numBarrels 1 := by
  unfold NewActorAtIndex
  simp only []
  rw [hcase]
  show (ConstructActor g { w with nextActorIndex := index }
    (caseFireballW g g.SPR_BARREL_SHARDS y)).numBarrels = _
  rw [ConstructActor_numBarrels]
  exact if_pos (Or.inl rfl)

/-- C39, the failing input: with the constants of `switchGlue`, where
`SPR_BARREL_SHARDS` is 7, `NewActorAtIndex(0, ACT_FIREBALL_W, 7, 20)` builds an
actor bound to `ActFireball`, not to `ActBarrel`, and raises `numBarrels` from 0
to 1; the same call at column 9 leaves `numBarrels` at 0, and the barrel of
`case ACT_BARREL_POWER_UP:` raises it to 1. -/
theorem NewActorAtIndex_fireball_counted_as_barrel :
    (NewActorAtIndex switchGlue bombWorld 0 switchGlue.ACT_FIREBALL_W 7 20).1 = true ∧
    ((NewActorAtIndex switchGlue bombWorld 0 switchGlue.ACT_FIREBALL_W 7 20).2.actors 0).tickfunc
      = TICK_ActFireball ∧
    TICK_ActFireball ≠ TICK_ActBarrel ∧
    bombWorld.numBarrels = 0 ∧
    (NewActorAtIndex switchGlue bombWorld 0 switchGlue.ACT_FIREBALL_W 7 20).2.numBarrels = 1 ∧
    (NewActorAtIndex switchGlue bombWorld 0 switchGlue.ACT_FIREBALL_W 9 20).2.numBarrels = 0 ∧
    ((NewActorAtIndex switchGlue bombWorld 0 switchGlue.ACT_BARREL_POWER_UP 7 20).2.actors 0).tickfunc
      = TICK_ActBarrel ∧
    (NewActorAtIndex switchGlue bombWorld 0 switchGlue.ACT_BARREL_POWER_UP 7 20).2.numBarrels = 1 := by
  decide

/-! ## C31 -/

/-- A call of `TestPlayerMove` leaves `scrollX` and `mapWidth` as they are. -/
theorem TestPlayerMove_window (g : Glue) (w : World) (dir : Dir4) (x y : Nat) :
    (TestPlayerMove g w dir x y).2.scrollX = w.scrollX ∧
      (TestPlayerMove g w dir x y).2.mapWidth = w.mapWidth := by
  cases dir
  · exact ⟨rfl, rfl⟩
  · rw [TestPlayerMove_north_globals]
    exact ⟨rfl, rfl⟩
  · obtain ⟨e, s, p, h⟩ := TestPlayerMove_south_globals g w x y
    rw [h]
    exact ⟨rfl, rfl⟩
  · exact ⟨rfl, rfl⟩
  · exact ⟨rfl, rfl⟩

/-- The cling block of `MovePlayer` leaves `scrollX` and `mapWidth` as they are -/
theorem MovePlayerCling_window (g : Glue) (w : World) :
    (MovePlayerCling g w).2.scrollX = w.scrollX ∧ (MovePlayerCling g w).2.mapWidth = w.mapWidth := by
  unfold MovePlayerCling
  try simp only []
  split_ifs <;> simp only [TestPlayerMove_window, and_self]

theorem MovePlayerCrouch_window (g : Glue) (w : World) :
    (MovePlayerCrouch g w).scrollX = w.scrollX ∧ (MovePlayerCrouch g w).mapWidth = w.mapWidth := by
  unfold MovePlayerCrouch
  try simp only []
  split_ifs <;> exact ⟨rfl, rfl⟩

theorem MovePlayerClingStart_window (w : World) (dir : Dir4) :
    (MovePlayerClingStart w dir).scrollX = w.scrollX ∧
      (MovePlayerClingStart w dir).mapWidth = w.mapWidth :=
  ⟨rfl, rfl⟩

theorem MovePlayerWestStep_window (g : Glue) (junk : MoveResult) (w : World) :
    (MovePlayerWestStep g junk w).2.scrollX = w.scrollX ∧ (MovePlayerWestStep g junk w).2.mapWidth = w.mapWidth := by
  unfold MovePlayerWestStep
  try simp only []
  split_ifs <;> simp only [TestPlayerMove_window, MovePlayerClingStart_window, and_self]

theorem MovePlayerWestWalk_window (g : Glue) (junk : MoveResult) (w : World) :
    (MovePlayerWestWalk g junk w).scrollX = w.scrollX ∧ (MovePlayerWestWalk g junk w).mapWidth = w.mapWidth := by
  unfold MovePlayerWestWalk
  try simp only []
  split_ifs <;> simp only [TestPlayerMove_window, MovePlayerWestStep_window, and_self]

theorem MovePlayerWest_window (g : Glue) (junk : MoveResult) (w : World) :
    (MovePlayerWest g junk w).scrollX = w.scrollX ∧ (MovePlayerWest g junk w).mapWidth = w.mapWidth := by
  unfold MovePlayerWest
  try simp only []
  split_ifs <;> simp only [MovePlayerWestWalk_window, and_self]

theorem MovePlayerEastStep_window (g : Glue) (junk : MoveResult) (w : World) :
    (MovePlayerEastStep g junk w).2.scrollX = w.scrollX ∧ (MovePlayerEastStep g junk w).2.mapWidth = w.mapWidth := by
  unfold MovePlayerEastStep
  try simp only []
  split_ifs <;> simp only [TestPlayerMove_window, MovePlayerClingStart_window, and_self]

theorem MovePlayerEastWalk_window (g : Glue) (junk : MoveResult) (w : World) :
    (MovePlayerEastWalk g junk w).scrollX = w.scrollX ∧ (MovePlayerEastWalk g junk w).mapWidth = w.mapWidth := by
  unfold MovePlayerEastWalk
  try simp only []
  split_ifs <;> simp only [TestPlayerMove_window, MovePlayerEastStep_window, and_self]

theorem MovePlayerEast_window (g : Glue) (junk : MoveResult) (w : World) :
    (MovePlayerEast g junk w).scrollX = w.scrollX ∧ (MovePlayerEast g junk w).mapWidth = w.mapWidth := by
  unfold MovePlayerEast
  try simp only []
  split_ifs <;> simp only [MovePlayerEastWalk_window, and_self]

theorem latchJump_window (w : World) :
    (latchJump w).scrollX = w.scrollX ∧ (latchJump w).mapWidth = w.mapWidth := by
  unfold latchJump
  try simp only []
  split_ifs <;> exact ⟨rfl, rfl⟩

theorem MovePlayerRecoilFast_window (g : Glue) (w : World) :
    (MovePlayerRecoilFast g w).scrollX = w.scrollX ∧
      (MovePlayerRecoilFast g w).mapWidth = w.mapWidth := by
  unfold MovePlayerRecoilFast
  lift_lets
  intro w1 r
  have hw1 : w1.scrollX = w.scrollX ∧ w1.mapWidth = w.mapWidth := ⟨rfl, rfl⟩
  have hrdef : r = TestPlayerMove g w1 DIR4_NORTH w1.playerX w1.playerY := rfl
  clear_value r w1
  have hr : r.2.scrollX = w.scrollX ∧ r.2.mapWidth = w.mapWidth := by
    rw [hrdef, (TestPlayerMove_window g w1 DIR4_NORTH w1.playerX w1.playerY).1,
      (TestPlayerMove_window g w1 DIR4_NORTH w1.playerX w1.playerY).2]
    exact hw1
  split_ifs
  · exact hr
  · exact hr

theorem MovePlayerRecoilShort_window (w : World) :
    (MovePlayerRecoilShort w).scrollX = w.scrollX ∧ (MovePlayerRecoilShort w).mapWidth = w.mapWidth := by
  unfold MovePlayerRecoilShort
  try simp only []
  split_ifs <;> exact ⟨rfl, rfl⟩

theorem MovePlayerRecoilUp_window (w : World) :
    (MovePlayerRecoilUp w).scrollX = w.scrollX ∧ (MovePlayerRecoilUp w).mapWidth = w.mapWidth := by
  unfold MovePlayerRecoilUp
  try simp only []
  split_ifs <;> exact ⟨rfl, rfl⟩

theorem MovePlayerRecoilFaster_window (g : Glue) (w : World) :
    (MovePlayerRecoilFaster g w).scrollX = w.scrollX ∧ (MovePlayerRecoilFaster g w).mapWidth = w.mapWidth := by
  unfold MovePlayerRecoilFaster
  try simp only []
  split_ifs <;> simp only [MovePlayerRecoilFast_window, and_self]

theorem MovePlayerRecoilEnd_window (w : World) :
    (MovePlayerRecoilEnd w).scrollX = w.scrollX ∧ (MovePlayerRecoilEnd w).mapWidth = w.mapWidth := by
  unfold MovePlayerRecoilEnd
  try simp only []
  split_ifs <;> exact ⟨rfl, rfl⟩

theorem MovePlayerRecoil_window (g : Glue) (w : World) :
    (MovePlayerRecoil g w).scrollX = w.scrollX ∧ (MovePlayerRecoil g w).mapWidth = w.mapWidth := by
  unfold MovePlayerRecoil
  simp only [MovePlayerRecoilEnd_window, MovePlayerRecoilFaster_window, MovePlayerRecoilUp_window, MovePlayerRecoilShort_window, and_self]

theorem MovePlayerJumpOffWall_window (g : Glue) (w : World) :
    (MovePlayerJumpOffWall g w).scrollX = w.scrollX ∧ (MovePlayerJumpOffWall g w).mapWidth = w.mapWidth := by
  unfold MovePlayerJumpOffWall
  try simp only []
  split_ifs <;> exact ⟨rfl, rfl⟩

theorem MovePlayerJumpLift_window (w : World) :
    (MovePlayerJumpLift w).scrollX = w.scrollX ∧ (MovePlayerJumpLift w).mapWidth = w.mapWidth := by
  unfold MovePlayerJumpLift
  try simp only []
  split_ifs <;> exact ⟨rfl, rfl⟩

theorem MovePlayerJumpBump_window (g : Glue) (w : World) :
    (MovePlayerJumpBump g w).scrollX = w.scrollX ∧ (MovePlayerJumpBump g w).mapWidth = w.mapWidth := by
  unfold MovePlayerJumpBump
  try simp only []
  split_ifs <;> simp only [TestPlayerMove_window, and_self]

theorem MovePlayerJumpCalm_window (w : World) :
    (MovePlayerJumpCalm w).scrollX = w.scrollX ∧ (MovePlayerJumpCalm w).mapWidth = w.mapWidth :=
  ⟨rfl, rfl⟩

theorem MovePlayerJumpRise_window (g : Glue) (w : World) :
    (MovePlayerJumpRise g w).scrollX = w.scrollX ∧ (MovePlayerJumpRise g w).mapWidth = w.mapWidth := by
  unfold MovePlayerJumpRise
  simp only [MovePlayerJumpCalm_window, MovePlayerJumpBump_window, MovePlayerJumpLift_window, MovePlayerJumpOffWall_window, and_self]

theorem MovePlayerHeadHit_window (g : Glue) (w : World) :
    (MovePlayerHeadHit g w).scrollX = w.scrollX ∧
      (MovePlayerHeadHit g w).mapWidth = w.mapWidth := by
  unfold MovePlayerHeadHit
  lift_lets
  intro w1 r
  have hw1 : w1.scrollX = w.scrollX ∧ w1.mapWidth = w.mapWidth := ⟨rfl, rfl⟩
  have hrdef : r = TestPlayerMove g w1 DIR4_NORTH w1.playerX (wadd w1.playerY 1) := rfl
  clear_value r w1
  have hr : r.2.scrollX = w.scrollX ∧ r.2.mapWidth = w.mapWidth := by
    rw [hrdef, (TestPlayerMove_window g w1 DIR4_NORTH w1.playerX (wadd w1.playerY 1)).1,
      (TestPlayerMove_window g w1 DIR4_NORTH w1.playerX (wadd w1.playerY 1)).2]
    exact hw1
  clear hrdef
  intro src w2
  have h2 : w2.scrollX = w.scrollX ∧ w2.mapWidth = w.mapWidth := by
    unfold w2
    split_ifs
    · exact hr
    · exact hr
  clear_value w2 src
  intro w3
  have h3 : w3.scrollX = w.scrollX ∧ w3.mapWidth = w.mapWidth := by
    unfold w3
    rw [(latchJump_window _).1, (latchJump_window _).2]
    exact h2
  clear_value w3
  exact h3

theorem MovePlayerJumpEnd_window (g : Glue) (w : World) :
    (MovePlayerJumpEnd g w).scrollX = w.scrollX ∧
      (MovePlayerJumpEnd g w).mapWidth = w.mapWidth := by
  unfold MovePlayerJumpEnd
  lift_lets
  intro w1 r
  have hw1 : w1.scrollX = w.scrollX ∧ w1.mapWidth = w.mapWidth := ⟨rfl, rfl⟩
  have hrdef : r = TestPlayerMove g w1 DIR4_NORTH w1.playerX w1.playerY := rfl
  clear_value r w1
  have hr : r.2.scrollX = w.scrollX ∧ r.2.mapWidth = w.mapWidth := by
    rw [hrdef, (TestPlayerMove_window g w1 DIR4_NORTH w1.playerX w1.playerY).1,
      (TestPlayerMove_window g w1 DIR4_NORTH w1.playerX w1.playerY).2]
    exact hw1
  clear hrdef
  intro w2
  have h2 : w2.scrollX = w.scrollX ∧ w2.mapWidth = w.mapWidth := by
    unfold w2
    split_ifs
    · rw [(MovePlayerHeadHit_window g r.2).1, (MovePlayerHeadHit_window g r.2).2]
      exact hr
    · exact hr
  clear_value w2
  intro w3
  have h3 : w3.scrollX = w.scrollX ∧ w3.mapWidth = w.mapWidth := h2
  clear_value w3
  intro w4
  have h4 : w4.scrollX = w.scrollX ∧ w4.mapWidth = w.mapWidth := by
    unfold w4
    rw [(latchJump_window _).1, (latchJump_window _).2]
    exact h3
  clear_value w4
  split_ifs
  · exact h4
  · exact h3
  · exact h2

theorem MovePlayerJump_window (g : Glue) (w : World) :
    (MovePlayerJump g w).scrollX = w.scrollX ∧ (MovePlayerJump g w).mapWidth = w.mapWidth := by
  unfold MovePlayerJump
  try simp only []
  split_ifs <;> simp only [MovePlayerJumpEnd_window, MovePlayerRecoil_window, MovePlayerJumpRise_window, and_self]

theorem MovePlayerLand_window (w : World) :
    (MovePlayerLand w).scrollX = w.scrollX ∧ (MovePlayerLand w).mapWidth = w.mapWidth := by
  unfold MovePlayerLand
  exact ⟨rfl, rfl⟩

theorem MovePlayerFallFast_window (g : Glue) (w : World) :
    (MovePlayerFallFast g w).scrollX = w.scrollX ∧ (MovePlayerFallFast g w).mapWidth = w.mapWidth := by
  unfold MovePlayerFallFast
  try simp only []
  split_ifs <;> simp only [TestPlayerMove_window, MovePlayerLand_window, and_self]

theorem MovePlayerFallFaster_window (g : Glue) (w : World) :
    (MovePlayerFallFaster g w).scrollX = w.scrollX ∧ (MovePlayerFallFaster g w).mapWidth = w.mapWidth := by
  unfold MovePlayerFallFaster
  try simp only []
  split_ifs <;> simp only [MovePlayerFallFast_window, and_self]

theorem MovePlayerFallTick_window (w : World) :
    (MovePlayerFallTick w).scrollX = w.scrollX ∧ (MovePlayerFallTick w).mapWidth = w.mapWidth := by
  unfold MovePlayerFallTick
  try simp only []
  split_ifs <;> exact ⟨rfl, rfl⟩

theorem MovePlayerFallDown_window (g : Glue) (w : World) :
    (MovePlayerFallDown g w).scrollX = w.scrollX ∧ (MovePlayerFallDown g w).mapWidth = w.mapWidth := by
  unfold MovePlayerFallDown
  try simp only []
  split_ifs <;> simp only [TestPlayerMove_window, MovePlayerLand_window, and_self]

theorem MovePlayerFallStep_window (g : Glue) (w : World) :
    (MovePlayerFallStep g w).scrollX = w.scrollX ∧ (MovePlayerFallStep g w).mapWidth = w.mapWidth := by
  unfold MovePlayerFallStep
  try simp only []
  split_ifs <;> simp only [MovePlayerFallTick_window, MovePlayerFallFaster_window, MovePlayerFallDown_window, and_self]

theorem MovePlayerFallLatch_window (w : World) :
    (MovePlayerFallLatch w).scrollX = w.scrollX ∧ (MovePlayerFallLatch w).mapWidth = w.mapWidth := by
  unfold MovePlayerFallLatch
  try simp only []
  split_ifs <;> exact ⟨rfl, rfl⟩

theorem MovePlayerFallBegin_window (w : World) :
    (MovePlayerFallBegin w).scrollX = w.scrollX ∧ (MovePlayerFallBegin w).mapWidth = w.mapWidth := by
  unfold MovePlayerFallBegin
  try simp only []
  split_ifs <;> exact ⟨rfl, rfl⟩

theorem MovePlayerFallHold_window (w : World) :
    (MovePlayerFallHold w).scrollX = w.scrollX ∧ (MovePlayerFallHold w).mapWidth = w.mapWidth := by
  unfold MovePlayerFallHold
  try simp only []
  split_ifs <;> exact ⟨rfl, rfl⟩

theorem MovePlayerFall_window (g : Glue) (w : World) :
    (MovePlayerFall g w).scrollX = w.scrollX ∧ (MovePlayerFall g w).mapWidth = w.mapWidth := by
  unfold MovePlayerFall
  try simp only []
  split_ifs <;> simp only [MovePlayerFallHold_window, MovePlayerFallStep_window, MovePlayerFallBegin_window, MovePlayerFallLatch_window, and_self]

theorem MovePlayerUnlatch_window (w : World) :
    (MovePlayerUnlatch w).scrollX = w.scrollX ∧ (MovePlayerUnlatch w).mapWidth = w.mapWidth := by
  unfold MovePlayerUnlatch
  try simp only []
  split_ifs <;> exact ⟨rfl, rfl⟩

theorem MovePlayerGroundTest_window (g : Glue) (w : World) :
    (MovePlayerGroundTest g w).scrollX = w.scrollX ∧ (MovePlayerGroundTest g w).mapWidth = w.mapWidth := by
  unfold MovePlayerGroundTest
  simp only [TestPlayerMove_window, and_self]

theorem MovePlayerLookNorth_window (g : Glue) (clingslip : Bool) (w : World) :
    (MovePlayerLookNorth g clingslip w).scrollX = w.scrollX ∧ (MovePlayerLookNorth g clingslip w).mapWidth = w.mapWidth := by
  unfold MovePlayerLookNorth
  try simp only []
  split_ifs <;> exact ⟨rfl, rfl⟩

theorem MovePlayerLookSouth_window (g : Glue) (clingslip : Bool) (w : World) :
    (MovePlayerLookSouth g clingslip w).scrollX = w.scrollX ∧ (MovePlayerLookSouth g clingslip w).mapWidth = w.mapWidth := by
  unfold MovePlayerLookSouth
  try simp only []
  split_ifs <;> exact ⟨rfl, rfl⟩

theorem MovePlayerLook_window (g : Glue) (clingslip : Bool) (w : World) :
    (MovePlayerLook g clingslip w).scrollX = w.scrollX ∧ (MovePlayerLook g clingslip w).mapWidth = w.mapWidth := by
  unfold MovePlayerLook
  try simp only []
  split_ifs <;> simp only [MovePlayerLookNorth_window, MovePlayerLookSouth_window, and_self]

theorem MovePlayerFallFrame_window (g : Glue) (w : World) :
    (MovePlayerFallFrame g w).scrollX = w.scrollX ∧ (MovePlayerFallFrame g w).mapWidth = w.mapWidth := by
  unfold MovePlayerFallFrame
  try simp only []
  split_ifs <;> exact ⟨rfl, rfl⟩

theorem MovePlayerJumpFrame_window (g : Glue) (w : World) :
    (MovePlayerJumpFrame g w).scrollX = w.scrollX ∧ (MovePlayerJumpFrame g w).mapWidth = w.mapWidth := by
  unfold MovePlayerJumpFrame
  try simp only []
  split_ifs <;> exact ⟨rfl, rfl⟩

theorem MovePlayerIdleCount_window (g : Glue) (w : World) :
    (MovePlayerIdleCount g w).scrollX = w.scrollX ∧
      (MovePlayerIdleCount g w).mapWidth = w.mapWidth := by
  unfold MovePlayerIdleCount
  lift_lets
  intro w1
  have hr : w1.scrollX = w.scrollX ∧ w1.mapWidth = w.mapWidth := ⟨rfl, rfl⟩
  split_ifs <;> exact hr

theorem MovePlayerIdleTick_window (g : Glue) (w : World) :
    (MovePlayerIdleTick g w).scrollX = w.scrollX ∧ (MovePlayerIdleTick g w).mapWidth = w.mapWidth := by
  unfold MovePlayerIdleTick
  try simp only []
  split_ifs <;> simp only [MovePlayerIdleCount_window, and_self]

theorem MovePlayerIdleBlink_window (g : Glue) (rnd : Nat) (w : World) :
    (MovePlayerIdleBlink g rnd w).scrollX = w.scrollX ∧ (MovePlayerIdleBlink g rnd w).mapWidth = w.mapWidth := by
  unfold MovePlayerIdleBlink
  try simp only []
  split_ifs <;> exact ⟨rfl, rfl⟩

theorem MovePlayerIdle_window (g : Glue) (rnd : Nat) (w : World) :
    (MovePlayerIdle g rnd w).scrollX = w.scrollX ∧ (MovePlayerIdle g rnd w).mapWidth = w.mapWidth := by
  unfold MovePlayerIdle
  simp only [MovePlayerIdleBlink_window, MovePlayerIdleTick_window, and_self]

theorem MovePlayerWalkFrame_window (g : Glue) (w : World) :
    (MovePlayerWalkFrame g w).scrollX = w.scrollX ∧ (MovePlayerWalkFrame g w).mapWidth = w.mapWidth := by
  unfold MovePlayerWalkFrame
  try simp only []
  split_ifs <;> exact ⟨rfl, rfl⟩

theorem MovePlayerClingFrame_window (g : Glue) (away : Bool) (w : World) :
    (MovePlayerClingFrame g away w).scrollX = w.scrollX ∧ (MovePlayerClingFrame g away w).mapWidth = w.mapWidth := by
  unfold MovePlayerClingFrame
  try simp only []
  split_ifs <;> exact ⟨rfl, rfl⟩

theorem MovePlayerFrame_window (g : Glue) (rnd : Nat) (clingslip : Bool) (w : World) :
    (MovePlayerFrame g rnd clingslip w).2.scrollX = w.scrollX ∧ (MovePlayerFrame g rnd clingslip w).2.mapWidth = w.mapWidth := by
  unfold MovePlayerFrame
  try simp only []
  split_ifs <;> simp only [MovePlayerLook_window, MovePlayerClingFrame_window, MovePlayerFallFrame_window, MovePlayerJumpFrame_window, MovePlayerIdle_window, MovePlayerWalkFrame_window, and_self]

theorem MovePlayerScrollDown_window (w : World) :
    (MovePlayerScrollDown w).scrollX = w.scrollX ∧ (MovePlayerScrollDown w).mapWidth = w.mapWidth := by
  unfold MovePlayerScrollDown
  try simp only []
  split_ifs <;> exact ⟨rfl, rfl⟩

theorem MovePlayerScrollUpFast_window (w : World) :
    (MovePlayerScrollUpFast w).scrollX = w.scrollX ∧ (MovePlayerScrollUpFast w).mapWidth = w.mapWidth := by
  unfold MovePlayerScrollUpFast
  try simp only []
  split_ifs <;> exact ⟨rfl, rfl⟩

theorem MovePlayerScrollUp_window (w : World) :
    (MovePlayerScrollUp w).scrollX = w.scrollX ∧ (MovePlayerScrollUp w).mapWidth = w.mapWidth := by
  unfold MovePlayerScrollUp
  try simp only []
  split_ifs <;> exact ⟨rfl, rfl⟩

theorem MovePlayerScrollSlip_window (clingslip : Bool) (w : World) :
    (MovePlayerScrollSlip clingslip w).scrollX = w.scrollX ∧ (MovePlayerScrollSlip clingslip w).mapWidth = w.mapWidth := by
  unfold MovePlayerScrollSlip
  try simp only []
  split_ifs <;> simp only [MovePlayerScrollUp_window, MovePlayerScrollUpFast_window, and_self]

theorem MovePlayerScrollY_window (clingslip : Bool) (w : World) :
    (MovePlayerScrollY clingslip w).scrollX = w.scrollX ∧ (MovePlayerScrollY clingslip w).mapWidth = w.mapWidth := by
  unfold MovePlayerScrollY
  simp only [MovePlayerScrollSlip_window, MovePlayerScrollDown_window, and_self]

theorem ClearPlayerPush_window (g : Glue) (w : World) :
    (ClearPlayerPush g w).scrollX = w.scrollX ∧ (ClearPlayerPush g w).mapWidth = w.mapWidth :=
  ⟨rfl, rfl⟩

theorem pushWallTest_window (g : Glue) (w : World) :
    (pushWallTest g w).2.scrollX = w.scrollX ∧ (pushWallTest g w).2.mapWidth = w.mapWidth := by
  unfold pushWallTest
  try simp only []
  split_ifs <;> simp only [TestPlayerMove_window, and_self]

theorem TestPlayerMove_playerPushDir (g : Glue) (w : World) (dir : Dir4) (x y : Nat) :
    (TestPlayerMove g w dir x y).2.playerPushDir = w.playerPushDir := by
  cases dir
  · rfl
  · rw [TestPlayerMove_north_globals]
  · obtain ⟨e, s, p, h⟩ := TestPlayerMove_south_globals g w x y
    rw [h]
  · rfl
  · rfl

theorem pushWallTest_playerPushDir (g : Glue) (w : World) :
    (pushWallTest g w).2.playerPushDir = w.playerPushDir := by
  unfold pushWallTest
  simp only []
  split_ifs <;> simp only [TestPlayerMove_playerPushDir]

theorem NewActor_window (g : Glue) (w : World) (t x y : Nat) :
    (NewActor g w t x y).scrollX = w.scrollX ∧ (NewActor g w t x y).mapWidth = w.mapWidth := by
  obtain ⟨a, n, i, b, h⟩ := NewActor_frame g w t x y
  rw [h]
  exact ⟨rfl, rfl⟩

theorem MovePlayerBombDrop_window (g : Glue) (o : Outside) (hu : keepsWindow o.UpdateBombs)
    (w : World) (x : Nat) :
    (MovePlayerBombDrop g o w x).scrollX = w.scrollX ∧
      (MovePlayerBombDrop g o w x).mapWidth = w.mapWidth := by
  unfold MovePlayerBombDrop
  simp only []
  rw [(hu _).1, (hu _).2]
  exact NewActor_window g w g.ACT_BOMB_ARMED x (wsub w.playerY 2)

theorem MovePlayerBombPlace_window (g : Glue) (o : Outside) (hs : keepsWindow o.ShowBombHint)
    (hu : keepsWindow o.UpdateBombs) (w : World) :
    (MovePlayerBombPlace g o w).scrollX = w.scrollX ∧
      (MovePlayerBombPlace g o w).mapWidth = w.mapWidth := by
  have hs1 : ∀ u, (o.ShowBombHint u).scrollX = u.scrollX := fun u => (hs u).1
  have hs2 : ∀ u, (o.ShowBombHint u).mapWidth = u.mapWidth := fun u => (hs u).2
  unfold MovePlayerBombPlace
  simp only []
  split_ifs <;> simp only [hs1, hs2, MovePlayerBombDrop_window g o hu, and_self]

theorem MovePlayerBomb_window (g : Glue) (o : Outside) (hs : keepsWindow o.ShowBombHint)
    (hu : keepsWindow o.UpdateBombs) (w : World) :
    (MovePlayerBomb g o w).scrollX = w.scrollX ∧
      (MovePlayerBomb g o w).mapWidth = w.mapWidth := by
  unfold MovePlayerBomb
  simp only []
  split_ifs <;> simp only [MovePlayerBombPlace_window g o hs hu, and_self]


/-! ### The statements of `MovePlayer` that write `scrollX` -/

theorem dir8X_range (d : Nat) : dir8X d = 0 ∨ dir8X d = 1 ∨ dir8X d = -1 := by
  unfold dir8X
  rcases d with _ | _ | _ | _ | _ | _ | _ | _ | _ | d
  all_goals simp

/-- The horizontal scroll statement of a round of `MovePlayerPush`, and the
step back after a wall hit, keep a window that is within the map there, when
the map is at least two columns wider than the window. -/
theorem pushScroll_bounds (S mw sx : Nat) (dx : Int) (hdx : dx = 0 ∨ dx = 1 ∨ dx = -1)
    (hw : S + 2 ≤ mw) (h : sx ≤ mw - S) :
    (if waddInt sx dx > 0 ∧ waddInt sx dx < wsub mw (wsub S 1) then waddInt sx dx else sx)
        ≤ mw - S ∧
      waddInt
        (if waddInt sx dx > 0 ∧ waddInt sx dx < wsub mw (wsub S 1) then waddInt sx dx else sx)
        (-dx) ≤ mw - S := by
  unfold waddInt wsub
  rcases hdx with h0 | h1 | h2
  · subst h0
    split_ifs <;> omega
  · subst h1
    split_ifs <;> omega
  · subst h2
    split_ifs <;> omega

theorem scroll_dec_bound (S mw sx : Nat) (h : sx ≤ mw - S) (hpos : sx > 0) :
    wsub sx 1 ≤ mw - S := by
  unfold wsub
  omega

theorem scroll_inc_bound (S mw sx : Nat) (hS : S ≤ mw) (hc : wsub mw S > sx) :
    wadd sx 1 ≤ mw - S := by
  unfold wsub at hc
  unfold wadd
  omega

/-- The slide to the west keeps the scroll window within the map. -/
theorem MovePlayerSlideWest_inMap (g : Glue) (w : World)
    (h : w.scrollX ≤ w.mapWidth - g.SCROLLW) :
    (MovePlayerSlideWest g w).mapWidth = w.mapWidth ∧
      (MovePlayerSlideWest g w).scrollX ≤ w.mapWidth - g.SCROLLW := by
  unfold MovePlayerSlideWest
  lift_lets
  intro w1
  have h1 : w1.scrollX = w.scrollX ∧ w1.mapWidth = w.mapWidth := by
    unfold w1
    split_ifs <;> exact ⟨rfl, rfl⟩
  clear_value w1
  intro r
  have hr : r.2.scrollX = w.scrollX ∧ r.2.mapWidth = w.mapWidth := by
    unfold r
    rw [(TestPlayerMove_window g w1 DIR4_SOUTH w1.playerX (wadd w1.playerY 1)).1,
      (TestPlayerMove_window g w1 DIR4_SOUTH w1.playerX (wadd w1.playerY 1)).2]
    exact h1
  clear_value r
  intro src w2
  have h2 : w2.scrollX = w.scrollX ∧ w2.mapWidth = w.mapWidth := by
    unfold w2
    split_ifs
    · exact hr
    · exact hr
  clear_value w2 src
  intro w3
  have h3 : w3.scrollX = w.scrollX ∧ w3.mapWidth = w.mapWidth := by
    unfold w3
    split_ifs
    · exact h2
    · exact h2
  clear_value w3
  intro w4
  have h4 : w4.mapWidth = w.mapWidth ∧ w4.scrollX ≤ w.mapWidth - g.SCROLLW := by
    unfold w4
    split_ifs with hc
    · refine ⟨h3.2, ?_⟩
      show wsub w3.scrollX 1 ≤ w.mapWidth - g.SCROLLW
      rw [h3.1] at hc ⊢
      exact scroll_dec_bound g.SCROLLW w.mapWidth w.scrollX h hc.2
    · refine ⟨h3.2, ?_⟩
      rw [h3.1]
      exact h
  clear_value w4
  exact h4

/-- The slide to the east keeps the scroll window within the map. -/
theorem MovePlayerSlideEast_inMap (g : Glue) (w : World) (hS : g.SCROLLW ≤ w.mapWidth)
    (h : w.scrollX ≤ w.mapWidth - g.SCROLLW) :
    (MovePlayerSlideEast g w).mapWidth = w.mapWidth ∧
      (MovePlayerSlideEast g w).scrollX ≤ w.mapWidth - g.SCROLLW := by
  unfold MovePlayerSlideEast
  lift_lets
  intro w1
  have h1 : w1.scrollX = w.scrollX ∧ w1.mapWidth = w.mapWidth := by
    unfold w1
    split_ifs <;> exact ⟨rfl, rfl⟩
  clear_value w1
  intro r
  have hr : r.2.scrollX = w.scrollX ∧ r.2.mapWidth = w.mapWidth := by
    unfold r
    rw [(TestPlayerMove_window g w1 DIR4_SOUTH w1.playerX (wadd w1.playerY 1)).1,
      (TestPlayerMove_window g w1 DIR4_SOUTH w1.playerX (wadd w1.playerY 1)).2]
    exact h1
  clear_value r
  intro src w2
  have h2 : w2.scrollX = w.scrollX ∧ w2.mapWidth = w.mapWidth := by
    unfold w2
    split_ifs
    · exact hr
    · exact hr
  clear_value w2 src
  intro w3
  have h3 : w3.scrollX = w.scrollX ∧ w3.mapWidth = w.mapWidth := by
    unfold w3
    split_ifs
    · exact h2
    · exact h2
  clear_value w3
  intro w4
  have h4 : w4.mapWidth = w.mapWidth ∧ w4.scrollX ≤ w.mapWidth - g.SCROLLW := by
    unfold w4
    split_ifs with hc
    · refine ⟨h3.2, ?_⟩
      show wadd w3.scrollX 1 ≤ w.mapWidth - g.SCROLLW
      rw [h3.1, h3.2] at hc
      rw [h3.1]
      exact scroll_inc_bound g.SCROLLW w.mapWidth w.scrollX hS hc.2
    · refine ⟨h3.2, ?_⟩
      rw [h3.1]
      exact h
  clear_value w4
  exact h4

/-- The slide block keeps the scroll window within the map. -/
theorem MovePlayerSlide_inMap (g : Glue) (w : World) (hS : g.SCROLLW ≤ w.mapWidth)
    (h : w.scrollX ≤ w.mapWidth - g.SCROLLW) :
    (MovePlayerSlide g w).mapWidth = w.mapWidth ∧
      (MovePlayerSlide g w).scrollX ≤ w.mapWidth - g.SCROLLW := by
  unfold MovePlayerSlide
  lift_lets
  intro w1
  have h1 : w1.mapWidth = w.mapWidth ∧ w1.scrollX ≤ w.mapWidth - g.SCROLLW := by
    unfold w1
    split_ifs
    · exact MovePlayerSlideWest_inMap g w h
    · exact ⟨rfl, h⟩
  clear_value w1
  split_ifs
  · have h2 := MovePlayerSlideEast_inMap g w1 (by rw [h1.1]; exact hS)
      (by rw [h1.1]; exact h1.2)
    rw [h1.1] at h2
    exact h2
  · exact h1
  · exact ⟨rfl, h⟩

/-- The move branch of `MovePlayer` keeps the scroll window within the map. -/
theorem MovePlayerMove_inMap (g : Glue) (junk : MoveResult) (w : World)
    (hS : g.SCROLLW ≤ w.mapWidth) (h : w.scrollX ≤ w.mapWidth - g.SCROLLW) :
    (MovePlayerMove g junk w).mapWidth = w.mapWidth ∧
      (MovePlayerMove g junk w).scrollX ≤ w.mapWidth - g.SCROLLW := by
  have hg := MovePlayerGroundTest_window g w
  have hs := MovePlayerSlide_inMap g (MovePlayerGroundTest g w) (by rw [hg.2]; exact hS)
    (by rw [hg.1, hg.2]; exact h)
  rw [hg.2] at hs
  unfold MovePlayerMove
  simp only [MovePlayerFall_window, MovePlayerJump_window, MovePlayerUnlatch_window,
    MovePlayerEast_window, MovePlayerWest_window]
  exact hs

/-- The horizontal scroll statement at the end of `MovePlayer` keeps the scroll
window within the map. -/
theorem MovePlayerScrollX_inMap (g : Glue) (w : World) (hS : g.SCROLLW ≤ w.mapWidth)
    (h : w.scrollX ≤ w.mapWidth - g.SCROLLW) :
    (MovePlayerScrollX g w).mapWidth = w.mapWidth ∧
      (MovePlayerScrollX g w).scrollX ≤ w.mapWidth - g.SCROLLW := by
  unfold MovePlayerScrollX
  split_ifs with h1 h2
  · exact ⟨rfl, scroll_inc_bound g.SCROLLW w.mapWidth w.scrollX hS h1.2.1⟩
  · exact ⟨rfl, scroll_dec_bound g.SCROLLW w.mapWidth w.scrollX h h2.2⟩
  · exact ⟨rfl, h⟩

theorem MovePlayerScroll_inMap (g : Glue) (clingslip : Bool) (w : World)
    (hS : g.SCROLLW ≤ w.mapWidth) (h : w.scrollX ≤ w.mapWidth - g.SCROLLW) :
    (MovePlayerScroll g clingslip w).mapWidth = w.mapWidth ∧
      (MovePlayerScroll g clingslip w).scrollX ≤ w.mapWidth - g.SCROLLW := by
  have hy := MovePlayerScrollY_window clingslip w
  have hx := MovePlayerScrollX_inMap g (MovePlayerScrollY clingslip w)
    (by rw [hy.2]; exact hS) (by rw [hy.1, hy.2]; exact h)
  rw [hy.2] at hx
  unfold MovePlayerScroll
  exact hx

/-- The statements of `MovePlayer` for a player who is not pushed keep the
scroll window within the map. -/
theorem MovePlayerActs_inMap (g : Glue) (o : Outside) (junk : MoveResult) (rnd : Nat)
    (w : World) (hs : keepsWindow o.ShowBombHint) (hu : keepsWindow o.UpdateBombs)
    (hS : g.SCROLLW ≤ w.mapWidth) (h : w.scrollX ≤ w.mapWidth - g.SCROLLW) :
    (MovePlayerActs g o junk rnd w).mapWidth = w.mapWidth ∧
      (MovePlayerActs g o junk rnd w).scrollX ≤ w.mapWidth - g.SCROLLW := by
  unfold MovePlayerActs
  lift_lets
  intro rc
  have hc : rc.2.scrollX = w.scrollX ∧ rc.2.mapWidth = w.mapWidth := by
    unfold rc
    exact MovePlayerCling_window g w
  clear_value rc
  intro w2
  have h2 : w2.scrollX = w.scrollX ∧ w2.mapWidth = w.mapWidth := by
    unfold w2
    rw [(MovePlayerBomb_window g o hs hu rc.2).1, (MovePlayerBomb_window g o hs hu rc.2).2]
    exact hc
  clear_value w2
  intro w3
  have h3 : w3.mapWidth = w.mapWidth ∧ w3.scrollX ≤ w.mapWidth - g.SCROLLW := by
    unfold w3
    split_ifs
    · rw [(MovePlayerCrouch_window g w2).1, (MovePlayerCrouch_window g w2).2, h2.1, h2.2]
      exact ⟨rfl, h⟩
    · have hm := MovePlayerMove_inMap g junk w2 (by rw [h2.2]; exact hS)
        (by rw [h2.1, h2.2]; exact h)
      rw [h2.2] at hm
      exact hm
  clear_value w3
  intro rf
  have hf : rf.2.mapWidth = w.mapWidth ∧ rf.2.scrollX ≤ w.mapWidth - g.SCROLLW := by
    unfold rf
    rw [(MovePlayerFrame_window g rnd rc.1 w3).1, (MovePlayerFrame_window g rnd rc.1 w3).2]
    exact h3
  clear_value rf
  split_ifs
  · exact hf
  · have hx := MovePlayerScroll_inMap g rc.1 rf.2 (by rw [hf.1]; exact hS)
      (by rw [hf.1]; exact hf.2)
    rw [hf.1] at hx
    exact hx

/-! ### The push -/

/-- One round of the loop of `MovePlayerPush`: `mapWidth` and `playerPushDir`
stay, and `scrollX` moves by `dir8X[playerPushDir]` when the result is above 0
and below `mapWidth - (SCROLLW - 1)`. -/
theorem MovePlayerPushStep_scroll (g : Glue) (w : World) :
    (MovePlayerPushStep g w).2.mapWidth = w.mapWidth ∧
      (MovePlayerPushStep g w).2.playerPushDir = w.playerPushDir ∧
      (MovePlayerPushStep g w).2.scrollX =
        (if waddInt w.scrollX (dir8X w.playerPushDir) > 0 ∧
            waddInt w.scrollX (dir8X w.playerPushDir) < wsub w.mapWidth (wsub g.SCROLLW 1) then
          waddInt w.scrollX (dir8X w.playerPushDir)
        else w.scrollX) := by
  unfold MovePlayerPushStep
  lift_lets
  intro dx dy
  have hdx : dx = dir8X w.playerPushDir := rfl
  clear_value dx dy
  subst hdx
  intro w1
  have h1 : w1.mapWidth = w.mapWidth ∧ w1.playerPushDir = w.playerPushDir ∧
      w1.scrollX = w.scrollX := by
    unfold w1
    split_ifs <;> exact ⟨rfl, rfl, rfl⟩
  clear_value w1
  intro w2
  have h2 : w2.mapWidth = w.mapWidth ∧ w2.playerPushDir = w.playerPushDir ∧
      w2.scrollX = w.scrollX := h1
  clear_value w2
  intro w3
  have h3 : w3.mapWidth = w.mapWidth ∧ w3.playerPushDir = w.playerPushDir ∧
      w3.scrollX =
        (if waddInt w.scrollX (dir8X w.playerPushDir) > 0 ∧
            waddInt w.scrollX (dir8X w.playerPushDir) < wsub w.mapWidth (wsub g.SCROLLW 1) then
          waddInt w.scrollX (dir8X w.playerPushDir)
        else w.scrollX) := by
    unfold w3
    split_ifs with hc hd hd
    · refine ⟨h2.1, h2.2.1, ?_⟩
      show waddInt w2.scrollX (dir8X w.playerPushDir) = _
      rw [h2.2.2]
    · rw [h2.1, h2.2.2] at hc
      exact absurd hc hd
    · rw [h2.1, h2.2.2] at hc
      exact absurd hd hc
    · exact h2
  clear_value w3
  intro w4
  have h4 : w4.mapWidth = w.mapWidth ∧ w4.playerPushDir = w.playerPushDir ∧
      w4.scrollX =
        (if waddInt w.scrollX (dir8X w.playerPushDir) > 0 ∧
            waddInt w.scrollX (dir8X w.playerPushDir) < wsub w.mapWidth (wsub g.SCROLLW 1) then
          waddInt w.scrollX (dir8X w.playerPushDir)
        else w.scrollX) := by
    have e4 : w4.mapWidth = w3.mapWidth ∧ w4.playerPushDir = w3.playerPushDir ∧
        w4.scrollX = w3.scrollX := by
      unfold w4
      split_ifs <;> exact ⟨rfl, rfl, rfl⟩
    rw [e4.1, e4.2.1, e4.2.2]
    exact h3
  clear_value w4
  by_cases hstop : w4.stopPlayerPushAtWall = true
  · rw [if_pos hstop, (pushWallTest_window g w4).1, (pushWallTest_window g w4).2,
      pushWallTest_playerPushDir g w4]
    exact h4
  · rw [if_neg hstop]
    exact h4

/-- The loop of `MovePlayerPush` keeps the scroll window within the map, and
after a wall hit the window is within the map after the step back too. -/
theorem MovePlayerPushLoop_inMap (g : Glue) (n : Nat) (w : World)
    (hw : g.SCROLLW + 2 ≤ w.mapWidth) (h : w.scrollX ≤ w.mapWidth - g.SCROLLW) :
    (MovePlayerPushLoop g n w).2.mapWidth = w.mapWidth ∧
      (MovePlayerPushLoop g n w).2.playerPushDir = w.playerPushDir ∧
      (MovePlayerPushLoop g n w).2.scrollX ≤ w.mapWidth - g.SCROLLW ∧
      ((MovePlayerPushLoop g n w).1 = true →
        waddInt (MovePlayerPushLoop g n w).2.scrollX (- dir8X w.playerPushDir)
          ≤ w.mapWidth - g.SCROLLW) := by
  induction n generalizing w with
  | zero =>
    exact ⟨rfl, rfl, h, fun hf => Bool.noConfusion hf⟩
  | succ n ih =>
    obtain ⟨s1, s2, s3⟩ := MovePlayerPushStep_scroll g w
    have hb := pushScroll_bounds g.SCROLLW w.mapWidth w.scrollX (dir8X w.playerPushDir)
      (dir8X_range w.playerPushDir) hw h
    rw [← s3] at hb
    have e : MovePlayerPushLoop g (n + 1) w =
        if (MovePlayerPushStep g w).1 = true then MovePlayerPushStep g w
        else MovePlayerPushLoop g n (MovePlayerPushStep g w).2 := rfl
    rw [e]
    by_cases hhit : (MovePlayerPushStep g w).1 = true
    · rw [if_pos hhit]
      exact ⟨s1, s2, hb.1, fun _ => hb.2⟩
    · rw [if_neg hhit]
      have hi := ih (MovePlayerPushStep g w).2 (by rw [s1]; exact hw) (by rw [s1]; exact hb.1)
      rw [s1, s2] at hi
      exact hi

/-- The function `MovePlayerPush` keeps the scroll window within a map that is
at least two columns wider than the window. -/
theorem MovePlayerPush_inMap (g : Glue) (w : World)
    (hw : g.SCROLLW + 2 ≤ w.mapWidth) (h : w.scrollX ≤ w.mapWidth - g.SCROLLW) :
    (MovePlayerPush g w).mapWidth = w.mapWidth ∧
      (MovePlayerPush g w).scrollX ≤ w.mapWidth - g.SCROLLW := by
  obtain ⟨l1, l2, l3, l4⟩ := MovePlayerPushLoop_inMap g w.playerPushSpeed w hw h
  unfold MovePlayerPush
  lift_lets
  intro r
  have hr : r = MovePlayerPushLoop g w.playerPushSpeed w := rfl
  clear_value r
  rw [← hr] at l1 l2 l3 l4
  clear hr
  intro src v
  have hv : v.mapWidth = w.mapWidth ∧ v.scrollX ≤ w.mapWidth - g.SCROLLW := ⟨l1, l3⟩
  clear_value v src
  split_ifs with c1 c2 c3 c4
  · exact ⟨rfl, h⟩
  · exact ⟨rfl, h⟩
  · unfold MovePlayerPushBack
    rw [(ClearPlayerPush_window g _).1, (ClearPlayerPush_window g _).2]
    refine ⟨l1, ?_⟩
    show waddInt r.2.scrollX (- dir8X r.2.playerPushDir) ≤ w.mapWidth - g.SCROLLW
    rw [l2]
    exact l4 c3
  · rw [(ClearPlayerPush_window g v).1, (ClearPlayerPush_window g v).2]
    exact hv
  · exact hv

/-- The step back after a wall hit in `MovePlayerPush` is not guarded.  On a map
of 39 columns, one more than the 38 of the window and not a width that
`LoadMapData` has a case for, with the window at column 1, a push to the west
that hits a wall in its first round ends with `scrollX = 2`: the round leaves
`scrollX` alone, since `scrollX - 1` is not above 0, and the step back adds 1
without a test.  This is why the lemma below asks for a map at least two
columns wider than the window. -/
theorem MovePlayer_push_back_leaves_window :
    demoGlue.SCROLLW < (pushedWorld 39).mapWidth ∧
    scrollXInMap demoGlue (pushedWorld 39) ∧
    (MovePlayer demoGlue quietOutside MOVE_FREE 7 (pushedWorld 39)).mapWidth = 39 ∧
    (MovePlayer demoGlue quietOutside MOVE_FREE 7 (pushedWorld 39)).scrollX = 2 ∧
    (MovePlayer demoGlue quietOutside MOVE_FREE 7 (pushedWorld 39)).playerX = 20 ∧
    (MovePlayer demoGlue quietOutside MOVE_FREE 7 (pushedWorld 39)).isPlayerPushed = false ∧
    ¬ scrollXInMap demoGlue (MovePlayer demoGlue quietOutside MOVE_FREE 7 (pushedWorld 39)) := by
  decide

/-- A call of `MovePlayer` keeps the scroll window within a map that is at
least two columns wider than the window (`mapWidth >= SCROLLW + 2`), when the
functions `ShowBombHint` and `UpdateBombs` leave `scrollX` and `mapWidth` as
they are. -/
theorem MovePlayer_keeps_scroll_window (g : Glue) (o : Outside) (junk : MoveResult)
    (rnd : Nat) (w : World) (hs : keepsWindow o.ShowBombHint) (hu : keepsWindow o.UpdateBombs)
    (hw : g.SCROLLW + 2 ≤ w.mapWidth) (h : scrollXInMap g w) :
    (MovePlayer g o junk rnd w).mapWidth = w.mapWidth ∧
      scrollXInMap g (MovePlayer g o junk rnd w) := by
  unfold scrollXInMap at h ⊢
  have key : (MovePlayer g o junk rnd w).mapWidth = w.mapWidth ∧
      (MovePlayer g o junk rnd w).scrollX ≤ w.mapWidth - g.SCROLLW := by
    have hp := MovePlayerPush_inMap g
      { w with canPlayerCling := 0, movecount := wadd w.movecount 1 } hw h
    have ha := MovePlayerActs_inMap g o junk rnd
      (MovePlayerPush g { w with canPlayerCling := 0, movecount := wadd w.movecount 1 }) hs hu
      (by rw [hp.1]; show g.SCROLLW ≤ w.mapWidth; omega) (by rw [hp.1]; exact hp.2)
    rw [hp.1] at ha
    unfold MovePlayer
    simp only []
    split_ifs
    · exact ⟨rfl, h⟩
    · exact hp
    · exact ha
  refine ⟨key.1, ?_⟩
  rw [key.1]
  exact key.2

/-- C31: the scroll-window invariant of `MovePlayer`.  Take a map whose width
is one that `LoadMapData` has a case for (32, 64, ..., 2048) and is above
`SCROLLW`, the window being `SCROLLW = 38` columns wide.  If
`scrollX <= mapWidth - SCROLLW` holds before a call of `MovePlayer`, its
`MovePlayerPush` step included, with any push direction, speed and wall-stop
setting, it holds afterwards, and `mapWidth` is the same; `0 <= scrollX` holds
of every word.  The functions `ShowBombHint` and `UpdateBombs` are taken to
leave `scrollX` and `mapWidth` as they are. -/
theorem MovePlayer_scroll_window (g : Glue) (o : Outside) (junk : MoveResult) (rnd : Nat)
    (w : World) (hs : keepsWindow o.ShowBombHint) (hu : keepsWindow o.UpdateBombs)
    (hS : g.SCROLLW = 38) (hmap : w.mapWidth ∈ mapWidths) (hgt : g.SCROLLW < w.mapWidth)
    (h : scrollXInMap g w) :
    (MovePlayer g o junk rnd w).mapWidth = w.mapWidth ∧
      scrollXInMap g (MovePlayer g o junk rnd w) := by
  have hw : g.SCROLLW + 2 ≤ w.mapWidth := by
    simp [mapWidths] at hmap
    omega
  exact MovePlayer_keeps_scroll_window g o junk rnd w hs hu hw h

/-- The theorem `MovePlayer_scroll_window` on the push of `pushedWorld` in a
map of 64 columns: the window, at column 1 before the call, is within the map
after it. -/
theorem MovePlayer_scroll_window_witness :
    demoGlue.SCROLLW = 38 ∧ (pushedWorld 64).mapWidth ∈ mapWidths ∧
    demoGlue.SCROLLW < (pushedWorld 64).mapWidth ∧
    scrollXInMap demoGlue (pushedWorld 64) ∧
    (MovePlayer demoGlue quietOutside MOVE_FREE 7 (pushedWorld 64)).mapWidth =
      (pushedWorld 64).mapWidth ∧
    scrollXInMap demoGlue (MovePlayer demoGlue quietOutside MOVE_FREE 7 (pushedWorld 64)) :=
  ⟨rfl, by decide, by decide, by decide,
    MovePlayer_scroll_window demoGlue quietOutside MOVE_FREE 7 (pushedWorld 64)
      (fun _ => ⟨rfl, rfl⟩) (fun _ => ⟨rfl, rfl⟩) rfl (by decide) (by decide) (by decide)⟩

theorem MovePlayer_pushedWorld_64 :
    (MovePlayer demoGlue quietOutside MOVE_FREE 7 (pushedWorld 64)).scrollX = 2 ∧
    (MovePlayer demoGlue quietOutside MOVE_FREE 7 (pushedWorld 64)).playerX = 20 ∧
    (MovePlayer demoGlue quietOutside MOVE_FREE 7 (pushedWorld 64)).isPlayerPushed = false := by
  decide

/-! ## Evaluation of the model on the concrete worlds -/

theorem eval_TestSpriteMove_east_edge :
    TestSpriteMove emptyWorld DIR4_EAST 0 0 30 10 = MOVE_BLOCKED ∧
    TestSpriteMove emptyWorld DIR4_EAST 0 0 29 10 = MOVE_FREE := by decide

theorem eval_TestPlayerMove_cling :
    (TestPlayerMove demoGlue wallWorld DIR4_EAST 4 8).2.canPlayerCling = 0x80 ∧
    (TestPlayerMove demoGlue wallWorld DIR4_WEST 4 8).2.canPlayerCling = 0 := by decide

theorem eval_IsTouchingPlayer_rows :
    IsTouchingPlayer demoGlue boxWorld 0 0 10 6 = true ∧
    IsTouchingPlayer demoGlue boxWorld 0 0 10 5 = false ∧
    IsTouchingPlayer demoGlue boxWorld 0 0 12 10 = true ∧
    IsTouchingPlayer demoGlue boxWorld 0 0 13 10 = false := by decide

theorem eval_IsIntersecting_past_map_width :
    IsIntersecting boxWorld 0 0 0 5 0 0 70 5 = false ∧
    IsIntersecting boxWorld 0 0 70 5 0 0 0 5 = true := by decide

theorem eval_IsSpriteVisible_window_corner :
    IsSpriteVisible demoGlue boxWorld 0 0 37 17 = true ∧
    IsSpriteVisible demoGlue boxWorld 0 0 38 17 = false ∧
    IsSpriteVisible demoGlue boxWorld 1 0 37 18 = true ∧
    IsSpriteVisible demoGlue boxWorld 0 0 37 18 = false := by decide

theorem eval_passes_on_poolWorld :
    ((MoveAndDrawShards demoGlue poolWorld).shards 0).age = 6 ∧
    ((MoveAndDrawShards demoGlue poolWorld).shards 1).age = 0 ∧
    ((DrawExplosions demoGlue poolWorld).explosions 0).age = 4 ∧
    ((DrawExplosions demoGlue poolWorld).explosions 1).age = 0 ∧
    ((MoveAndDrawSpawners demoGlue poolWorld).spawners 0).actor = 1 ∧
    ((MoveAndDrawSpawners demoGlue poolWorld).spawners 1).actor = 0 ∧
    ((MoveAndDrawDecorations demoGlue (fun _ => 0) poolWorld).decorations 0).alive = true ∧
    ((MoveAndDrawDecorations demoGlue (fun _ => 0) poolWorld).decorations 1).alive = false := by
  decide

end Cosmore
